import Mathlib

/-! VulkanRTX: acceleration structures and shader binding tables

A shallow embedding of the ray-tracing tutorials `07_InstanceBuffer`,
`10_InstanceResources` and `11_DifferentVertexFormats` and of the parts of
`Common/Application.cpp` they use.

* The Vulkan driver is an oracle (`Driver`): every driver call is appended to
  the trace of the `World`, and the status code, the handle and the memory
  requirements a call returns are read from the oracle at the position of the
  call in the trace, so that every sequence of driver answers is covered.
* `exit(1)` (reached through `ExitError`) ends a run with `Stop.exit`; the
  trace up to that point is kept.
* Unsigned machine integers are natural numbers; where the source computes
  in 32 bits the result is reduced with `u32`, in 64 bits with `u64`.
* Handles are natural numbers, `VK_NULL_HANDLE` is `0`.
-/

namespace VulkanRTX

/-! ## Machine integers and Vulkan constants -/

/-- Wrap to `uint32_t`. -/
def u32 (x : Nat) : Nat := x % 2 ^ 32

/-- Wrap to `uint64_t` (`VkDeviceSize`). -/
def u64 (x : Nat) : Nat := x % 2 ^ 64

abbrev VkResult := Int

def VK_SUCCESS : VkResult := 0

def VK_NULL_HANDLE : Nat := 0

def VK_MAX_MEMORY_TYPES : Nat := 32

def VK_MEMORY_PROPERTY_DEVICE_LOCAL_BIT : Nat := 0x1
def VK_MEMORY_PROPERTY_HOST_VISIBLE_BIT : Nat := 0x2
def VK_MEMORY_PROPERTY_HOST_COHERENT_BIT : Nat := 0x4

def VK_BUFFER_USAGE_TRANSFER_SRC_BIT : Nat := 0x1
def VK_BUFFER_USAGE_UNIFORM_BUFFER_BIT : Nat := 0x10
def VK_BUFFER_USAGE_INDEX_BUFFER_BIT : Nat := 0x40
def VK_BUFFER_USAGE_VERTEX_BUFFER_BIT : Nat := 0x80
def VK_BUFFER_USAGE_RAY_TRACING_BIT_NV : Nat := 0x400

def VK_ACCESS_ACCELERATION_STRUCTURE_READ_BIT_NV : Nat := 0x200000
def VK_ACCESS_ACCELERATION_STRUCTURE_WRITE_BIT_NV : Nat := 0x400000

def VK_PIPELINE_STAGE_RAY_TRACING_SHADER_BIT_NV : Nat := 0x200000
def VK_PIPELINE_STAGE_ACCELERATION_STRUCTURE_BUILD_BIT_NV : Nat := 0x2000000

def VK_COMMAND_BUFFER_USAGE_ONE_TIME_SUBMIT_BIT : Nat := 0x1

def VK_GEOMETRY_TYPE_TRIANGLES_NV : Nat := 0
def VK_GEOMETRY_OPAQUE_BIT_NV : Nat := 0x1
def VK_GEOMETRY_INSTANCE_TRIANGLE_CULL_DISABLE_BIT_NV : Nat := 0x1
def VK_FORMAT_R32G32B32_SFLOAT : Nat := 106
def VK_FORMAT_R32G32_SFLOAT : Nat := 103
def VK_FORMAT_R16G16B16A16_UINT : Nat := 95
def VK_FORMAT_R8G8B8A8_SRGB : Nat := 43
def VK_WHOLE_SIZE : Nat := 2 ^ 64 - 1
def VK_BUFFER_USAGE_UNIFORM_TEXEL_BUFFER_BIT : Nat := 0x4
def VK_IMAGE_VIEW_TYPE_2D : Nat := 1
def VK_FILTER_NEAREST : Nat := 0
def VK_FILTER_LINEAR : Nat := 1
def VK_SAMPLER_MIPMAP_MODE_LINEAR : Nat := 1
def VK_SAMPLER_ADDRESS_MODE_REPEAT : Nat := 0
def VK_INDEX_TYPE_UINT16 : Nat := 0
def VK_SHADER_UNUSED_NV : Nat := 2 ^ 32 - 1

inductive VkAccelerationStructureTypeNV where
  | TOP_LEVEL_NV
  | BOTTOM_LEVEL_NV
  deriving DecidableEq, Repr

inductive VkAccelerationStructureMemoryRequirementsTypeNV where
  | OBJECT_NV
  | BUILD_SCRATCH_NV
  | UPDATE_SCRATCH_NV
  deriving DecidableEq, Repr

/-! ## Vulkan structures (the fields the tutorials set) -/

structure VkMemoryRequirements where
  size : Nat
  alignment : Nat
  memoryTypeBits : Nat
  deriving DecidableEq, Repr

structure VkGeometryTrianglesNV where
  vertexData : Nat
  vertexOffset : Nat
  vertexCount : Nat
  vertexStride : Nat
  vertexFormat : Nat
  indexData : Nat
  indexOffset : Nat
  indexCount : Nat
  indexType : Nat
  transformData : Nat
  transformOffset : Nat
  deriving DecidableEq, Repr

structure VkGeometryNV where
  geometryType : Nat
  triangles : VkGeometryTrianglesNV
  flags : Nat
  deriving DecidableEq, Repr

/-- The `pGeometries` pointer is `none` for `nullptr`, otherwise the array
elements from the pointed-to element to the end of the array. -/
structure VkAccelerationStructureInfoNV where
  type : VkAccelerationStructureTypeNV
  flags : Nat
  instanceCount : Nat
  geometryCount : Nat
  pGeometries : Option (List VkGeometryNV)
  deriving DecidableEq, Repr

structure VkAccelerationStructureCreateInfoNV where
  compactedSize : Nat
  info : VkAccelerationStructureInfoNV
  deriving DecidableEq, Repr

structure VkMemoryBarrier where
  srcAccessMask : Nat
  dstAccessMask : Nat
  deriving DecidableEq, Repr

/-- The record of `RaytracingApplication.h`.  The transform holds the values
of the twelve floats; the four bit-fields hold values below `2^24`, `2^8`,
`2^24`, `2^8`. -/
structure VkGeometryInstance where
  transform : List ℚ
  instanceId : Nat
  mask : Nat
  instanceOffset : Nat
  flags : Nat
  accelerationStructureHandle : Nat
  deriving DecidableEq

/-- A vertex coordinate as written in the source: a float literal, or plus or
minus the float `d = (1.0f + sqrt(5.0f)) * 0.5f * scale`. -/
inductive Coord where
  | lit (value : ℚ)
  | d
  | negD
  deriving DecidableEq

structure Vertex where
  X : Coord
  Y : Coord
  Z : Coord
  deriving DecidableEq

/-- The arguments of `vkCmdTraceRaysNV` after the command buffer. -/
structure TraceRays where
  raygenShaderBindingTableBuffer : Nat
  raygenShaderBindingOffset : Nat
  missShaderBindingTableBuffer : Nat
  missShaderBindingOffset : Nat
  missShaderBindingStride : Nat
  hitShaderBindingTableBuffer : Nat
  hitShaderBindingOffset : Nat
  hitShaderBindingStride : Nat
  callableShaderBindingTableBuffer : Nat
  callableShaderBindingOffset : Nat
  callableShaderBindingStride : Nat
  width : Nat
  height : Nat
  depth : Nat
  deriving DecidableEq, Repr

inductive VkShaderStageFlagBits where
  | RAYGEN_BIT_NV
  | ANY_HIT_BIT_NV
  | CLOSEST_HIT_BIT_NV
  | MISS_BIT_NV
  deriving DecidableEq, Repr

inductive VkRayTracingShaderGroupTypeNV where
  | GENERAL_NV
  | TRIANGLES_HIT_GROUP_NV
  | PROCEDURAL_HIT_GROUP_NV
  deriving DecidableEq, Repr

structure VkRayTracingShaderGroupCreateInfoNV where
  type : VkRayTracingShaderGroupTypeNV
  generalShader : Nat
  closestHitShader : Nat
  anyHitShader : Nat
  intersectionShader : Nat
  deriving DecidableEq, Repr

/-- A pipeline stage: the file its shader module is loaded from and the stage
it is used at. -/
structure ShaderStage where
  file : String
  stage : VkShaderStageFlagBits
  deriving DecidableEq, Repr

/-- The kinds of objects the teardown destroys with a call
`vkDestroy<Kind>(owner, handle, nullptr)`. -/
inductive VkObjectType where
  | INSTANCE
  | DEVICE
  | SEMAPHORE
  | FENCE
  | IMAGE
  | BUFFER_VIEW
  | IMAGE_VIEW
  | SHADER_MODULE
  | PIPELINE_LAYOUT
  | PIPELINE
  | DESCRIPTOR_SET_LAYOUT
  | SAMPLER
  | DESCRIPTOR_POOL
  | COMMAND_POOL
  | SURFACE_KHR
  | SWAPCHAIN_KHR
  | DEBUG_REPORT_CALLBACK_EXT
  | ACCELERATION_STRUCTURE_NV
  deriving DecidableEq, Repr

/-- One binding of a descriptor-set layout: the fields the tutorials set. -/
structure VkDescriptorSetLayoutBinding where
  binding : Nat
  descriptorType : Nat
  descriptorCount : Nat
  stageFlags : VkShaderStageFlagBits
  deriving DecidableEq, Repr

/-- The host data handed to `memcpy` by an upload. -/
inductive HostData where
  | vertices (positions : List Vertex)
  | indices (values : List Nat)
  | instances (records : List VkGeometryInstance)
  | floats (values : List ℚ)
  | normalized (positions : List Vertex)
  | words (values : List Nat)
  deriving DecidableEq

/-! ## Driver calls and the world -/

inductive Call where
  | LogError (message : String) (silent : Bool)
  | vkCreateBuffer (size usage : Nat)
  | vkGetBufferMemoryRequirements (buffer : Nat)
  | vkAllocateMemory (allocationSize memoryTypeIndex : Nat)
  | vkBindBufferMemory (buffer memory memoryOffset : Nat)
  | vkDestroyBuffer (buffer : Nat)
  | vkFreeMemory (memory : Nat)
  | vkMapMemory (memory offset size : Nat)
  | vkUnmapMemory (memory : Nat)
  | memcpy (memory : Nat) (src : HostData) (size : Nat)
  | vkCreateAccelerationStructureNV (createInfo : VkAccelerationStructureCreateInfoNV)
  | vkGetAccelerationStructureMemoryRequirementsNV (accelerationStructure : Nat)
      (type : VkAccelerationStructureMemoryRequirementsTypeNV)
  | vkBindAccelerationStructureMemoryNV (accelerationStructure memory memoryOffset : Nat)
  | vkGetAccelerationStructureHandleNV (accelerationStructure dataSize : Nat)
  | vkAllocateCommandBuffers (commandBufferCount : Nat)
  | vkBeginCommandBuffer (commandBuffer flags : Nat)
  | vkCmdBuildAccelerationStructureNV (commandBuffer : Nat) (info : VkAccelerationStructureInfoNV)
      (instanceData instanceOffset : Nat) (update : Bool) (dst src scratch scratchOffset : Nat)
  | vkCmdPipelineBarrier (commandBuffer srcStageMask dstStageMask : Nat)
      (memoryBarriers : List VkMemoryBarrier)
  | vkEndCommandBuffer (commandBuffer : Nat)
  | vkQueueSubmit (commandBuffer : Nat)
  | vkQueueWaitIdle
  | vkFreeCommandBuffers (commandBuffers : List Nat)
  | vkGetRayTracingShaderGroupHandlesNV (firstGroup groupCount dataSize : Nat) (pData : Option (Nat × Nat))
  | hostStore (memory offset size : Nat)
  | vkCmdBindPipeline (commandBuffer pipeline : Nat)
  | vkCmdBindDescriptorSets (commandBuffer layout : Nat) (descriptorSets : List Nat)
  | vkCmdTraceRaysNV (commandBuffer : Nat) (regions : TraceRays)
  | vkCreateBufferView (buffer format offset range : Nat)
  | LoadTexture2DFromFile (fileName : String)
  | vkCreateImageView (image viewType format : Nat)
  | vkCreateSampler (magFilter minFilter mipmapMode addressMode : Nat)
  | vkGetPhysicalDeviceFeatures2 (descriptorIndexingChained : Bool)
  | vkCreateDevice (queueFamilyIndices enabledExtensions : List Nat) (features2 : Option Bool)
      (enabledFeatures : Bool)
  | vkCreateShaderModule (codeSize : Nat) (code : List Nat)
  | vkCreateDescriptorSetLayout (bindings : List VkDescriptorSetLayoutBinding)
      (bindingFlags : List Nat)
  | vkGetDeviceProcAddr (device : Nat) (name : String)
  | vkGetInstanceProcAddr (vkInstance : Nat) (name : String)
  | vkDestroy (objectType : VkObjectType) (handle : Nat)
  deriving DecidableEq

namespace Call

@[match_pattern, reducible]
def vkDestroyShaderModule (shaderModule : Nat) : Call := .vkDestroy .SHADER_MODULE shaderModule

@[match_pattern, reducible]
def vkDestroyImageView (imageView : Nat) : Call := .vkDestroy .IMAGE_VIEW imageView

@[match_pattern, reducible]
def vkDestroyImage (image : Nat) : Call := .vkDestroy .IMAGE image

@[match_pattern, reducible]
def vkDestroySampler (sampler : Nat) : Call := .vkDestroy .SAMPLER sampler

@[match_pattern, reducible]
def vkDestroyBufferView (bufferView : Nat) : Call := .vkDestroy .BUFFER_VIEW bufferView

@[match_pattern, reducible]
def vkDestroyAccelerationStructureNV (accelerationStructure : Nat) : Call :=
  .vkDestroy .ACCELERATION_STRUCTURE_NV accelerationStructure

@[match_pattern, reducible]
def vkDestroyDescriptorPool (descriptorPool : Nat) : Call :=
  .vkDestroy .DESCRIPTOR_POOL descriptorPool

@[match_pattern, reducible]
def vkDestroyPipeline (pipeline : Nat) : Call := .vkDestroy .PIPELINE pipeline

@[match_pattern, reducible]
def vkDestroyPipelineLayout (pipelineLayout : Nat) : Call :=
  .vkDestroy .PIPELINE_LAYOUT pipelineLayout

@[match_pattern, reducible]
def vkDestroyDescriptorSetLayout (descriptorSetLayout : Nat) : Call :=
  .vkDestroy .DESCRIPTOR_SET_LAYOUT descriptorSetLayout

@[match_pattern, reducible]
def vkDestroySemaphore (semaphore : Nat) : Call := .vkDestroy .SEMAPHORE semaphore

@[match_pattern, reducible]
def vkDestroyCommandPool (commandPool : Nat) : Call := .vkDestroy .COMMAND_POOL commandPool

@[match_pattern, reducible]
def vkDestroyFence (fence : Nat) : Call := .vkDestroy .FENCE fence

@[match_pattern, reducible]
def vkDestroySwapchainKHR (swapchain : Nat) : Call := .vkDestroy .SWAPCHAIN_KHR swapchain

@[match_pattern, reducible]
def vkDestroySurfaceKHR (surface : Nat) : Call := .vkDestroy .SURFACE_KHR surface

@[match_pattern, reducible]
def vkDestroyDebugReportCallbackEXT (callback : Nat) : Call :=
  .vkDestroy .DEBUG_REPORT_CALLBACK_EXT callback

@[match_pattern, reducible]
def vkDestroyDevice (device : Nat) : Call := .vkDestroy .DEVICE device

@[match_pattern, reducible]
def vkDestroyInstance (vkInstance : Nat) : Call := .vkDestroy .INSTANCE vkInstance

end Call

/-- The answers of the driver.  `result n`, `handleOut n`, `memoryRequirements n`
and `loaded n` are what the call at position `n` of the trace returns: its
status, the handle it creates, the memory requirements it reports, and the
boolean of a texture load.  `memoryTypeFlags i` are the property flags of
memory type `i`, `shaderGroupHandleSize` (a `uint32_t`) and `groupHandle`
(group index, byte index) describe the shader-group handles. -/
structure Driver where
  result : Nat → VkResult
  handleOut : Nat → Nat
  memoryRequirements : Nat → VkMemoryRequirements
  loaded : Nat → Bool
  memoryTypeFlags : Nat → Nat
  shaderGroupHandleSize : Nat
  groupHandle : Nat → Nat → Nat

/-- The trace of driver calls, in call order, and the bytes of host-visible
device memory (memory handle, byte offset). -/
structure World where
  calls : List Call
  mem : Nat → Nat → Nat

def World.init : World := { calls := [], mem := fun _ _ => 0 }

inductive Stop where
  | exit (message : String) (status : Nat)
  | nullWrite
  deriving DecidableEq, Repr

inductive Res (α : Type) where
  | ok (a : α) (w : World)
  | stop (s : Stop) (w : World)

def Res.world {α : Type} : Res α → World
  | .ok _ w => w
  | .stop _ w => w

def Res.value {α : Type} : Res α → Option α
  | .ok a _ => some a
  | .stop _ _ => none

def M (α : Type) : Type := World → Res α

def M.pure {α : Type} (a : α) : M α := fun w => .ok a w

def M.bind {α β : Type} (m : M α) (f : α → M β) : M β := fun w =>
  match m w with
  | .ok a w1 => f a w1
  | .stop s w1 => .stop s w1

instance : Monad M where
  pure := M.pure
  bind := M.bind

/-- Issue a driver call: append it to the trace and return its position. -/
def call (c : Call) : M Nat := fun w =>
  .ok w.calls.length { w with calls := w.calls ++ [c] }

/-! ## Common/Application.cpp -/

def ToString (value : VkResult) : String := toString value

def LogError (message : String) (silent : Bool) : M Unit := do
  let _ ← call (.LogError message silent)
  pure ()

def ExitError {α : Type} (message : String) (silent : Bool) : M α := fun w =>
  match LogError message silent w with
  | .ok _ w1 => .stop (.exit message 1) w1
  | .stop s w1 => .stop s w1

def NVVK_CHECK_ERROR (code : VkResult) (message : String) : M Unit :=
  if code ≠ VK_SUCCESS then
    ExitError (message ++ " ErrorCode: " ++ ToString code) false
  else
    pure ()

def GetMemoryTypeLoop (drv : Driver) (memoryTypeBits memoryProperties : Nat) : Nat → Nat → Nat
  | 0, _ => 0
  | fuel + 1, memoryTypeIndex =>
    if memoryTypeBits &&& (1 <<< memoryTypeIndex) ≠ 0 then
      if drv.memoryTypeFlags memoryTypeIndex &&& memoryProperties = memoryProperties then
        memoryTypeIndex
      else
        GetMemoryTypeLoop drv memoryTypeBits memoryProperties fuel (memoryTypeIndex + 1)
    else
      GetMemoryTypeLoop drv memoryTypeBits memoryProperties fuel (memoryTypeIndex + 1)

def GetMemoryType (drv : Driver) (memoryRequiriments : VkMemoryRequirements)
    (memoryProperties : Nat) : Nat :=
  GetMemoryTypeLoop drv memoryRequiriments.memoryTypeBits memoryProperties VK_MAX_MEMORY_TYPES 0

/-! ### BufferResource -/

structure BufferResource where
  Buffer : Nat := VK_NULL_HANDLE
  Memory : Nat := VK_NULL_HANDLE
  Size : Nat := 0
  deriving DecidableEq, Repr

def BufferResource.Create (drv : Driver) (self : BufferResource)
    (size usage memoryProperties : Nat) : M (VkResult × BufferResource) := do
  let n ← call (.vkCreateBuffer size usage)
  if drv.result n ≠ VK_SUCCESS then
    pure (drv.result n, { Buffer := VK_NULL_HANDLE, Memory := self.Memory, Size := size })
  else do
    let q ← call (.vkGetBufferMemoryRequirements (drv.handleOut n))
    let a ← call (.vkAllocateMemory (drv.memoryRequirements q).size
      (GetMemoryType drv (drv.memoryRequirements q) memoryProperties))
    if drv.result a ≠ VK_SUCCESS then do
      let _ ← call (.vkDestroyBuffer (drv.handleOut n))
      pure (drv.result a, { Buffer := VK_NULL_HANDLE, Memory := VK_NULL_HANDLE, Size := size })
    else do
      let b ← call (.vkBindBufferMemory (drv.handleOut n) (drv.handleOut a) 0)
      if drv.result b ≠ VK_SUCCESS then do
        let _ ← call (.vkDestroyBuffer (drv.handleOut n))
        let _ ← call (.vkFreeMemory (drv.handleOut a))
        pure (drv.result b, { Buffer := VK_NULL_HANDLE, Memory := VK_NULL_HANDLE, Size := size })
      else
        pure (drv.result b, { Buffer := drv.handleOut n, Memory := drv.handleOut a, Size := size })

def BufferResource.Cleanup (self : BufferResource) : M BufferResource := do
  let self1 ← (if self.Buffer ≠ VK_NULL_HANDLE then do
      let _ ← call (.vkDestroyBuffer self.Buffer)
      pure { self with Buffer := VK_NULL_HANDLE }
    else pure self)
  if self1.Memory ≠ VK_NULL_HANDLE then do
    let _ ← call (.vkFreeMemory self1.Memory)
    pure { self1 with Memory := VK_NULL_HANDLE }
  else pure self1

/-- The mapped pointer is `none` for `nullptr`, otherwise the memory handle
and the byte offset in it. -/
def BufferResource.Map (drv : Driver) (self : BufferResource) (size : Nat) :
    M (Option (Nat × Nat)) := do
  let n ← call (.vkMapMemory self.Memory 0 size)
  if drv.result n ≠ VK_SUCCESS then do
    LogError ("vkMapMemory: " ++ ToString (drv.result n)) false
    pure none
  else
    pure (some (self.Memory, 0))

def BufferResource.Unmap (self : BufferResource) : M Unit := do
  let _ ← call (.vkUnmapMemory self.Memory)
  pure ()

/-- The copy is recorded in the trace together with its source data. -/
def BufferResource.CopyToBufferUsingMapUnmap (drv : Driver) (self : BufferResource)
    (memoryToCopyFrom : HostData) (size : Nat) : M Bool := do
  let mappedMemory ← self.Map drv size
  match mappedMemory with
  | none => pure false
  | some p => do
    let _ ← call (.memcpy p.1 memoryToCopyFrom size)
    self.Unmap
    pure true

/-! ### ShaderResource -/

structure ShaderResource where
  _module : Nat := VK_NULL_HANDLE
  deriving DecidableEq, Repr

/-- The function `ShaderResource::LoadFromFile`; the result is the returned
code, the reference parameter `cantOpenFile` and the resource.  `files` gives
the bytes of the file at a path, `none` when the stream does not open;
`folderPath` is the static member `_folderPath`. -/
def ShaderResource.LoadFromFile (drv : Driver) (files : String → Option (List Nat))
    (folderPath : String) (self : ShaderResource) (fileName : String) :
    M (VkResult × Bool × ShaderResource) := do
  let filePath := folderPath ++ fileName
  match files filePath with
  | none => pure (VK_SUCCESS, true, self)
  | some bytecode => do
    let shaderSize := bytecode.length
    let n ← call (.vkCreateShaderModule shaderSize bytecode)
    if drv.result n ≠ VK_SUCCESS then
      pure (drv.result n, false, { _module := VK_NULL_HANDLE })
    else
      pure (drv.result n, false, { _module := drv.handleOut n })

/-- The lambda `LoadShader` of `CreatePipeline` (tutorials 07, 10 and 11). -/
def LoadShader (drv : Driver) (files : String → Option (List Nat)) (folderPath : String)
    (shader : ShaderResource) (shaderName : String) : M ShaderResource := do
  let r ← shader.LoadFromFile drv files folderPath shaderName
  (if r.2.1 then ExitError ("Failed to read " ++ shaderName ++ " file") false else pure ())
  NVVK_CHECK_ERROR r.1 shaderName
  pure r.2.2

/-! ## Common/RaytracingApplication.cpp and tutorial 01: device creation -/

def VK_ERROR_EXTENSION_NOT_PRESENT : VkResult := -7

/-- The three queue family indices of `_queuesInfo`. -/
structure QueuesInfo where
  Graphics : Nat
  Compute : Nat
  Transfer : Nat
  deriving DecidableEq, Repr

/-- The vector `deviceQueueCreateInfos`, as the list of its queue family
indices. -/
def deviceQueueCreateInfos (queuesInfo : QueuesInfo) : List Nat :=
  [queuesInfo.Graphics] ++
  (if queuesInfo.Compute ≠ queuesInfo.Graphics then [queuesInfo.Compute] else []) ++
  (if queuesInfo.Transfer ≠ queuesInfo.Graphics ∧ queuesInfo.Transfer ≠ queuesInfo.Compute then
    [queuesInfo.Transfer] else [])

/-- The text of the first `NVVK_CHECK_ERROR` of `CreateDevice`. -/
def missingExtensionMessage : String :=
  "vkCreateDevice failed due to missing extension.\n\nMake sure VK_NV_RAY_TRACING_EXTENSION is supported by installed driver!\n\n"

/-- The last statement of both `CreateDevice` functions: the check of the
code `vkCreateDevice` returned. -/
def checkCreateDevice (code : VkResult) : M Unit :=
  if code = VK_ERROR_EXTENSION_NOT_PRESENT then
    NVVK_CHECK_ERROR code missingExtensionMessage
  else
    NVVK_CHECK_ERROR code "vkCreateDevice"

/-- The function `RayTracingApplication::CreateDevice`; the result is
`_device`.  The elements of `_deviceExtensions` are `const char*` pointers,
here addresses; `std::find` compares them with the address
`descriptorIndexingName` of the literal. -/
def RayTracingApplication.CreateDevice (drv : Driver) (queuesInfo : QueuesInfo)
    (deviceExtensions : List Nat) (descriptorIndexingName : Nat) : M Nat := do
  let found := deviceExtensions.contains descriptorIndexingName
  let _ ← call (.vkGetPhysicalDeviceFeatures2 found)
  let n ← call (.vkCreateDevice (deviceQueueCreateInfos queuesInfo) deviceExtensions
    (some found) false)
  checkCreateDevice (drv.result n)
  pure (drv.handleOut n)

/-- The function `TutorialApplication::CreateDevice` of tutorial 01; the two
extension names are the addresses of the two literals. -/
def T01.CreateDevice (drv : Driver) (queuesInfo : QueuesInfo)
    (swapchainName rayTracingName : Nat) : M Nat := do
  let deviceExtensions := [swapchainName, rayTracingName]
  let n ← call (.vkCreateDevice (deviceQueueCreateInfos queuesInfo) deviceExtensions none true)
  checkCreateDevice (drv.result n)
  pure (drv.handleOut n)

/-! ## Acceleration structures (the code shared by tutorials 07, 10 and 11) -/

/-- A counted `for (i = first; i < first + count; i++)` loop over a state. -/
def forLoop {σ : Type} (body : Nat → σ → M σ) : Nat → Nat → σ → M σ
  | 0, _, s => pure s
  | count + 1, i, s => do
    let s1 ← body i s
    forLoop body count (i + 1) s1

/-- The lambda of tutorials 07 and 10 and the method of tutorial 11; the
result is the pair `(AS, memory)` of the two reference parameters. -/
def CreateAccelerationStructure (drv : Driver) (type : VkAccelerationStructureTypeNV)
    (geometryCount : Nat) (geometries : Option (List VkGeometryNV)) (instanceCount : Nat) :
    M (Nat × Nat) := do
  let accelerationStructureInfo : VkAccelerationStructureCreateInfoNV :=
    { compactedSize := 0,
      info := { type := type, flags := 0, instanceCount := instanceCount,
                geometryCount := geometryCount, pGeometries := geometries } }
  let n ← call (.vkCreateAccelerationStructureNV accelerationStructureInfo)
  NVVK_CHECK_ERROR (drv.result n) "vkCreateAccelerationStructureNV"
  let q ← call (.vkGetAccelerationStructureMemoryRequirementsNV (drv.handleOut n) .OBJECT_NV)
  let a ← call (.vkAllocateMemory (drv.memoryRequirements q).size
    (GetMemoryType drv (drv.memoryRequirements q) VK_MEMORY_PROPERTY_DEVICE_LOCAL_BIT))
  NVVK_CHECK_ERROR (drv.result a) "rt AS vkAllocateMemory"
  let b ← call (.vkBindAccelerationStructureMemoryNV (drv.handleOut n) (drv.handleOut a) 0)
  NVVK_CHECK_ERROR (drv.result b) "vkBindAccelerationStructureMemoryNV"
  pure (drv.handleOut n, drv.handleOut a)

def GetScratchBufferSize (drv : Driver) (handle : Nat) : M Nat := do
  let q ← call (.vkGetAccelerationStructureMemoryRequirementsNV handle .BUILD_SCRATCH_NV)
  pure (drv.memoryRequirements q).size

/-- The barrier structure filled once before the builds are recorded. -/
def buildMemoryBarrier : VkMemoryBarrier :=
  { srcAccessMask := VK_ACCESS_ACCELERATION_STRUCTURE_WRITE_BIT_NV |||
      VK_ACCESS_ACCELERATION_STRUCTURE_READ_BIT_NV,
    dstAccessMask := VK_ACCESS_ACCELERATION_STRUCTURE_WRITE_BIT_NV |||
      VK_ACCESS_ACCELERATION_STRUCTURE_READ_BIT_NV }


/-- Issue the calls of a list in order. -/
def issue : List Call → M Unit
  | [] => pure ()
  | c :: cs => do
    let _ ← call c
    issue cs

/-! ## Tutorial 07: instance buffer -/

namespace T07

structure TutorialApplication where
  _topASMemory : Nat := VK_NULL_HANDLE
  _topAS : Nat := VK_NULL_HANDLE
  _bottomASMemory : List Nat := [VK_NULL_HANDLE, VK_NULL_HANDLE, VK_NULL_HANDLE]
  _bottomAS : List Nat := [VK_NULL_HANDLE, VK_NULL_HANDLE, VK_NULL_HANDLE]
  _rtDescriptorSetLayout : Nat := VK_NULL_HANDLE
  _rtPipelineLayout : Nat := VK_NULL_HANDLE
  _rtPipeline : Nat := VK_NULL_HANDLE
  _shaderBindingTable : BufferResource := {}
  _rtDescriptorPool : Nat := VK_NULL_HANDLE
  _rtDescriptorSet : Nat := VK_NULL_HANDLE

def scale : ℚ := 1 / 4

def vertices : List Vertex :=
  [ ⟨.lit (-1 / 2), .lit (-1 / 2), .lit 0⟩,
    ⟨.lit 0, .lit (1 / 2), .lit 0⟩,
    ⟨.lit (1 / 2), .lit (-1 / 2), .lit 0⟩,
    ⟨.lit (-10), .lit 0, .lit 10⟩,
    ⟨.lit 10, .lit 0, .lit 10⟩,
    ⟨.lit 10, .lit 0, .lit (-10)⟩,
    ⟨.lit (-10), .lit 0, .lit (-10)⟩,
    ⟨.lit (-scale), .d, .lit 0⟩,
    ⟨.lit scale, .d, .lit 0⟩,
    ⟨.lit (-scale), .negD, .lit 0⟩,
    ⟨.lit scale, .negD, .lit 0⟩,
    ⟨.lit 0, .lit (-scale), .d⟩,
    ⟨.lit 0, .lit scale, .d⟩,
    ⟨.lit 0, .lit (-scale), .negD⟩,
    ⟨.lit 0, .lit scale, .negD⟩,
    ⟨.d, .lit 0, .lit (-scale)⟩,
    ⟨.d, .lit 0, .lit scale⟩,
    ⟨.negD, .lit 0, .lit (-scale)⟩,
    ⟨.negD, .lit 0, .lit scale⟩ ]

def indices : List Nat :=
  [ 0, 1, 2,
    0, 1, 2, 2, 3, 0,
    0, 11, 5, 0, 5, 1, 0, 1, 7, 0, 7, 10, 0, 10, 11,
    1, 5, 9, 5, 11, 4, 11, 10, 2, 10, 7, 6, 7, 1, 8,
    3, 9, 4, 3, 4, 2, 3, 2, 6, 3, 6, 8, 3, 8, 9,
    4, 9, 5, 2, 4, 11, 6, 2, 10, 8, 6, 7, 9, 8, 1 ]

/-- The value of `sizeof(Vertex)`: three floats. -/
def vertexSize : Nat := 12

/-- The value of `sizeof(uint16_t)`. -/
def indexSize : Nat := 2

/-- The value of `sizeof(VkGeometryInstance)`. -/
def sizeofVkGeometryInstance : Nat := 64

/-- The `geometry` variable as filled before the three `emplace_back` blocks. -/
def geometry (vertexBuffer indexBuffer : BufferResource) (vertexCount indexCount : Nat) :
    VkGeometryNV :=
  { geometryType := VK_GEOMETRY_TYPE_TRIANGLES_NV,
    triangles :=
      { vertexData := vertexBuffer.Buffer, vertexOffset := 0, vertexCount := vertexCount,
        vertexStride := vertexSize, vertexFormat := VK_FORMAT_R32G32B32_SFLOAT,
        indexData := indexBuffer.Buffer, indexOffset := 0, indexCount := indexCount,
        indexType := VK_INDEX_TYPE_UINT16, transformData := VK_NULL_HANDLE,
        transformOffset := 0 },
    flags := 0 }

/-- The vector `geometries` after the three `emplace_back` calls. -/
def geometries (vertexBuffer indexBuffer : BufferResource) (vertexCount indexCount : Nat) :
    List VkGeometryNV :=
  let g0 := geometry vertexBuffer indexBuffer vertexCount indexCount
  let g1 : VkGeometryNV :=
    { g0 with triangles := { g0.triangles with vertexCount := 3, indexCount := 3 } }
  let g2 : VkGeometryNV :=
    { g1 with triangles := { g1.triangles with
        vertexOffset := u64 (3 * vertexSize), indexOffset := u64 (3 * indexSize),
        vertexCount := 4, indexCount := 6 } }
  let g3 : VkGeometryNV :=
    { g2 with triangles := { g2.triangles with
        vertexOffset := u64 (7 * vertexSize), indexOffset := u64 (9 * indexSize),
        vertexCount := 12, indexCount := 60 } }
  [g1, g2, g3]

def FillInstance (bottomAShandle instanceId : Nat) (transform : List ℚ) : VkGeometryInstance :=
  { transform := transform,
    instanceId := instanceId % 2 ^ 24,
    mask := 0xff % 2 ^ 8,
    instanceOffset := 0 % 2 ^ 24,
    flags := VK_GEOMETRY_INSTANCE_TRIANGLE_CULL_DISABLE_BIT_NV % 2 ^ 8,
    accelerationStructureHandle := bottomAShandle }

/-- The vector `instances` built from the three queried handles. -/
def instances (accelerationStructureHandle : List Nat) : List VkGeometryInstance :=
  let transform : List ℚ := [1, 0, 0, 0,  0, 1, 0, 0,  0, 0, 1, 0]
  let i0 := FillInstance (accelerationStructureHandle.getD 0 0) 0 transform
  let transform := (transform.set 3 (3 / 2)).set 11 (1 / 2)
  let i1 := FillInstance (accelerationStructureHandle.getD 0 0) 1 transform
  let transform := (transform.set 3 (-3 / 2)).set 11 (-1 / 2)
  let i2 := FillInstance (accelerationStructureHandle.getD 0 0) 2 transform
  let transform2 : List ℚ := [2, 0, 0, 0,  0, 2, 0, -9,  0, 0, 2, 0]
  let i3 := FillInstance (accelerationStructureHandle.getD 1 0) 3 transform2
  let transform := (transform.set 3 3).set 11 (1 / 2)
  let i4 := FillInstance (accelerationStructureHandle.getD 2 0) 4 transform
  [i0, i1, i2, i3, i4]

/-- The size passed to `scratchBuffer.Create`, from the four sizes
`GetScratchBufferSize` returned for `_bottomAS[0..2]` and `_topAS`. -/
def scratchBufferSize (s0 s1 s2 sTop : Nat) : Nat :=
  let bottomAccelerationStructureBufferSize := max (max s0 s1) s2
  let topAccelerationStructureBufferSize := sTop
  max bottomAccelerationStructureBufferSize topAccelerationStructureBufferSize

/-- The build info of bottom-level structure `i`. -/
def bottomBuildInfo (geometries : List VkGeometryNV) (i : Nat) : VkAccelerationStructureInfoNV :=
  { type := .BOTTOM_LEVEL_NV, flags := 0, instanceCount := 0, geometryCount := 1,
    pGeometries := some (geometries.drop i) }

def topBuildInfo (instanceNum : Nat) : VkAccelerationStructureInfoNV :=
  { type := .TOP_LEVEL_NV, flags := 0, instanceCount := instanceNum, geometryCount := 0,
    pGeometries := none }

/-- The body of the loop `for (int i = 0; i < 3; ++i)`: one build, one barrier. -/
def bottomBuild (commandBuffer : Nat) (geometries : List VkGeometryNV) (bottomAS : List Nat)
    (scratchBuffer : BufferResource) (i : Nat) : List Call :=
  [ .vkCmdBuildAccelerationStructureNV commandBuffer (bottomBuildInfo geometries i)
      VK_NULL_HANDLE 0 false (bottomAS.getD i 0) VK_NULL_HANDLE scratchBuffer.Buffer 0,
    .vkCmdPipelineBarrier commandBuffer VK_PIPELINE_STAGE_ACCELERATION_STRUCTURE_BUILD_BIT_NV
      VK_PIPELINE_STAGE_ACCELERATION_STRUCTURE_BUILD_BIT_NV [buildMemoryBarrier] ]

/-- The commands recorded between `vkBeginCommandBuffer` and `vkEndCommandBuffer`. -/
def buildCommands (commandBuffer : Nat) (geometries : List VkGeometryNV) (bottomAS : List Nat)
    (topAS instanceNum : Nat) (instanceBuffer scratchBuffer : BufferResource) : List Call :=
  ((List.range 3).map (bottomBuild commandBuffer geometries bottomAS scratchBuffer)).flatten ++
  [ .vkCmdBuildAccelerationStructureNV commandBuffer (topBuildInfo instanceNum)
      instanceBuffer.Buffer 0 false topAS VK_NULL_HANDLE scratchBuffer.Buffer 0,
    .vkCmdPipelineBarrier commandBuffer VK_PIPELINE_STAGE_ACCELERATION_STRUCTURE_BUILD_BIT_NV
      VK_PIPELINE_STAGE_RAY_TRACING_SHADER_BIT_NV [buildMemoryBarrier] ]

/-- The body of the loop that creates the bottom-level structures. -/
def createBottom (drv : Driver) (geometries : List VkGeometryNV) (i : Nat)
    (app : TutorialApplication) : M TutorialApplication := do
  let r ← CreateAccelerationStructure drv .BOTTOM_LEVEL_NV 1 (some (geometries.drop i)) 0
  pure { app with _bottomAS := app._bottomAS.set i r.1,
                  _bottomASMemory := app._bottomASMemory.set i r.2 }

/-- The body of the loop that queries the device handles. -/
def queryHandle (drv : Driver) (app : TutorialApplication) (i : Nat)
    (accelerationStructureHandle : List Nat) : M (List Nat) := do
  let n ← call (.vkGetAccelerationStructureHandleNV (app._bottomAS.getD i 0) 8)
  NVVK_CHECK_ERROR (drv.result n) "vkGetAccelerationStructureHandleNV"
  pure (accelerationStructureHandle.set i (drv.handleOut n))

/-- The function `TutorialApplication::CreateAccelerationStructures`.  The
three scratch sizes of the nested `std::max` are queried left to right; the
local buffers are cleaned up by their destructors where their scope ends. -/
def CreateAccelerationStructures (drv : Driver) (app : TutorialApplication) :
    M TutorialApplication := do
  let vertexCount := u32 vertices.length
  let vertexBufferSize := u64 (vertexCount * vertexSize)
  let indexCount := u32 indices.length
  let indexBufferSize := u64 (indexCount * indexSize)
  let hostFlags := VK_MEMORY_PROPERTY_HOST_VISIBLE_BIT ||| VK_MEMORY_PROPERTY_HOST_COHERENT_BIT
  let vb ← BufferResource.Create drv {} vertexBufferSize VK_BUFFER_USAGE_VERTEX_BUFFER_BIT hostFlags
  NVVK_CHECK_ERROR vb.1 "rt vertexBuffer.Create"
  let copied ← vb.2.CopyToBufferUsingMapUnmap drv (.vertices vertices) vertexBufferSize
  (if !copied then ExitError "Failed to copy vertex buffer" false else pure ())
  let ib ← BufferResource.Create drv {} indexBufferSize VK_BUFFER_USAGE_INDEX_BUFFER_BIT hostFlags
  NVVK_CHECK_ERROR ib.1 "rt indexBuffer.Create"
  let copied ← ib.2.CopyToBufferUsingMapUnmap drv (.indices indices) indexBufferSize
  (if !copied then ExitError "Failed to copy index buffer" false else pure ())
  let geometries := geometries vb.2 ib.2 vertexCount indexCount
  let app ← forLoop (createBottom drv geometries) app._bottomAS.length 0 app
  let accelerationStructureHandle ← forLoop (queryHandle drv app) app._bottomAS.length 0 [0, 0, 0]
  let instances := instances accelerationStructureHandle
  let instanceNum := u32 instances.length
  let instanceBufferSize := u64 (instanceNum * sizeofVkGeometryInstance)
  let inst ← BufferResource.Create drv {} instanceBufferSize VK_BUFFER_USAGE_RAY_TRACING_BIT_NV hostFlags
  NVVK_CHECK_ERROR inst.1 "rt instanceBuffer.Create"
  let _ ← inst.2.CopyToBufferUsingMapUnmap drv (.instances instances) instanceBufferSize
  let top ← CreateAccelerationStructure drv .TOP_LEVEL_NV 0 none instanceNum
  let app := { app with _topAS := top.1, _topASMemory := top.2 }
  let s0 ← GetScratchBufferSize drv (app._bottomAS.getD 0 0)
  let s1 ← GetScratchBufferSize drv (app._bottomAS.getD 1 0)
  let s2 ← GetScratchBufferSize drv (app._bottomAS.getD 2 0)
  let sTop ← GetScratchBufferSize drv app._topAS
  let scratch ← BufferResource.Create drv {} (scratchBufferSize s0 s1 s2 sTop)
    VK_BUFFER_USAGE_RAY_TRACING_BIT_NV VK_MEMORY_PROPERTY_DEVICE_LOCAL_BIT
  let n ← call (.vkAllocateCommandBuffers 1)
  NVVK_CHECK_ERROR (drv.result n) "rt vkAllocateCommandBuffers"
  let commandBuffer := drv.handleOut n
  let _ ← call (.vkBeginCommandBuffer commandBuffer VK_COMMAND_BUFFER_USAGE_ONE_TIME_SUBMIT_BIT)
  issue (buildCommands commandBuffer geometries app._bottomAS app._topAS instanceNum inst.2 scratch.2)
  let _ ← call (.vkEndCommandBuffer commandBuffer)
  let _ ← call (.vkQueueSubmit commandBuffer)
  let _ ← call .vkQueueWaitIdle
  let _ ← call (.vkFreeCommandBuffers [commandBuffer])
  let _ ← scratch.2.Cleanup
  let _ ← inst.2.Cleanup
  let _ ← ib.2.Cleanup
  let _ ← vb.2.Cleanup
  pure app

end T07

/-! ## Tutorial 10: instance resources -/

namespace T10

def _instanceNum : Nat := 3

structure TutorialApplication where
  _topASMemory : Nat := VK_NULL_HANDLE
  _topAS : Nat := VK_NULL_HANDLE
  _bottomASMemory : Nat := VK_NULL_HANDLE
  _bottomAS : Nat := VK_NULL_HANDLE
  _rtDescriptorSetLayout : Nat := VK_NULL_HANDLE
  _rtPipelineLayout : Nat := VK_NULL_HANDLE
  _rtPipeline : Nat := VK_NULL_HANDLE
  _shaderBindingTable : BufferResource := {}
  _rtDescriptorPool : Nat := VK_NULL_HANDLE
  _rtDescriptorSet : Nat := VK_NULL_HANDLE
  _hitShaderAndDataSize : Nat := 0
  _uniformBuffers : List BufferResource := [{}, {}, {}]

def scale : ℚ := 1 / 4

def vertices : List Vertex :=
  [ ⟨.lit (-scale), .d, .lit 0⟩,
    ⟨.lit scale, .d, .lit 0⟩,
    ⟨.lit (-scale), .negD, .lit 0⟩,
    ⟨.lit scale, .negD, .lit 0⟩,
    ⟨.lit 0, .lit (-scale), .d⟩,
    ⟨.lit 0, .lit scale, .d⟩,
    ⟨.lit 0, .lit (-scale), .negD⟩,
    ⟨.lit 0, .lit scale, .negD⟩,
    ⟨.d, .lit 0, .lit (-scale)⟩,
    ⟨.d, .lit 0, .lit scale⟩,
    ⟨.negD, .lit 0, .lit (-scale)⟩,
    ⟨.negD, .lit 0, .lit scale⟩ ]

def indices : List Nat :=
  [ 0, 11, 5, 0, 5, 1, 0, 1, 7, 0, 7, 10, 0, 10, 11,
    1, 5, 9, 5, 11, 4, 11, 10, 2, 10, 7, 6, 7, 1, 8,
    3, 9, 4, 3, 4, 2, 3, 2, 6, 3, 6, 8, 3, 8, 9,
    4, 9, 5, 2, 4, 11, 6, 2, 10, 8, 6, 7, 9, 8, 1 ]

def vertexSize : Nat := 12

def indexSize : Nat := 2

def sizeofVkGeometryInstance : Nat := 64

/-- The vector `geometries`: the one icosahedron geometry. -/
def geometries (vertexBuffer indexBuffer : BufferResource) (vertexCount indexCount : Nat) :
    List VkGeometryNV :=
  [ { geometryType := VK_GEOMETRY_TYPE_TRIANGLES_NV,
      triangles :=
        { vertexData := vertexBuffer.Buffer, vertexOffset := 0, vertexCount := vertexCount,
          vertexStride := vertexSize, vertexFormat := VK_FORMAT_R32G32B32_SFLOAT,
          indexData := indexBuffer.Buffer, indexOffset := 0, indexCount := indexCount,
          indexType := VK_INDEX_TYPE_UINT16, transformData := VK_NULL_HANDLE,
          transformOffset := 0 },
      flags := VK_GEOMETRY_OPAQUE_BIT_NV } ]

/-- The zero-initialised record of `VkGeometryInstance instances[_instanceNum] = { }`. -/
def zeroInstance : VkGeometryInstance :=
  { transform := List.replicate 12 0, instanceId := 0, mask := 0, instanceOffset := 0,
    flags := 0, accelerationStructureHandle := 0 }

/-- The body of the loop that fills `instances[i]`.  The two computed floats
`-1.5f + 1.5f * i` and `-0.5f + 0.5f * i` are exact for `i < 3`. -/
def fillInstance (accelerationStructureHandle i : Nat) : VkGeometryInstance :=
  { transform := [1, 0, 0, -3 / 2 + 3 / 2 * (i : ℚ),
                  0, 1, 0, -1 / 2 + 1 / 2 * (i : ℚ),
                  0, 0, 1, 0],
    instanceId := i % 2 ^ 24,
    mask := 0xff % 2 ^ 8,
    instanceOffset := i % 2 ^ 24,
    flags := VK_GEOMETRY_INSTANCE_TRIANGLE_CULL_DISABLE_BIT_NV % 2 ^ 8,
    accelerationStructureHandle := accelerationStructureHandle }

/-- The array `instances` after the loop `for (i = 0; i < _instanceNum; i++)`. -/
def instances (accelerationStructureHandle : Nat) : List VkGeometryInstance :=
  (List.range _instanceNum).foldl
    (fun arr i => arr.set i (fillInstance accelerationStructureHandle i))
    (List.replicate _instanceNum zeroInstance)

def scratchBufferSize (sBottom sTop : Nat) : Nat :=
  let bottomAccelerationStructureBufferSize := sBottom
  let topAccelerationStructureBufferSize := sTop
  max bottomAccelerationStructureBufferSize topAccelerationStructureBufferSize

def bottomBuildInfo (geometries : List VkGeometryNV) : VkAccelerationStructureInfoNV :=
  { type := .BOTTOM_LEVEL_NV, flags := 0, instanceCount := 0,
    geometryCount := u32 geometries.length, pGeometries := some (geometries.drop 0) }

def topBuildInfo : VkAccelerationStructureInfoNV :=
  { type := .TOP_LEVEL_NV, flags := 0, instanceCount := _instanceNum, geometryCount := 0,
    pGeometries := none }

/-- The commands recorded between `vkBeginCommandBuffer` and `vkEndCommandBuffer`. -/
def buildCommands (commandBuffer : Nat) (geometries : List VkGeometryNV) (bottomAS topAS : Nat)
    (instanceBuffer scratchBuffer : BufferResource) : List Call :=
  [ .vkCmdBuildAccelerationStructureNV commandBuffer (bottomBuildInfo geometries)
      VK_NULL_HANDLE 0 false bottomAS VK_NULL_HANDLE scratchBuffer.Buffer 0,
    .vkCmdPipelineBarrier commandBuffer VK_PIPELINE_STAGE_ACCELERATION_STRUCTURE_BUILD_BIT_NV
      VK_PIPELINE_STAGE_ACCELERATION_STRUCTURE_BUILD_BIT_NV [buildMemoryBarrier],
    .vkCmdBuildAccelerationStructureNV commandBuffer topBuildInfo
      instanceBuffer.Buffer 0 false topAS VK_NULL_HANDLE scratchBuffer.Buffer 0,
    .vkCmdPipelineBarrier commandBuffer VK_PIPELINE_STAGE_ACCELERATION_STRUCTURE_BUILD_BIT_NV
      VK_PIPELINE_STAGE_RAY_TRACING_SHADER_BIT_NV [buildMemoryBarrier] ]

/-- The function `TutorialApplication::CreateAccelerationStructures`. -/
def CreateAccelerationStructures (drv : Driver) (app : TutorialApplication) :
    M TutorialApplication := do
  let vertexCount := u32 vertices.length
  let vertexBufferSize := u64 (vertexCount * vertexSize)
  let indexCount := u32 indices.length
  let indexBufferSize := u64 (indexCount * indexSize)
  let memoryFlags := VK_MEMORY_PROPERTY_HOST_VISIBLE_BIT ||| VK_MEMORY_PROPERTY_HOST_COHERENT_BIT
  let vb ← BufferResource.Create drv {} vertexBufferSize VK_BUFFER_USAGE_VERTEX_BUFFER_BIT memoryFlags
  NVVK_CHECK_ERROR vb.1 "rt vertexBuffer.Create"
  let copied ← vb.2.CopyToBufferUsingMapUnmap drv (.vertices vertices) vertexBufferSize
  (if !copied then ExitError "Failed to copy vertex buffer" false else pure ())
  let ib ← BufferResource.Create drv {} indexBufferSize VK_BUFFER_USAGE_INDEX_BUFFER_BIT memoryFlags
  NVVK_CHECK_ERROR ib.1 "rt indexBuffer.Create"
  let copied ← ib.2.CopyToBufferUsingMapUnmap drv (.indices indices) indexBufferSize
  (if !copied then ExitError "Failed to copy index buffer" false else pure ())
  let geometries := geometries vb.2 ib.2 vertexCount indexCount
  let bottom ← CreateAccelerationStructure drv .BOTTOM_LEVEL_NV (u32 geometries.length)
    (some geometries) 0
  let app := { app with _bottomAS := bottom.1, _bottomASMemory := bottom.2 }
  let n ← call (.vkGetAccelerationStructureHandleNV app._bottomAS 8)
  NVVK_CHECK_ERROR (drv.result n) "vkGetAccelerationStructureHandleNV"
  let instances := instances (drv.handleOut n)
  let instanceBufferSize := u64 (_instanceNum * sizeofVkGeometryInstance)
  let inst ← BufferResource.Create drv {} instanceBufferSize VK_BUFFER_USAGE_RAY_TRACING_BIT_NV memoryFlags
  NVVK_CHECK_ERROR inst.1 "rt instanceBuffer.Create"
  let _ ← inst.2.CopyToBufferUsingMapUnmap drv (.instances instances) instanceBufferSize
  let top ← CreateAccelerationStructure drv .TOP_LEVEL_NV 0 none _instanceNum
  let app := { app with _topAS := top.1, _topASMemory := top.2 }
  let sBottom ← GetScratchBufferSize drv app._bottomAS
  let sTop ← GetScratchBufferSize drv app._topAS
  let scratch ← BufferResource.Create drv {} (scratchBufferSize sBottom sTop)
    VK_BUFFER_USAGE_RAY_TRACING_BIT_NV VK_MEMORY_PROPERTY_DEVICE_LOCAL_BIT
  let c ← call (.vkAllocateCommandBuffers 1)
  NVVK_CHECK_ERROR (drv.result c) "rt vkAllocateCommandBuffers"
  let commandBuffer := drv.handleOut c
  let _ ← call (.vkBeginCommandBuffer commandBuffer VK_COMMAND_BUFFER_USAGE_ONE_TIME_SUBMIT_BIT)
  issue (buildCommands commandBuffer geometries app._bottomAS app._topAS inst.2 scratch.2)
  let _ ← call (.vkEndCommandBuffer commandBuffer)
  let _ ← call (.vkQueueSubmit commandBuffer)
  let _ ← call .vkQueueWaitIdle
  let _ ← call (.vkFreeCommandBuffers [commandBuffer])
  let _ ← scratch.2.Cleanup
  let _ ← inst.2.Cleanup
  let _ ← ib.2.Cleanup
  let _ ← vb.2.Cleanup
  pure app

end T10

/-! ## Tutorial 11: different vertex formats -/

namespace T11

def _objectNum : Nat := 5

structure ImageResource where
  Image : Nat := VK_NULL_HANDLE
  Memory : Nat := VK_NULL_HANDLE
  ImageView : Nat := VK_NULL_HANDLE
  Sampler : Nat := VK_NULL_HANDLE
  deriving DecidableEq, Repr

def zeroGeometry : VkGeometryNV :=
  { geometryType := 0,
    triangles :=
      { vertexData := 0, vertexOffset := 0, vertexCount := 0, vertexStride := 0,
        vertexFormat := 0, indexData := 0, indexOffset := 0, indexCount := 0, indexType := 0,
        transformData := 0, transformOffset := 0 },
    flags := 0 }

structure RenderObject where
  geometry : VkGeometryNV := zeroGeometry
  bottomAS : Nat := VK_NULL_HANDLE
  bottomASMemory : Nat := VK_NULL_HANDLE
  vertexBuffers : List BufferResource := [{}, {}, {}]
  indexBuffer : BufferResource := {}
  indexBufferCopy : BufferResource := {}
  uniformBuffer : BufferResource := {}
  texture : ImageResource := {}
  vertexNum : Nat := 0
  indexNum : Nat := 0
  shaderIndex : Nat := 0
  deriving DecidableEq

instance : Inhabited RenderObject := ⟨{}⟩

structure TutorialApplication where
  _topASMemory : Nat := VK_NULL_HANDLE
  _topAS : Nat := VK_NULL_HANDLE
  _rtPipelineLayout : Nat := VK_NULL_HANDLE
  _rtPipeline : Nat := VK_NULL_HANDLE
  _shaderBindingTable : BufferResource := {}
  _rtDescriptorPool : Nat := VK_NULL_HANDLE
  _rtDescriptorSetLayouts : List Nat := [0, 0, 0, 0]
  _rtDescriptorSets : List Nat := [0, 0, 0, 0]
  _renderObjects : List RenderObject := [{}, {}, {}, {}, {}]
  _vertexBufferViews : List Nat := []
  _indexBufferViews : List Nat := []
  _imageViews : List Nat := []
  _samplers : List Nat := []

/-- The value of `sizeof(VertexPosition)`. -/
def sizeofVertexPosition : Nat := 12

def sizeofVkGeometryInstance : Nat := 64

/-- The geometry written by `CreateObjectBottomLevelAS`. -/
def objectGeometry (object : RenderObject) : VkGeometryNV :=
  { geometryType := VK_GEOMETRY_TYPE_TRIANGLES_NV,
    triangles :=
      { vertexData := (object.vertexBuffers.getD 0 {}).Buffer, vertexOffset := 0,
        vertexCount := object.vertexNum, vertexStride := sizeofVertexPosition,
        vertexFormat := VK_FORMAT_R32G32B32_SFLOAT,
        indexData := object.indexBuffer.Buffer, indexOffset := 0,
        indexCount := object.indexNum, indexType := VK_INDEX_TYPE_UINT16,
        transformData := VK_NULL_HANDLE, transformOffset := 0 },
    flags := VK_GEOMETRY_OPAQUE_BIT_NV }

def CreateObjectBottomLevelAS (drv : Driver) (object : RenderObject) : M RenderObject := do
  let object := { object with geometry := objectGeometry object }
  let r ← CreateAccelerationStructure drv .BOTTOM_LEVEL_NV 1 (some [object.geometry]) 0
  pure { object with bottomAS := r.1, bottomASMemory := r.2 }

def zeroInstance : VkGeometryInstance :=
  { transform := List.replicate 12 0, instanceId := 0, mask := 0, instanceOffset := 0,
    flags := 0, accelerationStructureHandle := 0 }

/-- The record written to `instances[i]`.  The three computed floats
`biasX + stepX * i`, `biasY + stepY * i`, `biasZ + stepZ * i` are the
parameter `translation i`: float arithmetic is not modelled. -/
def fillInstance (translation : Nat → ℚ × ℚ × ℚ) (object : RenderObject)
    (accelerationStructureHandle i : Nat) : VkGeometryInstance :=
  { transform := [1, 0, 0, (translation i).1,
                  0, 1, 0, (translation i).2.1,
                  0, 0, 1, (translation i).2.2],
    instanceId := i % 2 ^ 24,
    mask := 0xff % 2 ^ 8,
    instanceOffset := object.shaderIndex % 2 ^ 24,
    flags := VK_GEOMETRY_INSTANCE_TRIANGLE_CULL_DISABLE_BIT_NV % 2 ^ 8,
    accelerationStructureHandle := accelerationStructureHandle }

/-- The body of the loop `for (i = 0; i < _objectNum; i++)`: query the handle
of object `i`, then fill `instances[i]`. -/
def instanceStep (drv : Driver) (translation : Nat → ℚ × ℚ × ℚ) (objects : List RenderObject)
    (i : Nat) (instances : List VkGeometryInstance) : M (List VkGeometryInstance) := do
  let n ← call (.vkGetAccelerationStructureHandleNV (objects.getD i default).bottomAS 8)
  NVVK_CHECK_ERROR (drv.result n) "vkGetAccelerationStructureHandleNV"
  pure (instances.set i (fillInstance translation (objects.getD i default) (drv.handleOut n) i))

/-- The body of the loop that accumulates the bottom-level scratch sizes:
the list of the sizes `GetScratchBufferSize` returned, in loop order. -/
def scratchStep (drv : Driver) (objects : List RenderObject) (i : Nat) (sizes : List Nat) :
    M (List Nat) := do
  let s ← GetScratchBufferSize drv (objects.getD i default).bottomAS
  pure (sizes ++ [s])

/-- The size passed to `scratchBuffer.Create`: the accumulator starts at `0`
and takes `std::max` with the size of each bottom-level structure in turn,
then `std::max` with the size of the top-level structure. -/
def scratchBufferSize (bottomSizes : List Nat) (sTop : Nat) : Nat :=
  let bottomAccelerationStructureBufferSize :=
    bottomSizes.foldl (fun acc s => max acc s) 0
  let topAccelerationStructureBufferSize := sTop
  max bottomAccelerationStructureBufferSize topAccelerationStructureBufferSize

def bottomBuildInfo (object : RenderObject) : VkAccelerationStructureInfoNV :=
  { type := .BOTTOM_LEVEL_NV, flags := 0, instanceCount := 0, geometryCount := 1,
    pGeometries := some [object.geometry] }

def topBuildInfo : VkAccelerationStructureInfoNV :=
  { type := .TOP_LEVEL_NV, flags := 0, instanceCount := _objectNum, geometryCount := 0,
    pGeometries := none }

/-- The body of the loop over `_renderObjects`: one build, one barrier. -/
def bottomBuild (commandBuffer : Nat) (scratchBuffer : BufferResource) (object : RenderObject) :
    List Call :=
  [ .vkCmdBuildAccelerationStructureNV commandBuffer (bottomBuildInfo object)
      VK_NULL_HANDLE 0 false object.bottomAS VK_NULL_HANDLE scratchBuffer.Buffer 0,
    .vkCmdPipelineBarrier commandBuffer VK_PIPELINE_STAGE_ACCELERATION_STRUCTURE_BUILD_BIT_NV
      VK_PIPELINE_STAGE_ACCELERATION_STRUCTURE_BUILD_BIT_NV [buildMemoryBarrier] ]

/-- The commands recorded between `vkBeginCommandBuffer` and `vkEndCommandBuffer`. -/
def buildCommands (commandBuffer : Nat) (objects : List RenderObject) (topAS : Nat)
    (instanceBuffer scratchBuffer : BufferResource) : List Call :=
  (objects.map (bottomBuild commandBuffer scratchBuffer)).flatten ++
  [ .vkCmdBuildAccelerationStructureNV commandBuffer topBuildInfo
      instanceBuffer.Buffer 0 false topAS VK_NULL_HANDLE scratchBuffer.Buffer 0,
    .vkCmdPipelineBarrier commandBuffer VK_PIPELINE_STAGE_ACCELERATION_STRUCTURE_BUILD_BIT_NV
      VK_PIPELINE_STAGE_RAY_TRACING_SHADER_BIT_NV [buildMemoryBarrier] ]

/-- The function `TutorialApplication::CreateAccelerationStructures`. -/
def CreateAccelerationStructures (drv : Driver) (translation : Nat → ℚ × ℚ × ℚ)
    (app : TutorialApplication) : M TutorialApplication := do
  let instances ← forLoop (instanceStep drv translation app._renderObjects) _objectNum 0
    (List.replicate _objectNum zeroInstance)
  let instanceBufferSize := u64 (_objectNum * sizeofVkGeometryInstance)
  let memoryFlags := VK_MEMORY_PROPERTY_HOST_VISIBLE_BIT ||| VK_MEMORY_PROPERTY_HOST_COHERENT_BIT
  let inst ← BufferResource.Create drv {} instanceBufferSize VK_BUFFER_USAGE_RAY_TRACING_BIT_NV memoryFlags
  NVVK_CHECK_ERROR inst.1 "rt instanceBuffer.Create"
  let _ ← inst.2.CopyToBufferUsingMapUnmap drv (.instances instances) instanceBufferSize
  let top ← CreateAccelerationStructure drv .TOP_LEVEL_NV 0 none _objectNum
  let app := { app with _topAS := top.1, _topASMemory := top.2 }
  let bottomSizes ← forLoop (scratchStep drv app._renderObjects) app._renderObjects.length 0 []
  let sTop ← GetScratchBufferSize drv app._topAS
  let scratch ← BufferResource.Create drv {} (scratchBufferSize bottomSizes sTop)
    VK_BUFFER_USAGE_RAY_TRACING_BIT_NV VK_MEMORY_PROPERTY_DEVICE_LOCAL_BIT
  let c ← call (.vkAllocateCommandBuffers 1)
  NVVK_CHECK_ERROR (drv.result c) "rt vkAllocateCommandBuffers"
  let commandBuffer := drv.handleOut c
  let _ ← call (.vkBeginCommandBuffer commandBuffer VK_COMMAND_BUFFER_USAGE_ONE_TIME_SUBMIT_BIT)
  issue (buildCommands commandBuffer app._renderObjects app._topAS inst.2 scratch.2)
  let _ ← call (.vkEndCommandBuffer commandBuffer)
  let _ ← call (.vkQueueSubmit commandBuffer)
  let _ ← call .vkQueueWaitIdle
  let _ ← call (.vkFreeCommandBuffers [commandBuffer])
  let _ ← scratch.2.Cleanup
  let _ ← inst.2.Cleanup
  pure app

end T11

/-! ### Tutorial 11: the render objects -/

namespace T11

def CreateBufferAndUploadData (drv : Driver) (buffer : BufferResource) (usage : Nat)
    (content : HostData) (size : Nat) : M BufferResource := do
  let memoryFlags := VK_MEMORY_PROPERTY_HOST_VISIBLE_BIT ||| VK_MEMORY_PROPERTY_HOST_COHERENT_BIT
  let r ← buffer.Create drv size usage memoryFlags
  NVVK_CHECK_ERROR r.1 "rt BufferResource::Create"
  let copied ← r.2.CopyToBufferUsingMapUnmap drv content size
  (if !copied then ExitError "Failed to copy data to buffer" false else pure ())
  pure r.2

/-- The loop that converts an index list to `R16G16B16A16_UINT` texels: three
indices and a zero per step; an index read past the end counts as `0`. -/
def indicesWithPaddingLoop (indices : List Nat) : Nat → Nat → List Nat → List Nat
  | 0, _, out => out
  | fuel + 1, i, out =>
    if i < indices.length then
      indicesWithPaddingLoop indices fuel (i + 3)
        (out ++ [indices.getD i 0, indices.getD (i + 1) 0, indices.getD (i + 2) 0, 0])
    else out

def indicesWithPadding (indices : List Nat) : List Nat :=
  indicesWithPaddingLoop indices indices.length 0 []

def scale : ℚ := 1 / 4

def icosahedronPositions : List Vertex :=
  [ ⟨.lit (-scale), .d, .lit 0⟩,
    ⟨.lit scale, .d, .lit 0⟩,
    ⟨.lit (-scale), .negD, .lit 0⟩,
    ⟨.lit scale, .negD, .lit 0⟩,
    ⟨.lit 0, .lit (-scale), .d⟩,
    ⟨.lit 0, .lit scale, .d⟩,
    ⟨.lit 0, .lit (-scale), .negD⟩,
    ⟨.lit 0, .lit scale, .negD⟩,
    ⟨.d, .lit 0, .lit (-scale)⟩,
    ⟨.d, .lit 0, .lit scale⟩,
    ⟨.negD, .lit 0, .lit (-scale)⟩,
    ⟨.negD, .lit 0, .lit scale⟩ ]

def icosahedronIndices : List Nat :=
  [ 0, 11, 5, 0, 5, 1, 0, 1, 7, 0, 7, 10, 0, 10, 11,
    1, 5, 9, 5, 11, 4, 11, 10, 2, 10, 7, 6, 7, 1, 8,
    3, 9, 4, 3, 4, 2, 3, 2, 6, 3, 6, 8, 3, 8, 9,
    4, 9, 5, 2, 4, 11, 6, 2, 10, 8, 6, 7, 9, 8, 1 ]

def CreateIcosahedronGeometry (drv : Driver) (object : RenderObject) : M RenderObject := do
  let vb0 ← CreateBufferAndUploadData drv (object.vertexBuffers.getD 0 {})
    VK_BUFFER_USAGE_VERTEX_BUFFER_BIT (.vertices icosahedronPositions)
    (u64 (icosahedronPositions.length * sizeofVertexPosition))
  let object := { object with vertexBuffers := object.vertexBuffers.set 0 vb0 }
  let vb1 ← CreateBufferAndUploadData drv (object.vertexBuffers.getD 1 {})
    VK_BUFFER_USAGE_UNIFORM_TEXEL_BUFFER_BIT (.normalized icosahedronPositions)
    (u64 (icosahedronPositions.length * 3 * 4))
  let object := { object with vertexBuffers := object.vertexBuffers.set 1 vb1 }
  let ib ← CreateBufferAndUploadData drv object.indexBuffer VK_BUFFER_USAGE_INDEX_BUFFER_BIT
    (.indices icosahedronIndices) (u64 (icosahedronIndices.length * 2))
  let object := { object with indexBuffer := ib }
  let ibc ← CreateBufferAndUploadData drv object.indexBufferCopy
    VK_BUFFER_USAGE_UNIFORM_TEXEL_BUFFER_BIT (.indices (indicesWithPadding icosahedronIndices))
    (u64 ((indicesWithPadding icosahedronIndices).length * 2))
  pure { object with indexBufferCopy := ibc,
                     vertexNum := u32 icosahedronPositions.length,
                     indexNum := icosahedronIndices.length % 2 ^ 16 }

def boxHalfSize : ℚ := 1 / 4

def boxVertex (x y z : ℚ) : Vertex := ⟨.lit x, .lit y, .lit z⟩

def boxPositions : List Vertex :=
  [ boxVertex (-boxHalfSize) (-boxHalfSize) (-boxHalfSize), boxVertex (-boxHalfSize) (-boxHalfSize) boxHalfSize,
    boxVertex (-boxHalfSize) boxHalfSize (-boxHalfSize), boxVertex (-boxHalfSize) boxHalfSize boxHalfSize,
    boxVertex boxHalfSize (-boxHalfSize) (-boxHalfSize), boxVertex boxHalfSize (-boxHalfSize) boxHalfSize,
    boxVertex boxHalfSize boxHalfSize (-boxHalfSize), boxVertex boxHalfSize boxHalfSize boxHalfSize,
    boxVertex (-boxHalfSize) (-boxHalfSize) (-boxHalfSize), boxVertex (-boxHalfSize) (-boxHalfSize) boxHalfSize,
    boxVertex boxHalfSize (-boxHalfSize) (-boxHalfSize), boxVertex boxHalfSize (-boxHalfSize) boxHalfSize,
    boxVertex (-boxHalfSize) boxHalfSize (-boxHalfSize), boxVertex (-boxHalfSize) boxHalfSize boxHalfSize,
    boxVertex boxHalfSize boxHalfSize (-boxHalfSize), boxVertex boxHalfSize boxHalfSize boxHalfSize,
    boxVertex (-boxHalfSize) (-boxHalfSize) (-boxHalfSize), boxVertex (-boxHalfSize) boxHalfSize (-boxHalfSize),
    boxVertex boxHalfSize (-boxHalfSize) (-boxHalfSize), boxVertex boxHalfSize boxHalfSize (-boxHalfSize),
    boxVertex (-boxHalfSize) (-boxHalfSize) boxHalfSize, boxVertex (-boxHalfSize) boxHalfSize boxHalfSize,
    boxVertex boxHalfSize (-boxHalfSize) boxHalfSize, boxVertex boxHalfSize boxHalfSize boxHalfSize ]

def boxTexcoords : List ℚ :=
  [ 0, 0, 2, 0, 0, 2, 2, 2,
    0, 0, 2, 0, 0, 2, 2, 2,
    0, 0, 2, 0, 0, 2, 2, 2,
    0, 0, 2, 0, 0, 2, 2, 2,
    0, 0, 2, 0, 0, 2, 2, 2,
    0, 0, 2, 0, 0, 2, 2, 2 ]

def boxNormals : List ℚ :=
  [ -1, 0, 0,  -1, 0, 0,  -1, 0, 0,  -1, 0, 0,
    1, 0, 0,  1, 0, 0,  1, 0, 0,  1, 0, 0,
    0, -1, 0,  0, -1, 0,  0, -1, 0,  0, -1, 0,
    0, 1, 0,  0, 1, 0,  0, 1, 0,  0, 1, 0,
    0, 0, -1,  0, 0, -1,  0, 0, -1,  0, 0, -1,
    0, 0, 1,  0, 0, 1,  0, 0, 1,  0, 0, 1 ]

def boxIndices : List Nat :=
  [ 0, 1, 2, 1, 2, 3,
    4, 5, 6, 5, 6, 7,
    8, 9, 10, 9, 10, 11,
    12, 13, 14, 13, 14, 15,
    16, 17, 18, 17, 18, 19,
    20, 21, 22, 21, 22, 23 ]

def CreateBoxGeometry (drv : Driver) (object : RenderObject) : M RenderObject := do
  let vb0 ← CreateBufferAndUploadData drv (object.vertexBuffers.getD 0 {})
    VK_BUFFER_USAGE_VERTEX_BUFFER_BIT (.vertices boxPositions)
    (u64 (boxPositions.length * sizeofVertexPosition))
  let object := { object with vertexBuffers := object.vertexBuffers.set 0 vb0 }
  let vb1 ← CreateBufferAndUploadData drv (object.vertexBuffers.getD 1 {})
    VK_BUFFER_USAGE_UNIFORM_TEXEL_BUFFER_BIT (.floats boxTexcoords) (u64 (boxTexcoords.length * 4))
  let object := { object with vertexBuffers := object.vertexBuffers.set 1 vb1 }
  let vb2 ← CreateBufferAndUploadData drv (object.vertexBuffers.getD 2 {})
    VK_BUFFER_USAGE_UNIFORM_TEXEL_BUFFER_BIT (.floats boxNormals) (u64 (boxNormals.length * 4))
  let object := { object with vertexBuffers := object.vertexBuffers.set 2 vb2 }
  let ib ← CreateBufferAndUploadData drv object.indexBuffer VK_BUFFER_USAGE_INDEX_BUFFER_BIT
    (.indices boxIndices) (u64 (boxIndices.length * 2))
  let object := { object with indexBuffer := ib }
  let ibc ← CreateBufferAndUploadData drv object.indexBufferCopy
    VK_BUFFER_USAGE_UNIFORM_TEXEL_BUFFER_BIT (.indices (indicesWithPadding boxIndices))
    (u64 ((indicesWithPadding boxIndices).length * 2))
  pure { object with indexBufferCopy := ibc,
                     vertexNum := u32 boxPositions.length,
                     indexNum := boxIndices.length % 2 ^ 16 }

def CreateIcosahedronBufferViews (drv : Driver) (object : RenderObject)
    (app : TutorialApplication) : M TutorialApplication := do
  let v ← call (.vkCreateBufferView (object.vertexBuffers.getD 1 {}).Buffer
    VK_FORMAT_R32G32B32_SFLOAT 0 VK_WHOLE_SIZE)
  NVVK_CHECK_ERROR (drv.result v) "vkCreateBufferView"
  let i ← call (.vkCreateBufferView object.indexBufferCopy.Buffer
    VK_FORMAT_R16G16B16A16_UINT 0 VK_WHOLE_SIZE)
  NVVK_CHECK_ERROR (drv.result i) "vkCreateBufferView"
  pure { app with _vertexBufferViews := app._vertexBufferViews ++ [drv.handleOut v],
                  _indexBufferViews := app._indexBufferViews ++ [drv.handleOut i] }

def CreateBoxBufferViews (drv : Driver) (object : RenderObject)
    (app : TutorialApplication) : M TutorialApplication := do
  let v0 ← call (.vkCreateBufferView (object.vertexBuffers.getD 1 {}).Buffer
    VK_FORMAT_R32G32_SFLOAT 0 VK_WHOLE_SIZE)
  NVVK_CHECK_ERROR (drv.result v0) "vkCreateBufferView"
  let v1 ← call (.vkCreateBufferView (object.vertexBuffers.getD 2 {}).Buffer
    VK_FORMAT_R32G32B32_SFLOAT 0 VK_WHOLE_SIZE)
  NVVK_CHECK_ERROR (drv.result v1) "vkCreateBufferView"
  let i ← call (.vkCreateBufferView object.indexBufferCopy.Buffer
    VK_FORMAT_R16G16B16A16_UINT 0 VK_WHOLE_SIZE)
  NVVK_CHECK_ERROR (drv.result i) "vkCreateBufferView"
  pure { app with
           _vertexBufferViews := app._vertexBufferViews ++ [drv.handleOut v0, drv.handleOut v1],
           _indexBufferViews := app._indexBufferViews ++ [drv.handleOut i] }

/-- The function `LoadObjectTexture`.  `ImageResource::LoadTexture2DFromFile`
(file access, staging upload, image creation and layout transitions) is one
event of the trace: the oracle gives its boolean, its status and the image. -/
def LoadObjectTexture (drv : Driver) (object : RenderObject) (path : String)
    (app : TutorialApplication) : M (RenderObject × TutorialApplication) := do
  let l ← call (.LoadTexture2DFromFile path)
  (if !drv.loaded l then
    ExitError ("Failed to load texture. VkResult: " ++ toString (drv.result l)) false
   else pure ())
  let texture : ImageResource := { object.texture with Image := drv.handleOut l }
  let v ← call (.vkCreateImageView texture.Image VK_IMAGE_VIEW_TYPE_2D VK_FORMAT_R8G8B8A8_SRGB)
  let texture : ImageResource :=
    { texture with ImageView := if drv.result v ≠ VK_SUCCESS then VK_NULL_HANDLE
                                else drv.handleOut v }
  NVVK_CHECK_ERROR (drv.result v) "Failed to create image view."
  let sm ← call (.vkCreateSampler VK_FILTER_NEAREST VK_FILTER_LINEAR
    VK_SAMPLER_MIPMAP_MODE_LINEAR VK_SAMPLER_ADDRESS_MODE_REPEAT)
  let texture : ImageResource := { texture with Sampler := drv.handleOut sm }
  NVVK_CHECK_ERROR (drv.result sm) "Failed to create sampler."
  pure ({ object with texture := texture },
        { app with _imageViews := app._imageViews ++ [texture.ImageView],
                   _samplers := app._samplers ++ [texture.Sampler] })

/-- The three words of `UniformBufferContent` the functions set (the fourth,
`padding`, is left unset); the structure has 16 bytes. -/
def uniformContent (app : TutorialApplication) : HostData :=
  .words [u32 app._vertexBufferViews.length, u32 app._indexBufferViews.length,
          u32 app._imageViews.length]

def CreateIcosahedron (drv : Driver) (object : RenderObject) (app : TutorialApplication) :
    M (RenderObject × TutorialApplication) := do
  let object := { object with shaderIndex := 1 }
  let memoryFlags := VK_MEMORY_PROPERTY_HOST_VISIBLE_BIT ||| VK_MEMORY_PROPERTY_HOST_COHERENT_BIT
  let ub ← object.uniformBuffer.Create drv 16 VK_BUFFER_USAGE_UNIFORM_BUFFER_BIT memoryFlags
  let object := { object with uniformBuffer := ub.2 }
  let _ ← object.uniformBuffer.CopyToBufferUsingMapUnmap drv (uniformContent app) 16
  let object ← CreateIcosahedronGeometry drv object
  let app ← CreateIcosahedronBufferViews drv object app
  let object ← CreateObjectBottomLevelAS drv object
  pure (object, app)

def CreateBox (drv : Driver) (object : RenderObject) (texturePath : String)
    (app : TutorialApplication) : M (RenderObject × TutorialApplication) := do
  let object := { object with shaderIndex := 0 }
  let memoryFlags := VK_MEMORY_PROPERTY_HOST_VISIBLE_BIT ||| VK_MEMORY_PROPERTY_HOST_COHERENT_BIT
  let ub ← object.uniformBuffer.Create drv 16 VK_BUFFER_USAGE_UNIFORM_BUFFER_BIT memoryFlags
  let object := { object with uniformBuffer := ub.2 }
  let _ ← object.uniformBuffer.CopyToBufferUsingMapUnmap drv (uniformContent app) 16
  let object ← CreateBoxGeometry drv object
  let app ← CreateBoxBufferViews drv object app
  let r ← LoadObjectTexture drv object texturePath app
  let object ← CreateObjectBottomLevelAS drv r.1
  pure (object, r.2)

/-- Store the object a `Create...` call returns back into `_renderObjects[i]`. -/
def storeObject (i : Nat) (r : RenderObject × TutorialApplication) : TutorialApplication :=
  { r.2 with _renderObjects := r.2._renderObjects.set i r.1 }

/-- The five object-creation calls of `Init`, in order: box, icosahedron,
box, box, icosahedron. -/
def InitObjects (drv : Driver) (app : TutorialApplication) : M TutorialApplication := do
  let r ← CreateBox drv (app._renderObjects.getD 0 default) "cb0.bmp" app
  let app := storeObject 0 r
  let r ← CreateIcosahedron drv (app._renderObjects.getD 1 default) app
  let app := storeObject 1 r
  let r ← CreateBox drv (app._renderObjects.getD 2 default) "cb1.bmp" app
  let app := storeObject 2 r
  let r ← CreateBox drv (app._renderObjects.getD 3 default) "cb2.bmp" app
  let app := storeObject 3 r
  let r ← CreateIcosahedron drv (app._renderObjects.getD 4 default) app
  pure (storeObject 4 r)

end T11

/-! ## Shader binding tables -/

/-- Store `count` shader-group handles, first group `firstGroup`, back to back
from byte `offset` of `memory`: `shaderGroupHandleSize` bytes each. -/
def writeGroupHandles (drv : Driver) (memory : Nat) :
    Nat → Nat → Nat → (Nat → Nat → Nat) → (Nat → Nat → Nat)
  | 0, _, _, mem => mem
  | count + 1, firstGroup, offset, mem =>
    writeGroupHandles drv memory count (firstGroup + 1) (offset + drv.shaderGroupHandleSize)
      (fun m a =>
        if m = memory ∧ offset ≤ a ∧ a < offset + drv.shaderGroupHandleSize then
          drv.groupHandle firstGroup (a - offset)
        else mem m a)

/-- The driver call `vkGetRayTracingShaderGroupHandlesNV`: on success the
driver copies the `groupCount` handles to `pData` (`dataSize` is the size the
caller declares for the destination); a null `pData` is a store through a null
pointer. -/
def vkGetRayTracingShaderGroupHandlesNV (drv : Driver) (firstGroup groupCount dataSize : Nat)
    (pData : Option (Nat × Nat)) : M VkResult := fun w =>
  let w1 : World :=
    { w with calls := w.calls ++
        [.vkGetRayTracingShaderGroupHandlesNV firstGroup groupCount dataSize pData] }
  if drv.result w.calls.length ≠ VK_SUCCESS then
    .ok (drv.result w.calls.length) w1
  else
    match pData with
    | none => .stop .nullWrite w1
    | some p =>
      .ok (drv.result w.calls.length)
        { w1 with mem := writeGroupHandles drv p.1 groupCount firstGroup p.2 w1.mem }

/-- The bytes of a 32-bit word in memory order (little-endian, the x86 target
of the tutorials). -/
def wordByte (word k : Nat) : Nat := word / 256 ^ k % 256

/-- The store `color[k] = value` through a `float*`: the four bytes of the
IEEE-754 single `bits`. -/
def storeFloat (pointer : Option (Nat × Nat)) (k bits : Nat) : M Unit := fun w =>
  match pointer with
  | none => .stop .nullWrite w
  | some p =>
    .ok () { calls := w.calls ++ [.hostStore p.1 (p.2 + 4 * k) 4],
             mem := fun m a =>
               if m = p.1 ∧ p.2 + 4 * k ≤ a ∧ a < p.2 + 4 * k + 4 then
                 wordByte bits (a - (p.2 + 4 * k))
               else w.mem m a }

/-- Pointer arithmetic `pointer += bytes`. -/
def advance (pointer : Option (Nat × Nat)) (bytes : Nat) : Option (Nat × Nat) :=
  pointer.map (fun p => (p.1, p.2 + bytes))

/-- The stage a shader group is entered at: the stage of its general shader,
or of its closest-hit shader for a triangles hit group. -/
def groupStage (stages : List ShaderStage) (group : VkRayTracingShaderGroupCreateInfoNV) :
    Option VkShaderStageFlagBits :=
  match group.type with
  | .GENERAL_NV => (stages[group.generalShader]?).map (fun s => s.stage)
  | .TRIANGLES_HIT_GROUP_NV => (stages[group.closestHitShader]?).map (fun s => s.stage)
  | .PROCEDURAL_HIT_GROUP_NV => (stages[group.intersectionShader]?).map (fun s => s.stage)

/-- The index of the first shader group of the pipeline entered at `stage`. -/
def firstGroupAt (stages : List ShaderStage) (groups : List VkRayTracingShaderGroupCreateInfoNV)
    (stage : VkShaderStageFlagBits) : Option Nat :=
  let i := groups.findIdx (fun g => decide (groupStage stages g = some stage))
  if i < groups.length then some i else none

namespace T07

def shaderStages : List ShaderStage :=
  [ ⟨"rt_06_shaders.rgen.spv", .RAYGEN_BIT_NV⟩,
    ⟨"rt_06_shaders.rchit.spv", .CLOSEST_HIT_BIT_NV⟩,
    ⟨"rt_06_shaders.rmiss.spv", .MISS_BIT_NV⟩ ]

def shaderGroups : List VkRayTracingShaderGroupCreateInfoNV :=
  [ ⟨.GENERAL_NV, 0, VK_SHADER_UNUSED_NV, VK_SHADER_UNUSED_NV, VK_SHADER_UNUSED_NV⟩,
    ⟨.TRIANGLES_HIT_GROUP_NV, VK_SHADER_UNUSED_NV, 1, VK_SHADER_UNUSED_NV, VK_SHADER_UNUSED_NV⟩,
    ⟨.GENERAL_NV, 2, VK_SHADER_UNUSED_NV, VK_SHADER_UNUSED_NV, VK_SHADER_UNUSED_NV⟩ ]

/-- The variable `shaderBindingTableSize`, a `uint32_t`. -/
def shaderBindingTableSize (drv : Driver) : Nat := u32 (drv.shaderGroupHandleSize * 3)

def CreateShaderBindingTable (drv : Driver) (app : TutorialApplication) :
    M TutorialApplication := do
  let groupNum := 3
  let r ← app._shaderBindingTable.Create drv (shaderBindingTableSize drv)
    VK_BUFFER_USAGE_TRANSFER_SRC_BIT VK_MEMORY_PROPERTY_HOST_VISIBLE_BIT
  NVVK_CHECK_ERROR r.1 "_shaderBindingTable.Create"
  let app := { app with _shaderBindingTable := r.2 }
  let mappedMemory ← app._shaderBindingTable.Map drv (shaderBindingTableSize drv)
  let code ← vkGetRayTracingShaderGroupHandlesNV drv 0 groupNum (shaderBindingTableSize drv)
    mappedMemory
  NVVK_CHECK_ERROR code "vkGetRayTracingShaderHandleNV"
  app._shaderBindingTable.Unmap
  pure app

/-- The arguments of the `vkCmdTraceRaysNV` call of `RecordCommandBufferForFrame`. -/
def traceRays (drv : Driver) (app : TutorialApplication) (width height : Nat) : TraceRays :=
  { raygenShaderBindingTableBuffer := app._shaderBindingTable.Buffer,
    raygenShaderBindingOffset := 0,
    missShaderBindingTableBuffer := app._shaderBindingTable.Buffer,
    missShaderBindingOffset := u32 (2 * drv.shaderGroupHandleSize),
    missShaderBindingStride := drv.shaderGroupHandleSize,
    hitShaderBindingTableBuffer := app._shaderBindingTable.Buffer,
    hitShaderBindingOffset := u32 (1 * drv.shaderGroupHandleSize),
    hitShaderBindingStride := drv.shaderGroupHandleSize,
    callableShaderBindingTableBuffer := VK_NULL_HANDLE,
    callableShaderBindingOffset := 0,
    callableShaderBindingStride := 0,
    width := width, height := height, depth := 1 }

def RecordCommandBufferForFrame (drv : Driver) (app : TutorialApplication)
    (width height commandBuffer : Nat) : M Unit :=
  issue
    [ .vkCmdBindPipeline commandBuffer app._rtPipeline,
      .vkCmdBindDescriptorSets commandBuffer app._rtPipelineLayout [app._rtDescriptorSet],
      .vkCmdTraceRaysNV commandBuffer (traceRays drv app width height) ]

end T07

namespace T10

def shaderStages : List ShaderStage :=
  [ ⟨"rt_10_shaders.rgen.spv", .RAYGEN_BIT_NV⟩,
    ⟨"rt_10_shaders.rmiss.spv", .MISS_BIT_NV⟩,
    ⟨"rt_10_shaders.rchit.spv", .CLOSEST_HIT_BIT_NV⟩ ]

def shaderGroups : List VkRayTracingShaderGroupCreateInfoNV :=
  [ ⟨.GENERAL_NV, 0, VK_SHADER_UNUSED_NV, VK_SHADER_UNUSED_NV, VK_SHADER_UNUSED_NV⟩,
    ⟨.GENERAL_NV, 1, VK_SHADER_UNUSED_NV, VK_SHADER_UNUSED_NV, VK_SHADER_UNUSED_NV⟩,
    ⟨.TRIANGLES_HIT_GROUP_NV, VK_SHADER_UNUSED_NV, 2, VK_SHADER_UNUSED_NV, VK_SHADER_UNUSED_NV⟩ ]

/-- The value of `sizeof(float) * 4`. -/
def inlineDataSize : Nat := 16

/-- The IEEE-754 single `0.5f`. -/
def half : Nat := 0x3F000000

/-- The array `colors` of `CreateShaderBindingTable`, as IEEE-754 singles
(`0.0f` is the word `0`). -/
def colors : List (List Nat) :=
  [ [half, 0, 0, 0],
    [0, half, 0, 0],
    [0, 0, half, 0] ]

def color (i j : Nat) : Nat := (colors.getD i []).getD j 0

/-- The value of `_hitShaderAndDataSize`, a `VkDeviceSize`. -/
def hitShaderAndDataSize (drv : Driver) : Nat := u64 (drv.shaderGroupHandleSize + inlineDataSize)

/-- The variable `raygenAndMissSize`: the product is taken in `uint32_t`. -/
def raygenAndMissSize (drv : Driver) : Nat := u32 (drv.shaderGroupHandleSize * 2)

def shaderBindingTableSize (drv : Driver) : Nat :=
  u64 (raygenAndMissSize drv + u64 (hitShaderAndDataSize drv * _instanceNum))

/-- The body of the loop `for (i = 0; i < _instanceNum; i++)`: the state is the
write cursor `mappedMemory`. -/
def hitRecord (drv : Driver) (i : Nat) (mappedMemory : Option (Nat × Nat)) :
    M (Option (Nat × Nat)) := do
  let code ← vkGetRayTracingShaderGroupHandlesNV drv 2 1 drv.shaderGroupHandleSize mappedMemory
  NVVK_CHECK_ERROR code "_shaderBindingTable.Create"
  let mappedMemory := advance mappedMemory drv.shaderGroupHandleSize
  storeFloat mappedMemory 0 (color i 0)
  storeFloat mappedMemory 1 (color i 1)
  storeFloat mappedMemory 2 (color i 2)
  storeFloat mappedMemory 3 (color i 3)
  pure (advance mappedMemory inlineDataSize)

def CreateShaderBindingTable (drv : Driver) (app : TutorialApplication) :
    M TutorialApplication := do
  let app := { app with _hitShaderAndDataSize := hitShaderAndDataSize drv }
  let r ← app._shaderBindingTable.Create drv (shaderBindingTableSize drv)
    VK_BUFFER_USAGE_TRANSFER_SRC_BIT VK_MEMORY_PROPERTY_HOST_VISIBLE_BIT
  NVVK_CHECK_ERROR r.1 "_shaderBindingTable.Create"
  let app := { app with _shaderBindingTable := r.2 }
  let mappedMemory ← app._shaderBindingTable.Map drv (shaderBindingTableSize drv)
  let code ← vkGetRayTracingShaderGroupHandlesNV drv 0 2 (raygenAndMissSize drv) mappedMemory
  NVVK_CHECK_ERROR code "_shaderBindingTable.Create"
  let mappedMemory := advance mappedMemory (raygenAndMissSize drv)
  let _ ← forLoop (hitRecord drv) _instanceNum 0 mappedMemory
  app._shaderBindingTable.Unmap
  pure app

/-- The arguments of the `vkCmdTraceRaysNV` call of `RecordCommandBufferForFrame`. -/
def traceRays (drv : Driver) (app : TutorialApplication) (width height : Nat) : TraceRays :=
  { raygenShaderBindingTableBuffer := app._shaderBindingTable.Buffer,
    raygenShaderBindingOffset := 0,
    missShaderBindingTableBuffer := app._shaderBindingTable.Buffer,
    missShaderBindingOffset := u32 (1 * drv.shaderGroupHandleSize),
    missShaderBindingStride := drv.shaderGroupHandleSize,
    hitShaderBindingTableBuffer := app._shaderBindingTable.Buffer,
    hitShaderBindingOffset := u32 (2 * drv.shaderGroupHandleSize),
    hitShaderBindingStride := app._hitShaderAndDataSize,
    callableShaderBindingTableBuffer := VK_NULL_HANDLE,
    callableShaderBindingOffset := 0,
    callableShaderBindingStride := 0,
    width := width, height := height, depth := 1 }

def RecordCommandBufferForFrame (drv : Driver) (app : TutorialApplication)
    (width height commandBuffer : Nat) : M Unit :=
  issue
    [ .vkCmdBindPipeline commandBuffer app._rtPipeline,
      .vkCmdBindDescriptorSets commandBuffer app._rtPipelineLayout [app._rtDescriptorSet],
      .vkCmdTraceRaysNV commandBuffer (traceRays drv app width height) ]

end T10

namespace T11

def shaderStages : List ShaderStage :=
  [ ⟨"rt_11_shaders.rgen.spv", .RAYGEN_BIT_NV⟩,
    ⟨"rt_11_shaders.rmiss.spv", .MISS_BIT_NV⟩,
    ⟨"rt_11_box.rchit.spv", .CLOSEST_HIT_BIT_NV⟩,
    ⟨"rt_11_icosahedron.rchit.spv", .CLOSEST_HIT_BIT_NV⟩ ]

def shaderGroups : List VkRayTracingShaderGroupCreateInfoNV :=
  [ ⟨.GENERAL_NV, 0, VK_SHADER_UNUSED_NV, VK_SHADER_UNUSED_NV, VK_SHADER_UNUSED_NV⟩,
    ⟨.GENERAL_NV, 1, VK_SHADER_UNUSED_NV, VK_SHADER_UNUSED_NV, VK_SHADER_UNUSED_NV⟩,
    ⟨.TRIANGLES_HIT_GROUP_NV, VK_SHADER_UNUSED_NV, 2, VK_SHADER_UNUSED_NV, VK_SHADER_UNUSED_NV⟩,
    ⟨.TRIANGLES_HIT_GROUP_NV, VK_SHADER_UNUSED_NV, 3, VK_SHADER_UNUSED_NV, VK_SHADER_UNUSED_NV⟩ ]

/-- The variable `shaderBindingTableSize`: the product is taken in `uint32_t`. -/
def shaderBindingTableSize (drv : Driver) : Nat := u32 (drv.shaderGroupHandleSize * 4)

def CreateShaderBindingTable (drv : Driver) (app : TutorialApplication) :
    M TutorialApplication := do
  let groupNum := 4
  let r ← app._shaderBindingTable.Create drv (shaderBindingTableSize drv)
    VK_BUFFER_USAGE_TRANSFER_SRC_BIT VK_MEMORY_PROPERTY_HOST_VISIBLE_BIT
  NVVK_CHECK_ERROR r.1 "_shaderBindingTable.Create"
  let app := { app with _shaderBindingTable := r.2 }
  let mappedMemory ← app._shaderBindingTable.Map drv (shaderBindingTableSize drv)
  let code ← vkGetRayTracingShaderGroupHandlesNV drv 0 groupNum (shaderBindingTableSize drv)
    mappedMemory
  NVVK_CHECK_ERROR code "_shaderBindingTable.Create"
  app._shaderBindingTable.Unmap
  pure app

/-- The arguments of the `vkCmdTraceRaysNV` call of `RecordCommandBufferForFrame`. -/
def traceRays (drv : Driver) (app : TutorialApplication) (width height : Nat) : TraceRays :=
  { raygenShaderBindingTableBuffer := app._shaderBindingTable.Buffer,
    raygenShaderBindingOffset := 0,
    missShaderBindingTableBuffer := app._shaderBindingTable.Buffer,
    missShaderBindingOffset := u32 (1 * drv.shaderGroupHandleSize),
    missShaderBindingStride := drv.shaderGroupHandleSize,
    hitShaderBindingTableBuffer := app._shaderBindingTable.Buffer,
    hitShaderBindingOffset := u32 (2 * drv.shaderGroupHandleSize),
    hitShaderBindingStride := drv.shaderGroupHandleSize,
    callableShaderBindingTableBuffer := VK_NULL_HANDLE,
    callableShaderBindingOffset := 0,
    callableShaderBindingStride := 0,
    width := width, height := height, depth := 1 }

def RecordCommandBufferForFrame (drv : Driver) (app : TutorialApplication)
    (width height commandBuffer : Nat) : M Unit :=
  issue
    [ .vkCmdBindPipeline commandBuffer app._rtPipeline,
      .vkCmdBindDescriptorSets commandBuffer app._rtPipelineLayout app._rtDescriptorSets,
      .vkCmdTraceRaysNV commandBuffer (traceRays drv app width height) ]

end T11

/-! ## Properties of shader binding tables -/

/-- A driver whose every call succeeds and whose shader-group handles have
`handleSize` bytes; it serves to exhibit concrete runs. -/
def sampleDriver (handleSize : Nat) : Driver :=
  { result := fun _ => VK_SUCCESS,
    handleOut := fun n => n + 1,
    memoryRequirements := fun _ => { size := 256, alignment := 16, memoryTypeBits := 0xffffffff },
    loaded := fun _ => true,
    memoryTypeFlags := fun _ => 7,
    shaderGroupHandleSize := handleSize,
    groupHandle := fun g b => 16 * (g + 1) + b % 16 }

/-- The record of `size` bytes at `offset` of `memory` lies inside the first
`tableSize` bytes and holds the handle of shader group `group`. -/
def recordHoldsGroup (mem : Nat → Nat → Nat) (drv : Driver) (memory tableSize offset : Nat)
    (group : Option Nat) : Prop :=
  offset + drv.shaderGroupHandleSize ≤ tableSize ∧
  ∃ g, group = some g ∧
    ∀ b, b < drv.shaderGroupHandleSize → mem memory (offset + b) = drv.groupHandle g b

/-- The three region offsets of a trace call address the records that hold
the handles of the raygen group, the miss group and the first hit group of the
pipeline. -/
def regionsAddressGroups (drv : Driver) (stages : List ShaderStage)
    (groups : List VkRayTracingShaderGroupCreateInfoNV) (mem : Nat → Nat → Nat)
    (table : BufferResource) (t : TraceRays) : Prop :=
  recordHoldsGroup mem drv table.Memory table.Size t.raygenShaderBindingOffset
    (firstGroupAt stages groups .RAYGEN_BIT_NV) ∧
  recordHoldsGroup mem drv table.Memory table.Size t.missShaderBindingOffset
    (firstGroupAt stages groups .MISS_BIT_NV) ∧
  recordHoldsGroup mem drv table.Memory table.Size t.hitShaderBindingOffset
    (firstGroupAt stages groups .CLOSEST_HIT_BIT_NV)

/-- Tutorial 07: the table is created, and the offsets of the trace call
address the records of the matching groups. -/
def T07.traceAddressesGroups (drv : Driver) (app : T07.TutorialApplication) (w : World) : Prop :=
  ∃ app1 w1, T07.CreateShaderBindingTable drv app w = .ok app1 w1 ∧
    ∀ width height, regionsAddressGroups drv T07.shaderStages T07.shaderGroups w1.mem
      app1._shaderBindingTable (T07.traceRays drv app1 width height)

/-- Tutorial 10: the table is created, and the offsets of the trace call
address the records of the matching groups. -/
def T10.traceAddressesGroups (drv : Driver) (app : T10.TutorialApplication) (w : World) : Prop :=
  ∃ app1 w1, T10.CreateShaderBindingTable drv app w = .ok app1 w1 ∧
    ∀ width height, regionsAddressGroups drv T10.shaderStages T10.shaderGroups w1.mem
      app1._shaderBindingTable (T10.traceRays drv app1 width height)

/-- Tutorial 11: the table is created, and the offsets of the trace call
address the records of the matching groups. -/
def T11.traceAddressesGroups (drv : Driver) (app : T11.TutorialApplication) (w : World) : Prop :=
  ∃ app1 w1, T11.CreateShaderBindingTable drv app w = .ok app1 w1 ∧
    ∀ width height, regionsAddressGroups drv T11.shaderStages T11.shaderGroups w1.mem
      app1._shaderBindingTable (T11.traceRays drv app1 width height)

/-- Tutorial 10 round trip: the table is created, and for each hit record
`i < 3` the `h` bytes at `raygenSize + missSize + i * hitStride` are the handle
of group 2 and the 16 bytes after them are the four floats `colors[i]`, where
`raygenSize = missSize = h` and `hitStride = h + 16`. -/
def T10.hitRecordsRoundTrip (drv : Driver) (app : T10.TutorialApplication) (w : World) : Prop :=
  let h := drv.shaderGroupHandleSize
  let raygenSize := h
  let missSize := h
  let hitStride := h + 16
  ∃ app1 w1, T10.CreateShaderBindingTable drv app w = .ok app1 w1 ∧
    ∀ i, i < 3 →
      (∀ b, b < h →
        w1.mem app1._shaderBindingTable.Memory (raygenSize + missSize + i * hitStride + b)
          = drv.groupHandle 2 b) ∧
      (∀ j, j < 4 → ∀ k, k < 4 →
        w1.mem app1._shaderBindingTable.Memory
            (raygenSize + missSize + i * hitStride + h + 4 * j + k)
          = wordByte (T10.color i j) k)

/-- Tutorial 10: the three instances carry one bottom-level handle and the
instance offsets 0, 1, 2; the table is created, the stride of the trace call
is `h + 16`, and the hit records the instances address,
`[2h + k (h + 16), 2h + (k + 1) (h + 16))` for `k < 3`, start at
`hitOffset + k * hitStride` of the trace call, lie inside the table and do
not overlap. -/
def T10.instancesAddressDisjointRecords (drv : Driver) (app : T10.TutorialApplication)
    (w : World) : Prop :=
  let h := drv.shaderGroupHandleSize
  (∀ handle, (T10.instances handle).map (fun r => r.accelerationStructureHandle)
        = [handle, handle, handle] ∧
      (T10.instances handle).map (fun r => r.instanceOffset) = [0, 1, 2]) ∧
  ∃ app1 w1, T10.CreateShaderBindingTable drv app w = .ok app1 w1 ∧
    ∀ width height,
      (T10.traceRays drv app1 width height).hitShaderBindingStride = h + 16 ∧
      ∀ k, k < 3 →
        (T10.traceRays drv app1 width height).hitShaderBindingOffset +
            k * (T10.traceRays drv app1 width height).hitShaderBindingStride
          = 2 * h + k * (h + 16) ∧
        2 * h + (k + 1) * (h + 16) ≤ app1._shaderBindingTable.Size ∧
        ∀ k2, k < k2 → k2 < 3 → 2 * h + (k + 1) * (h + 16) ≤ 2 * h + k2 * (h + 16)

/-- The file of the closest-hit shader of shader group `g`. -/
def closestHitFile (stages : List ShaderStage)
    (groups : List VkRayTracingShaderGroupCreateInfoNV) (g : Nat) : Option String :=
  (groups[g]?).bind (fun group => (stages[group.closestHitShader]?).map (fun s => s.file))

/-- Tutorial 11 instance-offset addressing, from the world `w` before the
render objects are created: the five objects are created; their shader
indices are 0, 1, 0, 0, 1 (box, icosahedron, box, box, icosahedron); the
instance loop gives every instance record the shader index of its object as
`instanceOffset`; the table is created with `4h` bytes, and for `k = 0, 1` the
record at `hitTableBase + k * hitStride` (`hitTableBase = 2h`, `hitStride = h`),
which is where the trace call's hit offset and stride lead, lies inside the
table and holds the handle of shader group `2 + k`, whose closest-hit shader
is the box shader for `k = 0` and the icosahedron shader for `k = 1`. -/
def T11.instanceOffsetsSelectHitGroups (drv : Driver) (translation : Nat → ℚ × ℚ × ℚ)
    (app : T11.TutorialApplication) (w : World) : Prop :=
  let h := drv.shaderGroupHandleSize
  ∃ app1 w1, T11.InitObjects drv app w = .ok app1 w1 ∧
    app1._renderObjects.map (fun o => o.shaderIndex) = [0, 1, 0, 0, 1] ∧
    (∀ w2, ∃ records w3,
      forLoop (T11.instanceStep drv translation app1._renderObjects) T11._objectNum 0
          (List.replicate T11._objectNum T11.zeroInstance) w2 = .ok records w3 ∧
        records.map (fun r => r.instanceOffset)
          = app1._renderObjects.map (fun o => o.shaderIndex)) ∧
    (∀ w2, ∃ app2 w3, T11.CreateShaderBindingTable drv app1 w2 = .ok app2 w3 ∧
      app2._shaderBindingTable.Size = 4 * h ∧
      ∀ width height k, k < 2 →
        (T11.traceRays drv app2 width height).hitShaderBindingOffset +
            k * (T11.traceRays drv app2 width height).hitShaderBindingStride
          = 2 * h + k * h ∧
        recordHoldsGroup w3.mem drv app2._shaderBindingTable.Memory
          app2._shaderBindingTable.Size (2 * h + k * h) (some (2 + k))) ∧
    closestHitFile T11.shaderStages T11.shaderGroups 2 = some "rt_11_box.rchit.spv" ∧
    closestHitFile T11.shaderStages T11.shaderGroups 3 = some "rt_11_icosahedron.rchit.spv"

/-- The order raygen, miss, hit of the three region offsets. -/
def raygenMissHit (t : TraceRays) : Prop :=
  t.raygenShaderBindingOffset < t.missShaderBindingOffset ∧
  t.missShaderBindingOffset < t.hitShaderBindingOffset

/-- The order raygen, hit, miss of the three region offsets. -/
def raygenHitMiss (t : TraceRays) : Prop :=
  t.raygenShaderBindingOffset < t.hitShaderBindingOffset ∧
  t.hitShaderBindingOffset < t.missShaderBindingOffset

/-! ## Predicates on recorded commands and driver calls -/

/-- The access mask "acceleration-structure read or write". -/
def accelerationStructureReadWrite : Nat :=
  VK_ACCESS_ACCELERATION_STRUCTURE_WRITE_BIT_NV ||| VK_ACCESS_ACCELERATION_STRUCTURE_READ_BIT_NV

def isBuild : Call → Bool
  | .vkCmdBuildAccelerationStructureNV .. => true
  | _ => false

def isBottomLevelBuild : Call → Bool
  | .vkCmdBuildAccelerationStructureNV _ info _ _ _ _ _ _ _ => decide (info.type = .BOTTOM_LEVEL_NV)
  | _ => false

/-- A pipeline barrier with one memory barrier whose two access masks are
both acceleration-structure read|write. -/
def isReadWriteBarrier : Call → Bool
  | .vkCmdPipelineBarrier _ _ _ [b] =>
    decide (b.srcAccessMask = accelerationStructureReadWrite) &&
    decide (b.dstAccessMask = accelerationStructureReadWrite)
  | _ => false

/-- A build command names `scratch` as its scratch buffer, at offset 0;
every other call satisfies this. -/
def usesScratchAtZero (scratch : Nat) : Call → Prop
  | .vkCmdBuildAccelerationStructureNV _ _ _ _ _ _ _ s o => s = scratch ∧ o = 0
  | _ => True

/-- Every bottom-level build of the list is directly followed by a
read|write barrier. -/
def barrierAfterEachBottomBuild (cmds : List Call) : Prop :=
  ∀ k c, cmds[k]? = some c → isBottomLevelBuild c = true →
    ∃ d, cmds[k + 1]? = some d ∧ isReadWriteBarrier d = true

/-- Every call of the list satisfies `P`. -/
def everyCall (P : Call → Prop) (cmds : List Call) : Prop :=
  ∀ c ∈ cmds, P c

/-- A creation or build info names geometry or instances, never both: a
bottom-level info has `instanceCount = 0` and at least one geometry, a
top-level info has `geometryCount = 0` and a null geometry pointer. -/
def exclusiveInfo (info : VkAccelerationStructureInfoNV) : Prop :=
  ¬ (info.geometryCount ≠ 0 ∧ info.instanceCount ≠ 0) ∧
  (info.type = .BOTTOM_LEVEL_NV → info.instanceCount = 0 ∧ 1 ≤ info.geometryCount) ∧
  (info.type = .TOP_LEVEL_NV → info.geometryCount = 0 ∧ info.pGeometries = none)

/-- The info of a structure-creation call or of a build call is exclusive;
every other call satisfies this. -/
def exclusiveCall : Call → Prop
  | .vkCreateAccelerationStructureNV createInfo => exclusiveInfo createInfo.info
  | .vkCmdBuildAccelerationStructureNV _ info _ _ _ _ _ _ _ => exclusiveInfo info
  | _ => True

/-- Whatever the world before, the program only appends calls to the trace,
and every call it appends satisfies `P` (on every path, the exits included). -/
def Emits {α : Type} (P : Call → Prop) (m : M α) : Prop :=
  ∀ w, ∃ l, (m w).world.calls = w.calls ++ l ∧ everyCall P l

/-! ## Error handling: outcomes and sample failures -/

def VK_ERROR_OUT_OF_DEVICE_MEMORY : VkResult := -2

def VK_ERROR_MEMORY_MAP_FAILED : VkResult := -5

/-- The sample driver with 16-byte handles, except that the call at
`position` of the trace returns `code`. -/
def sampleDriverFailing (position : Nat) (code : VkResult) : Driver :=
  { sampleDriver 16 with result := fun n => if n = position then code else VK_SUCCESS }

def isStructureCreation : Call → Bool
  | .vkCreateAccelerationStructureNV _ => true
  | _ => false

/-- The run returns (the process is not ended), the call at `position` of its
trace is `failed`, and a call accepted by `later` follows it. -/
def continuesAfter {α : Type} (run : Res α) (position : Nat) (failed : Call)
    (later : Call → Bool) : Prop :=
  run.value.isSome = true ∧ run.world.calls[position]? = some failed ∧
  (run.world.calls.drop (position + 1)).any later = true

instance {α : Type} (run : Res α) (position : Nat) (failed : Call) (later : Call → Bool) :
    Decidable (continuesAfter run position failed later) := by
  unfold continuesAfter
  infer_instance

/-- The outcome of a device creation as the specification describes it, from
the code `vkCreateDevice` returned, the device it created and the world after
the call: no exit on success, the text about the missing extension for
`VK_ERROR_EXTENSION_NOT_PRESENT`, the text `vkCreateDevice ErrorCode: <code>`
for every other code. -/
def createDeviceOutcome (code : VkResult) (device : Nat) (w : World) : Res Nat :=
  if code = VK_SUCCESS then .ok device w
  else if code = VK_ERROR_EXTENSION_NOT_PRESENT then
    .stop (.exit (missingExtensionMessage ++ " ErrorCode: -7") 1)
      { w with calls := w.calls ++
          [.LogError (missingExtensionMessage ++ " ErrorCode: -7") false] }
  else
    .stop (.exit ("vkCreateDevice ErrorCode: " ++ ToString code) 1)
      { w with calls := w.calls ++
          [.LogError ("vkCreateDevice ErrorCode: " ++ ToString code) false] }

/-- The bytes of device memory after the `memcpy` calls of a list of calls
have been carried out in order, starting from `mem`; `bytes` gives the object
representation of host data (byte `b` of the source). -/
def copiedBytes (bytes : HostData → Nat → Nat) :
    List Call → (Nat → Nat → Nat) → (Nat → Nat → Nat)
  | [], mem => mem
  | .memcpy memory src size :: rest, mem =>
    copiedBytes bytes rest (fun m a => if m = memory ∧ a < size then bytes src a else mem m a)
  | _ :: rest, mem => copiedBytes bytes rest mem

/-! ## Byte ranges of geometry data -/

/-- The states of an acceleration structure. -/
inductive Lifecycle where
  | Unbuilt
  | MemoryBound
  | Built
  | ShaderVisible
  deriving DecidableEq, Repr

/-- What a scan of the trace has seen: the state of every structure created
so far, by handle and in creation order, and for every handle query the
handle and the state its structure was in when it was queried. -/
structure LifecycleLog where
  structures : List (Nat × Lifecycle)
  queries : List (Nat × Option Lifecycle)
  deriving DecidableEq, Repr

def stateOf : List (Nat × Lifecycle) → Nat → Option Lifecycle
  | [], _ => none
  | (h, s) :: rest, handle => if h = handle then some s else stateOf rest handle

def setState (structures : List (Nat × Lifecycle)) (handle : Nat) (state : Lifecycle) :
    List (Nat × Lifecycle) :=
  structures.map (fun p => if p.1 = handle then (p.1, state) else p)

/-- The effect of the call at `position` of the trace on the log; `none`
when the call breaks the order Unbuilt, MemoryBound, Built, ShaderVisible:
a creation returns a handle that is new and starts it as Unbuilt; a bind moves
an Unbuilt structure to MemoryBound; a build moves a MemoryBound structure to
Built; the barrier from the build stage to the ray-tracing-shader stage moves
every structure, all of them Built, to ShaderVisible; a handle query is
logged with the state of its structure; every other call changes nothing. -/
def lifecycleStep (drv : Driver) (position : Nat) (c : Call) (log : LifecycleLog) :
    Option LifecycleLog :=
  match c with
  | .vkCreateAccelerationStructureNV _ =>
    if stateOf log.structures (drv.handleOut position) = none then
      some { log with structures := log.structures ++ [(drv.handleOut position, .Unbuilt)] }
    else none
  | .vkBindAccelerationStructureMemoryNV s _ _ =>
    if stateOf log.structures s = some .Unbuilt then
      some { log with structures := setState log.structures s .MemoryBound }
    else none
  | .vkCmdBuildAccelerationStructureNV _ _ _ _ _ dst _ _ _ =>
    if stateOf log.structures dst = some .MemoryBound then
      some { log with structures := setState log.structures dst .Built }
    else none
  | .vkCmdPipelineBarrier _ src dst _ =>
    if src = VK_PIPELINE_STAGE_ACCELERATION_STRUCTURE_BUILD_BIT_NV ∧
        dst = VK_PIPELINE_STAGE_RAY_TRACING_SHADER_BIT_NV then
      if log.structures.all (fun p => decide (p.2 = .Built)) then
        some { log with structures := log.structures.map (fun p => (p.1, .ShaderVisible)) }
      else none
    else some log
  | .vkGetAccelerationStructureHandleNV s _ =>
    some { log with queries := log.queries ++ [(s, stateOf log.structures s)] }
  | _ => some log

/-- Scan the calls of a trace in order, the first of them at `position`. -/
def lifecycleScan (drv : Driver) : Nat → List Call → LifecycleLog → Option LifecycleLog
  | _, [], log => some log
  | position, c :: rest, log =>
    (lifecycleStep drv position c log).bind (lifecycleScan drv (position + 1) rest)

/-- The scan of the calls after a step: it goes on from the log the step
gave, and stops when the step broke the order. -/
def lifecycleScanFrom (drv : Driver) (position : Nat) (rest : List Call)
    (log : Option LifecycleLog) : Option LifecycleLog :=
  log.bind (lifecycleScan drv position rest)

/-- The log of the calls a run added to the trace of `w`. -/
def runLog {α : Type} (drv : Driver) (w : World) (run : Res α) : Option LifecycleLog :=
  lifecycleScan drv w.calls.length (run.world.calls.drop w.calls.length) ⟨[], []⟩

/-- The run returns, the order of the life cycle is never broken, `n`
structures are created and every one of them ends ShaderVisible. -/
def completesLifecycles {α : Type} (drv : Driver) (n : Nat) (w : World) (run : Res α) : Prop :=
  run.value.isSome = true ∧
  ∃ log, runLog drv w run = some log ∧ log.structures.length = n ∧
    ∀ p ∈ log.structures, p.2 = .ShaderVisible

/-- The run returns, and each of its `n` handle queries is made on a
structure that is MemoryBound: created and bound, not yet built. -/
def queriesWhenMemoryBound {α : Type} (drv : Driver) (n : Nat) (w : World) (run : Res α) :
    Prop :=
  run.value.isSome = true ∧
  ∃ log, runLog drv w run = some log ∧ log.queries.length = n ∧
    ∀ q ∈ log.queries, q.2 = some .MemoryBound

/-- Every handle query of the run is made on a structure that is built: its
build command recorded (Built) and the final barrier passed (ShaderVisible). -/
def queriesOnlyWhenBuilt {α : Type} (drv : Driver) (w : World) (run : Res α) : Prop :=
  match runLog drv w run with
  | none => False
  | some log => ∀ q ∈ log.queries, q.2 = some .Built ∨ q.2 = some .ShaderVisible

instance {α : Type} (drv : Driver) (w : World) (run : Res α) :
    Decidable (queriesOnlyWhenBuilt drv w run) := by
  unfold queriesOnlyWhenBuilt
  split <;> infer_instance

/-- A call that no life cycle depends on. -/
def lifecycleNeutral : Call → Bool
  | .vkCreateAccelerationStructureNV _ => false
  | .vkBindAccelerationStructureMemoryNV .. => false
  | .vkCmdBuildAccelerationStructureNV .. => false
  | .vkCmdPipelineBarrier .. => false
  | .vkGetAccelerationStructureHandleNV .. => false
  | _ => true

/-- The calls `Cleanup` makes for a buffer resource. -/
def cleanupCalls (self : BufferResource) : List Call :=
  (if self.Buffer ≠ VK_NULL_HANDLE then [.vkDestroyBuffer self.Buffer] else []) ++
  (if self.Memory ≠ VK_NULL_HANDLE then [.vkFreeMemory self.Memory] else [])

namespace T11

/-- The first two steps of `Init` after `InitRayTracing`: the five objects,
then the acceleration structures. -/
def InitAccelerationStructures (drv : Driver) (translation : Nat → ℚ × ℚ × ℚ)
    (app : TutorialApplication) : M TutorialApplication := do
  let app ← InitObjects drv app
  CreateAccelerationStructures drv translation app

end T11

/-- From the world `w`, with the log `log` of the calls before it, the
program returns, the scan of the calls it adds succeeds, and `Q` holds of the
value, the world and the log after it. -/
def Scans {α : Type} (drv : Driver) (m : M α) (w : World) (log : LifecycleLog)
    (Q : α → World → LifecycleLog → Prop) : Prop :=
  ∃ a w1 l log1, m w = .ok a w1 ∧ w1.calls = w.calls ++ l ∧
    lifecycleScan drv w.calls.length l log = some log1 ∧ Q a w1 log1

/-- Every structure of the log has a handle that a call before the end of the
trace of `w` returned. -/
def FreshLog (drv : Driver) (log : LifecycleLog) (w : World) : Prop :=
  ∀ p ∈ log.structures, ∃ q, q < w.calls.length ∧ p.1 = drv.handleOut q

/-- The log at the end of a set-up: `n` structures, all ShaderVisible, and
`k` handle queries, all made on a MemoryBound structure. -/
def lifecycleDone (n k : Nat) (log : LifecycleLog) : Prop :=
  log.structures.map Prod.snd = List.replicate n .ShaderVisible ∧
  log.queries.map Prod.snd = List.replicate k (some .MemoryBound)

/-! ## The layout of the instance record -/

/-- A member of a record as its declaration gives it: an array of `count`
elements of `elementSize` bytes, a bit-field of `width` bits of a `uint32_t`,
or a scalar of `size` bytes. -/
inductive Member where
  | array (elementSize count : Nat)
  | bitField (width : Nat)
  | scalar (size : Nat)
  deriving DecidableEq, Repr

/-- Where a member lies: the byte offset of its storage, and for a bit-field
its first bit in the 32-bit unit at that offset and its width. -/
structure Placement where
  byteOffset : Nat
  shift : Nat
  width : Nat
  deriving DecidableEq, Repr

/-- Round `offset` up to a multiple of `alignment`. -/
def alignUp (offset alignment : Nat) : Nat :=
  (offset + alignment - 1) / alignment * alignment

/-- The layout of a record on the x86-64 targets of the tutorials: members in
declaration order, each aligned to its element size; consecutive bit-fields of
`uint32_t` share a 32-bit unit while they fit, the first one in the low bits.
The state is the offset of the next free byte and, while a bit-field unit is
open, its offset and the number of bits used. -/
def layoutFrom : Nat → Option (Nat × Nat) → List Member → List Placement
  | _, _, [] => []
  | next, _, .array elementSize count :: rest =>
    ⟨alignUp next elementSize, 0, 8 * elementSize * count⟩ ::
      layoutFrom (alignUp next elementSize + elementSize * count) none rest
  | next, _, .scalar size :: rest =>
    ⟨alignUp next size, 0, 8 * size⟩ :: layoutFrom (alignUp next size + size) none rest
  | next, some (unit, used), .bitField width :: rest =>
    if used + width ≤ 32 then
      ⟨unit, used, width⟩ :: layoutFrom next (some (unit, used + width)) rest
    else
      ⟨alignUp next 4, 0, width⟩ :: layoutFrom (alignUp next 4 + 4) (some (alignUp next 4, width)) rest
  | next, none, .bitField width :: rest =>
    ⟨alignUp next 4, 0, width⟩ :: layoutFrom (alignUp next 4 + 4) (some (alignUp next 4, width)) rest

/-- The first byte after the members. -/
def endFrom : Nat → Option (Nat × Nat) → List Member → Nat
  | next, _, [] => next
  | next, _, .array elementSize count :: rest =>
    endFrom (alignUp next elementSize + elementSize * count) none rest
  | next, _, .scalar size :: rest => endFrom (alignUp next size + size) none rest
  | next, some (unit, used), .bitField width :: rest =>
    if used + width ≤ 32 then endFrom next (some (unit, used + width)) rest
    else endFrom (alignUp next 4 + 4) (some (alignUp next 4, width)) rest
  | next, none, .bitField width :: rest =>
    endFrom (alignUp next 4 + 4) (some (alignUp next 4, width)) rest

/-- The alignment of a record: the largest alignment of a member. -/
def alignmentOf (members : List Member) : Nat :=
  members.foldl (fun a m =>
    match m with
    | .array elementSize _ => max a elementSize
    | .bitField _ => max a 4
    | .scalar size => max a size) 1

/-- The value of `sizeof` for a record with these members. -/
def sizeofRecord (members : List Member) : Nat :=
  alignUp (endFrom 0 none members) (alignmentOf members)

/-- The members of `struct VkGeometryInstance` (RaytracingApplication.h):
`transform`, `instanceId`, `mask`, `instanceOffset`, `flags`,
`accelerationStructureHandle`. -/
def VkGeometryInstance.members : List Member :=
  [.array 4 12, .bitField 24, .bitField 8, .bitField 24, .bitField 8, .scalar 8]

/-- An assignment to a bit-field: the bits of the unit at the field are
replaced by the value truncated to the width of the field. -/
def Placement.store (field : Placement) (unit value : Nat) : Nat :=
  unit - (unit / 2 ^ field.shift % 2 ^ field.width) * 2 ^ field.shift
    + (value % 2 ^ field.width) * 2 ^ field.shift

/-- A read of a bit-field. -/
def Placement.load (field : Placement) (unit : Nat) : Nat :=
  unit / 2 ^ field.shift % 2 ^ field.width

/-! ## Cleanup of image and shader resources -/

/-- The method `ImageResource::Cleanup`. -/
def T11.ImageResource.Cleanup (self : T11.ImageResource) : M T11.ImageResource := do
  let self1 ← (if self.ImageView ≠ VK_NULL_HANDLE then do
      let _ ← call (.vkDestroyImageView self.ImageView)
      pure { self with ImageView := VK_NULL_HANDLE }
    else pure self)
  let self2 ← (if self1.Memory ≠ VK_NULL_HANDLE then do
      let _ ← call (.vkFreeMemory self1.Memory)
      pure { self1 with Memory := VK_NULL_HANDLE }
    else pure self1)
  let self3 ← (if self2.Image ≠ VK_NULL_HANDLE then do
      let _ ← call (.vkDestroyImage self2.Image)
      pure { self2 with Image := VK_NULL_HANDLE }
    else pure self2)
  if self3.Sampler ≠ VK_NULL_HANDLE then do
    let _ ← call (.vkDestroySampler self3.Sampler)
    pure { self3 with Sampler := VK_NULL_HANDLE }
  else pure self3

/-- The method `ShaderResource::Cleanup`. -/
def ShaderResource.Cleanup (self : ShaderResource) : M ShaderResource := do
  if self._module ≠ VK_NULL_HANDLE then do
    let _ ← call (.vkDestroyShaderModule self._module)
    pure { self with _module := VK_NULL_HANDLE }
  else pure self

/-- The destructor `~BufferResource`: it calls `Cleanup`. -/
def BufferResource.destructor (self : BufferResource) : M BufferResource := self.Cleanup

/-- The destructor `~ImageResource`: it calls `Cleanup`. -/
def T11.ImageResource.destructor (self : T11.ImageResource) : M T11.ImageResource :=
  self.Cleanup

/-- The destructor `~ShaderResource`: it calls `Cleanup`. -/
def ShaderResource.destructor (self : ShaderResource) : M ShaderResource := self.Cleanup

/-- The calls a run adds to the trace of `w`. -/
def newCalls {α : Type} (w : World) (run : Res α) : List Call :=
  run.world.calls.drop w.calls.length

/-! ## Teardown -/

/-- The statement `if (handle) { vkDestroy...(_device, handle, nullptr); }`. -/
def destroyIfSet (handle : Nat) (destroy : Nat → Call) : M Unit :=
  if handle ≠ VK_NULL_HANDLE then do
    let _ ← call (destroy handle)
    pure ()
  else pure ()

/-- The calls of `destroyIfSet`: the destroying call when the handle is set. -/
def releaseIfSet (handle : Nat) (destroy : Nat → Call) : List Call :=
  if handle ≠ VK_NULL_HANDLE then [destroy handle] else []

/-- The calls `Cleanup` makes for an image resource. -/
def T11.ImageResource.cleanupCalls (self : T11.ImageResource) : List Call :=
  releaseIfSet self.ImageView .vkDestroyImageView ++ releaseIfSet self.Memory .vkFreeMemory ++
  releaseIfSet self.Image .vkDestroyImage ++ releaseIfSet self.Sampler .vkDestroySampler

/-- The macro `NVVK_RESOLVE_DEVICE_FUNCTION_ADDRESS`: the address the driver
returns is the handle of the call; a null address is fatal. -/
def NVVK_RESOLVE_DEVICE_FUNCTION_ADDRESS (drv : Driver) (device : Nat) (funcName : String) :
    M Unit := do
  let n ← call (.vkGetDeviceProcAddr device funcName)
  if drv.handleOut n = 0 then
    ExitError ("Can't get device function address: " ++ funcName) false
  else pure ()

/-- The macro `NVVK_RESOLVE_INSTANCE_FUNCTION_ADDRESS`. -/
def NVVK_RESOLVE_INSTANCE_FUNCTION_ADDRESS (drv : Driver) (vkInstance : Nat)
    (funcName : String) : M Unit := do
  let n ← call (.vkGetInstanceProcAddr vkInstance funcName)
  if drv.handleOut n = 0 then
    ExitError ("Can't get instance function address: " ++ funcName) false
  else pure ()

/-- Run `f` on the elements of a list in order, as a range-based `for` over a
container of resources does. -/
def forEach {α : Type} (f : α → M α) : List α → M (List α)
  | [] => pure []
  | a :: rest => do
    let a1 ← f a
    let rest1 ← forEach f rest
    pure (a1 :: rest1)

/-- The members of `class Application` that its destructor reads. -/
structure Application where
  _instance : Nat := VK_NULL_HANDLE
  _device : Nat := VK_NULL_HANDLE
  _debugReportCallback : Nat := VK_NULL_HANDLE
  _surface : Nat := VK_NULL_HANDLE
  _swapchain : Nat := VK_NULL_HANDLE
  _swapchainImageViews : List Nat := []
  _offsreenImageResource : T11.ImageResource := {}
  _commandPool : Nat := VK_NULL_HANDLE
  _commandBuffers : List Nat := []
  _imageAcquiredSemaphore : Nat := VK_NULL_HANDLE
  _renderFinishedSemaphore : Nat := VK_NULL_HANDLE
  _frameReadinessFences : List Nat := []

/-- The destructor `Application::~Application`. -/
def Application.destructor (drv : Driver) (self : Application) : M Application := do
  destroyIfSet self._renderFinishedSemaphore .vkDestroySemaphore
  destroyIfSet self._imageAcquiredSemaphore .vkDestroySemaphore
  let _ ← call (.vkFreeCommandBuffers self._commandBuffers)
  destroyIfSet self._commandPool .vkDestroyCommandPool
  let offscreen ← self._offsreenImageResource.Cleanup
  issue (self._frameReadinessFences.map .vkDestroyFence)
  issue ((self._swapchainImageViews.filter (fun v => v ≠ VK_NULL_HANDLE)).map
    .vkDestroyImageView)
  (if self._swapchain ≠ VK_NULL_HANDLE then do
    NVVK_RESOLVE_DEVICE_FUNCTION_ADDRESS drv self._device "vkDestroySwapchainKHR"
    let _ ← call (.vkDestroySwapchainKHR self._swapchain)
    pure ()
  else pure ())
  destroyIfSet self._surface .vkDestroySurfaceKHR
  (if self._debugReportCallback ≠ VK_NULL_HANDLE then do
    NVVK_RESOLVE_INSTANCE_FUNCTION_ADDRESS drv self._instance "vkDestroyDebugReportCallbackEXT"
    let _ ← call (.vkDestroyDebugReportCallbackEXT self._debugReportCallback)
    pure ()
  else pure ())
  destroyIfSet self._device .vkDestroyDevice
  destroyIfSet self._instance .vkDestroyInstance
  pure { self with _offsreenImageResource := offscreen, _frameReadinessFences := [] }

/-- The destruction of the base-class part of an application object: the body
of `~Application`, then the destructors of its members; `_offsreenImageResource`
is the only member whose destructor makes calls. -/
def Application.destroy (drv : Driver) (self : Application) : M Application := do
  let self ← self.destructor drv
  let offscreen ← self._offsreenImageResource.destructor
  pure { self with _offsreenImageResource := offscreen }

namespace T07

/-- The destructor `TutorialApplication::~TutorialApplication`. -/
def TutorialApplication.destructor (app : TutorialApplication) : M TutorialApplication := do
  destroyIfSet app._topAS .vkDestroyAccelerationStructureNV
  destroyIfSet app._topASMemory .vkFreeMemory
  issue ((app._bottomAS.filter (fun a => a ≠ VK_NULL_HANDLE)).map
    .vkDestroyAccelerationStructureNV)
  issue ((app._bottomASMemory.filter (fun m => m ≠ VK_NULL_HANDLE)).map .vkFreeMemory)
  destroyIfSet app._rtDescriptorPool .vkDestroyDescriptorPool
  let table ← app._shaderBindingTable.Cleanup
  destroyIfSet app._rtPipeline .vkDestroyPipeline
  destroyIfSet app._rtPipelineLayout .vkDestroyPipelineLayout
  destroyIfSet app._rtDescriptorSetLayout .vkDestroyDescriptorSetLayout
  pure { app with _shaderBindingTable := table }

/-- The destruction of the application object at the end of `RunApplication`:
the body of `~TutorialApplication`, the destructors of its members
(`_shaderBindingTable` is the only one with a destructor that makes calls),
then the base class. -/
def teardown (drv : Driver) (app : TutorialApplication) (base : Application) :
    M (TutorialApplication × Application) := do
  let app ← app.destructor
  let table ← app._shaderBindingTable.destructor
  let base ← base.destroy drv
  pure ({ app with _shaderBindingTable := table }, base)

end T07

namespace T10

/-- The destructor `TutorialApplication::~TutorialApplication`. -/
def TutorialApplication.destructor (app : TutorialApplication) : M TutorialApplication := do
  destroyIfSet app._topAS .vkDestroyAccelerationStructureNV
  destroyIfSet app._topASMemory .vkFreeMemory
  destroyIfSet app._bottomAS .vkDestroyAccelerationStructureNV
  destroyIfSet app._bottomASMemory .vkFreeMemory
  destroyIfSet app._rtDescriptorPool .vkDestroyDescriptorPool
  let table ← app._shaderBindingTable.Cleanup
  destroyIfSet app._rtPipeline .vkDestroyPipeline
  destroyIfSet app._rtPipelineLayout .vkDestroyPipelineLayout
  destroyIfSet app._rtDescriptorSetLayout .vkDestroyDescriptorSetLayout
  let uniformBuffers ← forEach BufferResource.Cleanup app._uniformBuffers
  pure { app with _shaderBindingTable := table, _uniformBuffers := uniformBuffers }

/-- The destruction of the application object: the body of the destructor,
the destructors of the members in reverse order of declaration (the elements
of `_uniformBuffers` from the last to the first, then `_shaderBindingTable`),
then the base class. -/
def teardown (drv : Driver) (app : TutorialApplication) (base : Application) :
    M (TutorialApplication × Application) := do
  let app ← app.destructor
  let uniformBuffers ← forEach BufferResource.destructor app._uniformBuffers.reverse
  let table ← app._shaderBindingTable.destructor
  let base ← base.destroy drv
  pure ({ app with _uniformBuffers := uniformBuffers.reverse, _shaderBindingTable := table },
        base)

end T10

namespace T11

/-- The body of the loop `for (auto& object : _renderObjects)` of the
destructor. -/
def RenderObject.release (object : RenderObject) : M RenderObject := do
  destroyIfSet object.bottomAS .vkDestroyAccelerationStructureNV
  destroyIfSet object.bottomASMemory .vkFreeMemory
  let vertexBuffers ← forEach BufferResource.Cleanup object.vertexBuffers
  let indexBuffer ← object.indexBuffer.Cleanup
  let indexBufferCopy ← object.indexBufferCopy.Cleanup
  let uniformBuffer ← object.uniformBuffer.Cleanup
  let texture ← object.texture.Cleanup
  pure { object with vertexBuffers := vertexBuffers, indexBuffer := indexBuffer,
                     indexBufferCopy := indexBufferCopy, uniformBuffer := uniformBuffer,
                     texture := texture }

/-- The implicit destructor of `struct RenderObject`: the destructors of the
members in reverse order of declaration. -/
def RenderObject.destructor (object : RenderObject) : M RenderObject := do
  let texture ← object.texture.destructor
  let uniformBuffer ← object.uniformBuffer.destructor
  let indexBufferCopy ← object.indexBufferCopy.destructor
  let indexBuffer ← object.indexBuffer.destructor
  let vertexBuffers ← forEach BufferResource.destructor object.vertexBuffers.reverse
  pure { object with vertexBuffers := vertexBuffers.reverse, indexBuffer := indexBuffer,
                     indexBufferCopy := indexBufferCopy, uniformBuffer := uniformBuffer,
                     texture := texture }

/-- The destructor `TutorialApplication::~TutorialApplication`. -/
def TutorialApplication.destructor (app : TutorialApplication) : M TutorialApplication := do
  destroyIfSet app._topAS .vkDestroyAccelerationStructureNV
  destroyIfSet app._topASMemory .vkFreeMemory
  issue (app._vertexBufferViews.map .vkDestroyBufferView)
  issue (app._indexBufferViews.map .vkDestroyBufferView)
  let objects ← forEach RenderObject.release app._renderObjects
  destroyIfSet app._rtDescriptorPool .vkDestroyDescriptorPool
  let table ← app._shaderBindingTable.Cleanup
  destroyIfSet app._rtPipeline .vkDestroyPipeline
  destroyIfSet app._rtPipelineLayout .vkDestroyPipelineLayout
  issue (app._rtDescriptorSetLayouts.map .vkDestroyDescriptorSetLayout)
  pure { app with _renderObjects := objects, _shaderBindingTable := table }

/-- The destruction of the application object: the body of the destructor,
the destructors of the members in reverse order of declaration (the render
objects from the last to the first, then `_shaderBindingTable`), then the base
class. -/
def teardown (drv : Driver) (app : TutorialApplication) (base : Application) :
    M (TutorialApplication × Application) := do
  let app ← app.destructor
  let objects ← forEach RenderObject.destructor app._renderObjects.reverse
  let table ← app._shaderBindingTable.destructor
  let base ← base.destroy drv
  pure ({ app with _renderObjects := objects.reverse, _shaderBindingTable := table }, base)

end T11

/-- In `calls` the call `first` is made and, later, the call `second`. -/
def comesBefore (calls : List Call) (first second : Call) : Prop :=
  ∃ l1 l2 l3, calls = l1 ++ first :: (l2 ++ second :: l3)

/-- The call `vkDestroyDevice`. -/
def isDestroyDevice : Call → Bool
  | .vkDestroy .DEVICE _ => true
  | _ => false

/-- A call that releases an object of the device: a buffer, memory, command
buffers, or an object destroyed with the device as owner. -/
def isDeviceRelease : Call → Bool
  | .vkDestroyBuffer _ | .vkFreeMemory _ | .vkFreeCommandBuffers _ => true
  | .vkDestroy objectType _ =>
    decide (objectType ≠ .DEVICE ∧ objectType ≠ .INSTANCE ∧ objectType ≠ .SURFACE_KHR ∧
      objectType ≠ .DEBUG_REPORT_CALLBACK_EXT)
  | _ => false

/-- From the first `vkDestroyDevice` on, no object of the device is released. -/
def releasesBeforeDevice (calls : List Call) : Bool :=
  (calls.dropWhile (fun c => !isDestroyDevice c)).all (fun c => !isDeviceRelease c)

/-- On every path the program only appends calls to the trace, from the first
`vkDestroyDevice` on it releases no object of the device, and a value it
returns satisfies `Q`. -/
def TearsDown {α : Type} (Q : α → Prop) (m : M α) : Prop :=
  ∀ w, ∃ l, (m w).world.calls = w.calls ++ l ∧ releasesBeforeDevice l = true ∧
    ∀ a w1, m w = .ok a w1 → Q a

namespace T07

/-- The calls of `~TutorialApplication`, in order: one for every handle that is
set. -/
def releases (app : TutorialApplication) : List Call :=
  releaseIfSet app._topAS .vkDestroyAccelerationStructureNV ++
  releaseIfSet app._topASMemory .vkFreeMemory ++
  (app._bottomAS.filter (fun a => a ≠ VK_NULL_HANDLE)).map .vkDestroyAccelerationStructureNV ++
  (app._bottomASMemory.filter (fun m => m ≠ VK_NULL_HANDLE)).map .vkFreeMemory ++
  releaseIfSet app._rtDescriptorPool .vkDestroyDescriptorPool ++
  cleanupCalls app._shaderBindingTable ++
  releaseIfSet app._rtPipeline .vkDestroyPipeline ++
  releaseIfSet app._rtPipelineLayout .vkDestroyPipelineLayout ++
  releaseIfSet app._rtDescriptorSetLayout .vkDestroyDescriptorSetLayout

/-- The teardown releases the objects of the tutorial first and in the order
of `releases` (the calls of the base class follow), every structure that has
memory is destroyed before that memory is freed, and nothing of the device is
released once `vkDestroyDevice` is called. -/
def teardownInOrder (drv : Driver) (app : TutorialApplication) (base : Application)
    (w : World) : Prop :=
  (∃ rest, newCalls w (teardown drv app base w) = releases app ++ rest) ∧
  (∀ c ∈ releases app, isDeviceRelease c = true) ∧
  releasesBeforeDevice (newCalls w (teardown drv app base w)) = true ∧
  (app._topAS ≠ VK_NULL_HANDLE → app._topASMemory ≠ VK_NULL_HANDLE →
    comesBefore (newCalls w (teardown drv app base w))
      (.vkDestroyAccelerationStructureNV app._topAS) (.vkFreeMemory app._topASMemory)) ∧
  (∀ (i a m : Nat), app._bottomAS[i]? = some a → app._bottomASMemory[i]? = some m →
    a ≠ VK_NULL_HANDLE → m ≠ VK_NULL_HANDLE →
    comesBefore (newCalls w (teardown drv app base w))
      (.vkDestroyAccelerationStructureNV a) (.vkFreeMemory m))

end T07

namespace T10

/-- The calls of `~TutorialApplication`, in order; the last are those of the
loop over `_uniformBuffers`, from the first buffer to the last. -/
def releases (app : TutorialApplication) : List Call :=
  releaseIfSet app._topAS .vkDestroyAccelerationStructureNV ++
  releaseIfSet app._topASMemory .vkFreeMemory ++
  releaseIfSet app._bottomAS .vkDestroyAccelerationStructureNV ++
  releaseIfSet app._bottomASMemory .vkFreeMemory ++
  releaseIfSet app._rtDescriptorPool .vkDestroyDescriptorPool ++
  cleanupCalls app._shaderBindingTable ++
  releaseIfSet app._rtPipeline .vkDestroyPipeline ++
  releaseIfSet app._rtPipelineLayout .vkDestroyPipelineLayout ++
  releaseIfSet app._rtDescriptorSetLayout .vkDestroyDescriptorSetLayout ++
  (app._uniformBuffers.map cleanupCalls).flatten

/-- The property `teardownInOrder` for tutorial 10. -/
def teardownInOrder (drv : Driver) (app : TutorialApplication) (base : Application)
    (w : World) : Prop :=
  (∃ rest, newCalls w (teardown drv app base w) = releases app ++ rest) ∧
  (∀ c ∈ releases app, isDeviceRelease c = true) ∧
  releasesBeforeDevice (newCalls w (teardown drv app base w)) = true ∧
  (app._topAS ≠ VK_NULL_HANDLE → app._topASMemory ≠ VK_NULL_HANDLE →
    comesBefore (newCalls w (teardown drv app base w))
      (.vkDestroyAccelerationStructureNV app._topAS) (.vkFreeMemory app._topASMemory)) ∧
  (app._bottomAS ≠ VK_NULL_HANDLE → app._bottomASMemory ≠ VK_NULL_HANDLE →
    comesBefore (newCalls w (teardown drv app base w))
      (.vkDestroyAccelerationStructureNV app._bottomAS) (.vkFreeMemory app._bottomASMemory))

end T10

namespace T11

/-- The calls of one pass of the loop over `_renderObjects`. -/
def RenderObject.releases (object : RenderObject) : List Call :=
  releaseIfSet object.bottomAS .vkDestroyAccelerationStructureNV ++
  releaseIfSet object.bottomASMemory .vkFreeMemory ++
  (object.vertexBuffers.map cleanupCalls).flatten ++
  cleanupCalls object.indexBuffer ++
  cleanupCalls object.indexBufferCopy ++
  cleanupCalls object.uniformBuffer ++
  object.texture.cleanupCalls

/-- The calls of `~TutorialApplication`, in order. -/
def releases (app : TutorialApplication) : List Call :=
  releaseIfSet app._topAS .vkDestroyAccelerationStructureNV ++
  releaseIfSet app._topASMemory .vkFreeMemory ++
  app._vertexBufferViews.map .vkDestroyBufferView ++
  app._indexBufferViews.map .vkDestroyBufferView ++
  (app._renderObjects.map RenderObject.releases).flatten ++
  releaseIfSet app._rtDescriptorPool .vkDestroyDescriptorPool ++
  cleanupCalls app._shaderBindingTable ++
  releaseIfSet app._rtPipeline .vkDestroyPipeline ++
  releaseIfSet app._rtPipelineLayout .vkDestroyPipelineLayout ++
  app._rtDescriptorSetLayouts.map .vkDestroyDescriptorSetLayout

/-- The property `teardownInOrder` for tutorial 11. -/
def teardownInOrder (drv : Driver) (app : TutorialApplication) (base : Application)
    (w : World) : Prop :=
  (∃ rest, newCalls w (teardown drv app base w) = releases app ++ rest) ∧
  (∀ c ∈ releases app, isDeviceRelease c = true) ∧
  releasesBeforeDevice (newCalls w (teardown drv app base w)) = true ∧
  (app._topAS ≠ VK_NULL_HANDLE → app._topASMemory ≠ VK_NULL_HANDLE →
    comesBefore (newCalls w (teardown drv app base w))
      (.vkDestroyAccelerationStructureNV app._topAS) (.vkFreeMemory app._topASMemory)) ∧
  (∀ object ∈ app._renderObjects,
    object.bottomAS ≠ VK_NULL_HANDLE → object.bottomASMemory ≠ VK_NULL_HANDLE →
    comesBefore (newCalls w (teardown drv app base w))
      (.vkDestroyAccelerationStructureNV object.bottomAS) (.vkFreeMemory object.bottomASMemory))

end T11

/-! ## Runs and what they add to the trace -/

/-- From the world `w` the program returns, and `Q` holds of its value, of the
world it ends in and of the calls it added to the trace. -/
def Runs {α : Type} (m : M α) (w : World) (Q : α → World → List Call → Prop) : Prop :=
  ∃ a w1 l, m w = .ok a w1 ∧ w1.calls = w.calls ++ l ∧ Q a w1 l

/-! ## Writes to the shader binding table -/

/-- The bytes of host-visible memory a call writes: the memory, the first
byte and the number of bytes.  The driver writes `groupCount` handles of
`shaderGroupHandleSize` bytes each. -/
def writtenRange (drv : Driver) : Call → Option (Nat × Nat × Nat)
  | .vkGetRayTracingShaderGroupHandlesNV _ groupCount _ (some p) =>
    some (p.1, p.2, groupCount * drv.shaderGroupHandleSize)
  | .hostStore memory offset size => some (memory, offset, size)
  | _ => none

/-- The writes of a list of calls, in order. -/
def writtenRanges (drv : Driver) (calls : List Call) : List (Nat × Nat × Nat) :=
  calls.filterMap (writtenRange drv)

/-- The writes go to `memory` and are back to back: the first starts at
`cursor`, each one starts where the one before it ended, and the last ends at
`stop`. -/
def backToBack (memory : Nat) : Nat → List (Nat × Nat × Nat) → Nat → Prop
  | cursor, [], stop => cursor = stop
  | cursor, (m, first, count) :: rest, stop =>
    m = memory ∧ first = cursor ∧ backToBack memory (cursor + count) rest stop

/-- Tutorial 10: when the table is created, the writes to it are back to back
from byte 0 to the size of the table, which is `2h + 3 * (h + 16)`; they are
the two handles of the first call, then three times a handle and four floats. -/
def T10.tableWrittenBackToBack (drv : Driver) (app : T10.TutorialApplication) (w : World) :
    Prop :=
  Runs (T10.CreateShaderBindingTable drv app) w (fun app1 _ l =>
    app1._shaderBindingTable.Size = T10.shaderBindingTableSize drv ∧
    T10.shaderBindingTableSize drv
      = 2 * drv.shaderGroupHandleSize + 3 * (drv.shaderGroupHandleSize + 16) ∧
    (writtenRanges drv l).map (fun r => r.2.2)
      = [2 * drv.shaderGroupHandleSize,
         drv.shaderGroupHandleSize, 4, 4, 4, 4,
         drv.shaderGroupHandleSize, 4, 4, 4, 4,
         drv.shaderGroupHandleSize, 4, 4, 4, 4] ∧
    backToBack app1._shaderBindingTable.Memory 0 (writtenRanges drv l)
      (T10.shaderBindingTableSize drv) ∧
    ∀ r ∈ writtenRanges drv l, r.2.1 + r.2.2 ≤ T10.shaderBindingTableSize drv)

/-! ## Creation infos and build infos -/

/-- The structure a call creates: the handle the driver returns and the info
of the creation; `position` is the position of the call. -/
def creationInfo (drv : Driver) (position : Nat) :
    Call → Option (Nat × VkAccelerationStructureInfoNV)
  | .vkCreateAccelerationStructureNV createInfo => some (drv.handleOut position, createInfo.info)
  | _ => none

/-- The structures the calls create, in order; `position` is the position of
the first call. -/
def creationInfos (drv : Driver) : Nat → List Call → List (Nat × VkAccelerationStructureInfoNV)
  | _, [] => []
  | position, c :: rest =>
    (creationInfo drv position c).toList ++ creationInfos drv (position + 1) rest

/-- The structure a call builds: the destination and the info of the build. -/
def buildInfo : Call → Option (Nat × VkAccelerationStructureInfoNV)
  | .vkCmdBuildAccelerationStructureNV _ info _ _ _ dst _ _ _ => some (dst, info)
  | _ => none

/-- The structures the calls build, in order. -/
def buildInfos (calls : List Call) : List (Nat × VkAccelerationStructureInfoNV) :=
  calls.filterMap buildInfo

/-- The fields of an info that a build shares with the creation; the geometry list is the
`geometryCount` geometries at `pGeometries`. -/
def infoFields (info : VkAccelerationStructureInfoNV) :
    VkAccelerationStructureTypeNV × Nat × Nat × Nat × List VkGeometryNV :=
  (info.type, info.flags, info.instanceCount, info.geometryCount,
    (info.pGeometries.getD []).take info.geometryCount)

/-- The run returns, it creates `n` structures, and it builds every one of
them, in the order of their creation, each with an info that has the fields
of the info it was created with. -/
def buildsMatchCreations {α : Type} (drv : Driver) (n : Nat) (m : M α) (w : World) : Prop :=
  Runs m w (fun _ _ l =>
    (creationInfos drv w.calls.length l).length = n ∧
    (buildInfos l).map (fun b => (b.1, infoFields b.2))
      = (creationInfos drv w.calls.length l).map (fun c => (c.1, infoFields c.2)))

/-! ## Indices of a geometry -/

/-- The indices a geometry reads from an index buffer holding `indices`, each
of `indexSize` bytes: `indexCount` of them from byte `indexOffset`. -/
def geometryIndices (indexSize : Nat) (indices : List Nat) (g : VkGeometryNV) : List Nat :=
  (indices.drop (g.triangles.indexOffset / indexSize)).take g.triangles.indexCount

/-- The index buffer holds all the indices of the geometry, every one of them
is the number of one of its `vertexCount` vertices, and `indexCount` is a
multiple of 3 that fits in 16 bits. -/
def indicesAddressVertices (indexSize : Nat) (indices : List Nat) (g : VkGeometryNV) : Prop :=
  (geometryIndices indexSize indices g).length = g.triangles.indexCount ∧
  (∀ i ∈ geometryIndices indexSize indices g, i < g.triangles.vertexCount) ∧
  g.triangles.indexCount % 3 = 0 ∧ g.triangles.indexCount < 2 ^ 16

instance (indexSize : Nat) (indices : List Nat) (g : VkGeometryNV) :
    Decidable (indicesAddressVertices indexSize indices g) := by
  unfold indicesAddressVertices
  infer_instance

/-! ## The choice of a memory type -/

/-- Memory type `i` suits a request: bit `i` of `memoryTypeBits` is set and
the property flags of the type contain every requested property bit. -/
def memoryTypeSuits (drv : Driver) (memoryRequiriments : VkMemoryRequirements)
    (memoryProperties i : Nat) : Prop :=
  memoryRequiriments.memoryTypeBits.testBit i = true ∧
  ∀ b, memoryProperties.testBit b = true → (drv.memoryTypeFlags i).testBit b = true

/-! ## Index texels -/

/-- Remove every fourth element of a list. -/
def dropEveryFourth : List Nat → List Nat
  | a :: b :: c :: _ :: rest => a :: b :: c :: dropEveryFourth rest
  | rest => rest

/-! ## Tutorial 11: descriptor counts and uniform contents -/

def VK_DESCRIPTOR_TYPE_COMBINED_IMAGE_SAMPLER : Nat := 1
def VK_DESCRIPTOR_TYPE_STORAGE_IMAGE : Nat := 3
def VK_DESCRIPTOR_TYPE_UNIFORM_TEXEL_BUFFER : Nat := 4
def VK_DESCRIPTOR_TYPE_UNIFORM_BUFFER : Nat := 6
def VK_DESCRIPTOR_TYPE_ACCELERATION_STRUCTURE_NV : Nat := 1000165000
def VK_DESCRIPTOR_BINDING_VARIABLE_DESCRIPTOR_COUNT_BIT_EXT : Nat := 0x8

namespace T11

/-- The function `TutorialApplication::CreateDescriptorSetLayouts`: four
layouts; the last binding of each has a variable descriptor count, of which
`descriptorCount` is the upper bound. -/
def CreateDescriptorSetLayouts (drv : Driver) (app : TutorialApplication) :
    M TutorialApplication := do
  let accelerationStructureLayoutBinding : VkDescriptorSetLayoutBinding :=
    ⟨0, VK_DESCRIPTOR_TYPE_ACCELERATION_STRUCTURE_NV, 1, .RAYGEN_BIT_NV⟩
  let outputImageLayoutBinding : VkDescriptorSetLayoutBinding :=
    ⟨1, VK_DESCRIPTOR_TYPE_STORAGE_IMAGE, 1, .RAYGEN_BIT_NV⟩
  let uniformBufferLayoutBinding : VkDescriptorSetLayoutBinding :=
    ⟨2, VK_DESCRIPTOR_TYPE_UNIFORM_BUFFER, _objectNum, .CLOSEST_HIT_BIT_NV⟩
  let l0 ← call (.vkCreateDescriptorSetLayout
    [accelerationStructureLayoutBinding, outputImageLayoutBinding, uniformBufferLayoutBinding]
    [0, 0, VK_DESCRIPTOR_BINDING_VARIABLE_DESCRIPTOR_COUNT_BIT_EXT])
  NVVK_CHECK_ERROR (drv.result l0) "vkCreateDescriptorSetLayout"
  let app := { app with _rtDescriptorSetLayouts := app._rtDescriptorSetLayouts.set 0 (drv.handleOut l0) }
  let texelBufferBinding : VkDescriptorSetLayoutBinding :=
    ⟨0, VK_DESCRIPTOR_TYPE_UNIFORM_TEXEL_BUFFER, u32 (_objectNum * 2), .CLOSEST_HIT_BIT_NV⟩
  let l1 ← call (.vkCreateDescriptorSetLayout [texelBufferBinding]
    [VK_DESCRIPTOR_BINDING_VARIABLE_DESCRIPTOR_COUNT_BIT_EXT])
  NVVK_CHECK_ERROR (drv.result l1) "vkCreateDescriptorSetLayout"
  let app := { app with _rtDescriptorSetLayouts := app._rtDescriptorSetLayouts.set 1 (drv.handleOut l1) }
  let texelBufferBinding := { texelBufferBinding with descriptorCount := _objectNum }
  let l2 ← call (.vkCreateDescriptorSetLayout [texelBufferBinding]
    [VK_DESCRIPTOR_BINDING_VARIABLE_DESCRIPTOR_COUNT_BIT_EXT])
  NVVK_CHECK_ERROR (drv.result l2) "vkCreateDescriptorSetLayout"
  let app := { app with _rtDescriptorSetLayouts := app._rtDescriptorSetLayouts.set 2 (drv.handleOut l2) }
  let textureBinding : VkDescriptorSetLayoutBinding :=
    ⟨0, VK_DESCRIPTOR_TYPE_COMBINED_IMAGE_SAMPLER, _objectNum, .CLOSEST_HIT_BIT_NV⟩
  let l3 ← call (.vkCreateDescriptorSetLayout [textureBinding]
    [VK_DESCRIPTOR_BINDING_VARIABLE_DESCRIPTOR_COUNT_BIT_EXT])
  NVVK_CHECK_ERROR (drv.result l3) "vkCreateDescriptorSetLayout"
  pure { app with _rtDescriptorSetLayouts := app._rtDescriptorSetLayouts.set 3 (drv.handleOut l3) }

/-- The first three steps of `Init` after `InitRayTracing`: the five objects,
the acceleration structures, the descriptor-set layouts. -/
def InitLayouts (drv : Driver) (translation : Nat → ℚ × ℚ × ℚ) (app : TutorialApplication) :
    M TutorialApplication := do
  let app ← InitObjects drv app
  let app ← CreateAccelerationStructures drv translation app
  CreateDescriptorSetLayouts drv app

end T11

/-- The contents of `UniformBufferContent` a call uploads. -/
def uniformUpload : Call → Option (List Nat)
  | .memcpy _ (.words values) _ => some values
  | _ => none

/-- The contents of `UniformBufferContent` the calls upload, in order. -/
def uniformUploads (calls : List Call) : List (List Nat) :=
  calls.filterMap uniformUpload

/-- The upper bound a call declares for a variable descriptor count: the
`descriptorCount` of a layout with a single binding. -/
def declaredBound : Call → Option Nat
  | .vkCreateDescriptorSetLayout [binding] _ => some binding.descriptorCount
  | _ => none

/-- The upper bounds the calls declare for the variable descriptor counts of
the texel-buffer and texture layouts, in order. -/
def declaredBounds (calls : List Call) : List Nat :=
  calls.filterMap declaredBound

/-- One `Create...` call of tutorial 11 returns; the `UniformBufferContent` it
uploads holds the numbers of vertex buffer views, index buffer views and image
views the application holds when it is called; and it pushes `pushed` views
(vertex, index, image), and as many samplers as image views. -/
def T11.uploadsViewCounts (m : M (T11.RenderObject × T11.TutorialApplication))
    (app : T11.TutorialApplication) (w : World) (pushed : Nat × Nat × Nat) : Prop :=
  Runs m w (fun r _ l =>
    uniformUploads l = [[u32 app._vertexBufferViews.length, u32 app._indexBufferViews.length,
      u32 app._imageViews.length]] ∧
    r.2._vertexBufferViews.length = app._vertexBufferViews.length + pushed.1 ∧
    r.2._indexBufferViews.length = app._indexBufferViews.length + pushed.2.1 ∧
    r.2._imageViews.length = app._imageViews.length + pushed.2.2 ∧
    r.2._samplers.length = app._samplers.length + pushed.2.2)

/-- Tutorial 11, from an application without views: the run returns; the
offsets uploaded for the five objects are the numbers of views that the
objects before them pushed; the lists of image views and samplers have the
same length; the numbers of views at the end are 8, 5 and 3, within the
declared bounds 10, 5 and 5. -/
def T11.offsetsCountEarlierViews (drv : Driver) (translation : Nat → ℚ × ℚ × ℚ)
    (app : T11.TutorialApplication) (w : World) : Prop :=
  Runs (T11.InitLayouts drv translation app) w (fun app1 _ l =>
    uniformUploads l = [[0, 0, 0], [2, 1, 1], [3, 2, 1], [5, 3, 2], [7, 4, 3]] ∧
    app1._imageViews.length = app1._samplers.length ∧
    [app1._vertexBufferViews.length, app1._indexBufferViews.length, app1._imageViews.length]
      = [8, 5, 3] ∧
    declaredBounds l = [10, 5, 5] ∧
    app1._vertexBufferViews.length ≤ 10 ∧ app1._indexBufferViews.length ≤ 5 ∧
    app1._imageViews.length ≤ 5)

/-! ## Scratch requirements, buffers and builds of a run -/

/-- The answer to a build-scratch query: the structure asked about and the
size the driver reports; `position` is the position of the call. -/
def scratchRequirement (drv : Driver) (position : Nat) : Call → Option (Nat × Nat)
  | .vkGetAccelerationStructureMemoryRequirementsNV handle .BUILD_SCRATCH_NV =>
    some (handle, (drv.memoryRequirements position).size)
  | _ => none

/-- The answers to the build-scratch queries of the calls, in order;
`position` is the position of the first call. -/
def scratchRequirements (drv : Driver) : Nat → List Call → List (Nat × Nat)
  | _, [] => []
  | position, c :: rest =>
    (scratchRequirement drv position c).toList ++ scratchRequirements drv (position + 1) rest

/-- The buffer a call creates: the handle the driver returns and the size
asked for. -/
def bufferCreation (drv : Driver) (position : Nat) : Call → Option (Nat × Nat)
  | .vkCreateBuffer size _ => some (drv.handleOut position, size)
  | _ => none

/-- The buffers the calls create, in order. -/
def bufferCreations (drv : Driver) : Nat → List Call → List (Nat × Nat)
  | _, [] => []
  | position, c :: rest =>
    (bufferCreation drv position c).toList ++ bufferCreations drv (position + 1) rest

/-- The scratch buffer and the scratch offset of a build command. -/
def buildScratch : Call → Option (Nat × Nat)
  | .vkCmdBuildAccelerationStructureNV _ _ _ _ _ _ _ scratch scratchOffset =>
    some (scratch, scratchOffset)
  | _ => none

/-- The run returns; it records one build for each of the `n` bottom-level
structures and then one for the top-level structure; every bottom-level build
is directly followed by a read|write barrier; and the run creates a buffer
that all `n + 1` builds name as scratch at offset 0. -/
def buildsBarrieredSharingScratch {α : Type} (drv : Driver) (n : Nat) (bottoms : α → List Nat)
    (top : α → Nat) (m : M α) (w : World) : Prop :=
  Runs m w (fun app1 _ l =>
    (bottoms app1).length = n ∧
    (buildInfos l).map (fun b => (b.1, b.2.type))
      = (bottoms app1).map (fun s => (s, VkAccelerationStructureTypeNV.BOTTOM_LEVEL_NV)) ++
          [(top app1, VkAccelerationStructureTypeNV.TOP_LEVEL_NV)] ∧
    barrierAfterEachBottomBuild l ∧
    ∃ buffer size, (buffer, size) ∈ bufferCreations drv w.calls.length l ∧
      l.filterMap buildScratch = List.replicate (n + 1) (buffer, 0))

/-- Every structure the run creates goes through the whole life cycle: the
scan of the calls never finds the order broken, and every structure ends
ShaderVisible. -/
def lifecyclesAllComplete {α : Type} (drv : Driver) (w : World) (run : Res α) : Prop :=
  match runLog drv w run with
  | none => False
  | some log => ∀ p ∈ log.structures, p.2 = .ShaderVisible

instance {α : Type} (drv : Driver) (w : World) (run : Res α) :
    Decidable (lifecyclesAllComplete drv w run) := by
  unfold lifecyclesAllComplete
  split <;> infer_instance

/-! ## Theorems -/

theorem bind_apply {α β : Type} (m : M α) (f : α → M β) (w : World) :
    (m >>= f) w = match m w with
      | .ok a w1 => f a w1
      | .stop s w1 => .stop s w1 := rfl

theorem pure_apply {α : Type} (a : α) (w : World) : (pure a : M α) w = .ok a w := rfl

theorem call_apply (c : Call) (w : World) :
    call c w = .ok w.calls.length { w with calls := w.calls ++ [c] } := rfl

theorem ExitError_apply {α : Type} (message : String) (silent : Bool) (w : World) :
    (ExitError message silent : M α) w
      = .stop (.exit message 1) { w with calls := w.calls ++ [.LogError message silent] } := rfl

theorem LogError_apply (message : String) (silent : Bool) (w : World) :
    LogError message silent w = .ok () { w with calls := w.calls ++ [.LogError message silent] } := rfl

theorem NVVK_CHECK_ERROR_apply (code : VkResult) (message : String) (w : World) :
    NVVK_CHECK_ERROR code message w
      = if code = VK_SUCCESS then .ok () w
        else .stop (.exit (message ++ " ErrorCode: " ++ ToString code) 1)
          { w with calls := w.calls ++ [.LogError (message ++ " ErrorCode: " ++ ToString code) false] } := by
  unfold NVVK_CHECK_ERROR
  by_cases h : code = VK_SUCCESS <;> simp [h, pure_apply, ExitError_apply]

/-- C8: for every structure type and every driver answer, the driver calls of
`CreateAccelerationStructure` are exactly: the creation call; then, unless the
creation failed, the OBJECT memory-requirements query on the handle the
creation call returned and an allocation whose size is the size that query
reported; then, unless the allocation failed, the binding of that allocation
to that same handle at memory offset 0. A failed call is followed by the error
log and nothing else, and the function returns the pair of the handle and the
memory exactly when the three checked calls succeed. -/
theorem create_allocates_object_requirement_and_binds_at_zero (drv : Driver)
    (type : VkAccelerationStructureTypeNV)
    (geometryCount : Nat) (geometries : Option (List VkGeometryNV)) (instanceCount : Nat)
    (w : World) :
    (CreateAccelerationStructure drv type geometryCount geometries instanceCount w).value
      = (if drv.result w.calls.length = VK_SUCCESS ∧ drv.result (w.calls.length + 2) = VK_SUCCESS
            ∧ drv.result (w.calls.length + 3) = VK_SUCCESS then
          some (drv.handleOut w.calls.length, drv.handleOut (w.calls.length + 2))
        else none) ∧
    (CreateAccelerationStructure drv type geometryCount geometries instanceCount w).world.calls
      = w.calls ++
        (.vkCreateAccelerationStructureNV
            { compactedSize := 0,
              info := { type := type, flags := 0, instanceCount := instanceCount,
                        geometryCount := geometryCount, pGeometries := geometries } } ::
          if drv.result w.calls.length ≠ VK_SUCCESS then
            [.LogError ("vkCreateAccelerationStructureNV" ++ " ErrorCode: " ++
              ToString (drv.result w.calls.length)) false]
          else
            .vkGetAccelerationStructureMemoryRequirementsNV (drv.handleOut w.calls.length) .OBJECT_NV ::
            .vkAllocateMemory (drv.memoryRequirements (w.calls.length + 1)).size
              (GetMemoryType drv (drv.memoryRequirements (w.calls.length + 1))
                VK_MEMORY_PROPERTY_DEVICE_LOCAL_BIT) ::
            if drv.result (w.calls.length + 2) ≠ VK_SUCCESS then
              [.LogError ("rt AS vkAllocateMemory" ++ " ErrorCode: " ++
                ToString (drv.result (w.calls.length + 2))) false]
            else
              .vkBindAccelerationStructureMemoryNV (drv.handleOut w.calls.length)
                (drv.handleOut (w.calls.length + 2)) 0 ::
              if drv.result (w.calls.length + 3) ≠ VK_SUCCESS then
                [.LogError ("vkBindAccelerationStructureMemoryNV" ++ " ErrorCode: " ++
                  ToString (drv.result (w.calls.length + 3))) false]
              else []) := by
  by_cases h1 : drv.result w.calls.length = VK_SUCCESS <;>
  by_cases h2 : drv.result (w.calls.length + 2) = VK_SUCCESS <;>
  by_cases h3 : drv.result (w.calls.length + 3) = VK_SUCCESS <;>
  simp [CreateAccelerationStructure, NVVK_CHECK_ERROR_apply, bind_apply, pure_apply, call_apply,
    Res.world, Res.value, h1, h2, h3]

/-! ### Scratch buffer size -/

theorem barrierAfter_cons_pair (b r : Call) (rest : List Call)
    (hr : isReadWriteBarrier r = true) (hrb : isBottomLevelBuild r = false)
    (h : barrierAfterEachBottomBuild rest) :
    barrierAfterEachBottomBuild (b :: r :: rest) := by
  intro k c hk hc
  match k with
  | 0 => exact ⟨r, by simp, hr⟩
  | 1 =>
    simp only [List.getElem?_cons_succ, List.getElem?_cons_zero, Option.some.injEq] at hk
    subst hk
    rw [hrb] at hc
    exact absurd hc (by decide)
  | k + 2 =>
    simp only [List.getElem?_cons_succ] at hk
    obtain ⟨d, hd, hd2⟩ := h k c hk hc
    exact ⟨d, by simpa only [List.getElem?_cons_succ] using hd, hd2⟩

theorem barrierAfter_top_final (t f : Call) (ht : isBottomLevelBuild t = false)
    (hf : isBottomLevelBuild f = false) : barrierAfterEachBottomBuild [t, f] := by
  intro k c hk hc
  match k with
  | 0 =>
    simp only [List.getElem?_cons_zero, Option.some.injEq] at hk
    subst hk
    rw [ht] at hc
    exact absurd hc (by decide)
  | 1 =>
    simp only [List.getElem?_cons_succ, List.getElem?_cons_zero, Option.some.injEq] at hk
    subst hk
    rw [hf] at hc
    exact absurd hc (by decide)
  | k + 2 => simp at hk

theorem range_three : List.range 3 = [0, 1, 2] := by decide

theorem T11_barrierAfter (commandBuffer : Nat) (scratchBuffer : BufferResource)
    (objects : List T11.RenderObject) (t f : Call) (ht : isBottomLevelBuild t = false)
    (hf : isBottomLevelBuild f = false) :
    barrierAfterEachBottomBuild
      ((objects.map (T11.bottomBuild commandBuffer scratchBuffer)).flatten ++ [t, f]) := by
  induction objects with
  | nil => exact barrierAfter_top_final t f ht hf
  | cons o os ih =>
    simp only [List.map_cons, List.flatten_cons, T11.bottomBuild, List.cons_append,
      List.nil_append]
    exact barrierAfter_cons_pair _ _ _ rfl rfl (by simpa [T11.bottomBuild] using ih)

theorem T11_usesScratch (commandBuffer : Nat) (scratchBuffer : BufferResource)
    (objects : List T11.RenderObject) :
    everyCall (usesScratchAtZero scratchBuffer.Buffer)
      (objects.map (T11.bottomBuild commandBuffer scratchBuffer)).flatten := by
  intro c hc
  simp only [List.mem_flatten, List.mem_map] at hc
  obtain ⟨l, ⟨o, _, rfl⟩, hc⟩ := hc
  simp only [T11.bottomBuild, List.mem_cons, List.mem_singleton, List.not_mem_nil, or_false] at hc
  rcases hc with rfl | rfl <;> simp [usesScratchAtZero]

/-- Whatever the variables of the recording block hold, in the commands it
records every bottom-level build is directly followed by a barrier whose
source and destination access masks are both acceleration-structure
read|write, and every build command, the top-level one included, names
`scratchBuffer.Buffer` at offset 0. -/
theorem buildCommands_barriered_sharing_scratch
    (commandBuffer topAS instanceNum : Nat) (geometries : List VkGeometryNV)
    (bottomAS : List Nat) (bottom : Nat) (objects : List T11.RenderObject)
    (instanceBuffer scratchBuffer : BufferResource) :
    (barrierAfterEachBottomBuild
        (T07.buildCommands commandBuffer geometries bottomAS topAS instanceNum instanceBuffer
          scratchBuffer) ∧
      everyCall (usesScratchAtZero scratchBuffer.Buffer)
        (T07.buildCommands commandBuffer geometries bottomAS topAS instanceNum instanceBuffer
          scratchBuffer)) ∧
    (barrierAfterEachBottomBuild
        (T10.buildCommands commandBuffer geometries bottom topAS instanceBuffer scratchBuffer) ∧
      everyCall (usesScratchAtZero scratchBuffer.Buffer)
        (T10.buildCommands commandBuffer geometries bottom topAS instanceBuffer scratchBuffer)) ∧
    (barrierAfterEachBottomBuild
        (T11.buildCommands commandBuffer objects topAS instanceBuffer scratchBuffer) ∧
      everyCall (usesScratchAtZero scratchBuffer.Buffer)
        (T11.buildCommands commandBuffer objects topAS instanceBuffer scratchBuffer)) := by
  refine ⟨⟨?_, ?_⟩, ⟨?_, ?_⟩, ⟨?_, ?_⟩⟩
  · simp only [T07.buildCommands, range_three, List.map_cons, List.map_nil, List.flatten_cons,
      List.flatten_nil, T07.bottomBuild, List.cons_append, List.nil_append, List.append_nil]
    refine barrierAfter_cons_pair _ _ _ rfl rfl ?_
    refine barrierAfter_cons_pair _ _ _ rfl rfl ?_
    refine barrierAfter_cons_pair _ _ _ rfl rfl ?_
    exact barrierAfter_top_final _ _ rfl rfl
  · intro c hc
    simp only [T07.buildCommands, range_three, List.map_cons, List.map_nil, List.flatten_cons,
      List.flatten_nil, T07.bottomBuild, List.cons_append, List.nil_append, List.append_nil,
      List.mem_cons, List.mem_singleton, List.not_mem_nil, or_false] at hc
    rcases hc with rfl | rfl | rfl | rfl | rfl | rfl | rfl | rfl <;> simp [usesScratchAtZero]
  · simp only [T10.buildCommands]
    refine barrierAfter_cons_pair _ _ _ rfl rfl ?_
    exact barrierAfter_top_final _ _ rfl rfl
  · intro c hc
    simp only [T10.buildCommands, List.mem_cons, List.mem_singleton, List.not_mem_nil,
      or_false] at hc
    rcases hc with rfl | rfl | rfl | rfl <;> simp [usesScratchAtZero]
  · exact T11_barrierAfter _ _ _ _ _ rfl rfl
  · intro c hc
    simp only [T11.buildCommands, List.mem_append, List.mem_cons, List.mem_singleton,
      List.not_mem_nil, or_false] at hc
    rcases hc with hc | rfl | rfl
    · exact T11_usesScratch commandBuffer scratchBuffer objects c hc
    · simp [usesScratchAtZero]
    · simp [usesScratchAtZero]

theorem emits_pure {α : Type} (P : Call → Prop) (a : α) : Emits P (pure a : M α) := by
  intro w
  exact ⟨[], by simp [pure_apply, Res.world], by simp [everyCall]⟩

theorem emits_bind {α β : Type} {P : Call → Prop} {m : M α} {f : α → M β}
    (hm : Emits P m) (hf : ∀ a, Emits P (f a)) : Emits P (m >>= f) := by
  intro w
  obtain ⟨l1, h1, hl1⟩ := hm w
  rw [bind_apply]
  cases hmw : m w with
  | ok a w1 =>
    rw [hmw] at h1
    obtain ⟨l2, h2, hl2⟩ := hf a w1
    refine ⟨l1 ++ l2, ?_, ?_⟩
    · simp only [Res.world] at h1
      simp only [h2, h1, List.append_assoc]
    · intro c hc
      rcases List.mem_append.mp hc with hc | hc
      · exact hl1 c hc
      · exact hl2 c hc
  | stop s w1 =>
    rw [hmw] at h1
    exact ⟨l1, h1, hl1⟩

theorem emits_call {P : Call → Prop} {c : Call} (h : P c) : Emits P (call c) := by
  intro w
  refine ⟨[c], by simp [call_apply, Res.world], ?_⟩
  intro d hd
  rw [List.mem_singleton.mp hd]
  exact h

theorem emits_ite {α : Type} {P : Call → Prop} {c : Prop} [Decidable c] {a b : M α}
    (ha : Emits P a) (hb : Emits P b) : Emits P (if c then a else b) := by
  by_cases h : c <;> simp [h, ha, hb]

theorem emits_ExitError {α : Type} {P : Call → Prop} {message : String} {silent : Bool}
    (h : P (.LogError message silent)) : Emits P (ExitError message silent : M α) := by
  intro w
  refine ⟨[.LogError message silent], by simp [ExitError_apply, Res.world], ?_⟩
  intro d hd
  rw [List.mem_singleton.mp hd]
  exact h

theorem emits_LogError {P : Call → Prop} {message : String} {silent : Bool}
    (h : P (.LogError message silent)) : Emits P (LogError message silent) := by
  intro w
  refine ⟨[.LogError message silent], by simp [LogError_apply, Res.world], ?_⟩
  intro d hd
  rw [List.mem_singleton.mp hd]
  exact h

theorem emits_NVVK_CHECK_ERROR {P : Call → Prop} {code : VkResult} {message : String}
    (h : ∀ text, P (.LogError text false)) : Emits P (NVVK_CHECK_ERROR code message) := by
  unfold NVVK_CHECK_ERROR
  exact emits_ite (emits_ExitError (h _)) (emits_pure P ())

theorem emits_forLoop {σ : Type} {P : Call → Prop} {body : Nat → σ → M σ}
    (h : ∀ i s, Emits P (body i s)) (count i : Nat) (s : σ) :
    Emits P (forLoop body count i s) := by
  induction count generalizing i s with
  | zero => exact emits_pure P s
  | succ n ih =>
    unfold forLoop
    exact emits_bind (h i s) (fun s1 => ih (i + 1) s1)

theorem emits_issue {P : Call → Prop} (cmds : List Call) (h : everyCall P cmds) :
    Emits P (issue cmds) := by
  induction cmds with
  | nil => exact emits_pure P ()
  | cons c cs ih =>
    unfold issue
    refine emits_bind (emits_call (h c (List.mem_cons_self c cs))) (fun _ => ih ?_)
    intro d hd
    exact h d (List.mem_cons_of_mem c hd)

theorem exclusiveCall_LogError (text : String) (silent : Bool) :
    exclusiveCall (.LogError text silent) := trivial

theorem emits_BufferResource_Create (drv : Driver) (self : BufferResource)
    (size usage memoryProperties : Nat) :
    Emits exclusiveCall (BufferResource.Create drv self size usage memoryProperties) := by
  unfold BufferResource.Create
  repeat (any_goals (first
    | with_reducible exact emits_pure _ _
    | with_reducible refine emits_call ?_
    | with_reducible apply emits_bind
    | with_reducible apply emits_ite
    | intro _
    | exact trivial))

theorem emits_BufferResource_Cleanup (self : BufferResource) :
    Emits exclusiveCall (BufferResource.Cleanup self) := by
  unfold BufferResource.Cleanup
  repeat (any_goals (first
    | with_reducible exact emits_pure _ _
    | with_reducible refine emits_call ?_
    | with_reducible apply emits_bind
    | with_reducible apply emits_ite
    | intro _
    | exact trivial))

theorem emits_BufferResource_Copy (drv : Driver) (self : BufferResource) (src : HostData)
    (size : Nat) :
    Emits exclusiveCall (BufferResource.CopyToBufferUsingMapUnmap drv self src size) := by
  unfold BufferResource.CopyToBufferUsingMapUnmap BufferResource.Map BufferResource.Unmap
  refine emits_bind ?_ ?_
  · repeat (any_goals (first
      | with_reducible exact emits_pure _ _
      | with_reducible refine emits_call ?_
      | with_reducible refine emits_LogError ?_
      | with_reducible apply emits_bind
      | with_reducible apply emits_ite
      | intro _
      | exact trivial))
  · intro mappedMemory
    cases mappedMemory with
    | none => exact emits_pure _ _
    | some p =>
      repeat (any_goals (first
        | with_reducible exact emits_pure _ _
        | with_reducible refine emits_call ?_
        | with_reducible apply emits_bind
        | intro _
        | exact trivial))

theorem emits_CreateAccelerationStructure (drv : Driver) (type : VkAccelerationStructureTypeNV)
    (geometryCount : Nat) (geometries : Option (List VkGeometryNV)) (instanceCount : Nat)
    (h : exclusiveInfo { type := type, flags := 0, instanceCount := instanceCount,
                         geometryCount := geometryCount, pGeometries := geometries }) :
    Emits exclusiveCall
      (CreateAccelerationStructure drv type geometryCount geometries instanceCount) := by
  unfold CreateAccelerationStructure
  refine emits_bind (emits_call h) (fun n => ?_)
  repeat (any_goals (first
    | with_reducible exact emits_pure _ _
    | with_reducible refine emits_call ?_
    | with_reducible refine emits_NVVK_CHECK_ERROR ?_
    | with_reducible apply emits_bind
    | intro _
    | exact trivial))

theorem emits_GetScratchBufferSize (drv : Driver) (handle : Nat) :
    Emits exclusiveCall (GetScratchBufferSize drv handle) := by
  unfold GetScratchBufferSize
  exact emits_bind (emits_call trivial) (fun _ => emits_pure _ _)

theorem exclusive_bottom_one (geometries : Option (List VkGeometryNV)) :
    exclusiveInfo { type := .BOTTOM_LEVEL_NV, flags := 0, instanceCount := 0,
                    geometryCount := 1, pGeometries := geometries } := by
  simp [exclusiveInfo]

theorem exclusive_top (instanceCount : Nat) :
    exclusiveInfo { type := .TOP_LEVEL_NV, flags := 0, instanceCount := instanceCount,
                    geometryCount := 0, pGeometries := none } := by
  simp [exclusiveInfo]

theorem T07_buildCommands_exclusive (commandBuffer topAS instanceNum : Nat)
    (geometries : List VkGeometryNV) (bottomAS : List Nat)
    (instanceBuffer scratchBuffer : BufferResource) :
    everyCall exclusiveCall
      (T07.buildCommands commandBuffer geometries bottomAS topAS instanceNum instanceBuffer
        scratchBuffer) := by
  intro c hc
  simp only [T07.buildCommands, range_three, List.map_cons, List.map_nil, List.flatten_cons,
    List.flatten_nil, T07.bottomBuild, List.cons_append, List.nil_append, List.append_nil,
    List.mem_cons, List.mem_singleton, List.not_mem_nil, or_false] at hc
  rcases hc with rfl | rfl | rfl | rfl | rfl | rfl | rfl | rfl <;>
    simp [exclusiveCall, exclusiveInfo, T07.bottomBuildInfo, T07.topBuildInfo]

theorem T10_buildCommands_exclusive (commandBuffer bottom topAS : Nat)
    (vertexBuffer indexBuffer : BufferResource) (vertexCount indexCount : Nat)
    (instanceBuffer scratchBuffer : BufferResource) :
    everyCall exclusiveCall
      (T10.buildCommands commandBuffer
        (T10.geometries vertexBuffer indexBuffer vertexCount indexCount) bottom topAS
        instanceBuffer scratchBuffer) := by
  intro c hc
  simp only [T10.buildCommands, List.mem_cons, List.mem_singleton, List.not_mem_nil,
    or_false] at hc
  rcases hc with rfl | rfl | rfl | rfl <;>
    simp [exclusiveCall, exclusiveInfo, T10.bottomBuildInfo, T10.topBuildInfo, T10.geometries,
      u32]

theorem T11_buildCommands_exclusive (commandBuffer topAS : Nat)
    (objects : List T11.RenderObject) (instanceBuffer scratchBuffer : BufferResource) :
    everyCall exclusiveCall
      (T11.buildCommands commandBuffer objects topAS instanceBuffer scratchBuffer) := by
  intro c hc
  simp only [T11.buildCommands, List.mem_append, List.mem_flatten, List.mem_map, List.mem_cons,
    List.mem_singleton, List.not_mem_nil, or_false] at hc
  rcases hc with ⟨l, ⟨o, _, rfl⟩, hc⟩ | rfl | rfl
  · simp only [T11.bottomBuild, List.mem_cons, List.mem_singleton, List.not_mem_nil,
      or_false] at hc
    rcases hc with rfl | rfl <;> simp [exclusiveCall, exclusiveInfo, T11.bottomBuildInfo]
  · simp [exclusiveCall, exclusiveInfo, T11.topBuildInfo]
  · simp [exclusiveCall]

theorem T07_emits_exclusive (drv : Driver) (app : T07.TutorialApplication) :
    Emits exclusiveCall (T07.CreateAccelerationStructures drv app) := by
  unfold T07.CreateAccelerationStructures
  repeat (any_goals (first
    | with_reducible exact emits_pure _ _
    | with_reducible refine emits_call ?_
    | with_reducible refine emits_NVVK_CHECK_ERROR ?_
    | with_reducible refine emits_ExitError ?_
    | with_reducible exact emits_BufferResource_Create _ _ _ _ _
    | with_reducible exact emits_BufferResource_Copy _ _ _ _
    | with_reducible exact emits_BufferResource_Cleanup _
    | with_reducible exact emits_GetScratchBufferSize _ _
    | with_reducible exact emits_CreateAccelerationStructure _ _ _ _ _ (exclusive_top _)
    | with_reducible exact emits_issue _ (T07_buildCommands_exclusive _ _ _ _ _ _ _)
    | (with_reducible apply emits_forLoop; intro i s; unfold T07.createBottom)
    | (with_reducible apply emits_forLoop; intro i s; unfold T07.queryHandle)
    | with_reducible exact emits_CreateAccelerationStructure _ _ _ _ _ (exclusive_bottom_one _)
    | with_reducible apply emits_bind
    | with_reducible apply emits_ite
    | intro _
    | exact trivial))

theorem T10_emits_exclusive (drv : Driver) (app : T10.TutorialApplication) :
    Emits exclusiveCall (T10.CreateAccelerationStructures drv app) := by
  unfold T10.CreateAccelerationStructures
  repeat (any_goals (first
    | with_reducible exact emits_pure _ _
    | with_reducible refine emits_call ?_
    | with_reducible refine emits_NVVK_CHECK_ERROR ?_
    | with_reducible refine emits_ExitError ?_
    | with_reducible exact emits_BufferResource_Create _ _ _ _ _
    | with_reducible exact emits_BufferResource_Copy _ _ _ _
    | with_reducible exact emits_BufferResource_Cleanup _
    | with_reducible exact emits_GetScratchBufferSize _ _
    | with_reducible exact emits_CreateAccelerationStructure _ _ _ _ _ (exclusive_top _)
    | with_reducible exact emits_issue _ (T10_buildCommands_exclusive _ _ _ _ _ _ _ _ _)
    | exact emits_CreateAccelerationStructure _ _ _ _ _ (exclusive_bottom_one _)
    | with_reducible apply emits_bind
    | with_reducible apply emits_ite
    | intro _
    | exact trivial))

theorem T11_emits_exclusive_bottom (drv : Driver) (object : T11.RenderObject) :
    Emits exclusiveCall (T11.CreateObjectBottomLevelAS drv object) := by
  unfold T11.CreateObjectBottomLevelAS
  exact emits_bind (emits_CreateAccelerationStructure _ _ _ _ _ (exclusive_bottom_one _))
    (fun _ => emits_pure _ _)

theorem T11_emits_exclusive (drv : Driver) (translation : Nat → ℚ × ℚ × ℚ)
    (app : T11.TutorialApplication) :
    Emits exclusiveCall (T11.CreateAccelerationStructures drv translation app) := by
  unfold T11.CreateAccelerationStructures
  repeat (any_goals (first
    | with_reducible exact emits_pure _ _
    | with_reducible refine emits_call ?_
    | with_reducible refine emits_NVVK_CHECK_ERROR ?_
    | with_reducible exact emits_BufferResource_Create _ _ _ _ _
    | with_reducible exact emits_BufferResource_Copy _ _ _ _
    | with_reducible exact emits_BufferResource_Cleanup _
    | with_reducible exact emits_GetScratchBufferSize _ _
    | with_reducible exact emits_CreateAccelerationStructure _ _ _ _ _ (exclusive_top _)
    | with_reducible exact emits_issue _ (T11_buildCommands_exclusive _ _ _ _ _)
    | (with_reducible apply emits_forLoop; intro i s; unfold T11.instanceStep)
    | (with_reducible apply emits_forLoop; intro i s; unfold T11.scratchStep)
    | with_reducible apply emits_bind
    | intro _
    | exact trivial))

/-- C7: on every path of the acceleration-structure set-up of tutorials 07, 10
and 11, whatever the driver answers, the info of every structure-creation call
and of every build call has `geometryCount` and `instanceCount` not both
non-zero: a bottom-level info has `instanceCount = 0` and `geometryCount ≥ 1`,
a top-level info has `geometryCount = 0` and a null geometry pointer. -/
theorem creation_and_build_infos_are_exclusive (drv : Driver)
    (app07 : T07.TutorialApplication) (app10 : T10.TutorialApplication)
    (app11 : T11.TutorialApplication) (object : T11.RenderObject)
    (translation : Nat → ℚ × ℚ × ℚ) :
    Emits exclusiveCall (T07.CreateAccelerationStructures drv app07) ∧
    Emits exclusiveCall (T10.CreateAccelerationStructures drv app10) ∧
    Emits exclusiveCall (T11.CreateObjectBottomLevelAS drv object) ∧
    Emits exclusiveCall (T11.CreateAccelerationStructures drv translation app11) :=
  ⟨T07_emits_exclusive drv app07, T10_emits_exclusive drv app10,
    T11_emits_exclusive_bottom drv object, T11_emits_exclusive drv translation app11⟩

/-! ### Shader binding tables -/

theorem vkGetRayTracingShaderGroupHandlesNV_apply (drv : Driver)
    (hs : ∀ n, drv.result n = VK_SUCCESS)
    (firstGroup groupCount dataSize : Nat) (p : Nat × Nat) (w : World) :
    vkGetRayTracingShaderGroupHandlesNV drv firstGroup groupCount dataSize (some p) w
      = .ok VK_SUCCESS
          { calls := w.calls ++
              [.vkGetRayTracingShaderGroupHandlesNV firstGroup groupCount dataSize (some p)],
            mem := writeGroupHandles drv p.1 groupCount firstGroup p.2 w.mem } := by
  simp [vkGetRayTracingShaderGroupHandlesNV, hs]

theorem BufferResource_Create_ok (drv : Driver) (hs : ∀ n, drv.result n = VK_SUCCESS)
    (self : BufferResource) (size usage memoryProperties : Nat) (w : World) :
    BufferResource.Create drv self size usage memoryProperties w
      = .ok (VK_SUCCESS,
            { Buffer := drv.handleOut w.calls.length,
              Memory := drv.handleOut (w.calls.length + 2), Size := size })
          { calls := w.calls ++
              [ .vkCreateBuffer size usage,
                .vkGetBufferMemoryRequirements (drv.handleOut w.calls.length),
                .vkAllocateMemory (drv.memoryRequirements (w.calls.length + 1)).size
                  (GetMemoryType drv (drv.memoryRequirements (w.calls.length + 1))
                    memoryProperties),
                .vkBindBufferMemory (drv.handleOut w.calls.length)
                  (drv.handleOut (w.calls.length + 2)) 0 ],
            mem := w.mem } := by
  simp [BufferResource.Create, bind_apply, pure_apply, call_apply, hs]

theorem BufferResource_Map_ok (drv : Driver) (hs : ∀ n, drv.result n = VK_SUCCESS)
    (self : BufferResource) (size : Nat) (w : World) :
    BufferResource.Map drv self size w
      = .ok (some (self.Memory, 0))
          { calls := w.calls ++ [.vkMapMemory self.Memory 0 size], mem := w.mem } := by
  simp [BufferResource.Map, bind_apply, pure_apply, call_apply, hs]

theorem BufferResource_Unmap_apply (self : BufferResource) (w : World) :
    BufferResource.Unmap self w
      = .ok () { calls := w.calls ++ [.vkUnmapMemory self.Memory], mem := w.mem } := by
  simp [BufferResource.Unmap, bind_apply, pure_apply, call_apply]

theorem T07_CreateShaderBindingTable_ok (drv : Driver) (app : T07.TutorialApplication)
    (w : World) (hs : ∀ n, drv.result n = VK_SUCCESS) :
    ∃ w1, T07.CreateShaderBindingTable drv app w
        = .ok { app with _shaderBindingTable :=
                  { Buffer := drv.handleOut w.calls.length,
                    Memory := drv.handleOut (w.calls.length + 2),
                    Size := T07.shaderBindingTableSize drv } } w1 ∧
      w1.mem = writeGroupHandles drv (drv.handleOut (w.calls.length + 2)) 3 0 0 w.mem := by
  simp [T07.CreateShaderBindingTable, bind_apply, pure_apply, BufferResource_Create_ok drv hs,
    BufferResource_Map_ok drv hs, BufferResource_Unmap_apply, NVVK_CHECK_ERROR_apply,
    vkGetRayTracingShaderGroupHandlesNV_apply drv hs]

theorem storeFloat_apply (p : Nat × Nat) (k bits : Nat) (w : World) :
    storeFloat (some p) k bits w
      = .ok () { calls := w.calls ++ [.hostStore p.1 (p.2 + 4 * k) 4],
                 mem := fun m a =>
                   if m = p.1 ∧ p.2 + 4 * k ≤ a ∧ a < p.2 + 4 * k + 4 then
                     wordByte bits (a - (p.2 + 4 * k))
                   else w.mem m a } := rfl

/-- The table tutorial 10 writes when every driver call succeeds: three
records of the handle of group 2 and sixteen bytes of colour from the offset
`raygenAndMissSize`; before them, when `2 * shaderGroupHandleSize` does not
wrap, the handles of groups 0 and 1; nothing else changes. -/
theorem T10_CreateShaderBindingTable_ok (drv : Driver) (app : T10.TutorialApplication)
    (w : World) (hs : ∀ n, drv.result n = VK_SUCCESS) :
    ∃ w1, T10.CreateShaderBindingTable drv app w
        = .ok { app with
                  _shaderBindingTable :=
                    { Buffer := drv.handleOut w.calls.length,
                      Memory := drv.handleOut (w.calls.length + 2),
                      Size := T10.shaderBindingTableSize drv },
                  _hitShaderAndDataSize := T10.hitShaderAndDataSize drv } w1 ∧
      (2 * drv.shaderGroupHandleSize < 2 ^ 32 →
        ∀ g, g < 2 → ∀ b, b < drv.shaderGroupHandleSize →
          w1.mem (drv.handleOut (w.calls.length + 2)) (g * drv.shaderGroupHandleSize + b)
            = drv.groupHandle g b) ∧
      (∀ i, i < 3 → ∀ b, b < drv.shaderGroupHandleSize →
        w1.mem (drv.handleOut (w.calls.length + 2))
            (T10.raygenAndMissSize drv + i * (drv.shaderGroupHandleSize + 16) + b)
          = drv.groupHandle 2 b) ∧
      (∀ i, i < 3 → ∀ j, j < 4 → ∀ k, k < 4 →
        w1.mem (drv.handleOut (w.calls.length + 2))
            (T10.raygenAndMissSize drv + i * (drv.shaderGroupHandleSize + 16) +
              drv.shaderGroupHandleSize + 4 * j + k)
          = wordByte (T10.color i j) k) ∧
      (∀ m a, (m ≠ drv.handleOut (w.calls.length + 2) ∨
          (2 * drv.shaderGroupHandleSize ≤ a ∧
            T10.raygenAndMissSize drv + 3 * (drv.shaderGroupHandleSize + 16) ≤ a)) →
        w1.mem m a = w.mem m a) := by
  generalize hrun : T10.CreateShaderBindingTable drv app w = r
  simp only [T10.CreateShaderBindingTable, bind_apply, pure_apply,
    BufferResource_Create_ok drv hs, BufferResource_Map_ok drv hs, BufferResource_Unmap_apply,
    NVVK_CHECK_ERROR_apply, vkGetRayTracingShaderGroupHandlesNV_apply drv hs, forLoop,
    T10.hitRecord, advance, storeFloat_apply, T10._instanceNum, writeGroupHandles,
    List.length_append, List.length_cons, List.length_nil, if_true, Option.map_some'] at hrun
  subst hrun
  · refine ⟨_, rfl, ?_, ?_, ?_, ?_⟩
    · intro hh g hg b hb
      simp only [T10.raygenAndMissSize, T10.inlineDataSize, u32, true_and]
      interval_cases g
      all_goals
        repeat (first | rw [if_neg (by omega)] | rw [if_pos (by omega)])
        congr 1
        omega
    · intro i hi b hb
      simp only [T10.raygenAndMissSize, T10.inlineDataSize, u32, true_and]
      interval_cases i
      all_goals
        repeat (first | rw [if_neg (by omega)] | rw [if_pos (by omega)])
        congr 1
        omega
    · intro i hi j hj k hk
      simp only [T10.raygenAndMissSize, T10.inlineDataSize, u32, true_and]
      interval_cases i <;> interval_cases j
      all_goals
        repeat (first | rw [if_neg (by omega)] | rw [if_pos (by omega)])
        congr 1
        omega
    · intro m a hma
      simp only [T10.raygenAndMissSize, T10.inlineDataSize, u32] at hma ⊢
      repeat (first | rw [if_neg (by omega)])

theorem firstGroupAt_T07 :
    firstGroupAt T07.shaderStages T07.shaderGroups .RAYGEN_BIT_NV = some 0 ∧
    firstGroupAt T07.shaderStages T07.shaderGroups .MISS_BIT_NV = some 2 ∧
    firstGroupAt T07.shaderStages T07.shaderGroups .CLOSEST_HIT_BIT_NV = some 1 := by
  decide

theorem firstGroupAt_T10 :
    firstGroupAt T10.shaderStages T10.shaderGroups .RAYGEN_BIT_NV = some 0 ∧
    firstGroupAt T10.shaderStages T10.shaderGroups .MISS_BIT_NV = some 1 ∧
    firstGroupAt T10.shaderStages T10.shaderGroups .CLOSEST_HIT_BIT_NV = some 2 := by
  decide

theorem firstGroupAt_T11 :
    firstGroupAt T11.shaderStages T11.shaderGroups .RAYGEN_BIT_NV = some 0 ∧
    firstGroupAt T11.shaderStages T11.shaderGroups .MISS_BIT_NV = some 1 ∧
    firstGroupAt T11.shaderStages T11.shaderGroups .CLOSEST_HIT_BIT_NV = some 2 := by
  decide

/-- The handles the driver stores from offset `0` are read back group by
group. -/
theorem writeGroupHandles_four (drv : Driver) (memory : Nat) (mem : Nat → Nat → Nat) :
    (∀ g, g < 3 → ∀ b, b < drv.shaderGroupHandleSize →
      writeGroupHandles drv memory 3 0 0 mem memory (g * drv.shaderGroupHandleSize + b)
        = drv.groupHandle g b) ∧
    (∀ g, g < 4 → ∀ b, b < drv.shaderGroupHandleSize →
      writeGroupHandles drv memory 4 0 0 mem memory (g * drv.shaderGroupHandleSize + b)
        = drv.groupHandle g b) := by
  constructor
  · intro g hg b hb
    simp only [writeGroupHandles, true_and]
    interval_cases g
    all_goals
      repeat (first | rw [if_neg (by omega)] | rw [if_pos (by omega)])
      congr 1
      omega
  · intro g hg b hb
    simp only [writeGroupHandles, true_and]
    interval_cases g
    all_goals
      repeat (first | rw [if_neg (by omega)] | rw [if_pos (by omega)])
      congr 1
      omega

theorem T11_CreateShaderBindingTable_ok (drv : Driver) (app : T11.TutorialApplication)
    (w : World) (hs : ∀ n, drv.result n = VK_SUCCESS) :
    ∃ w1, T11.CreateShaderBindingTable drv app w
        = .ok { app with _shaderBindingTable :=
                  { Buffer := drv.handleOut w.calls.length,
                    Memory := drv.handleOut (w.calls.length + 2),
                    Size := T11.shaderBindingTableSize drv } } w1 ∧
      w1.mem = writeGroupHandles drv (drv.handleOut (w.calls.length + 2)) 4 0 0 w.mem := by
  simp [T11.CreateShaderBindingTable, bind_apply, pure_apply, BufferResource_Create_ok drv hs,
    BufferResource_Map_ok drv hs, BufferResource_Unmap_apply, NVVK_CHECK_ERROR_apply,
    vkGetRayTracingShaderGroupHandlesNV_apply drv hs]

theorem u32_of_lt {x : Nat} (h : x < 2 ^ 32) : u32 x = x := Nat.mod_eq_of_lt h

theorem T07_traceAddressesGroups_of_small (drv : Driver) (hs : ∀ n, drv.result n = VK_SUCCESS)
    (app : T07.TutorialApplication) (w : World) (hh : 3 * drv.shaderGroupHandleSize < 2 ^ 32) :
    T07.traceAddressesGroups drv app w := by
  obtain ⟨w1, hrun, hmem⟩ := T07_CreateShaderBindingTable_ok drv app w hs
  refine ⟨_, w1, hrun, fun width height => ?_⟩
  have h1 : u32 (1 * drv.shaderGroupHandleSize) = 1 * drv.shaderGroupHandleSize :=
    u32_of_lt (by omega)
  have h2 : u32 (2 * drv.shaderGroupHandleSize) = 2 * drv.shaderGroupHandleSize :=
    u32_of_lt (by omega)
  have h3 : u32 (drv.shaderGroupHandleSize * 3) = drv.shaderGroupHandleSize * 3 :=
    u32_of_lt (by omega)
  have hb := (writeGroupHandles_four drv (drv.handleOut (w.calls.length + 2)) w.mem).1
  simp only [regionsAddressGroups, recordHoldsGroup, T07.traceRays, firstGroupAt_T07.1,
    firstGroupAt_T07.2.1, firstGroupAt_T07.2.2, hmem, h1, h2, T07.shaderBindingTableSize, h3]
  refine ⟨⟨by omega, 0, rfl, fun b hlt => ?_⟩, ⟨by omega, 2, rfl, fun b hlt => hb 2 (by omega) b hlt⟩,
    ⟨by omega, 1, rfl, fun b hlt => hb 1 (by omega) b hlt⟩⟩
  simpa using hb 0 (by omega) b hlt

theorem T10_shaderBindingTableSize_of_small (drv : Driver)
    (hh : 2 * drv.shaderGroupHandleSize < 2 ^ 32) :
    T10.shaderBindingTableSize drv
      = 2 * drv.shaderGroupHandleSize + 3 * (drv.shaderGroupHandleSize + 16) := by
  have e1 : drv.shaderGroupHandleSize * 2 % 2 ^ 32 = drv.shaderGroupHandleSize * 2 :=
    Nat.mod_eq_of_lt (by omega)
  have e2 : (drv.shaderGroupHandleSize + 16) % 2 ^ 64 = drv.shaderGroupHandleSize + 16 :=
    Nat.mod_eq_of_lt (by omega)
  have e3 : (drv.shaderGroupHandleSize + 16) * 3 % 2 ^ 64
      = (drv.shaderGroupHandleSize + 16) * 3 := Nat.mod_eq_of_lt (by omega)
  have e4 : (drv.shaderGroupHandleSize * 2 + (drv.shaderGroupHandleSize + 16) * 3) % 2 ^ 64
      = drv.shaderGroupHandleSize * 2 + (drv.shaderGroupHandleSize + 16) * 3 :=
    Nat.mod_eq_of_lt (by omega)
  simp only [T10.shaderBindingTableSize, T10.raygenAndMissSize, T10.hitShaderAndDataSize,
    T10.inlineDataSize, T10._instanceNum, u32, u64, e1, e2, e3, e4]
  omega

theorem T10_traceAddressesGroups_of_small (drv : Driver) (hs : ∀ n, drv.result n = VK_SUCCESS)
    (app : T10.TutorialApplication) (w : World) (hh : 2 * drv.shaderGroupHandleSize < 2 ^ 32) :
    T10.traceAddressesGroups drv app w := by
  obtain ⟨w1, hrun, hlow, hhit, _, _⟩ := T10_CreateShaderBindingTable_ok drv app w hs
  have hc : T10.raygenAndMissSize drv = 2 * drv.shaderGroupHandleSize := by
    simp only [T10.raygenAndMissSize, u32]
    omega
  rw [hc] at hhit
  have hlow := hlow hh
  refine ⟨_, w1, hrun, fun width height => ?_⟩
  have h1 : u32 (1 * drv.shaderGroupHandleSize) = 1 * drv.shaderGroupHandleSize :=
    u32_of_lt (by omega)
  have h2 : u32 (2 * drv.shaderGroupHandleSize) = 2 * drv.shaderGroupHandleSize :=
    u32_of_lt (by omega)
  have hsize := T10_shaderBindingTableSize_of_small drv hh
  simp only [regionsAddressGroups, recordHoldsGroup, T10.traceRays, firstGroupAt_T10.1,
    firstGroupAt_T10.2.1, firstGroupAt_T10.2.2, h1, h2, hsize]
  refine ⟨⟨by omega, 0, rfl, fun b hlt => ?_⟩, ⟨by omega, 1, rfl, fun b hlt => hlow 1 (by omega) b hlt⟩,
    ⟨by omega, 2, rfl, fun b hlt => ?_⟩⟩
  · simpa using hlow 0 (by omega) b hlt
  · simpa using hhit 0 (by omega) b hlt

theorem T11_traceAddressesGroups_of_small (drv : Driver) (hs : ∀ n, drv.result n = VK_SUCCESS)
    (app : T11.TutorialApplication) (w : World) (hh : 4 * drv.shaderGroupHandleSize < 2 ^ 32) :
    T11.traceAddressesGroups drv app w := by
  obtain ⟨w1, hrun, hmem⟩ := T11_CreateShaderBindingTable_ok drv app w hs
  refine ⟨_, w1, hrun, fun width height => ?_⟩
  have h1 : u32 (1 * drv.shaderGroupHandleSize) = 1 * drv.shaderGroupHandleSize :=
    u32_of_lt (by omega)
  have h2 : u32 (2 * drv.shaderGroupHandleSize) = 2 * drv.shaderGroupHandleSize :=
    u32_of_lt (by omega)
  have h4 : u32 (drv.shaderGroupHandleSize * 4) = drv.shaderGroupHandleSize * 4 :=
    u32_of_lt (by omega)
  have hb := (writeGroupHandles_four drv (drv.handleOut (w.calls.length + 2)) w.mem).2
  simp only [regionsAddressGroups, recordHoldsGroup, T11.traceRays, firstGroupAt_T11.1,
    firstGroupAt_T11.2.1, firstGroupAt_T11.2.2, hmem, h1, h2, T11.shaderBindingTableSize, h4]
  refine ⟨⟨by omega, 0, rfl, fun b hlt => ?_⟩, ⟨by omega, 1, rfl, fun b hlt => hb 1 (by omega) b hlt⟩,
    ⟨by omega, 2, rfl, fun b hlt => hb 2 (by omega) b hlt⟩⟩
  simpa using hb 0 (by omega) b hlt

/-- C4, amended: when every driver call succeeds and the handle size `h` is
small enough that the 32-bit products of the tutorial do not wrap (`3h`, `2h`,
`4h` below `2^32` in tutorials 07, 10, 11), the table is created and the
raygen, miss and hit offsets of the trace call address records, inside the
table, that hold the handle of the raygen group, of the miss group and of the
first hit group of the pipeline. -/
theorem trace_offsets_address_matching_groups (drv : Driver)
    (hs : ∀ n, drv.result n = VK_SUCCESS)
    (app07 : T07.TutorialApplication) (app10 : T10.TutorialApplication)
    (app11 : T11.TutorialApplication) (w : World) :
    (3 * drv.shaderGroupHandleSize < 2 ^ 32 → T07.traceAddressesGroups drv app07 w) ∧
    (2 * drv.shaderGroupHandleSize < 2 ^ 32 → T10.traceAddressesGroups drv app10 w) ∧
    (4 * drv.shaderGroupHandleSize < 2 ^ 32 → T11.traceAddressesGroups drv app11 w) :=
  ⟨T07_traceAddressesGroups_of_small drv hs app07 w,
    T10_traceAddressesGroups_of_small drv hs app10 w,
    T11_traceAddressesGroups_of_small drv hs app11 w⟩

/-- Witness of C4, amended: the sample driver with 16-byte handles. -/
theorem trace_offsets_address_matching_groups_witness :
    T07.traceAddressesGroups (sampleDriver 16) {} World.init ∧
    T10.traceAddressesGroups (sampleDriver 16) {} World.init ∧
    T11.traceAddressesGroups (sampleDriver 16) {} World.init :=
  ⟨(trace_offsets_address_matching_groups (sampleDriver 16) (fun _ => rfl) {} {} {}
      World.init).1 (by decide),
    (trace_offsets_address_matching_groups (sampleDriver 16) (fun _ => rfl) {} {} {}
      World.init).2.1 (by decide),
    (trace_offsets_address_matching_groups (sampleDriver 16) (fun _ => rfl) {} {} {}
      World.init).2.2 (by decide)⟩

/-- Counterexample to C4 as stated (every handle size). Tutorial 10, handle
size `2^31`: the 32-bit product `2 * shaderGroupHandleSize` wraps to `0`, the
hit records are written from offset `0`, and the raygen offset `0` of the trace
call addresses bytes of the hit group's handle. Tutorial 07, handle size
`2^31`: the table has `3h mod 2^32 = 2^31` bytes and the hit offset `2^31`
addresses a record outside it. Tutorial 11, handle size `2^30`: the table has
`4h mod 2^32 = 0` bytes and the raygen record lies outside it. -/
theorem trace_offsets_mismatch_when_product_wraps :
    ¬ T10.traceAddressesGroups (sampleDriver (2 ^ 31)) {} World.init ∧
    ¬ T07.traceAddressesGroups (sampleDriver (2 ^ 31)) {} World.init ∧
    ¬ T11.traceAddressesGroups (sampleDriver (2 ^ 30)) {} World.init := by
  refine ⟨?_, ?_, ?_⟩
  rotate_left
  · rintro ⟨app1, w1, hrun, hP⟩
    obtain ⟨w2, hrun2, _⟩ :=
      T07_CreateShaderBindingTable_ok (sampleDriver (2 ^ 31)) {} World.init (fun _ => rfl)
    rw [hrun2] at hrun
    obtain ⟨rfl, rfl⟩ := Res.ok.inj hrun
    exact absurd (hP 0 0).2.2.1 (by decide)
  · rintro ⟨app1, w1, hrun, hP⟩
    obtain ⟨w2, hrun2, _⟩ :=
      T11_CreateShaderBindingTable_ok (sampleDriver (2 ^ 30)) {} World.init (fun _ => rfl)
    rw [hrun2] at hrun
    obtain ⟨rfl, rfl⟩ := Res.ok.inj hrun
    exact absurd (hP 0 0).1.1 (by decide)
  rintro ⟨app1, w1, hrun, hP⟩
  obtain ⟨w2, hrun2, _, hhit, _, _⟩ :=
    T10_CreateShaderBindingTable_ok (sampleDriver (2 ^ 31)) {} World.init (fun _ => rfl)
  rw [hrun2] at hrun
  obtain ⟨rfl, rfl⟩ := Res.ok.inj hrun
  obtain ⟨⟨_, g, hg, hbytes⟩, _, _⟩ := hP 0 0
  rw [firstGroupAt_T10.1] at hg
  obtain rfl := Option.some.inj hg
  have h0 := hbytes 0 (by decide)
  have h1 := hhit 0 (by decide) 0 (by decide)
  have e : (T10.traceRays (sampleDriver (2 ^ 31))
      { ({} : T10.TutorialApplication) with
          _shaderBindingTable :=
            { Buffer := (sampleDriver (2 ^ 31)).handleOut World.init.calls.length,
              Memory := (sampleDriver (2 ^ 31)).handleOut (World.init.calls.length + 2),
              Size := T10.shaderBindingTableSize (sampleDriver (2 ^ 31)) },
          _hitShaderAndDataSize := T10.hitShaderAndDataSize (sampleDriver (2 ^ 31)) }
      0 0).raygenShaderBindingOffset + 0
      = T10.raygenAndMissSize (sampleDriver (2 ^ 31)) +
          0 * ((sampleDriver (2 ^ 31)).shaderGroupHandleSize + 16) + 0 := by decide
  rw [e] at h0
  rw [h1] at h0
  exact absurd h0 (by decide)

/-- C2, amended: in tutorial 10, when every driver call succeeds and the
handle size `h` satisfies `0 < h` and `2h < 2^32`, `CreateShaderBindingTable`
returns, and for every hit record `i < 3` the `h` bytes at offset
`raygenSize + missSize + i * hitStride` (`raygenSize = missSize = h`,
`hitStride = h + 16`) are the handle of shader group 2 and the 16 bytes after
them are the four floats `colors[i]`. -/
theorem hit_records_round_trip (drv : Driver) (hs : ∀ n, drv.result n = VK_SUCCESS)
    (app : T10.TutorialApplication) (w : World) (_hpos : 0 < drv.shaderGroupHandleSize)
    (hh : 2 * drv.shaderGroupHandleSize < 2 ^ 32) :
    T10.hitRecordsRoundTrip drv app w := by
  obtain ⟨w1, hrun, _, hhit, hcol, _⟩ := T10_CreateShaderBindingTable_ok drv app w hs
  have hc : T10.raygenAndMissSize drv
      = drv.shaderGroupHandleSize + drv.shaderGroupHandleSize := by
    simp only [T10.raygenAndMissSize, u32]
    omega
  rw [hc] at hhit hcol
  exact ⟨_, w1, hrun, fun i hi => ⟨hhit i hi, hcol i hi⟩⟩

/-- Witness of C2, amended: the sample driver with 16-byte handles. -/
theorem hit_records_round_trip_witness :
    T10.hitRecordsRoundTrip (sampleDriver 16) {} World.init :=
  hit_records_round_trip (sampleDriver 16) (fun _ => rfl) {} World.init (by decide) (by decide)

/-- Counterexample to C2 as stated (every handle size `h > 0`): with the
handle size `2^31` the cursor is advanced by `2h mod 2^32 = 0` after the raygen
and miss handles, and byte 16 of the record claimed at `raygenSize + missSize`
is the first byte of `colors[1]`, not a byte of the handle of group 2. -/
theorem hit_records_round_trip_fails_when_product_wraps :
    0 < (sampleDriver (2 ^ 31)).shaderGroupHandleSize ∧
    ¬ T10.hitRecordsRoundTrip (sampleDriver (2 ^ 31)) {} World.init := by
  refine ⟨by decide, ?_⟩
  rintro ⟨app1, w1, hrun, hP⟩
  obtain ⟨w2, hrun2, _, _, hcol, _⟩ :=
    T10_CreateShaderBindingTable_ok (sampleDriver (2 ^ 31)) {} World.init (fun _ => rfl)
  rw [hrun2] at hrun
  obtain ⟨rfl, rfl⟩ := Res.ok.inj hrun
  have h0 := (hP 0 (by decide)).1 16 (by decide)
  have h1 := hcol 1 (by decide) 0 (by decide) 0 (by decide)
  have e : (sampleDriver (2 ^ 31)).shaderGroupHandleSize +
        (sampleDriver (2 ^ 31)).shaderGroupHandleSize +
        0 * ((sampleDriver (2 ^ 31)).shaderGroupHandleSize + 16) + 16
      = T10.raygenAndMissSize (sampleDriver (2 ^ 31)) +
          1 * ((sampleDriver (2 ^ 31)).shaderGroupHandleSize + 16) +
          (sampleDriver (2 ^ 31)).shaderGroupHandleSize + 4 * 0 + 0 := by decide
  rw [e] at h0
  rw [h1] at h0
  exact absurd h0 (by decide)

theorem T10_instances_fields (handle : Nat) :
    (T10.instances handle).map (fun r => r.accelerationStructureHandle)
        = [handle, handle, handle] ∧
      (T10.instances handle).map (fun r => r.instanceOffset) = [0, 1, 2] := by
  simp [T10.instances, T10._instanceNum, T10.fillInstance, List.range, List.range.loop,
    T10.zeroInstance]

/-- C6, amended: in tutorial 10 the three instances carry one bottom-level
handle and the instance offsets 0, 1, 2, and, when every driver call succeeds
and the handle size `h` satisfies `2h < 2^32`, the hit records they address,
`[2h + k (h + 16), 2h + (k + 1) (h + 16))`, start at
`hitOffset + k * hitStride` of the trace call, whose stride is `h + 16`, lie
inside the table and do not overlap. -/
theorem instances_address_disjoint_records (drv : Driver)
    (hs : ∀ n, drv.result n = VK_SUCCESS) (app : T10.TutorialApplication) (w : World)
    (hh : 2 * drv.shaderGroupHandleSize < 2 ^ 32) :
    T10.instancesAddressDisjointRecords drv app w := by
  obtain ⟨w1, hrun, _, _, _, _⟩ := T10_CreateShaderBindingTable_ok drv app w hs
  refine ⟨T10_instances_fields, _, w1, hrun, fun width height => ?_⟩
  have h2 : u32 (2 * drv.shaderGroupHandleSize) = 2 * drv.shaderGroupHandleSize :=
    u32_of_lt (by omega)
  have hstride : T10.hitShaderAndDataSize drv = drv.shaderGroupHandleSize + 16 := by
    simp only [T10.hitShaderAndDataSize, T10.inlineDataSize, u64]
    omega
  simp only [T10.traceRays, h2, hstride, T10_shaderBindingTableSize_of_small drv hh]
  refine ⟨trivial, fun k hk => ⟨trivial, ?_, fun k2 hlt hk2 => ?_⟩⟩
  · interval_cases k <;> omega
  · interval_cases k <;> interval_cases k2 <;> omega

/-- Witness of C6, amended: the sample driver with 16-byte handles. -/
theorem instances_address_disjoint_records_witness :
    T10.instancesAddressDisjointRecords (sampleDriver 16) {} World.init :=
  instances_address_disjoint_records (sampleDriver 16) (fun _ => rfl) {} World.init (by decide)

/-- Counterexample to C6 as stated (every handle size): with the handle size
`2^31` the table has `3 (h + 16)` bytes, and the record
`[2h + 2 (h + 16), 2h + 3 (h + 16))` does not lie inside it. -/
theorem instances_records_outside_table_when_product_wraps :
    ¬ T10.instancesAddressDisjointRecords (sampleDriver (2 ^ 31)) {} World.init := by
  rintro ⟨_, app1, w1, hrun, hP⟩
  obtain ⟨w2, hrun2, _, _, _, _⟩ :=
    T10_CreateShaderBindingTable_ok (sampleDriver (2 ^ 31)) {} World.init (fun _ => rfl)
  rw [hrun2] at hrun
  obtain ⟨rfl, rfl⟩ := Res.ok.inj hrun
  have h0 := ((hP 0 0).2 2 (by decide)).2.1
  exact absurd h0 (by decide)

/-! ### Tutorial 11: the render objects and their hit groups -/

theorem BufferResource_Copy_ok (drv : Driver) (hs : ∀ n, drv.result n = VK_SUCCESS)
    (self : BufferResource) (src : HostData) (size : Nat) (w : World) :
    BufferResource.CopyToBufferUsingMapUnmap drv self src size w
      = .ok true
          { calls := w.calls ++
              [.vkMapMemory self.Memory 0 size, .memcpy self.Memory src size,
               .vkUnmapMemory self.Memory],
            mem := w.mem } := by
  simp [BufferResource.CopyToBufferUsingMapUnmap, bind_apply, pure_apply, call_apply,
    BufferResource_Map_ok drv hs, BufferResource_Unmap_apply]

theorem CreateAccelerationStructure_ok (drv : Driver) (hs : ∀ n, drv.result n = VK_SUCCESS)
    (type : VkAccelerationStructureTypeNV) (geometryCount : Nat)
    (geometries : Option (List VkGeometryNV)) (instanceCount : Nat) (w : World) :
    ∃ w1, CreateAccelerationStructure drv type geometryCount geometries instanceCount w
      = .ok (drv.handleOut w.calls.length, drv.handleOut (w.calls.length + 2)) w1 := by
  simp [CreateAccelerationStructure, bind_apply, pure_apply, call_apply,
    NVVK_CHECK_ERROR_apply, hs]

theorem CreateBufferAndUploadData_ok (drv : Driver) (hs : ∀ n, drv.result n = VK_SUCCESS)
    (buffer : BufferResource) (usage : Nat) (content : HostData) (size : Nat) (w : World) :
    ∃ b w1, T11.CreateBufferAndUploadData drv buffer usage content size w = .ok b w1 := by
  simp [T11.CreateBufferAndUploadData, bind_apply, pure_apply, NVVK_CHECK_ERROR_apply,
    BufferResource_Create_ok drv hs, BufferResource_Copy_ok drv hs]

theorem CreateObjectBottomLevelAS_ok (drv : Driver) (hs : ∀ n, drv.result n = VK_SUCCESS)
    (object : T11.RenderObject) (w : World) :
    ∃ o w1, T11.CreateObjectBottomLevelAS drv object w = .ok o w1 ∧
      o.shaderIndex = object.shaderIndex := by
  obtain ⟨w1, h1⟩ := CreateAccelerationStructure_ok drv hs .BOTTOM_LEVEL_NV 1
    (some [T11.objectGeometry object]) 0 w
  simp only [T11.CreateObjectBottomLevelAS, bind_apply, h1, pure_apply]
  exact ⟨_, _, rfl, rfl⟩

theorem CreateBoxGeometry_ok (drv : Driver) (hs : ∀ n, drv.result n = VK_SUCCESS)
    (object : T11.RenderObject) (w : World) :
    ∃ o w1, T11.CreateBoxGeometry drv object w = .ok o w1 ∧
      o.shaderIndex = object.shaderIndex := by
  unfold T11.CreateBoxGeometry
  obtain ⟨b1, w1, h1⟩ := CreateBufferAndUploadData_ok drv hs (object.vertexBuffers.getD 0 {})
    VK_BUFFER_USAGE_VERTEX_BUFFER_BIT (.vertices T11.boxPositions)
    (u64 (T11.boxPositions.length * T11.sizeofVertexPosition)) w
  simp only [bind_apply, h1]
  obtain ⟨b2, w2, h2⟩ := CreateBufferAndUploadData_ok drv hs
    ((object.vertexBuffers.set 0 b1).getD 1 {})
    VK_BUFFER_USAGE_UNIFORM_TEXEL_BUFFER_BIT (.floats T11.boxTexcoords)
    (u64 (T11.boxTexcoords.length * 4)) w1
  simp only [h2]
  obtain ⟨b3, w3, h3⟩ := CreateBufferAndUploadData_ok drv hs
    (((object.vertexBuffers.set 0 b1).set 1 b2).getD 2 {})
    VK_BUFFER_USAGE_UNIFORM_TEXEL_BUFFER_BIT (.floats T11.boxNormals)
    (u64 (T11.boxNormals.length * 4)) w2
  simp only [h3]
  obtain ⟨b4, w4, h4⟩ := CreateBufferAndUploadData_ok drv hs object.indexBuffer
    VK_BUFFER_USAGE_INDEX_BUFFER_BIT (.indices T11.boxIndices)
    (u64 (T11.boxIndices.length * 2)) w3
  simp only [h4]
  obtain ⟨b5, w5, h5⟩ := CreateBufferAndUploadData_ok drv hs object.indexBufferCopy
    VK_BUFFER_USAGE_UNIFORM_TEXEL_BUFFER_BIT (.indices (T11.indicesWithPadding T11.boxIndices))
    (u64 ((T11.indicesWithPadding T11.boxIndices).length * 2)) w4
  simp only [h5, pure_apply]
  exact ⟨_, _, rfl, rfl⟩

theorem CreateIcosahedronGeometry_ok (drv : Driver) (hs : ∀ n, drv.result n = VK_SUCCESS)
    (object : T11.RenderObject) (w : World) :
    ∃ o w1, T11.CreateIcosahedronGeometry drv object w = .ok o w1 ∧
      o.shaderIndex = object.shaderIndex := by
  unfold T11.CreateIcosahedronGeometry
  obtain ⟨b1, w1, h1⟩ := CreateBufferAndUploadData_ok drv hs (object.vertexBuffers.getD 0 {})
    VK_BUFFER_USAGE_VERTEX_BUFFER_BIT (.vertices T11.icosahedronPositions)
    (u64 (T11.icosahedronPositions.length * T11.sizeofVertexPosition)) w
  simp only [bind_apply, h1]
  obtain ⟨b2, w2, h2⟩ := CreateBufferAndUploadData_ok drv hs
    ((object.vertexBuffers.set 0 b1).getD 1 {})
    VK_BUFFER_USAGE_UNIFORM_TEXEL_BUFFER_BIT (.normalized T11.icosahedronPositions)
    (u64 (T11.icosahedronPositions.length * 3 * 4)) w1
  simp only [h2]
  obtain ⟨b4, w4, h4⟩ := CreateBufferAndUploadData_ok drv hs object.indexBuffer
    VK_BUFFER_USAGE_INDEX_BUFFER_BIT (.indices T11.icosahedronIndices)
    (u64 (T11.icosahedronIndices.length * 2)) w2
  simp only [h4]
  obtain ⟨b5, w5, h5⟩ := CreateBufferAndUploadData_ok drv hs object.indexBufferCopy
    VK_BUFFER_USAGE_UNIFORM_TEXEL_BUFFER_BIT
    (.indices (T11.indicesWithPadding T11.icosahedronIndices))
    (u64 ((T11.indicesWithPadding T11.icosahedronIndices).length * 2)) w4
  simp only [h5, pure_apply]
  exact ⟨_, _, rfl, rfl⟩

theorem CreateBoxBufferViews_ok (drv : Driver) (hs : ∀ n, drv.result n = VK_SUCCESS)
    (object : T11.RenderObject) (app : T11.TutorialApplication) (w : World) :
    ∃ a w1, T11.CreateBoxBufferViews drv object app w = .ok a w1 ∧
      a._renderObjects = app._renderObjects := by
  simp [T11.CreateBoxBufferViews, bind_apply, pure_apply, call_apply, NVVK_CHECK_ERROR_apply, hs]

theorem CreateIcosahedronBufferViews_ok (drv : Driver) (hs : ∀ n, drv.result n = VK_SUCCESS)
    (object : T11.RenderObject) (app : T11.TutorialApplication) (w : World) :
    ∃ a w1, T11.CreateIcosahedronBufferViews drv object app w = .ok a w1 ∧
      a._renderObjects = app._renderObjects := by
  simp [T11.CreateIcosahedronBufferViews, bind_apply, pure_apply, call_apply,
    NVVK_CHECK_ERROR_apply, hs]

theorem LoadObjectTexture_ok (drv : Driver) (hs : ∀ n, drv.result n = VK_SUCCESS)
    (hl : ∀ n, drv.loaded n = true) (object : T11.RenderObject) (path : String)
    (app : T11.TutorialApplication) (w : World) :
    ∃ r w1, T11.LoadObjectTexture drv object path app w = .ok r w1 ∧
      r.1.shaderIndex = object.shaderIndex ∧ r.2._renderObjects = app._renderObjects := by
  simp [T11.LoadObjectTexture, bind_apply, pure_apply, call_apply, NVVK_CHECK_ERROR_apply, hs,
    hl]

theorem ok_bind {α β : Type} (m : M α) (f : α → M β) (w : World) (P : α → Prop)
    (Q : β → Prop) (h1 : ∃ a w1, m w = .ok a w1 ∧ P a)
    (h2 : ∀ a w1, P a → ∃ b w2, f a w1 = .ok b w2 ∧ Q b) :
    ∃ b w2, (m >>= f) w = .ok b w2 ∧ Q b := by
  obtain ⟨a, w1, h, hp⟩ := h1
  simp only [bind_apply, h]
  exact h2 a w1 hp

theorem CreateBox_ok (drv : Driver) (hs : ∀ n, drv.result n = VK_SUCCESS)
    (hl : ∀ n, drv.loaded n = true) (object : T11.RenderObject) (path : String)
    (app : T11.TutorialApplication) (w : World) :
    ∃ r w1, T11.CreateBox drv object path app w = .ok r w1 ∧
      (r.1.shaderIndex = 0 ∧ r.2._renderObjects = app._renderObjects) := by
  simp only [T11.CreateBox, bind_apply, BufferResource_Create_ok drv hs,
    BufferResource_Copy_ok drv hs]
  simp only [← bind_apply]
  refine ok_bind _ _ _ _ _ (CreateBoxGeometry_ok drv hs _ _) ?_
  intro o1 w1 e1
  refine ok_bind _ _ _ _ _ (CreateBoxBufferViews_ok drv hs o1 app w1) ?_
  intro a2 w2 e2
  refine ok_bind _ _ _ _ _ (LoadObjectTexture_ok drv hs hl o1 path a2 w2) ?_
  intro r3 w3 e3
  obtain ⟨o4, w4, h4, e4⟩ := CreateObjectBottomLevelAS_ok drv hs r3.1 w3
  simp only [bind_apply, h4, pure_apply]
  refine ⟨_, _, rfl, ?_, ?_⟩
  · simp only [e4, e3.1, e1]
  · simp only [e3.2, e2]

theorem CreateIcosahedron_ok (drv : Driver) (hs : ∀ n, drv.result n = VK_SUCCESS)
    (object : T11.RenderObject) (app : T11.TutorialApplication) (w : World) :
    ∃ r w1, T11.CreateIcosahedron drv object app w = .ok r w1 ∧
      (r.1.shaderIndex = 1 ∧ r.2._renderObjects = app._renderObjects) := by
  simp only [T11.CreateIcosahedron, bind_apply, BufferResource_Create_ok drv hs,
    BufferResource_Copy_ok drv hs]
  simp only [← bind_apply]
  refine ok_bind _ _ _ _ _ (CreateIcosahedronGeometry_ok drv hs _ _) ?_
  intro o1 w1 e1
  refine ok_bind _ _ _ _ _ (CreateIcosahedronBufferViews_ok drv hs o1 app w1) ?_
  intro a2 w2 e2
  obtain ⟨o4, w4, h4, e4⟩ := CreateObjectBottomLevelAS_ok drv hs o1 w2
  simp only [bind_apply, h4, pure_apply]
  refine ⟨_, _, rfl, ?_, ?_⟩
  · simp only [e4, e1]
  · simp only [e2]

theorem InitObjects_ok (drv : Driver) (hs : ∀ n, drv.result n = VK_SUCCESS)
    (hl : ∀ n, drv.loaded n = true) (app : T11.TutorialApplication) (w : World)
    (hlen : app._renderObjects.length = 5) :
    ∃ app1 w1, T11.InitObjects drv app w = .ok app1 w1 ∧
      app1._renderObjects.map (fun o => o.shaderIndex) = [0, 1, 0, 0, 1] := by
  unfold T11.InitObjects
  obtain ⟨r1, w1, h1, s1, e1⟩ := CreateBox_ok drv hs hl (app._renderObjects.getD 0 default)
    "cb0.bmp" app w
  simp only [bind_apply, h1]
  obtain ⟨r2, w2, h2, s2, e2⟩ := CreateIcosahedron_ok drv hs
    ((T11.storeObject 0 r1)._renderObjects.getD 1 default) (T11.storeObject 0 r1) w1
  simp only [h2]
  obtain ⟨r3, w3, h3, s3, e3⟩ := CreateBox_ok drv hs hl
    ((T11.storeObject 1 r2)._renderObjects.getD 2 default) "cb1.bmp" (T11.storeObject 1 r2) w2
  simp only [h3]
  obtain ⟨r4, w4, h4, s4, e4⟩ := CreateBox_ok drv hs hl
    ((T11.storeObject 2 r3)._renderObjects.getD 3 default) "cb2.bmp" (T11.storeObject 2 r3) w3
  simp only [h4]
  obtain ⟨r5, w5, h5, s5, e5⟩ := CreateIcosahedron_ok drv hs
    ((T11.storeObject 3 r4)._renderObjects.getD 4 default) (T11.storeObject 3 r4) w4
  simp only [h5, pure_apply]
  refine ⟨_, _, rfl, ?_⟩
  simp only [T11.storeObject] at e2 e3 e4 e5 ⊢
  rw [e5, e4, e3, e2, e1]
  match app._renderObjects, hlen with
  | [a, b, c, d, e], _ => simp [s1, s2, s3, s4, s5]
  | [], h | [_], h | [_, _], h | [_, _, _], h | [_, _, _, _], h
  | _ :: _ :: _ :: _ :: _ :: _ :: _, h => simp at h

theorem instanceLoop_ok (drv : Driver) (hs : ∀ n, drv.result n = VK_SUCCESS)
    (translation : Nat → ℚ × ℚ × ℚ) (objects : List T11.RenderObject)
    (hidx : objects.map (fun o => o.shaderIndex) = [0, 1, 0, 0, 1]) (w : World) :
    ∃ records w1,
      forLoop (T11.instanceStep drv translation objects) T11._objectNum 0
          (List.replicate T11._objectNum T11.zeroInstance) w = .ok records w1 ∧
        records.map (fun r => r.instanceOffset) = objects.map (fun o => o.shaderIndex) := by
  match objects, hidx with
  | [], h | [_], h | [_, _], h | [_, _, _], h | [_, _, _, _], h
  | _ :: _ :: _ :: _ :: _ :: _ :: _, h => simp at h
  | [a, b, c, d, e], hidx =>
    simp only [List.map_cons, List.map_nil, List.cons.injEq, and_true] at hidx
    obtain ⟨ha, hb, hc, hd, he⟩ := hidx
    simp [T11._objectNum, forLoop, T11.instanceStep, bind_apply, pure_apply, call_apply,
      NVVK_CHECK_ERROR_apply, hs, T11.fillInstance, List.replicate, ha, hb, hc, hd, he]

theorem T11_hitRecords_of_small (drv : Driver) (hs : ∀ n, drv.result n = VK_SUCCESS)
    (hh : 4 * drv.shaderGroupHandleSize < 2 ^ 32) (app1 : T11.TutorialApplication)
    (w2 : World) :
    ∃ app2 w3, T11.CreateShaderBindingTable drv app1 w2 = .ok app2 w3 ∧
      app2._shaderBindingTable.Size = 4 * drv.shaderGroupHandleSize ∧
      ∀ width height k, k < 2 →
        (T11.traceRays drv app2 width height).hitShaderBindingOffset +
            k * (T11.traceRays drv app2 width height).hitShaderBindingStride
          = 2 * drv.shaderGroupHandleSize + k * drv.shaderGroupHandleSize ∧
        recordHoldsGroup w3.mem drv app2._shaderBindingTable.Memory
          app2._shaderBindingTable.Size
          (2 * drv.shaderGroupHandleSize + k * drv.shaderGroupHandleSize) (some (2 + k)) := by
  obtain ⟨w3, hrun, hmem⟩ := T11_CreateShaderBindingTable_ok drv app1 w2 hs
  have h2 : u32 (2 * drv.shaderGroupHandleSize) = 2 * drv.shaderGroupHandleSize :=
    u32_of_lt (by omega)
  have h4 : u32 (drv.shaderGroupHandleSize * 4) = drv.shaderGroupHandleSize * 4 :=
    u32_of_lt (by omega)
  have hb := (writeGroupHandles_four drv (drv.handleOut (w2.calls.length + 2)) w2.mem).2
  refine ⟨_, w3, hrun, ?_, fun width height k hk => ⟨?_, ?_, 2 + k, rfl, fun b hlt => ?_⟩⟩
  · simp only [T11.shaderBindingTableSize, h4]; omega
  · simp only [T11.traceRays, h2]
  · simp only [T11.shaderBindingTableSize, h4]
    have : k * drv.shaderGroupHandleSize ≤ 1 * drv.shaderGroupHandleSize :=
      Nat.mul_le_mul_right _ (by omega)
    omega
  · have e : 2 * drv.shaderGroupHandleSize + k * drv.shaderGroupHandleSize + b
        = (2 + k) * drv.shaderGroupHandleSize + b := by rw [Nat.add_mul]
    simp only [hmem, e]
    exact hb (2 + k) (by omega) b hlt

/-- C5, amended: in tutorial 11, when every driver call succeeds, every
texture loads and `4h < 2^32` for the handle size `h`, the five render objects
are created with shader indices 0, 1, 0, 0, 1 (boxes 0, 2, 3 and icosahedra
1, 4); every instance record gets the shader index of its object as
`instanceOffset`; and for `k = 0, 1` the record at `2h + k * h`, which is the
trace call's hit offset plus `k` strides, lies inside the `4h`-byte table and
holds the handle of shader group `2 + k`, the box closest-hit group for
`k = 0` and the icosahedron closest-hit group for `k = 1`. -/
theorem instance_offsets_select_hit_groups (drv : Driver)
    (hs : ∀ n, drv.result n = VK_SUCCESS) (hl : ∀ n, drv.loaded n = true)
    (hh : 4 * drv.shaderGroupHandleSize < 2 ^ 32) (translation : Nat → ℚ × ℚ × ℚ)
    (app : T11.TutorialApplication) (hlen : app._renderObjects.length = 5) (w : World) :
    T11.instanceOffsetsSelectHitGroups drv translation app w := by
  obtain ⟨app1, w1, hrun, hidx⟩ := InitObjects_ok drv hs hl app w hlen
  exact ⟨app1, w1, hrun, hidx,
    fun w2 => instanceLoop_ok drv hs translation app1._renderObjects hidx w2,
    fun w2 => T11_hitRecords_of_small drv hs hh app1 w2, by decide, by decide⟩

/-- Witness of C5, amended: the sample driver with 16-byte handles and the
five default render objects. -/
theorem instance_offsets_select_hit_groups_witness :
    T11.instanceOffsetsSelectHitGroups (sampleDriver 16) (fun _ => (0, 0, 0)) {} World.init :=
  instance_offsets_select_hit_groups (sampleDriver 16) (fun _ => rfl) (fun _ => rfl)
    (by decide) (fun _ => (0, 0, 0)) {} rfl World.init

/-- Counterexample to C5 as stated: with handles of `2^30` bytes the 32-bit
product `h * 4` wraps to 0, so the table that is created has 0 bytes, not
`4h`, and no hit record lies inside it. -/
theorem instance_offsets_fail_when_product_wraps :
    ¬ T11.instanceOffsetsSelectHitGroups (sampleDriver (2 ^ 30)) (fun _ => (0, 0, 0)) {}
        World.init := by
  rintro ⟨app1, w1, -, -, -, hsbt, -⟩
  obtain ⟨app2, w3, hrun, hsize, -⟩ := hsbt World.init
  obtain ⟨w4, hok, -⟩ :=
    T11_CreateShaderBindingTable_ok (sampleDriver (2 ^ 30)) app1 World.init (fun _ => rfl)
  rw [hok] at hrun
  injection hrun with happ _
  rw [← happ] at hsize
  revert hsize
  simp only [T11.shaderBindingTableSize, sampleDriver, u32]
  decide

/-! ### The order of the regions of the table -/

/-- C3, amended: for a handle size `h` with `0 < h` and `2h < 2^32`, the trace
call of tutorials 10 and 11 has raygen offset < miss offset < hit offset, while
the trace call of tutorial 07 has raygen offset < hit offset < miss offset: its
table is laid out raygen record, hit record, miss record. -/
theorem table_regions_order (drv : Driver) (h0 : 0 < drv.shaderGroupHandleSize)
    (hh : 2 * drv.shaderGroupHandleSize < 2 ^ 32)
    (app07 : T07.TutorialApplication) (app10 : T10.TutorialApplication)
    (app11 : T11.TutorialApplication) (width height : Nat) :
    raygenHitMiss (T07.traceRays drv app07 width height) ∧
    raygenMissHit (T10.traceRays drv app10 width height) ∧
    raygenMissHit (T11.traceRays drv app11 width height) := by
  have h1 : u32 (1 * drv.shaderGroupHandleSize) = 1 * drv.shaderGroupHandleSize :=
    u32_of_lt (by omega)
  have h2 : u32 (2 * drv.shaderGroupHandleSize) = 2 * drv.shaderGroupHandleSize :=
    u32_of_lt (by omega)
  simp only [raygenHitMiss, raygenMissHit, T07.traceRays, T10.traceRays, T11.traceRays, h1, h2]
  omega

/-- Witness of C3, amended: 16-byte handles. -/
theorem table_regions_order_witness :
    raygenHitMiss (T07.traceRays (sampleDriver 16) {} 640 480) ∧
    raygenMissHit (T10.traceRays (sampleDriver 16) {} 640 480) ∧
    raygenMissHit (T11.traceRays (sampleDriver 16) {} 640 480) :=
  table_regions_order (sampleDriver 16) (by decide) (by decide) {} {} {} 640 480

/-- Counterexample to C3 as stated: with 16-byte handles the trace call of
tutorial 07 passes miss offset 32 and hit offset 16, so the miss region does
not come before the hit region. -/
theorem tutorial07_miss_region_after_hit_region :
    ¬ raygenMissHit (T07.traceRays (sampleDriver 16) {} 640 480) := by
  simp [raygenMissHit, T07.traceRays, sampleDriver, u32]

/-! ### Error handling -/

/-- C13: `NVVK_CHECK_ERROR(code, message)` does nothing when `code` is
`VK_SUCCESS` and otherwise calls `ExitError` with the text `message`, then
`" ErrorCode: "`, then the decimal numeral of `code` (a minus sign before the
digits of a negative code); `ExitError`, for every text, logs the text and ends
the process with exit status 1. -/
theorem check_error_exits_exactly_on_failure (code : VkResult) (message : String) (w : World) :
    NVVK_CHECK_ERROR code message w
      = (if code ≠ VK_SUCCESS then
          (ExitError (message ++ " ErrorCode: " ++ ToString code) false : M Unit) w
        else .ok () w) ∧
    ToString code
      = (match code with
        | .ofNat m => Nat.repr m
        | .negSucc m => "-" ++ Nat.repr (m + 1)) ∧
    (∀ (text : String) (silent : Bool) (w1 : World),
      (ExitError text silent : M Unit) w1
        = .stop (.exit text 1) { w1 with calls := w1.calls ++ [.LogError text silent] }) := by
  refine ⟨?_, ?_, fun text silent w1 => rfl⟩
  · by_cases h : code = VK_SUCCESS <;> simp [NVVK_CHECK_ERROR_apply, ExitError_apply, h]
  · cases code <;> rfl

theorem missingExtension_ne_generic (code : VkResult) :
    missingExtensionMessage ++ " ErrorCode: -7"
      ≠ "vkCreateDevice ErrorCode: " ++ ToString code := by
  intro h
  have h2 := congrArg String.data h
  simp only [String.data_append, missingExtensionMessage] at h2
  have h3 := congrArg (fun l => l.get? 15) h2
  revert h3
  simp

theorem checkCreateDevice_bind (code : VkResult) (device : Nat) (w : World) :
    (checkCreateDevice code >>= fun _ => (pure device : M Nat)) w
      = createDeviceOutcome code device w := by
  rw [bind_apply]
  unfold checkCreateDevice createDeviceOutcome
  by_cases h1 : code = VK_SUCCESS
  · subst h1
    simp [NVVK_CHECK_ERROR_apply, VK_SUCCESS, VK_ERROR_EXTENSION_NOT_PRESENT, pure_apply]
  · by_cases h2 : code = VK_ERROR_EXTENSION_NOT_PRESENT
    · subst h2
      simp only [NVVK_CHECK_ERROR_apply, h1, if_true, if_false]
      rfl
    · simp only [NVVK_CHECK_ERROR_apply, h1, h2, if_false]
      rfl

/-- C16: both `CreateDevice` functions (`RayTracingApplication` and tutorial
01) issue `vkCreateDevice` and then: on `VK_SUCCESS` return the device without
an exit; on `VK_ERROR_EXTENSION_NOT_PRESENT` exit with the text that names the
missing `VK_NV_RAY_TRACING` extension and the driver; on every other code exit
with `vkCreateDevice ErrorCode: <code>`.  The first text differs from the
second for every code. -/
theorem create_device_failure_messages (drv : Driver) (queuesInfo : QueuesInfo)
    (deviceExtensions : List Nat) (descriptorIndexingName swapchainName rayTracingName : Nat)
    (w : World) :
    RayTracingApplication.CreateDevice drv queuesInfo deviceExtensions descriptorIndexingName w
      = createDeviceOutcome (drv.result (w.calls.length + 1)) (drv.handleOut (w.calls.length + 1))
          { w with calls := w.calls ++
              [.vkGetPhysicalDeviceFeatures2 (deviceExtensions.contains descriptorIndexingName),
               .vkCreateDevice (deviceQueueCreateInfos queuesInfo) deviceExtensions
                 (some (deviceExtensions.contains descriptorIndexingName)) false] } ∧
    T01.CreateDevice drv queuesInfo swapchainName rayTracingName w
      = createDeviceOutcome (drv.result w.calls.length) (drv.handleOut w.calls.length)
          { w with calls := w.calls ++
              [.vkCreateDevice (deviceQueueCreateInfos queuesInfo)
                 [swapchainName, rayTracingName] none true] } ∧
    (∀ code : VkResult,
      missingExtensionMessage ++ " ErrorCode: -7"
        ≠ "vkCreateDevice ErrorCode: " ++ ToString code) ∧
    "VK_NV_RAY_TRACING".data <:+: missingExtensionMessage.data ∧
    "driver".data <:+: missingExtensionMessage.data := by
  refine ⟨?_, ?_, missingExtension_ne_generic, by decide!, by decide!⟩
  · rw [← checkCreateDevice_bind]
    simp only [RayTracingApplication.CreateDevice, bind_apply, call_apply, pure_apply,
      List.length_append, List.length_singleton, List.append_assoc, List.singleton_append]
  · rw [← checkCreateDevice_bind]
    simp only [T01.CreateDevice, bind_apply, call_apply, pure_apply]

/-- C17: `CopyToBufferUsingMapUnmap(src, size)` returns `true` exactly when
`vkMapMemory` succeeds.  Then its calls are the map, the `memcpy` of `size`
bytes of `src` to the start of the buffer's memory and the unmap, after which
the first `size` bytes of that memory are those of `src`; otherwise its calls
are the map and the error log only: no copy and no unmap, memory unchanged. -/
theorem copy_succeeds_exactly_when_map_succeeds (drv : Driver) (self : BufferResource)
    (src : HostData) (size : Nat) (w : World) (bytes : HostData → Nat → Nat)
    (mem : Nat → Nat → Nat) :
    BufferResource.CopyToBufferUsingMapUnmap drv self src size w
      = (if drv.result w.calls.length = VK_SUCCESS then
          .ok true { w with calls := w.calls ++
            [.vkMapMemory self.Memory 0 size, .memcpy self.Memory src size,
             .vkUnmapMemory self.Memory] }
        else
          .ok false { w with calls := w.calls ++
            [.vkMapMemory self.Memory 0 size,
             .LogError ("vkMapMemory: " ++ ToString (drv.result w.calls.length)) false] }) ∧
    (∀ b, b < size →
      copiedBytes bytes
        [.vkMapMemory self.Memory 0 size, .memcpy self.Memory src size,
         .vkUnmapMemory self.Memory] mem self.Memory b = bytes src b) ∧
    copiedBytes bytes
      [.vkMapMemory self.Memory 0 size,
       .LogError ("vkMapMemory: " ++ ToString (drv.result w.calls.length)) false] mem = mem := by
  refine ⟨?_, fun b hb => by simp [copiedBytes, hb], by simp [copiedBytes]⟩
  by_cases h : drv.result w.calls.length = VK_SUCCESS <;>
    simp [BufferResource.CopyToBufferUsingMapUnmap, BufferResource.Map, BufferResource.Unmap,
      bind_apply, pure_apply, call_apply, LogError_apply, h]

/-- C18, amended: `BufferResource::Create` returns `VK_SUCCESS` exactly when
buffer creation, allocation and bind all succeed, and then `Buffer` and
`Memory` are the created handles.  When a step fails it returns the code of
that step, has destroyed the buffer (after a failed allocation) or destroyed
the buffer and freed the memory (after a failed bind), and leaves `Buffer`
null; `Memory` is null after a failed allocation or bind, and after a failed
buffer creation it keeps the value it had before the call. -/
theorem create_result_and_cleanup (drv : Driver) (self : BufferResource)
    (size usage memoryProperties : Nat) (w : World) :
    BufferResource.Create drv self size usage memoryProperties w
      = (let n := w.calls.length
         let create : List Call := [ .vkCreateBuffer size usage ]
         let allocate : List Call :=
           [ .vkGetBufferMemoryRequirements (drv.handleOut n),
             .vkAllocateMemory (drv.memoryRequirements (n + 1)).size
               (GetMemoryType drv (drv.memoryRequirements (n + 1)) memoryProperties) ]
         let bind : List Call :=
           [ .vkBindBufferMemory (drv.handleOut n) (drv.handleOut (n + 2)) 0 ]
         if drv.result n ≠ VK_SUCCESS then
           .ok (drv.result n, { Buffer := VK_NULL_HANDLE, Memory := self.Memory, Size := size })
             { w with calls := w.calls ++ create }
         else if drv.result (n + 2) ≠ VK_SUCCESS then
           .ok (drv.result (n + 2),
                { Buffer := VK_NULL_HANDLE, Memory := VK_NULL_HANDLE, Size := size })
             { w with calls := w.calls ++ create ++ allocate ++
                 [.vkDestroyBuffer (drv.handleOut n)] }
         else if drv.result (n + 3) ≠ VK_SUCCESS then
           .ok (drv.result (n + 3),
                { Buffer := VK_NULL_HANDLE, Memory := VK_NULL_HANDLE, Size := size })
             { w with calls := w.calls ++ create ++ allocate ++ bind ++
                 [.vkDestroyBuffer (drv.handleOut n), .vkFreeMemory (drv.handleOut (n + 2))] }
         else
           .ok (VK_SUCCESS,
                { Buffer := drv.handleOut n, Memory := drv.handleOut (n + 2), Size := size })
             { w with calls := w.calls ++ create ++ allocate ++ bind }) := by
  by_cases h1 : drv.result w.calls.length = VK_SUCCESS <;>
  by_cases h2 : drv.result (w.calls.length + 2) = VK_SUCCESS <;>
  by_cases h3 : drv.result (w.calls.length + 3) = VK_SUCCESS <;>
  simp [BufferResource.Create, bind_apply, pure_apply, call_apply, h1, h2, h3]

/-- Counterexample to C18 as stated: `Create` on a resource whose `Memory` is
the handle 5, with a driver that fails `vkCreateBuffer`, returns the failure
code and leaves `Memory` at 5, not at `VK_NULL_HANDLE`. -/
theorem create_failure_keeps_previous_memory :
    (BufferResource.Create (sampleDriverFailing 0 VK_ERROR_OUT_OF_DEVICE_MEMORY)
        { Buffer := 7, Memory := 5, Size := 16 } 64 VK_BUFFER_USAGE_VERTEX_BUFFER_BIT
        VK_MEMORY_PROPERTY_HOST_VISIBLE_BIT World.init).value
      = some (VK_ERROR_OUT_OF_DEVICE_MEMORY, { Buffer := VK_NULL_HANDLE, Memory := 5, Size := 64 }) ∧
    VK_ERROR_OUT_OF_DEVICE_MEMORY ≠ VK_SUCCESS ∧ (5 : Nat) ≠ VK_NULL_HANDLE := by
  decide!

theorem LoadFromFile_apply (drv : Driver) (files : String → Option (List Nat))
    (folderPath : String) (self : ShaderResource) (fileName : String) (w : World) :
    self.LoadFromFile drv files folderPath fileName w
      = match files (folderPath ++ fileName) with
        | none => .ok (VK_SUCCESS, true, self) w
        | some bytecode =>
          if drv.result w.calls.length = VK_SUCCESS then
            .ok (VK_SUCCESS, false, { _module := drv.handleOut w.calls.length })
              { w with calls := w.calls ++ [.vkCreateShaderModule bytecode.length bytecode] }
          else
            .ok (drv.result w.calls.length, false, { _module := VK_NULL_HANDLE })
              { w with calls := w.calls ++ [.vkCreateShaderModule bytecode.length bytecode] } := by
  unfold ShaderResource.LoadFromFile
  cases hf : files (folderPath ++ fileName) with
  | none => simp [pure_apply]
  | some bytecode =>
    by_cases h : drv.result w.calls.length = VK_SUCCESS <;>
      simp [bind_apply, pure_apply, call_apply, h]

/-- C19: `ShaderResource::LoadFromFile` has three outcomes.  The file does not
open: `cantOpenFile = true`, no driver call, the module untouched.  The driver
fails: `cantOpenFile = false`, the failure code, the module null.  Success:
`cantOpenFile = false`, `VK_SUCCESS`, the module set to the created handle.
`LoadShader` ends the process in the first two outcomes (with the texts
`Failed to read <name> file` and `<name> ErrorCode: <code>`) and returns in the
third. -/
theorem shader_load_outcomes (drv : Driver) (files : String → Option (List Nat))
    (folderPath : String) (shader : ShaderResource) (shaderName : String) (w : World) :
    shader.LoadFromFile drv files folderPath shaderName w
      = (match files (folderPath ++ shaderName) with
        | none => .ok (VK_SUCCESS, true, shader) w
        | some bytecode =>
          if drv.result w.calls.length = VK_SUCCESS then
            .ok (VK_SUCCESS, false, { _module := drv.handleOut w.calls.length })
              { w with calls := w.calls ++ [.vkCreateShaderModule bytecode.length bytecode] }
          else
            .ok (drv.result w.calls.length, false, { _module := VK_NULL_HANDLE })
              { w with calls := w.calls ++ [.vkCreateShaderModule bytecode.length bytecode] }) ∧
    LoadShader drv files folderPath shader shaderName w
      = (match files (folderPath ++ shaderName) with
        | none =>
          .stop (.exit ("Failed to read " ++ shaderName ++ " file") 1)
            { w with calls := w.calls ++
                [.LogError ("Failed to read " ++ shaderName ++ " file") false] }
        | some bytecode =>
          if drv.result w.calls.length = VK_SUCCESS then
            .ok { _module := drv.handleOut w.calls.length }
              { w with calls := w.calls ++ [.vkCreateShaderModule bytecode.length bytecode] }
          else
            .stop (.exit (shaderName ++ " ErrorCode: " ++ ToString (drv.result w.calls.length)) 1)
              { w with calls := w.calls ++
                  [.vkCreateShaderModule bytecode.length bytecode,
                   .LogError (shaderName ++ " ErrorCode: " ++
                     ToString (drv.result w.calls.length)) false] }) := by
  refine ⟨LoadFromFile_apply drv files folderPath shader shaderName w, ?_⟩
  unfold LoadShader
  simp only [bind_apply, LoadFromFile_apply]
  cases hf : files (folderPath ++ shaderName) with
  | none => simp [ExitError_apply]
  | some bytecode =>
    by_cases h : drv.result w.calls.length = VK_SUCCESS <;>
      simp [pure_apply, NVVK_CHECK_ERROR_apply, h]

/-- C14 fails on the code: the result of `scratchBuffer.Create` (tutorials 07,
10 and 11) and of `uniformBuffer.Create` (tutorial 11) is not checked.  With a
driver whose `vkCreateBuffer` for that buffer returns
`VK_ERROR_OUT_OF_DEVICE_MEMORY`, the function returns instead of ending the
process, and the later steps run: the builds are recorded, the bottom-level
structure of the box is created. -/
theorem unchecked_buffer_creation_does_not_stop :
    continuesAfter
      (T07.CreateAccelerationStructures (sampleDriverFailing 44 VK_ERROR_OUT_OF_DEVICE_MEMORY) {}
        World.init) 44 (.vkCreateBuffer 256 VK_BUFFER_USAGE_RAY_TRACING_BIT_NV) isBuild ∧
    continuesAfter
      (T10.CreateAccelerationStructures (sampleDriverFailing 32 VK_ERROR_OUT_OF_DEVICE_MEMORY) {}
        World.init) 32 (.vkCreateBuffer 256 VK_BUFFER_USAGE_RAY_TRACING_BIT_NV) isBuild ∧
    continuesAfter
      (T11.CreateAccelerationStructures (sampleDriverFailing 22 VK_ERROR_OUT_OF_DEVICE_MEMORY)
        (fun _ => (0, 0, 0)) {} World.init)
      22 (.vkCreateBuffer 256 VK_BUFFER_USAGE_RAY_TRACING_BIT_NV) isBuild ∧
    continuesAfter
      (T11.CreateBox (sampleDriverFailing 0 VK_ERROR_OUT_OF_DEVICE_MEMORY) {} "cb0.bmp" {}
        World.init) 0 (.vkCreateBuffer 16 VK_BUFFER_USAGE_UNIFORM_BUFFER_BIT)
      isStructureCreation := by
  decide!

/-- C15 fails on the code: the boolean of the instance-buffer upload
(tutorials 07, 10 and 11) and of the uniform-buffer upload (tutorial 11) is
not checked.  With a driver whose `vkMapMemory` for that upload returns
`VK_ERROR_MEMORY_MAP_FAILED`, the map failure is logged,
`CopyToBufferUsingMapUnmap` returns `false`, and the function returns instead
of ending the process; the later steps run. -/
theorem unchecked_copy_does_not_stop :
    continuesAfter
      (T07.CreateAccelerationStructures (sampleDriverFailing 33 VK_ERROR_MEMORY_MAP_FAILED) {}
        World.init) 34 (.LogError "vkMapMemory: -5" false) isBuild ∧
    continuesAfter
      (T10.CreateAccelerationStructures (sampleDriverFailing 23 VK_ERROR_MEMORY_MAP_FAILED) {}
        World.init) 24 (.LogError "vkMapMemory: -5" false) isBuild ∧
    continuesAfter
      (T11.CreateAccelerationStructures (sampleDriverFailing 9 VK_ERROR_MEMORY_MAP_FAILED)
        (fun _ => (0, 0, 0)) {} World.init) 10 (.LogError "vkMapMemory: -5" false) isBuild ∧
    continuesAfter
      (T11.CreateBox (sampleDriverFailing 4 VK_ERROR_MEMORY_MAP_FAILED) {} "cb0.bmp" {}
        World.init) 5 (.LogError "vkMapMemory: -5" false) isStructureCreation := by
  decide!

/-! ### Tutorial 07: the geometries share two buffers -/

theorem lifecycleScan_append (drv : Driver) (l1 l2 : List Call) (position : Nat)
    (log : LifecycleLog) :
    lifecycleScan drv position (l1 ++ l2) log
      = (lifecycleScan drv position l1 log).bind
          (lifecycleScan drv (position + l1.length) l2) := by
  induction l1 generalizing position log with
  | nil => simp [lifecycleScan]
  | cons c l1 ih =>
    simp only [List.cons_append, lifecycleScan, List.length_cons]
    cases lifecycleStep drv position c log with
    | none => simp
    | some log1 =>
      have h := ih (position + 1) log1
      rw [show position + 1 + l1.length = position + (l1.length + 1) by omega] at h
      simpa using h

theorem lifecycleStep_neutral (drv : Driver) (position : Nat) (c : Call) (log : LifecycleLog)
    (h : lifecycleNeutral c = true) : lifecycleStep drv position c log = some log := by
  cases c <;> first | rfl | simp [lifecycleNeutral] at h

theorem lifecycleScan_neutral (drv : Driver) (l : List Call) (position : Nat)
    (log : LifecycleLog) (h : ∀ c ∈ l, lifecycleNeutral c = true) :
    lifecycleScan drv position l log = some log := by
  induction l generalizing position with
  | nil => rfl
  | cons c l ih =>
    simp only [lifecycleScan, lifecycleStep_neutral drv position c log (h c (List.mem_cons_self c l)),
      Option.some_bind]
    exact ih (position + 1) (fun d hd => h d (List.mem_cons_of_mem c hd))

theorem cleanupCalls_neutral (self : BufferResource) :
    ∀ c ∈ cleanupCalls self, lifecycleNeutral c = true := by
  intro c hc
  unfold cleanupCalls at hc
  by_cases h1 : self.Buffer = VK_NULL_HANDLE <;> by_cases h2 : self.Memory = VK_NULL_HANDLE <;>
    simp [h1, h2] at hc <;> (try rcases hc with rfl | rfl) <;> rfl

theorem lifecycleScan_cleanup (drv : Driver) (self : BufferResource) (rest : List Call)
    (position : Nat) (log : LifecycleLog) :
    lifecycleScan drv position (cleanupCalls self ++ rest) log
      = lifecycleScan drv (position + (cleanupCalls self).length) rest log := by
  rw [lifecycleScan_append, lifecycleScan_neutral drv _ _ _ (cleanupCalls_neutral self)]
  rfl

theorem BufferResource_Cleanup_apply (self : BufferResource) (w : World) :
    self.Cleanup w
      = .ok { Buffer := VK_NULL_HANDLE, Memory := VK_NULL_HANDLE, Size := self.Size }
          { w with calls := w.calls ++ cleanupCalls self } := by
  obtain ⟨b, m, s⟩ := self
  by_cases h1 : b = VK_NULL_HANDLE <;> by_cases h2 : m = VK_NULL_HANDLE <;>
    simp [BufferResource.Cleanup, cleanupCalls, bind_apply, pure_apply, call_apply, h1, h2]


theorem lifecycleScan_cleanup_last (drv : Driver) (self : BufferResource)
    (position : Nat) (log : LifecycleLog) :
    lifecycleScan drv position (cleanupCalls self) log = some log :=
  lifecycleScan_neutral drv _ _ _ (cleanupCalls_neutral self)

theorem lifecycleScan_nil (drv : Driver) (position : Nat) (log : LifecycleLog) :
    lifecycleScan drv position [] log = some log := rfl

theorem lifecycleScan_cons (drv : Driver) (position : Nat) (c : Call) (rest : List Call)
    (log : LifecycleLog) :
    lifecycleScan drv position (c :: rest) log
      = lifecycleScanFrom drv (position + 1) rest (lifecycleStep drv position c log) := by
  cases h : lifecycleStep drv position c log <;> simp [lifecycleScan, lifecycleScanFrom, h]

theorem lifecycleScanFrom_some (drv : Driver) (position : Nat) (rest : List Call)
    (log : LifecycleLog) :
    lifecycleScanFrom drv position rest (some log) = lifecycleScan drv position rest log := by
  cases h : lifecycleScan drv position rest log <;> simp [lifecycleScanFrom, h]

theorem stateOf_eq_none (l : List (Nat × Lifecycle)) (h : Nat) (hne : ∀ p ∈ l, p.1 ≠ h) :
    stateOf l h = none := by
  induction l with
  | nil => rfl
  | cons p l ih =>
    obtain ⟨a, s⟩ := p
    have h1 : a ≠ h := hne (a, s) (List.mem_cons_self _ _)
    simp only [stateOf, h1, if_false]
    exact ih (fun q hq => hne q (List.mem_cons_of_mem _ hq))

theorem stateOf_fresh (drv : Driver) (hinj : Function.Injective drv.handleOut)
    (log : LifecycleLog) (w : World) (hf : FreshLog drv log w) (n : Nat)
    (hn : w.calls.length ≤ n) : stateOf log.structures (drv.handleOut n) = none := by
  refine stateOf_eq_none _ _ (fun p hp heq => ?_)
  obtain ⟨q, hq, hpq⟩ := hf p hp
  rw [hpq] at heq
  have := hinj heq
  omega

theorem stateOf_append_new (l : List (Nat × Lifecycle)) (h : Nat) (s : Lifecycle)
    (hnone : stateOf l h = none) : stateOf (l ++ [(h, s)]) h = some s := by
  induction l with
  | nil => simp [stateOf]
  | cons p l ih =>
    obtain ⟨a, t⟩ := p
    by_cases h1 : a = h
    · simp [stateOf, h1] at hnone
    · simp only [stateOf, h1, if_false, List.cons_append] at hnone ⊢
      exact ih hnone

theorem setState_append_new (l : List (Nat × Lifecycle)) (h : Nat) (s t : Lifecycle)
    (hnone : stateOf l h = none) : setState (l ++ [(h, s)]) h t = l ++ [(h, t)] := by
  induction l with
  | nil => simp [setState]
  | cons p l ih =>
    obtain ⟨a, u⟩ := p
    by_cases h1 : a = h
    · simp [stateOf, h1] at hnone
    · simp only [stateOf, h1, if_false] at hnone
      have := ih hnone
      simp only [setState, List.cons_append, List.map_cons, h1, if_false] at this ⊢
      rw [this]

theorem scans_pure {α : Type} (drv : Driver) (a : α) (w : World) (log : LifecycleLog)
    {Q : α → World → LifecycleLog → Prop} (h : Q a w log) :
    Scans drv (pure a : M α) w log Q :=
  ⟨a, w, [], log, rfl, by simp, rfl, h⟩

theorem scans_bind {α β : Type} {drv : Driver} {m : M α} {f : α → M β} {w : World}
    {log : LifecycleLog} {Q1 : α → World → LifecycleLog → Prop}
    {Q : β → World → LifecycleLog → Prop}
    (hm : Scans drv m w log Q1)
    (hf : ∀ a w1 log1, Q1 a w1 log1 → Scans drv (f a) w1 log1 Q) :
    Scans drv (m >>= f) w log Q := by
  obtain ⟨a, w1, l1, log1, hrun, hcalls, hscan, hq⟩ := hm
  obtain ⟨b, w2, l2, log2, hrun2, hcalls2, hscan2, hq2⟩ := hf a w1 log1 hq
  refine ⟨b, w2, l1 ++ l2, log2, ?_, ?_, ?_, hq2⟩
  · simp only [bind_apply, hrun, hrun2]
  · rw [hcalls2, hcalls, List.append_assoc]
  · rw [lifecycleScan_append, hscan, Option.some_bind]
    rw [hcalls, List.length_append] at hscan2
    exact hscan2

theorem scans_neutral {α : Type} (drv : Driver) {m : M α}
    (hE : Emits (fun c => lifecycleNeutral c = true) m) {w : World} {P : α → Prop}
    (hok : ∃ a w1, m w = .ok a w1 ∧ P a) (log : LifecycleLog) :
    Scans drv m w log
      (fun a w1 log1 => P a ∧ log = log1 ∧ w.calls.length ≤ w1.calls.length) := by
  obtain ⟨a, w1, hrun, hp⟩ := hok
  obtain ⟨l, hl, hn⟩ := hE w
  rw [hrun] at hl
  simp only [Res.world] at hl
  refine ⟨a, w1, l, log, hrun, hl, lifecycleScan_neutral drv l _ log hn, hp, rfl, ?_⟩
  rw [hl, List.length_append]
  omega

theorem neutral_BufferResource_Create (drv : Driver) (self : BufferResource)
    (size usage memoryProperties : Nat) :
    Emits (fun c => lifecycleNeutral c = true)
      (BufferResource.Create drv self size usage memoryProperties) := by
  unfold BufferResource.Create
  repeat (any_goals (first
    | with_reducible exact emits_pure _ _
    | with_reducible refine emits_call ?_
    | with_reducible apply emits_bind
    | with_reducible apply emits_ite
    | intro _
    | rfl))

theorem neutral_BufferResource_Copy (drv : Driver) (self : BufferResource) (src : HostData)
    (size : Nat) :
    Emits (fun c => lifecycleNeutral c = true)
      (BufferResource.CopyToBufferUsingMapUnmap drv self src size) := by
  unfold BufferResource.CopyToBufferUsingMapUnmap BufferResource.Map BufferResource.Unmap
  refine emits_bind ?_ ?_
  · repeat (any_goals (first
      | with_reducible exact emits_pure _ _
      | with_reducible refine emits_call ?_
      | with_reducible refine emits_LogError ?_
      | with_reducible apply emits_bind
      | with_reducible apply emits_ite
      | intro _
      | rfl))
  · intro mappedMemory
    cases mappedMemory with
    | none => exact emits_pure _ _
    | some p =>
      repeat (any_goals (first
        | with_reducible exact emits_pure _ _
        | with_reducible refine emits_call ?_
        | with_reducible apply emits_bind
        | intro _
        | rfl))

theorem neutral_CreateBufferAndUploadData (drv : Driver) (buffer : BufferResource) (usage : Nat)
    (content : HostData) (size : Nat) :
    Emits (fun c => lifecycleNeutral c = true)
      (T11.CreateBufferAndUploadData drv buffer usage content size) := by
  unfold T11.CreateBufferAndUploadData
  repeat (any_goals (first
    | with_reducible exact emits_pure _ _
    | with_reducible refine emits_call ?_
    | with_reducible refine emits_NVVK_CHECK_ERROR ?_
    | with_reducible refine emits_ExitError ?_
    | with_reducible exact neutral_BufferResource_Create _ _ _ _ _
    | with_reducible exact neutral_BufferResource_Copy _ _ _ _
    | with_reducible apply emits_bind
    | with_reducible apply emits_ite
    | intro _
    | rfl))

theorem neutral_CreateBoxGeometry (drv : Driver) (object : T11.RenderObject) :
    Emits (fun c => lifecycleNeutral c = true) (T11.CreateBoxGeometry drv object) := by
  unfold T11.CreateBoxGeometry
  repeat (any_goals (first
    | with_reducible exact emits_pure _ _
    | with_reducible exact neutral_CreateBufferAndUploadData _ _ _ _ _
    | with_reducible apply emits_bind
    | intro _))

theorem neutral_CreateIcosahedronGeometry (drv : Driver) (object : T11.RenderObject) :
    Emits (fun c => lifecycleNeutral c = true) (T11.CreateIcosahedronGeometry drv object) := by
  unfold T11.CreateIcosahedronGeometry
  repeat (any_goals (first
    | with_reducible exact emits_pure _ _
    | with_reducible exact neutral_CreateBufferAndUploadData _ _ _ _ _
    | with_reducible apply emits_bind
    | intro _))

theorem neutral_CreateBoxBufferViews (drv : Driver) (object : T11.RenderObject)
    (app : T11.TutorialApplication) :
    Emits (fun c => lifecycleNeutral c = true) (T11.CreateBoxBufferViews drv object app) := by
  unfold T11.CreateBoxBufferViews
  repeat (any_goals (first
    | with_reducible exact emits_pure _ _
    | with_reducible refine emits_call ?_
    | with_reducible refine emits_NVVK_CHECK_ERROR ?_
    | with_reducible apply emits_bind
    | intro _
    | rfl))

theorem neutral_CreateIcosahedronBufferViews (drv : Driver) (object : T11.RenderObject)
    (app : T11.TutorialApplication) :
    Emits (fun c => lifecycleNeutral c = true)
      (T11.CreateIcosahedronBufferViews drv object app) := by
  unfold T11.CreateIcosahedronBufferViews
  repeat (any_goals (first
    | with_reducible exact emits_pure _ _
    | with_reducible refine emits_call ?_
    | with_reducible refine emits_NVVK_CHECK_ERROR ?_
    | with_reducible apply emits_bind
    | intro _
    | rfl))

theorem neutral_LoadObjectTexture (drv : Driver) (object : T11.RenderObject) (path : String)
    (app : T11.TutorialApplication) :
    Emits (fun c => lifecycleNeutral c = true) (T11.LoadObjectTexture drv object path app) := by
  unfold T11.LoadObjectTexture
  repeat (any_goals (first
    | with_reducible exact emits_pure _ _
    | with_reducible refine emits_call ?_
    | with_reducible refine emits_NVVK_CHECK_ERROR ?_
    | with_reducible refine emits_ExitError ?_
    | with_reducible apply emits_bind
    | with_reducible apply emits_ite
    | intro _
    | rfl))

theorem CreateObjectBottomLevelAS_scans (drv : Driver) (hs : ∀ n, drv.result n = VK_SUCCESS)
    (hinj : Function.Injective drv.handleOut) (object : T11.RenderObject) (w : World)
    (log : LifecycleLog) (hf : FreshLog drv log w) :
    Scans drv (T11.CreateObjectBottomLevelAS drv object) w log
      (fun o w1 log1 =>
        o.bottomAS = drv.handleOut w.calls.length ∧
        log1 = ⟨log.structures ++ [(drv.handleOut w.calls.length, .MemoryBound)], log.queries⟩ ∧
        w1.calls.length = w.calls.length + 4) := by
  have hnone := stateOf_fresh drv hinj log w hf w.calls.length (Nat.le_refl _)
  unfold Scans
  generalize hrun : T11.CreateObjectBottomLevelAS drv object w = r
  simp [T11.CreateObjectBottomLevelAS, CreateAccelerationStructure, bind_apply, pure_apply,
    call_apply, NVVK_CHECK_ERROR_apply, hs] at hrun
  subst hrun
  refine ⟨_, _, _, _, rfl, rfl, ?_, rfl, rfl, ?_⟩
  · simp [lifecycleScan, lifecycleStep, hnone, stateOf_append_new, setState_append_new]
  · simp

theorem freshLog_mono (drv : Driver) (log : LifecycleLog) (w w1 : World)
    (hf : FreshLog drv log w) (h : w.calls.length ≤ w1.calls.length) : FreshLog drv log w1 := by
  intro p hp
  obtain ⟨q, hq, hpq⟩ := hf p hp
  exact ⟨q, by omega, hpq⟩

theorem freshLog_append (drv : Driver) (log : LifecycleLog) (w w1 : World) (n : Nat)
    (s : Lifecycle) (hf : FreshLog drv log w) (h : w.calls.length ≤ w1.calls.length)
    (hn : n < w1.calls.length) :
    FreshLog drv ⟨log.structures ++ [(drv.handleOut n, s)], log.queries⟩ w1 := by
  intro p hp
  simp only [List.mem_append, List.mem_singleton] at hp
  rcases hp with hp | rfl
  · obtain ⟨q, hq, hpq⟩ := hf p hp
    exact ⟨q, by omega, hpq⟩
  · exact ⟨n, hn, rfl⟩

theorem CreateBox_scans (drv : Driver) (hs : ∀ n, drv.result n = VK_SUCCESS)
    (hl : ∀ n, drv.loaded n = true) (hinj : Function.Injective drv.handleOut)
    (object : T11.RenderObject) (path : String) (app : T11.TutorialApplication) (w : World)
    (log : LifecycleLog) (hf : FreshLog drv log w) :
    Scans drv (T11.CreateBox drv object path app) w log
      (fun r w1 log1 => ∃ n, w.calls.length ≤ n ∧ n < w1.calls.length ∧
        r.1.bottomAS = drv.handleOut n ∧
        log1 = ⟨log.structures ++ [(drv.handleOut n, .MemoryBound)], log.queries⟩ ∧
        r.2._renderObjects = app._renderObjects) := by
  unfold T11.CreateBox
  refine scans_bind (scans_neutral drv (P := fun _ => True) (neutral_BufferResource_Create _ _ _ _ _)
    ⟨_, _, BufferResource_Create_ok drv hs _ _ _ _ _, trivial⟩ log) ?_
  rintro ub w1 _ ⟨-, rfl, h1⟩
  refine scans_bind (scans_neutral drv (P := fun _ => True) (neutral_BufferResource_Copy _ _ _ _)
    ⟨_, _, BufferResource_Copy_ok drv hs _ _ _ _, trivial⟩ log) ?_
  rintro c w2 _ ⟨-, rfl, h2⟩
  refine scans_bind (scans_neutral drv (neutral_CreateBoxGeometry _ _)
    (CreateBoxGeometry_ok drv hs _ w2) log) ?_
  rintro o w3 _ ⟨-, rfl, h3⟩
  refine scans_bind (scans_neutral drv (neutral_CreateBoxBufferViews _ _ _)
    (CreateBoxBufferViews_ok drv hs o app w3) log) ?_
  rintro a w4 _ ⟨ha, rfl, h4⟩
  refine scans_bind (scans_neutral drv (neutral_LoadObjectTexture _ _ _ _)
    (LoadObjectTexture_ok drv hs hl o path a w4) log) ?_
  rintro r w5 _ ⟨⟨-, hr⟩, rfl, h5⟩
  refine scans_bind (CreateObjectBottomLevelAS_scans drv hs hinj r.1 w5 log
    (freshLog_mono drv log w w5 hf (by omega))) ?_
  rintro o6 w6 log6 ⟨hb, rfl, h6⟩
  exact scans_pure drv _ _ _ ⟨w5.calls.length, by omega, by omega, hb, rfl, by rw [hr, ha]⟩

theorem CreateIcosahedron_scans (drv : Driver) (hs : ∀ n, drv.result n = VK_SUCCESS)
    (hinj : Function.Injective drv.handleOut)
    (object : T11.RenderObject) (app : T11.TutorialApplication) (w : World)
    (log : LifecycleLog) (hf : FreshLog drv log w) :
    Scans drv (T11.CreateIcosahedron drv object app) w log
      (fun r w1 log1 => ∃ n, w.calls.length ≤ n ∧ n < w1.calls.length ∧
        r.1.bottomAS = drv.handleOut n ∧
        log1 = ⟨log.structures ++ [(drv.handleOut n, .MemoryBound)], log.queries⟩ ∧
        r.2._renderObjects = app._renderObjects) := by
  unfold T11.CreateIcosahedron
  refine scans_bind (scans_neutral drv (P := fun _ => True) (neutral_BufferResource_Create _ _ _ _ _)
    ⟨_, _, BufferResource_Create_ok drv hs _ _ _ _ _, trivial⟩ log) ?_
  rintro ub w1 _ ⟨-, rfl, h1⟩
  refine scans_bind (scans_neutral drv (P := fun _ => True) (neutral_BufferResource_Copy _ _ _ _)
    ⟨_, _, BufferResource_Copy_ok drv hs _ _ _ _, trivial⟩ log) ?_
  rintro c w2 _ ⟨-, rfl, h2⟩
  refine scans_bind (scans_neutral drv (neutral_CreateIcosahedronGeometry _ _)
    (CreateIcosahedronGeometry_ok drv hs _ w2) log) ?_
  rintro o w3 _ ⟨-, rfl, h3⟩
  refine scans_bind (scans_neutral drv (neutral_CreateIcosahedronBufferViews _ _ _)
    (CreateIcosahedronBufferViews_ok drv hs o app w3) log) ?_
  rintro a w4 _ ⟨ha, rfl, h4⟩
  refine scans_bind (CreateObjectBottomLevelAS_scans drv hs hinj o w4 log
    (freshLog_mono drv log w w4 hf (by omega))) ?_
  rintro o6 w6 log6 ⟨hb, rfl, h6⟩
  exact scans_pure drv _ _ _ ⟨w4.calls.length, by omega, by omega, hb, rfl, ha⟩

theorem list_length_five {α : Type} (l : List α) (h : l.length = 5) :
    ∃ a b c d e, l = [a, b, c, d, e] := by
  match l, h with
  | [a, b, c, d, e], _ => exact ⟨a, b, c, d, e, rfl⟩

theorem freshLog_empty (drv : Driver) (w : World) : FreshLog drv ⟨[], []⟩ w := by
  intro p hp
  simp at hp

theorem InitObjects_scans (drv : Driver) (hs : ∀ n, drv.result n = VK_SUCCESS)
    (hl : ∀ n, drv.loaded n = true) (hinj : Function.Injective drv.handleOut)
    (app : T11.TutorialApplication) (hlen : app._renderObjects.length = 5) (w : World) :
    Scans drv (T11.InitObjects drv app) w ⟨[], []⟩
      (fun app1 w1 log1 => ∃ n0 n1 n2 n3 n4 o0 o1 o2 o3 o4,
        n0 < n1 ∧ n1 < n2 ∧ n2 < n3 ∧ n3 < n4 ∧ n4 < w1.calls.length ∧
        app1._renderObjects = [o0, o1, o2, o3, o4] ∧
        o0.bottomAS = drv.handleOut n0 ∧ o1.bottomAS = drv.handleOut n1 ∧
        o2.bottomAS = drv.handleOut n2 ∧ o3.bottomAS = drv.handleOut n3 ∧
        o4.bottomAS = drv.handleOut n4 ∧
        log1 = ⟨[(drv.handleOut n0, .MemoryBound), (drv.handleOut n1, .MemoryBound),
                 (drv.handleOut n2, .MemoryBound), (drv.handleOut n3, .MemoryBound),
                 (drv.handleOut n4, .MemoryBound)], []⟩) := by
  obtain ⟨a, b, c, d, e, hobj⟩ := list_length_five app._renderObjects hlen
  unfold T11.InitObjects
  have f0 := freshLog_empty drv w
  refine scans_bind (CreateBox_scans drv hs hl hinj _ _ app w _ f0) ?_
  rintro r0 w1 _ ⟨n0, a0, b0, hb0, rfl, hr0⟩
  have f1 := freshLog_append drv _ w w1 n0 .MemoryBound f0 (by omega) b0
  refine scans_bind (CreateIcosahedron_scans drv hs hinj _ (T11.storeObject 0 r0) w1 _ f1) ?_
  rintro r1 w2 _ ⟨n1, a1, b1, hb1, rfl, hr1⟩
  have f2 := freshLog_append drv _ w1 w2 n1 .MemoryBound f1 (by omega) b1
  refine scans_bind (CreateBox_scans drv hs hl hinj _ _ (T11.storeObject 1 r1) w2 _ f2) ?_
  rintro r2 w3 _ ⟨n2, a2, b2, hb2, rfl, hr2⟩
  have f3 := freshLog_append drv _ w2 w3 n2 .MemoryBound f2 (by omega) b2
  refine scans_bind (CreateBox_scans drv hs hl hinj _ _ (T11.storeObject 2 r2) w3 _ f3) ?_
  rintro r3 w4 _ ⟨n3, a3, b3, hb3, rfl, hr3⟩
  have f4 := freshLog_append drv _ w3 w4 n3 .MemoryBound f3 (by omega) b3
  refine scans_bind (CreateIcosahedron_scans drv hs hinj _ (T11.storeObject 3 r3) w4 _ f4) ?_
  rintro r4 w5 _ ⟨n4, a4, b4, hb4, rfl, hr4⟩
  refine scans_pure drv _ _ _ ⟨n0, n1, n2, n3, n4, r0.1, r1.1, r2.1, r3.1, r4.1,
    by omega, by omega, by omega, by omega, b4, ?_, hb0, hb1, hb2, hb3, hb4, by simp⟩
  simp only [T11.storeObject] at hr1 hr2 hr3 hr4 ⊢
  rw [hr4, hr3, hr2, hr1, hr0, hobj]
  simp

set_option maxHeartbeats 4000000 in
theorem T11_CreateAccelerationStructures_scans (drv : Driver)
    (hs : ∀ n, drv.result n = VK_SUCCESS) (hinj : Function.Injective drv.handleOut)
    (translation : Nat → ℚ × ℚ × ℚ) (app : T11.TutorialApplication) (w : World)
    (n0 n1 n2 n3 n4 : Nat) (o0 o1 o2 o3 o4 : T11.RenderObject)
    (h01 : n0 < n1) (h12 : n1 < n2) (h23 : n2 < n3) (h34 : n3 < n4) (h4 : n4 < w.calls.length)
    (hobj : app._renderObjects = [o0, o1, o2, o3, o4])
    (hb0 : o0.bottomAS = drv.handleOut n0) (hb1 : o1.bottomAS = drv.handleOut n1)
    (hb2 : o2.bottomAS = drv.handleOut n2) (hb3 : o3.bottomAS = drv.handleOut n3)
    (hb4 : o4.bottomAS = drv.handleOut n4) :
    Scans drv (T11.CreateAccelerationStructures drv translation app) w
      ⟨[(drv.handleOut n0, .MemoryBound), (drv.handleOut n1, .MemoryBound),
        (drv.handleOut n2, .MemoryBound), (drv.handleOut n3, .MemoryBound),
        (drv.handleOut n4, .MemoryBound)], []⟩
      (fun _ _ log =>
        log = ⟨[(drv.handleOut n0, .ShaderVisible), (drv.handleOut n1, .ShaderVisible),
                (drv.handleOut n2, .ShaderVisible), (drv.handleOut n3, .ShaderVisible),
                (drv.handleOut n4, .ShaderVisible),
                (drv.handleOut (w.calls.length + 12), .ShaderVisible)],
               [(drv.handleOut n0, some .MemoryBound), (drv.handleOut n1, some .MemoryBound),
                (drv.handleOut n2, some .MemoryBound), (drv.handleOut n3, some .MemoryBound),
                (drv.handleOut n4, some .MemoryBound)]⟩) := by
  have e01 : n0 ≠ n1 := by omega
  have e02 : n0 ≠ n2 := by omega
  have e03 : n0 ≠ n3 := by omega
  have e04 : n0 ≠ n4 := by omega
  have e10 : n1 ≠ n0 := by omega
  have e12 : n1 ≠ n2 := by omega
  have e13 : n1 ≠ n3 := by omega
  have e14 : n1 ≠ n4 := by omega
  have e20 : n2 ≠ n0 := by omega
  have e21 : n2 ≠ n1 := by omega
  have e23 : n2 ≠ n3 := by omega
  have e24 : n2 ≠ n4 := by omega
  have e30 : n3 ≠ n0 := by omega
  have e31 : n3 ≠ n1 := by omega
  have e32 : n3 ≠ n2 := by omega
  have e34 : n3 ≠ n4 := by omega
  have e40 : n4 ≠ n0 := by omega
  have e41 : n4 ≠ n1 := by omega
  have e42 : n4 ≠ n2 := by omega
  have e43 : n4 ≠ n3 := by omega
  have t0 : n0 ≠ w.calls.length + 12 := by omega
  have u0 : w.calls.length + 12 ≠ n0 := by omega
  have t1 : n1 ≠ w.calls.length + 12 := by omega
  have u1 : w.calls.length + 12 ≠ n1 := by omega
  have t2 : n2 ≠ w.calls.length + 12 := by omega
  have u2 : w.calls.length + 12 ≠ n2 := by omega
  have t3 : n3 ≠ w.calls.length + 12 := by omega
  have u3 : w.calls.length + 12 ≠ n3 := by omega
  have t4 : n4 ≠ w.calls.length + 12 := by omega
  have u4 : w.calls.length + 12 ≠ n4 := by omega
  unfold Scans
  generalize hrun : T11.CreateAccelerationStructures drv translation app w = r
  simp [hobj, hb0, hb1, hb2, hb3, hb4, T11.CreateAccelerationStructures, bind_apply, pure_apply,
    call_apply, NVVK_CHECK_ERROR_apply, hs, BufferResource_Create_ok drv hs,
    BufferResource_Copy_ok drv hs, CreateAccelerationStructure, GetScratchBufferSize, issue,
    T11.buildCommands, BufferResource_Cleanup_apply, forLoop, T11.instanceStep, T11.scratchStep,
    T11._objectNum, T11.bottomBuild] at hrun
  subst hrun
  refine ⟨_, _, _, _, rfl, rfl, ?_, rfl⟩
  simp [lifecycleScan_nil, lifecycleScan_cons, lifecycleScanFrom_some, lifecycleStep, stateOf,
    setState, hinj.eq_iff, lifecycleScan_cleanup, lifecycleScan_cleanup_last, Nat.add_assoc,
    VK_PIPELINE_STAGE_ACCELERATION_STRUCTURE_BUILD_BIT_NV,
    VK_PIPELINE_STAGE_RAY_TRACING_SHADER_BIT_NV, e01, e02, e03, e04, e10, e12, e13, e14, e20, e21, e23, e24, e30, e31, e32, e34, e40, e41, e42, e43, t0, t1, t2, t3, t4, u0, u1, u2, u3, u4]

set_option maxHeartbeats 1000000 in
theorem T10_scans (drv : Driver) (hs : ∀ n, drv.result n = VK_SUCCESS)
    (hinj : Function.Injective drv.handleOut) (app : T10.TutorialApplication) (w : World) :
    Scans drv (T10.CreateAccelerationStructures drv app) w ⟨[], []⟩
      (fun _ _ log =>
        log = ⟨[(drv.handleOut (w.calls.length + 14), .ShaderVisible),
                (drv.handleOut (w.calls.length + 26), .ShaderVisible)],
               [(drv.handleOut (w.calls.length + 14), some .MemoryBound)]⟩) := by
  unfold Scans
  generalize hrun : T10.CreateAccelerationStructures drv app w = r
  simp [T10.CreateAccelerationStructures, bind_apply, pure_apply, call_apply,
    NVVK_CHECK_ERROR_apply, hs, BufferResource_Create_ok drv hs, BufferResource_Copy_ok drv hs,
    CreateAccelerationStructure, GetScratchBufferSize, issue, T10.buildCommands,
    BufferResource_Cleanup_apply] at hrun
  subst hrun
  refine ⟨_, _, _, _, rfl, rfl, ?_, rfl⟩
  simp [lifecycleScan_nil, lifecycleScan_cons, lifecycleScanFrom_some, lifecycleStep, stateOf,
    setState, hinj.eq_iff, lifecycleScan_cleanup, lifecycleScan_cleanup_last, Nat.add_assoc,
    VK_PIPELINE_STAGE_ACCELERATION_STRUCTURE_BUILD_BIT_NV,
    VK_PIPELINE_STAGE_RAY_TRACING_SHADER_BIT_NV]

theorem list_length_three {α : Type} (l : List α) (h : l.length = 3) :
    ∃ a b c, l = [a, b, c] := by
  match l, h with
  | [a, b, c], _ => exact ⟨a, b, c, rfl⟩

set_option maxHeartbeats 2000000 in
theorem T07_scans (drv : Driver) (hs : ∀ n, drv.result n = VK_SUCCESS)
    (hinj : Function.Injective drv.handleOut) (app : T07.TutorialApplication)
    (hb : app._bottomAS.length = 3) (hm : app._bottomASMemory.length = 3) (w : World) :
    Scans drv (T07.CreateAccelerationStructures drv app) w ⟨[], []⟩
      (fun _ _ log =>
        log = ⟨[(drv.handleOut (w.calls.length + 14), .ShaderVisible),
                (drv.handleOut (w.calls.length + 18), .ShaderVisible),
                (drv.handleOut (w.calls.length + 22), .ShaderVisible),
                (drv.handleOut (w.calls.length + 36), .ShaderVisible)],
               [(drv.handleOut (w.calls.length + 14), some .MemoryBound),
                (drv.handleOut (w.calls.length + 18), some .MemoryBound),
                (drv.handleOut (w.calls.length + 22), some .MemoryBound)]⟩) := by
  obtain ⟨x0, x1, x2, hx⟩ := list_length_three app._bottomAS hb
  obtain ⟨y0, y1, y2, hy⟩ := list_length_three app._bottomASMemory hm
  unfold Scans
  generalize hrun : T07.CreateAccelerationStructures drv app w = r
  simp [hx, hy, T07.CreateAccelerationStructures, bind_apply, pure_apply, call_apply,
    NVVK_CHECK_ERROR_apply, hs, BufferResource_Create_ok drv hs, BufferResource_Copy_ok drv hs,
    CreateAccelerationStructure, GetScratchBufferSize, issue, T07.buildCommands,
    BufferResource_Cleanup_apply, forLoop, T07.createBottom, T07.queryHandle, range_three,
    T07.bottomBuild] at hrun
  subst hrun
  refine ⟨_, _, _, _, rfl, rfl, ?_, rfl⟩
  simp [lifecycleScan_nil, lifecycleScan_cons, lifecycleScanFrom_some, lifecycleStep, stateOf,
    setState, hinj.eq_iff, lifecycleScan_cleanup, lifecycleScan_cleanup_last, Nat.add_assoc,
    VK_PIPELINE_STAGE_ACCELERATION_STRUCTURE_BUILD_BIT_NV,
    VK_PIPELINE_STAGE_RAY_TRACING_SHADER_BIT_NV]

theorem scans_mono {α : Type} {drv : Driver} {m : M α} {w : World} {log : LifecycleLog}
    {Q1 Q2 : α → World → LifecycleLog → Prop} (h : Scans drv m w log Q1)
    (himp : ∀ a w1 log1, Q1 a w1 log1 → Q2 a w1 log1) : Scans drv m w log Q2 := by
  obtain ⟨a, w1, l, log1, hrun, hcalls, hscan, hq⟩ := h
  exact ⟨a, w1, l, log1, hrun, hcalls, hscan, himp a w1 log1 hq⟩

theorem T11_scans (drv : Driver) (hs : ∀ n, drv.result n = VK_SUCCESS)
    (hl : ∀ n, drv.loaded n = true) (hinj : Function.Injective drv.handleOut)
    (translation : Nat → ℚ × ℚ × ℚ) (app : T11.TutorialApplication)
    (hlen : app._renderObjects.length = 5) (w : World) :
    Scans drv (T11.InitAccelerationStructures drv translation app) w ⟨[], []⟩
      (fun _ _ log => lifecycleDone 6 5 log) := by
  unfold T11.InitAccelerationStructures
  refine scans_bind (InitObjects_scans drv hs hl hinj app hlen w) ?_
  rintro app1 w1 _ ⟨n0, n1, n2, n3, n4, o0, o1, o2, o3, o4, h01, h12, h23, h34, h4, hobj,
    hb0, hb1, hb2, hb3, hb4, rfl⟩
  refine scans_mono (T11_CreateAccelerationStructures_scans drv hs hinj translation app1 w1
    n0 n1 n2 n3 n4 o0 o1 o2 o3 o4 h01 h12 h23 h34 h4 hobj hb0 hb1 hb2 hb3 hb4) ?_
  rintro _ _ _ rfl
  exact ⟨rfl, rfl⟩

theorem tutorial_lifecycles (drv : Driver) (hs : ∀ n, drv.result n = VK_SUCCESS)
    (hl : ∀ n, drv.loaded n = true) (hinj : Function.Injective drv.handleOut)
    (app07 : T07.TutorialApplication) (hb : app07._bottomAS.length = 3)
    (hm : app07._bottomASMemory.length = 3) (app10 : T10.TutorialApplication)
    (translation : Nat → ℚ × ℚ × ℚ) (app11 : T11.TutorialApplication)
    (hlen : app11._renderObjects.length = 5) (w : World) :
    Scans drv (T07.CreateAccelerationStructures drv app07) w ⟨[], []⟩
      (fun _ _ log => lifecycleDone 4 3 log) ∧
    Scans drv (T10.CreateAccelerationStructures drv app10) w ⟨[], []⟩
      (fun _ _ log => lifecycleDone 2 1 log) ∧
    Scans drv (T11.InitAccelerationStructures drv translation app11) w ⟨[], []⟩
      (fun _ _ log => lifecycleDone 6 5 log) := by
  refine ⟨scans_mono (T07_scans drv hs hinj app07 hb hm w) ?_,
    scans_mono (T10_scans drv hs hinj app10 w) ?_, T11_scans drv hs hl hinj translation app11 hlen w⟩
  · rintro _ _ _ rfl
    exact ⟨rfl, rfl⟩
  · rintro _ _ _ rfl
    exact ⟨rfl, rfl⟩

theorem runLog_of_scans {α : Type} {drv : Driver} {m : M α} {w : World}
    {Q : α → World → LifecycleLog → Prop} (h : Scans drv m w ⟨[], []⟩ Q) :
    (m w).value.isSome = true ∧ ∃ a w1 log, runLog drv w (m w) = some log ∧ Q a w1 log := by
  obtain ⟨a, w1, l, log1, hrun, hcalls, hscan, hq⟩ := h
  refine ⟨by simp [hrun, Res.value], a, w1, log1, ?_, hq⟩
  simp only [runLog, hrun, Res.world, hcalls, List.drop_left]
  exact hscan

theorem completes_of_scans {α : Type} {drv : Driver} {m : M α} {w : World} {n k : Nat}
    (h : Scans drv m w ⟨[], []⟩ (fun _ _ log => lifecycleDone n k log)) :
    completesLifecycles drv n w (m w) := by
  obtain ⟨hv, _, _, log, hlog, hs, _⟩ := runLog_of_scans h
  refine ⟨hv, log, hlog, ?_, ?_⟩
  · have := congrArg List.length hs
    simpa using this
  · intro p hp
    have hmem : p.2 ∈ log.structures.map Prod.snd := List.mem_map_of_mem _ hp
    rw [hs] at hmem
    exact List.eq_of_mem_replicate hmem

theorem queries_of_scans {α : Type} {drv : Driver} {m : M α} {w : World} {n k : Nat}
    (h : Scans drv m w ⟨[], []⟩ (fun _ _ log => lifecycleDone n k log)) :
    queriesWhenMemoryBound drv k w (m w) := by
  obtain ⟨hv, _, _, log, hlog, _, hq⟩ := runLog_of_scans h
  refine ⟨hv, log, hlog, ?_, ?_⟩
  · have := congrArg List.length hq
    simpa using this
  · intro p hp
    have hmem : p.2 ∈ log.queries.map Prod.snd := List.mem_map_of_mem _ hp
    rw [hq] at hmem
    exact List.eq_of_mem_replicate hmem

theorem sampleDriver_injective (handleSize : Nat) :
    Function.Injective (sampleDriver handleSize).handleOut :=
  fun _ _ h => Nat.succ.inj h

/-- C12, amended: when every driver call succeeds, every texture loads and
the driver returns a different handle from every call, the
acceleration-structure set-up of tutorials 07, 10 and 11 returns, and the scan
of its calls never finds the
order create (Unbuilt), bind (MemoryBound), build (Built), final barrier
(ShaderVisible) broken: every structure is created once, bound once while
Unbuilt, built once while MemoryBound, and made ShaderVisible by the one final
barrier while Built; the 4, 2 and 6 structures all end ShaderVisible. -/
theorem lifecycles_are_complete_and_ordered (drv : Driver)
    (hs : ∀ n, drv.result n = VK_SUCCESS) (hl : ∀ n, drv.loaded n = true)
    (hinj : Function.Injective drv.handleOut)
    (app07 : T07.TutorialApplication) (hb : app07._bottomAS.length = 3)
    (hm : app07._bottomASMemory.length = 3) (app10 : T10.TutorialApplication)
    (translation : Nat → ℚ × ℚ × ℚ) (app11 : T11.TutorialApplication)
    (hlen : app11._renderObjects.length = 5) (w : World) :
    completesLifecycles drv 4 w (T07.CreateAccelerationStructures drv app07 w) ∧
    completesLifecycles drv 2 w (T10.CreateAccelerationStructures drv app10 w) ∧
    completesLifecycles drv 6 w (T11.InitAccelerationStructures drv translation app11 w) := by
  obtain ⟨h07, h10, h11⟩ :=
    tutorial_lifecycles drv hs hl hinj app07 hb hm app10 translation app11 hlen w
  exact ⟨completes_of_scans h07, completes_of_scans h10, completes_of_scans h11⟩

/-- Witness of C12, amended: the sample driver with 16-byte handles, the
default applications and the empty trace. -/
theorem lifecycles_are_complete_and_ordered_witness :
    completesLifecycles (sampleDriver 16) 4 World.init
      (T07.CreateAccelerationStructures (sampleDriver 16) {} World.init) ∧
    completesLifecycles (sampleDriver 16) 2 World.init
      (T10.CreateAccelerationStructures (sampleDriver 16) {} World.init) ∧
    completesLifecycles (sampleDriver 16) 6 World.init
      (T11.InitAccelerationStructures (sampleDriver 16) (fun _ => (0, 0, 0)) {} World.init) :=
  lifecycles_are_complete_and_ordered (sampleDriver 16) (fun _ => rfl) (fun _ => rfl)
    (sampleDriver_injective 16) {} rfl rfl {} (fun _ => (0, 0, 0)) {} rfl World.init

/-- C11, amended: when every driver call succeeds, every texture loads and
the driver returns a different handle from every call, the set-up of tutorials
07, 10 and 11 returns and each of its 3, 1 and 5 handle queries
(`vkGetAccelerationStructureHandleNV`) is made on a structure that is
MemoryBound: after the structure was created and its memory bound, and before
its build command is recorded. -/
theorem handles_are_queried_when_memory_bound (drv : Driver)
    (hs : ∀ n, drv.result n = VK_SUCCESS) (hl : ∀ n, drv.loaded n = true)
    (hinj : Function.Injective drv.handleOut)
    (app07 : T07.TutorialApplication) (hb : app07._bottomAS.length = 3)
    (hm : app07._bottomASMemory.length = 3) (app10 : T10.TutorialApplication)
    (translation : Nat → ℚ × ℚ × ℚ) (app11 : T11.TutorialApplication)
    (hlen : app11._renderObjects.length = 5) (w : World) :
    queriesWhenMemoryBound drv 3 w (T07.CreateAccelerationStructures drv app07 w) ∧
    queriesWhenMemoryBound drv 1 w (T10.CreateAccelerationStructures drv app10 w) ∧
    queriesWhenMemoryBound drv 5 w (T11.InitAccelerationStructures drv translation app11 w) := by
  obtain ⟨h07, h10, h11⟩ :=
    tutorial_lifecycles drv hs hl hinj app07 hb hm app10 translation app11 hlen w
  exact ⟨queries_of_scans h07, queries_of_scans h10, queries_of_scans h11⟩

/-- Witness of C11, amended: the sample driver with 16-byte handles, the
default applications and the empty trace. -/
theorem handles_are_queried_when_memory_bound_witness :
    queriesWhenMemoryBound (sampleDriver 16) 3 World.init
      (T07.CreateAccelerationStructures (sampleDriver 16) {} World.init) ∧
    queriesWhenMemoryBound (sampleDriver 16) 1 World.init
      (T10.CreateAccelerationStructures (sampleDriver 16) {} World.init) ∧
    queriesWhenMemoryBound (sampleDriver 16) 5 World.init
      (T11.InitAccelerationStructures (sampleDriver 16) (fun _ => (0, 0, 0)) {} World.init) :=
  handles_are_queried_when_memory_bound (sampleDriver 16) (fun _ => rfl) (fun _ => rfl)
    (sampleDriver_injective 16) {} rfl rfl {} (fun _ => (0, 0, 0)) {} rfl World.init

/-- Counterexample to C11 as stated: with the sample driver, in each of the
three tutorials a handle is queried on a structure that is not built (no
build command for it has been recorded, nothing has been submitted). -/
theorem handles_are_queried_before_the_build :
    ¬ queriesOnlyWhenBuilt (sampleDriver 16) World.init
        (T07.CreateAccelerationStructures (sampleDriver 16) {} World.init) ∧
    ¬ queriesOnlyWhenBuilt (sampleDriver 16) World.init
        (T10.CreateAccelerationStructures (sampleDriver 16) {} World.init) ∧
    ¬ queriesOnlyWhenBuilt (sampleDriver 16) World.init
        (T11.InitAccelerationStructures (sampleDriver 16) (fun _ => (0, 0, 0)) {}
          World.init) := by
  refine ⟨by decide!, by decide!, by decide!⟩

/-! ### The instance record -/

/-- C21: `VkGeometryInstance` has 64 bytes: the 48 bytes of the 3x4 transform
at offset 0, a 32-bit unit at offset 48 with `instanceId` in its low 24 bits
and `mask` in its high 8 bits, a 32-bit unit at offset 52 with
`instanceOffset` in its low 24 bits and `flags` in its high 8 bits, and the
64-bit handle at offset 56.  For every content of a unit and all values, a
store to the low field followed by a store to the high field (in either
order) reads back as the values modulo `2^24` and `2^8`, and a store to one
field leaves the other as it was; `FillInstance` keeps exactly these
truncated values.  The instance buffers of tutorials 07, 10 and 11 have
`5 * 64`, `3 * 64` and `5 * 64` bytes. -/
theorem instance_record_layout_and_bit_fields :
    layoutFrom 0 none VkGeometryInstance.members
      = [⟨0, 0, 8 * 48⟩, ⟨48, 0, 24⟩, ⟨48, 24, 8⟩, ⟨52, 0, 24⟩, ⟨52, 24, 8⟩, ⟨56, 0, 8 * 8⟩] ∧
    sizeofRecord VkGeometryInstance.members = 64 ∧
    T07.sizeofVkGeometryInstance = sizeofRecord VkGeometryInstance.members ∧
    T10.sizeofVkGeometryInstance = sizeofRecord VkGeometryInstance.members ∧
    T11.sizeofVkGeometryInstance = sizeofRecord VkGeometryInstance.members ∧
    (∀ (byteOffset unit low high : Nat),
      Placement.load ⟨byteOffset, 0, 24⟩
          (Placement.store ⟨byteOffset, 24, 8⟩ (Placement.store ⟨byteOffset, 0, 24⟩ unit low) high)
        = low % 2 ^ 24 ∧
      Placement.load ⟨byteOffset, 24, 8⟩
          (Placement.store ⟨byteOffset, 24, 8⟩ (Placement.store ⟨byteOffset, 0, 24⟩ unit low) high)
        = high % 2 ^ 8 ∧
      Placement.load ⟨byteOffset, 0, 24⟩
          (Placement.store ⟨byteOffset, 0, 24⟩ (Placement.store ⟨byteOffset, 24, 8⟩ unit high) low)
        = low % 2 ^ 24 ∧
      Placement.load ⟨byteOffset, 24, 8⟩
          (Placement.store ⟨byteOffset, 0, 24⟩ (Placement.store ⟨byteOffset, 24, 8⟩ unit high) low)
        = high % 2 ^ 8 ∧
      Placement.load ⟨byteOffset, 24, 8⟩ (Placement.store ⟨byteOffset, 0, 24⟩ unit low)
        = Placement.load ⟨byteOffset, 24, 8⟩ unit ∧
      Placement.load ⟨byteOffset, 0, 24⟩ (Placement.store ⟨byteOffset, 24, 8⟩ unit high)
        = Placement.load ⟨byteOffset, 0, 24⟩ unit ∧
      Placement.store ⟨byteOffset, 24, 8⟩ (Placement.store ⟨byteOffset, 0, 24⟩ unit low) high
        = Placement.store ⟨byteOffset, 0, 24⟩ (Placement.store ⟨byteOffset, 24, 8⟩ unit high) low ∧
      Placement.store ⟨byteOffset, 24, 8⟩ (Placement.store ⟨byteOffset, 0, 24⟩ unit low) high
          / 2 ^ 32 = unit / 2 ^ 32) ∧
    (∀ (bottomAShandle instanceId unit0 unit1 : Nat) (transform : List ℚ),
      (T07.FillInstance bottomAShandle instanceId transform).instanceId
        = Placement.load ⟨48, 0, 24⟩
            (Placement.store ⟨48, 24, 8⟩ (Placement.store ⟨48, 0, 24⟩ unit0 instanceId) 0xff) ∧
      (T07.FillInstance bottomAShandle instanceId transform).mask
        = Placement.load ⟨48, 24, 8⟩
            (Placement.store ⟨48, 24, 8⟩ (Placement.store ⟨48, 0, 24⟩ unit0 instanceId) 0xff) ∧
      (T07.FillInstance bottomAShandle instanceId transform).instanceOffset
        = Placement.load ⟨52, 0, 24⟩
            (Placement.store ⟨52, 24, 8⟩ (Placement.store ⟨52, 0, 24⟩ unit1 0)
              VK_GEOMETRY_INSTANCE_TRIANGLE_CULL_DISABLE_BIT_NV) ∧
      (T07.FillInstance bottomAShandle instanceId transform).flags
        = Placement.load ⟨52, 24, 8⟩
            (Placement.store ⟨52, 24, 8⟩ (Placement.store ⟨52, 0, 24⟩ unit1 0)
              VK_GEOMETRY_INSTANCE_TRIANGLE_CULL_DISABLE_BIT_NV)) ∧
    (∀ handles : List Nat,
      u64 (u32 (T07.instances handles).length * T07.sizeofVkGeometryInstance) = 5 * 64) ∧
    u64 (T10._instanceNum * T10.sizeofVkGeometryInstance) = 3 * 64 ∧
    u64 (T11._objectNum * T11.sizeofVkGeometryInstance) = 5 * 64 := by
  refine ⟨by decide, by decide, by decide, by decide, by decide, ?_, ?_, ?_, by decide, by decide⟩
  · intro byteOffset unit low high
    simp only [Placement.store, Placement.load]
    norm_num
    refine ⟨?_, ?_, ?_, ?_, ?_, ?_, ?_, ?_⟩ <;> omega
  · intro bottomAShandle instanceId unit0 unit1 transform
    simp only [Placement.store, Placement.load, T07.FillInstance,
      VK_GEOMETRY_INSTANCE_TRIANGLE_CULL_DISABLE_BIT_NV]
    norm_num
    refine ⟨?_, ?_, ?_, ?_⟩ <;> omega
  · intro handles
    simp [T07.instances, T07.sizeofVkGeometryInstance, u32, u64]

/-! ### Tutorial 07: the instance records -/

theorem value_all_bind {α β : Type} (P : β → Bool) (m : M α) (f : α → M β) (w : World)
    (h : ∀ a w1, (f a w1).value.all P = true) : ((m >>= f) w).value.all P = true := by
  simp only [bind_apply]
  cases m w with
  | ok a w1 => exact h a w1
  | stop s w1 => rfl

/-- C26: in tutorial 07 (triangle, quad, icosahedron in one index buffer), in
tutorial 10 (icosahedron) and in tutorial 11 (the counts `CreateBoxGeometry`
and `CreateIcosahedronGeometry` store, whenever they return, and the geometry
`CreateObjectBottomLevelAS` fills from them), every index the geometry reads is
less than its `vertexCount` (3, 4, 12; 12; 24 for the box and 12 for the
icosahedron), and its `indexCount` (3, 6, 60; 60; 36 and 60) is a multiple of 3
that fits in 16 bits. -/
theorem indices_address_vertices (drv : Driver) (vertexBuffer indexBuffer : BufferResource)
    (object : T11.RenderObject) (w : World) :
    (∀ g ∈ T07.geometries vertexBuffer indexBuffer (u32 T07.vertices.length)
        (u32 T07.indices.length), indicesAddressVertices T07.indexSize T07.indices g) ∧
    (T07.geometries vertexBuffer indexBuffer (u32 T07.vertices.length)
        (u32 T07.indices.length)).map
        (fun g => (g.triangles.vertexCount, g.triangles.indexCount))
      = [(3, 3), (4, 6), (12, 60)] ∧
    (∀ g ∈ T10.geometries vertexBuffer indexBuffer (u32 T10.vertices.length)
        (u32 T10.indices.length), indicesAddressVertices T10.indexSize T10.indices g) ∧
    (T10.geometries vertexBuffer indexBuffer (u32 T10.vertices.length)
        (u32 T10.indices.length)).map
        (fun g => (g.triangles.vertexCount, g.triangles.indexCount))
      = [(12, 60)] ∧
    (T11.CreateBoxGeometry drv object w).value.all
        (fun o => decide ((o.vertexNum, o.indexNum) = (24, 36) ∧
          indicesAddressVertices 2 T11.boxIndices (T11.objectGeometry o))) = true ∧
    (T11.CreateIcosahedronGeometry drv object w).value.all
        (fun o => decide ((o.vertexNum, o.indexNum) = (12, 60) ∧
          indicesAddressVertices 2 T11.icosahedronIndices (T11.objectGeometry o))) = true := by
  refine ⟨?_, ?_, ?_, ?_, ?_, ?_⟩
  · intro g hg
    simp only [T07.geometries, List.mem_cons, List.mem_singleton, List.not_mem_nil,
      or_false] at hg
    rcases hg with rfl | rfl | rfl <;>
      simp [indicesAddressVertices, geometryIndices, T07.geometry, T07.indices, T07.indexSize,
        T07.vertexSize, T07.vertices, u32, u64]
  · simp [T07.geometries, T07.geometry, u32, T07.vertices, T07.indices]
  · intro g hg
    simp only [T10.geometries, List.mem_cons, List.mem_singleton, List.not_mem_nil,
      or_false] at hg
    subst hg
    simp [indicesAddressVertices, geometryIndices, T10.indices, T10.indexSize,
      T10.vertices, u32]
  · simp [T10.geometries, u32, T10.vertices, T10.indices]
  · unfold T11.CreateBoxGeometry
    refine value_all_bind _ _ _ _ (fun b1 w1 => ?_)
    refine value_all_bind _ _ _ _ (fun b2 w2 => ?_)
    refine value_all_bind _ _ _ _ (fun b3 w3 => ?_)
    refine value_all_bind _ _ _ _ (fun b4 w4 => ?_)
    refine value_all_bind _ _ _ _ (fun b5 w5 => ?_)
    simp only [pure_apply, Res.value, Option.all_some, decide_eq_true_eq]
    refine ⟨by decide, ?_⟩
    simp [indicesAddressVertices, geometryIndices, T11.objectGeometry, T11.boxIndices,
      T11.boxPositions, u32]
  · unfold T11.CreateIcosahedronGeometry
    refine value_all_bind _ _ _ _ (fun b1 w1 => ?_)
    refine value_all_bind _ _ _ _ (fun b2 w2 => ?_)
    refine value_all_bind _ _ _ _ (fun b4 w4 => ?_)
    refine value_all_bind _ _ _ _ (fun b5 w5 => ?_)
    simp only [pure_apply, Res.value, Option.all_some, decide_eq_true_eq]
    refine ⟨by decide, ?_⟩
    simp [indicesAddressVertices, geometryIndices, T11.objectGeometry, T11.icosahedronIndices,
      T11.icosahedronPositions, u32]

/-! ### The choice of a memory type -/

theorem and_shiftLeft_ne_zero (n i : Nat) : n &&& (1 <<< i) ≠ 0 ↔ n.testBit i = true := by
  rw [Nat.one_shiftLeft, Nat.and_two_pow]
  cases n.testBit i <;> simp

theorem and_eq_right_iff (flags properties : Nat) :
    flags &&& properties = properties
      ↔ ∀ b, properties.testBit b = true → flags.testBit b = true := by
  constructor
  · intro h b hb
    have := congrArg (fun x => x.testBit b) h
    simp only [Nat.testBit_and, hb, Bool.and_true] at this
    exact this
  · intro h
    apply Nat.eq_of_testBit_eq
    intro b
    rw [Nat.testBit_and]
    cases hb : properties.testBit b
    · simp
    · simp [h b hb]

theorem suits_iff (drv : Driver) (memoryRequiriments : VkMemoryRequirements)
    (memoryProperties i : Nat) :
    memoryTypeSuits drv memoryRequiriments memoryProperties i ↔
      (memoryRequiriments.memoryTypeBits &&& (1 <<< i) ≠ 0 ∧
        drv.memoryTypeFlags i &&& memoryProperties = memoryProperties) := by
  unfold memoryTypeSuits
  rw [and_shiftLeft_ne_zero, and_eq_right_iff]

/-- The loop from index `i` with `fuel` steps left: it returns the first
suitable index in `[i, i + fuel)`, or 0 when there is none. -/
theorem GetMemoryTypeLoop_spec (drv : Driver) (memoryRequiriments : VkMemoryRequirements)
    (memoryProperties : Nat) (fuel i : Nat) :
    (∃ j, i ≤ j ∧ j < i + fuel ∧
        memoryTypeSuits drv memoryRequiriments memoryProperties j ∧
        (∀ k, i ≤ k → k < j → ¬ memoryTypeSuits drv memoryRequiriments memoryProperties k) ∧
        GetMemoryTypeLoop drv memoryRequiriments.memoryTypeBits memoryProperties fuel i = j) ∨
    ((∀ k, i ≤ k → k < i + fuel →
        ¬ memoryTypeSuits drv memoryRequiriments memoryProperties k) ∧
      GetMemoryTypeLoop drv memoryRequiriments.memoryTypeBits memoryProperties fuel i = 0) := by
  induction fuel generalizing i with
  | zero =>
    right
    exact ⟨fun k h1 h2 => by omega, rfl⟩
  | succ fuel ih =>
    by_cases hs : memoryTypeSuits drv memoryRequiriments memoryProperties i
    · left
      refine ⟨i, le_refl i, by omega, hs, fun k h1 h2 => by omega, ?_⟩
      have hs2 := (suits_iff drv memoryRequiriments memoryProperties i).1 hs
      simp only [GetMemoryTypeLoop]
      rw [if_pos hs2.1, if_pos hs2.2]
    · have hstep : GetMemoryTypeLoop drv memoryRequiriments.memoryTypeBits memoryProperties
          (fuel + 1) i
          = GetMemoryTypeLoop drv memoryRequiriments.memoryTypeBits memoryProperties
              fuel (i + 1) := by
        have hn := mt (suits_iff drv memoryRequiriments memoryProperties i).2 hs
        simp only [GetMemoryTypeLoop]
        by_cases h1 : memoryRequiriments.memoryTypeBits &&& (1 <<< i) ≠ 0
        · have h2 : ¬ (drv.memoryTypeFlags i &&& memoryProperties = memoryProperties) :=
            fun h2 => hn ⟨h1, h2⟩
          rw [if_pos h1, if_neg h2]
        · rw [if_neg h1]
      rcases ih (i + 1) with ⟨j, h1, h2, h3, h4, h5⟩ | ⟨h1, h2⟩
      · left
        refine ⟨j, by omega, by omega, h3, fun k hk1 hk2 => ?_, by rw [hstep, h5]⟩
        by_cases hk : k = i
        · subst hk; exact hs
        · exact h4 k (by omega) hk2
      · right
        refine ⟨fun k hk1 hk2 => ?_, by rw [hstep, h2]⟩
        by_cases hk : k = i
        · subst hk; exact hs
        · exact h1 k (by omega) (by omega)

/-- C27: for every request, `GetMemoryType` returns an index below 32; it is
the smallest index `i < 32` such that bit `i` of `memoryTypeBits` is set and
the property flags of memory type `i` contain every requested property bit,
and it is 0 when no index below 32 is such. -/
theorem GetMemoryType_returns_first_suitable (drv : Driver)
    (memoryRequiriments : VkMemoryRequirements) (memoryProperties : Nat) :
    GetMemoryType drv memoryRequiriments memoryProperties < 32 ∧
    ((memoryTypeSuits drv memoryRequiriments memoryProperties
          (GetMemoryType drv memoryRequiriments memoryProperties) ∧
        ∀ k, k < GetMemoryType drv memoryRequiriments memoryProperties →
          ¬ memoryTypeSuits drv memoryRequiriments memoryProperties k) ∨
      ((∀ k, k < 32 → ¬ memoryTypeSuits drv memoryRequiriments memoryProperties k) ∧
        GetMemoryType drv memoryRequiriments memoryProperties = 0)) := by
  unfold GetMemoryType VK_MAX_MEMORY_TYPES
  rcases GetMemoryTypeLoop_spec drv memoryRequiriments memoryProperties 32 0 with
    ⟨j, h1, h2, h3, h4, h5⟩ | ⟨h1, h2⟩
  · rw [h5]
    exact ⟨by omega, Or.inl ⟨h3, fun k hk => h4 k (Nat.zero_le k) hk⟩⟩
  · rw [h2]
    exact ⟨by omega, Or.inr ⟨fun k hk => h1 k (Nat.zero_le k) (by omega), rfl⟩⟩

/-! ### Cleanup is idempotent -/

theorem ImageResource_Cleanup_apply (self : T11.ImageResource) (w : World) :
    self.Cleanup w
      = .ok {}
          { w with calls := w.calls ++
              ((if self.ImageView ≠ VK_NULL_HANDLE then [.vkDestroyImageView self.ImageView]
                else []) ++
               (if self.Memory ≠ VK_NULL_HANDLE then [.vkFreeMemory self.Memory] else []) ++
               (if self.Image ≠ VK_NULL_HANDLE then [.vkDestroyImage self.Image] else []) ++
               (if self.Sampler ≠ VK_NULL_HANDLE then [.vkDestroySampler self.Sampler]
                else [])) } := by
  obtain ⟨i, m, v, s⟩ := self
  by_cases h1 : v = VK_NULL_HANDLE <;> by_cases h2 : m = VK_NULL_HANDLE <;>
    by_cases h3 : i = VK_NULL_HANDLE <;> by_cases h4 : s = VK_NULL_HANDLE <;>
    simp [T11.ImageResource.Cleanup, bind_apply, pure_apply, call_apply, h1, h2, h3, h4]

theorem ShaderResource_Cleanup_apply (self : ShaderResource) (w : World) :
    self.Cleanup w
      = .ok {}
          { w with calls := w.calls ++
              (if self._module ≠ VK_NULL_HANDLE then [.vkDestroyShaderModule self._module]
               else []) } := by
  obtain ⟨m⟩ := self
  by_cases h1 : m = VK_NULL_HANDLE <;>
    simp [ShaderResource.Cleanup, bind_apply, pure_apply, call_apply, h1]

/-- C28: for every buffer, image and shader resource and every world,
`Cleanup` returns with every handle field `VK_NULL_HANDLE` (the size of a
buffer is kept); a second `Cleanup` of the result, and the destructor run on
it, return the same resource and leave the trace as it is: no call is made
and no field changes. -/
theorem cleanup_is_idempotent (buffer : BufferResource) (image : T11.ImageResource)
    (shader : ShaderResource) (w : World) :
    (∃ w1, buffer.Cleanup w
        = .ok { Buffer := VK_NULL_HANDLE, Memory := VK_NULL_HANDLE, Size := buffer.Size } w1 ∧
      BufferResource.Cleanup
          { Buffer := VK_NULL_HANDLE, Memory := VK_NULL_HANDLE, Size := buffer.Size } w1
        = .ok { Buffer := VK_NULL_HANDLE, Memory := VK_NULL_HANDLE, Size := buffer.Size } w1 ∧
      BufferResource.destructor
          { Buffer := VK_NULL_HANDLE, Memory := VK_NULL_HANDLE, Size := buffer.Size } w1
        = .ok { Buffer := VK_NULL_HANDLE, Memory := VK_NULL_HANDLE, Size := buffer.Size } w1) ∧
    (∃ w1, image.Cleanup w
        = .ok { Image := VK_NULL_HANDLE, Memory := VK_NULL_HANDLE, ImageView := VK_NULL_HANDLE,
                Sampler := VK_NULL_HANDLE } w1 ∧
      T11.ImageResource.Cleanup
          { Image := VK_NULL_HANDLE, Memory := VK_NULL_HANDLE, ImageView := VK_NULL_HANDLE,
            Sampler := VK_NULL_HANDLE } w1
        = .ok { Image := VK_NULL_HANDLE, Memory := VK_NULL_HANDLE, ImageView := VK_NULL_HANDLE,
                Sampler := VK_NULL_HANDLE } w1 ∧
      T11.ImageResource.destructor
          { Image := VK_NULL_HANDLE, Memory := VK_NULL_HANDLE, ImageView := VK_NULL_HANDLE,
            Sampler := VK_NULL_HANDLE } w1
        = .ok { Image := VK_NULL_HANDLE, Memory := VK_NULL_HANDLE, ImageView := VK_NULL_HANDLE,
                Sampler := VK_NULL_HANDLE } w1) ∧
    (∃ w1, shader.Cleanup w = .ok { _module := VK_NULL_HANDLE } w1 ∧
      ShaderResource.Cleanup { _module := VK_NULL_HANDLE } w1
        = .ok { _module := VK_NULL_HANDLE } w1 ∧
      ShaderResource.destructor { _module := VK_NULL_HANDLE } w1
        = .ok { _module := VK_NULL_HANDLE } w1) := by
  refine ⟨⟨_, BufferResource_Cleanup_apply buffer w, ?_, ?_⟩,
    ⟨_, ImageResource_Cleanup_apply image w, ?_, ?_⟩,
    ⟨_, ShaderResource_Cleanup_apply shader w, ?_, ?_⟩⟩
  · simp [BufferResource_Cleanup_apply, cleanupCalls]
  · simp [BufferResource.destructor, BufferResource_Cleanup_apply, cleanupCalls]
  · simp [ImageResource_Cleanup_apply]
  · simp [T11.ImageResource.destructor, ImageResource_Cleanup_apply]
  · simp [ShaderResource_Cleanup_apply]
  · simp [ShaderResource.destructor, ShaderResource_Cleanup_apply]

/-! ### Index texels -/

theorem getD_four_add (a b c d : Nat) (rest : List Nat) (n : Nat) :
    ([a, b, c, d] ++ rest).getD (4 + n) 0 = rest.getD n 0 := by
  rw [show 4 + n = n + 4 by omega]
  rfl

/-- The loop from index `i`, when `3 * t` indices are left and the fuel
suffices: the texels of the remaining indices are appended. -/
theorem indicesWithPaddingLoop_spec (indices : List Nat) (t : Nat) :
    ∀ (fuel i : Nat) (out : List Nat), i + 3 * t = indices.length → t ≤ fuel →
      ∃ rest, T11.indicesWithPaddingLoop indices fuel i out = out ++ rest ∧
        rest.length = 4 * t ∧
        (∀ k, k < t → ∀ j, j < 3 → rest.getD (4 * k + j) 0 = indices.getD (i + 3 * k + j) 0) ∧
        (∀ k, k < t → rest.getD (4 * k + 3) 0 = 0) ∧
        dropEveryFourth rest = indices.drop i := by
  induction t with
  | zero =>
    intro fuel i out hi _
    refine ⟨[], ?_, rfl, fun k hk => by omega, fun k hk => by omega, ?_⟩
    · cases fuel with
      | zero => simp [T11.indicesWithPaddingLoop]
      | succ fuel =>
        have : ¬ i < indices.length := by omega
        simp [T11.indicesWithPaddingLoop, this]
    · have : indices.length ≤ i := by omega
      simp [dropEveryFourth, List.drop_eq_nil_of_le this]
  | succ t ih =>
    intro fuel i out hi hfuel
    obtain ⟨fuel, rfl⟩ : ∃ f, fuel = f + 1 := ⟨fuel - 1, by omega⟩
    have hlt : i < indices.length := by omega
    obtain ⟨rest, hrun, hlen, h3, h0, hdrop⟩ :=
      ih fuel (i + 3)
        (out ++ [indices.getD i 0, indices.getD (i + 1) 0, indices.getD (i + 2) 0, 0])
        (by omega) (by omega)
    refine ⟨[indices.getD i 0, indices.getD (i + 1) 0, indices.getD (i + 2) 0, 0] ++ rest,
      ?_, ?_, ?_, ?_, ?_⟩
    · simp only [T11.indicesWithPaddingLoop, hlt, if_true, hrun, List.append_assoc]
    · simp only [List.length_append, List.length_cons, List.length_nil, hlen]
      omega
    · intro k hk j hj
      cases k with
      | zero =>
        interval_cases j <;> simp
      | succ k =>
        have e : 4 * (k + 1) + j = 4 + (4 * k + j) := by omega
        have e2 : i + 3 * (k + 1) + j = i + 3 + 3 * k + j := by omega
        rw [e, e2, getD_four_add]
        exact h3 k (by omega) j hj
    · intro k hk
      cases k with
      | zero => simp
      | succ k =>
        have e : 4 * (k + 1) + 3 = 4 + (4 * k + 3) := by omega
        rw [e, getD_four_add]
        exact h0 k (by omega)
    · have hd : indices.drop i
          = indices.getD i 0 :: indices.getD (i + 1) 0 :: indices.getD (i + 2) 0 ::
              indices.drop (i + 3) := by
        have h1 : i + 1 < indices.length := by omega
        have h2 : i + 2 < indices.length := by omega
        rw [List.drop_eq_getElem_cons hlt, List.drop_eq_getElem_cons h1,
          List.drop_eq_getElem_cons h2]
        simp [List.getD_eq_getElem?_getD, List.getElem?_eq_getElem hlt,
          List.getElem?_eq_getElem h1, List.getElem?_eq_getElem h2]
      rw [hd, ← hdrop]
      simp [dropEveryFourth]

/-- C29: for every index list of length `3 * t`, `indicesWithPadding` gives
a list of length `4 * t` whose entries `4k`, `4k + 1`, `4k + 2` are the
entries `3k`, `3k + 1`, `3k + 2` of the input and whose entry `4k + 3` is 0,
for every `k < t`; removing every fourth entry of the output gives the input
back. -/
theorem indicesWithPadding_pads_each_triangle (indices : List Nat) (t : Nat)
    (h : indices.length = 3 * t) :
    (T11.indicesWithPadding indices).length = 4 * t ∧
    (∀ k, k < t → ∀ j, j < 3 →
      (T11.indicesWithPadding indices).getD (4 * k + j) 0 = indices.getD (3 * k + j) 0) ∧
    (∀ k, k < t → (T11.indicesWithPadding indices).getD (4 * k + 3) 0 = 0) ∧
    dropEveryFourth (T11.indicesWithPadding indices) = indices := by
  obtain ⟨rest, hrun, hlen, h3, h0, hdrop⟩ :=
    indicesWithPaddingLoop_spec indices t indices.length 0 [] (by omega) (by omega)
  simp only [T11.indicesWithPadding, hrun, List.nil_append]
  refine ⟨hlen, fun k hk j hj => ?_, h0, by simpa using hdrop⟩
  have := h3 k hk j hj
  simpa using this

/-- Witness of C29: the two triangles of one face of the box. -/
theorem indicesWithPadding_pads_each_triangle_witness :
    (T11.indicesWithPadding [0, 1, 2, 1, 2, 3]).length = 4 * 2 ∧
    (∀ k, k < 2 → ∀ j, j < 3 →
      (T11.indicesWithPadding [0, 1, 2, 1, 2, 3]).getD (4 * k + j) 0
        = [0, 1, 2, 1, 2, 3].getD (3 * k + j) 0) ∧
    (∀ k, k < 2 → (T11.indicesWithPadding [0, 1, 2, 1, 2, 3]).getD (4 * k + 3) 0 = 0) ∧
    dropEveryFourth (T11.indicesWithPadding [0, 1, 2, 1, 2, 3]) = [0, 1, 2, 1, 2, 3] :=
  indicesWithPadding_pads_each_triangle [0, 1, 2, 1, 2, 3] 2 rfl

/-! ### Teardown order -/

theorem destroyIfSet_apply (handle : Nat) (destroy : Nat → Call) (w : World) :
    destroyIfSet handle destroy w
      = .ok () { w with calls := w.calls ++ releaseIfSet handle destroy } := by
  by_cases h : handle = VK_NULL_HANDLE <;>
    simp [destroyIfSet, releaseIfSet, bind_apply, pure_apply, call_apply, h]

theorem issue_apply (cmds : List Call) (w : World) :
    issue cmds w = .ok () { w with calls := w.calls ++ cmds } := by
  induction cmds generalizing w with
  | nil => simp [issue, pure_apply]
  | cons c cs ih => simp [issue, bind_apply, call_apply, ih]

theorem forEach_apply {α : Type} (f : α → M α) (g : α → α) (t : α → List Call)
    (hf : ∀ a w, f a w = .ok (g a) { w with calls := w.calls ++ t a }) (l : List α)
    (w : World) :
    forEach f l w = .ok (l.map g) { w with calls := w.calls ++ (l.map t).flatten } := by
  induction l generalizing w with
  | nil => simp [forEach, pure_apply]
  | cons a rest ih => simp [forEach, bind_apply, pure_apply, hf, ih]

theorem forEach_quiet {α : Type} (f : α → M α) (l : List α)
    (hf : ∀ a ∈ l, ∀ w, f a w = .ok a w) (w : World) : forEach f l w = .ok l w := by
  induction l generalizing w with
  | nil => simp [forEach, pure_apply]
  | cons a rest ih =>
    simp [forEach, bind_apply, pure_apply, hf a (List.mem_cons_self a rest),
      ih (fun b hb => hf b (List.mem_cons_of_mem a hb))]

theorem ImageResource_Cleanup_calls (self : T11.ImageResource) (w : World) :
    self.Cleanup w = .ok {} { w with calls := w.calls ++ self.cleanupCalls } := by
  simp [ImageResource_Cleanup_apply, T11.ImageResource.cleanupCalls, releaseIfSet]

theorem cleanupCalls_null (size : Nat) :
    cleanupCalls { Buffer := VK_NULL_HANDLE, Memory := VK_NULL_HANDLE, Size := size } = [] := by
  simp [cleanupCalls]

theorem BufferResource_destructor_null (size : Nat) (w : World) :
    BufferResource.destructor
        { Buffer := VK_NULL_HANDLE, Memory := VK_NULL_HANDLE, Size := size } w
      = .ok { Buffer := VK_NULL_HANDLE, Memory := VK_NULL_HANDLE, Size := size } w := by
  simp [BufferResource.destructor, BufferResource_Cleanup_apply, cleanupCalls]

theorem ImageResource_destructor_null (w : World) :
    T11.ImageResource.destructor {} w = .ok {} w := by
  simp [T11.ImageResource.destructor, ImageResource_Cleanup_apply]

theorem mem_releaseIfSet (c : Call) (handle : Nat) (destroy : Nat → Call) :
    c ∈ releaseIfSet handle destroy ↔ handle ≠ VK_NULL_HANDLE ∧ c = destroy handle := by
  by_cases h : handle = VK_NULL_HANDLE <;> simp [releaseIfSet, h]

theorem isDeviceRelease_cleanupCalls (self : BufferResource) :
    ∀ c ∈ cleanupCalls self, isDeviceRelease c = true := by
  intro c hc
  simp only [cleanupCalls, List.mem_append] at hc
  rcases hc with hc | hc <;> split at hc <;> simp at hc <;> subst hc <;> rfl

theorem isDeviceRelease_image_cleanupCalls (self : T11.ImageResource) :
    ∀ c ∈ self.cleanupCalls, isDeviceRelease c = true := by
  intro c hc
  simp only [T11.ImageResource.cleanupCalls, List.mem_append, mem_releaseIfSet] at hc
  rcases hc with ((hc | hc) | hc) | hc <;> rw [hc.2] <;> rfl

theorem isDestroyDevice_of_release (c : Call) (h : isDeviceRelease c = true) :
    isDestroyDevice c = false := by
  cases c <;> first | rfl | skip
  rename_i objectType handle
  cases objectType <;> first | rfl | simp [isDeviceRelease] at h

theorem releasesBeforeDevice_append (before after : List Call)
    (h : ∀ c ∈ before, isDestroyDevice c = false) :
    releasesBeforeDevice (before ++ after) = releasesBeforeDevice after := by
  induction before with
  | nil => rfl
  | cons c rest ih =>
    have hc := h c (List.mem_cons_self c rest)
    have hr := ih (fun d hd => h d (List.mem_cons_of_mem c hd))
    simp only [releasesBeforeDevice] at hr ⊢
    simp [List.dropWhile, hc, hr]

theorem releasesBeforeDevice_of_none (calls : List Call)
    (h : ∀ c ∈ calls, isDestroyDevice c = false) : releasesBeforeDevice calls = true := by
  have := releasesBeforeDevice_append calls [] h
  simpa [releasesBeforeDevice] using this

theorem comesBefore_of_mem (front back : List Call) (first second : Call)
    (h1 : first ∈ front) (h2 : second ∈ back) : comesBefore (front ++ back) first second := by
  obtain ⟨a, b, rfl⟩ := List.append_of_mem h1
  obtain ⟨c, d, rfl⟩ := List.append_of_mem h2
  exact ⟨a, b ++ c, d, by simp⟩

theorem comesBefore_append_left (calls after : List Call) (first second : Call)
    (h : comesBefore calls first second) : comesBefore (calls ++ after) first second := by
  obtain ⟨a, b, c, rfl⟩ := h
  exact ⟨a, b, c ++ after, by simp⟩

theorem comesBefore_append_right (before calls : List Call) (first second : Call)
    (h : comesBefore calls first second) : comesBefore (before ++ calls) first second := by
  obtain ⟨a, b, c, rfl⟩ := h
  exact ⟨before ++ a, b, c, by simp⟩

theorem comesBefore_flatten (lists : List (List Call)) (calls : List Call) (first second : Call)
    (hm : calls ∈ lists) (h : comesBefore calls first second) :
    comesBefore lists.flatten first second := by
  obtain ⟨a, b, rfl⟩ := List.append_of_mem hm
  rw [List.flatten_append, List.flatten_cons]
  exact comesBefore_append_right _ _ _ _ (comesBefore_append_left _ _ _ _ h)

theorem newCalls_eq {α : Type} (w : World) (run : Res α) (l : List Call)
    (h : run.world.calls = w.calls ++ l) : newCalls w run = l := by
  simp [newCalls, h]

theorem tearsDown_bind_before {α β : Type} {P : α → Prop} {Q : β → Prop} {m : M α}
    {f : α → M β} (hm : Emits (fun c => isDestroyDevice c = false) m)
    (hp : ∀ w a w1, m w = .ok a w1 → P a) (hf : ∀ a, P a → TearsDown Q (f a)) :
    TearsDown Q (m >>= f) := by
  intro w
  obtain ⟨l1, h1, hl1⟩ := hm w
  rw [bind_apply]
  cases hmw : m w with
  | ok a w1 =>
    rw [hmw] at h1
    simp only [Res.world] at h1
    obtain ⟨l2, h2, hr, hq⟩ := hf a (hp w a w1 hmw) w1
    refine ⟨l1 ++ l2, ?_, ?_, ?_⟩
    · simp only [h2, h1, List.append_assoc]
    · rw [releasesBeforeDevice_append l1 l2 hl1]
      exact hr
    · exact hq
  | stop s w1 =>
    rw [hmw] at h1
    exact ⟨l1, h1, releasesBeforeDevice_of_none l1 hl1, fun a w2 h => by cases h⟩

theorem tearsDown_bind_after {α β : Type} {P : α → Prop} {m : M α} {f : α → M β}
    (g : α → β) (hm : TearsDown P m) (hf : ∀ a, P a → ∀ w, f a w = .ok (g a) w) :
    TearsDown (fun _ => True) (m >>= f) := by
  intro w
  obtain ⟨l, h1, hr, hp⟩ := hm w
  rw [bind_apply]
  cases hmw : m w with
  | ok a w1 =>
    rw [hmw] at h1
    refine ⟨l, ?_, hr, fun _ _ _ => trivial⟩
    simp only [hf a (hp a w1 hmw) w1]
    exact h1
  | stop s w1 =>
    rw [hmw] at h1
    exact ⟨l, h1, hr, fun _ _ _ => trivial⟩

theorem tearsDown_device_instance {α : Type} (device vkInstance : Nat) (a : α) :
    TearsDown (fun b => b = a) (do
      destroyIfSet device .vkDestroyDevice
      destroyIfSet vkInstance .vkDestroyInstance
      pure a) := by
  intro w
  refine ⟨releaseIfSet device .vkDestroyDevice ++ releaseIfSet vkInstance .vkDestroyInstance,
    ?_, ?_, ?_⟩
  · simp [bind_apply, pure_apply, destroyIfSet_apply, Res.world]
  · by_cases h1 : device = VK_NULL_HANDLE <;> by_cases h2 : vkInstance = VK_NULL_HANDLE <;>
      simp [releaseIfSet, h1, h2, releasesBeforeDevice, isDestroyDevice, isDeviceRelease,
        List.dropWhile]
  · intro b w1 h
    simp [bind_apply, pure_apply, destroyIfSet_apply] at h
    exact h.1.symm

theorem emits_destroyIfSet {P : Call → Prop} (handle : Nat) (destroy : Nat → Call)
    (h : P (destroy handle)) : Emits P (destroyIfSet handle destroy) := by
  unfold destroyIfSet
  exact emits_ite (emits_bind (emits_call h) (fun _ => emits_pure P ())) (emits_pure P ())

theorem emits_of_apply {α : Type} {P : Call → Prop} (m : M α) (a : α) (l : List Call)
    (h : ∀ w, m w = .ok a { w with calls := w.calls ++ l }) (hl : everyCall P l) :
    Emits P m := by
  intro w
  exact ⟨l, by simp [h w, Res.world], hl⟩

theorem Application_destructor_tearsDown (drv : Driver) (self : Application) :
    TearsDown (fun a => a._offsreenImageResource = {}) (self.destructor drv) := by
  unfold Application.destructor
  refine tearsDown_bind_before (P := fun _ => True) (emits_destroyIfSet _ _ rfl)
    (fun _ _ _ _ => trivial) (fun _ _ => ?_)
  refine tearsDown_bind_before (P := fun _ => True) (emits_destroyIfSet _ _ rfl)
    (fun _ _ _ _ => trivial) (fun _ _ => ?_)
  refine tearsDown_bind_before (P := fun _ => True) (emits_call rfl)
    (fun _ _ _ _ => trivial) (fun _ _ => ?_)
  refine tearsDown_bind_before (P := fun _ => True) (emits_destroyIfSet _ _ rfl)
    (fun _ _ _ _ => trivial) (fun _ _ => ?_)
  refine tearsDown_bind_before (P := fun a => a = {})
    (emits_of_apply _ _ _ (ImageResource_Cleanup_calls _)
      (fun c hc => isDestroyDevice_of_release c (isDeviceRelease_image_cleanupCalls _ c hc)))
    (fun w a w1 h => ?_) (fun offscreen ho => ?_)
  · rw [ImageResource_Cleanup_calls] at h
    cases h
    rfl
  subst ho
  refine tearsDown_bind_before (P := fun _ => True)
    (emits_issue _ (fun c hc => ?_)) (fun _ _ _ _ => trivial) (fun _ _ => ?_)
  · obtain ⟨h, _, rfl⟩ := List.mem_map.mp hc
    rfl
  refine tearsDown_bind_before (P := fun _ => True)
    (emits_issue _ (fun c hc => ?_)) (fun _ _ _ _ => trivial) (fun _ _ => ?_)
  · obtain ⟨h, _, rfl⟩ := List.mem_map.mp hc
    rfl
  refine tearsDown_bind_before (P := fun _ => True) ?_ (fun _ _ _ _ => trivial) (fun _ _ => ?_)
  · refine emits_ite (emits_bind ?_ (fun _ => emits_bind (emits_call rfl)
      (fun _ => emits_pure _ ()))) (emits_pure _ ())
    unfold NVVK_RESOLVE_DEVICE_FUNCTION_ADDRESS
    exact emits_bind (emits_call rfl) (fun _ => emits_ite (emits_ExitError rfl) (emits_pure _ ()))
  refine tearsDown_bind_before (P := fun _ => True) (emits_destroyIfSet _ _ rfl)
    (fun _ _ _ _ => trivial) (fun _ _ => ?_)
  refine tearsDown_bind_before (P := fun _ => True) ?_ (fun _ _ _ _ => trivial) (fun _ _ => ?_)
  · refine emits_ite (emits_bind ?_ (fun _ => emits_bind (emits_call rfl)
      (fun _ => emits_pure _ ()))) (emits_pure _ ())
    unfold NVVK_RESOLVE_INSTANCE_FUNCTION_ADDRESS
    exact emits_bind (emits_call rfl) (fun _ => emits_ite (emits_ExitError rfl) (emits_pure _ ()))
  intro w
  obtain ⟨l, h1, h2, h3⟩ := tearsDown_device_instance self._device self._instance
    ({ self with _offsreenImageResource := ({} : T11.ImageResource),
                 _frameReadinessFences := [] } : Application) w
  exact ⟨l, h1, h2, fun a w1 h => by rw [h3 a w1 h]⟩

theorem Application_destroy_tearsDown (drv : Driver) (self : Application) :
    TearsDown (fun _ => True) (self.destroy drv) := by
  unfold Application.destroy
  refine tearsDown_bind_after (fun a => a) (Application_destructor_tearsDown drv self)
    (fun a ha w => ?_)
  rw [bind_apply, ha, ImageResource_destructor_null]
  simp [pure_apply, ← ha]

theorem T07_destructor_apply (app : T07.TutorialApplication) (w : World) :
    app.destructor w
      = .ok { app with _shaderBindingTable :=
                { Buffer := VK_NULL_HANDLE, Memory := VK_NULL_HANDLE,
                  Size := app._shaderBindingTable.Size } }
          { w with calls := w.calls ++ T07.releases app } := by
  simp [T07.TutorialApplication.destructor, bind_apply, pure_apply, destroyIfSet_apply,
    issue_apply, BufferResource_Cleanup_apply, T07.releases, List.append_assoc]

theorem T10_destructor_apply (app : T10.TutorialApplication) (w : World) :
    app.destructor w
      = .ok { app with
                _shaderBindingTable :=
                  { Buffer := VK_NULL_HANDLE, Memory := VK_NULL_HANDLE,
                    Size := app._shaderBindingTable.Size },
                _uniformBuffers := app._uniformBuffers.map (fun b =>
                  { Buffer := VK_NULL_HANDLE, Memory := VK_NULL_HANDLE, Size := b.Size }) }
          { w with calls := w.calls ++ T10.releases app } := by
  simp [T10.TutorialApplication.destructor, bind_apply, pure_apply, destroyIfSet_apply,
    forEach_apply _ _ _ BufferResource_Cleanup_apply, BufferResource_Cleanup_apply,
    T10.releases, List.append_assoc]

/-- The render object after the pass of the loop of the destructor. -/
theorem RenderObject_release_apply (object : T11.RenderObject) (w : World) :
    object.release w
      = .ok { object with
                vertexBuffers := object.vertexBuffers.map (fun b =>
                  { Buffer := VK_NULL_HANDLE, Memory := VK_NULL_HANDLE, Size := b.Size }),
                indexBuffer := { Buffer := VK_NULL_HANDLE, Memory := VK_NULL_HANDLE,
                                 Size := object.indexBuffer.Size },
                indexBufferCopy := { Buffer := VK_NULL_HANDLE, Memory := VK_NULL_HANDLE,
                                     Size := object.indexBufferCopy.Size },
                uniformBuffer := { Buffer := VK_NULL_HANDLE, Memory := VK_NULL_HANDLE,
                                   Size := object.uniformBuffer.Size },
                texture := {} }
          { w with calls := w.calls ++ object.releases } := by
  simp [T11.RenderObject.release, bind_apply, pure_apply, destroyIfSet_apply,
    forEach_apply _ _ _ BufferResource_Cleanup_apply, BufferResource_Cleanup_apply,
    ImageResource_Cleanup_calls, T11.RenderObject.releases, List.append_assoc]

theorem RenderObject_destructor_released (object : T11.RenderObject) (w : World) :
    T11.RenderObject.destructor
        { object with
            vertexBuffers := object.vertexBuffers.map (fun b =>
              { Buffer := VK_NULL_HANDLE, Memory := VK_NULL_HANDLE, Size := b.Size }),
            indexBuffer := { Buffer := VK_NULL_HANDLE, Memory := VK_NULL_HANDLE,
                             Size := object.indexBuffer.Size },
            indexBufferCopy := { Buffer := VK_NULL_HANDLE, Memory := VK_NULL_HANDLE,
                                 Size := object.indexBufferCopy.Size },
            uniformBuffer := { Buffer := VK_NULL_HANDLE, Memory := VK_NULL_HANDLE,
                               Size := object.uniformBuffer.Size },
            texture := {} } w
      = .ok { object with
            vertexBuffers := object.vertexBuffers.map (fun b =>
              { Buffer := VK_NULL_HANDLE, Memory := VK_NULL_HANDLE, Size := b.Size }),
            indexBuffer := { Buffer := VK_NULL_HANDLE, Memory := VK_NULL_HANDLE,
                             Size := object.indexBuffer.Size },
            indexBufferCopy := { Buffer := VK_NULL_HANDLE, Memory := VK_NULL_HANDLE,
                                 Size := object.indexBufferCopy.Size },
            uniformBuffer := { Buffer := VK_NULL_HANDLE, Memory := VK_NULL_HANDLE,
                               Size := object.uniformBuffer.Size },
            texture := {} } w := by
  have hd : ∀ (b : BufferResource) (w : World), BufferResource.destructor b w
      = .ok { Buffer := VK_NULL_HANDLE, Memory := VK_NULL_HANDLE, Size := b.Size }
          { w with calls := w.calls ++ cleanupCalls b } := BufferResource_Cleanup_apply
  have hn : ∀ l : List BufferResource, (List.map (fun b => cleanupCalls
      { Buffer := VK_NULL_HANDLE, Memory := VK_NULL_HANDLE, Size := b.Size }) l).reverse.flatten
        = [] := by
    intro l
    rw [List.flatten_eq_nil_iff]
    intro calls hc
    obtain ⟨b, _, rfl⟩ := List.mem_map.mp (List.mem_reverse.mp hc)
    exact cleanupCalls_null _
  simp [T11.RenderObject.destructor, bind_apply, pure_apply, ImageResource_destructor_null,
    BufferResource_destructor_null, forEach_apply _ _ _ hd, List.map_reverse, hn,
    Function.comp_def]

theorem T11_destructor_apply (app : T11.TutorialApplication) (w : World) :
    app.destructor w
      = .ok { app with
                _renderObjects := app._renderObjects.map (fun object =>
                  { object with
                    vertexBuffers := object.vertexBuffers.map (fun b =>
                      { Buffer := VK_NULL_HANDLE, Memory := VK_NULL_HANDLE, Size := b.Size }),
                    indexBuffer := { Buffer := VK_NULL_HANDLE, Memory := VK_NULL_HANDLE,
                                     Size := object.indexBuffer.Size },
                    indexBufferCopy := { Buffer := VK_NULL_HANDLE, Memory := VK_NULL_HANDLE,
                                         Size := object.indexBufferCopy.Size },
                    uniformBuffer := { Buffer := VK_NULL_HANDLE, Memory := VK_NULL_HANDLE,
                                       Size := object.uniformBuffer.Size },
                    texture := {} }),
                _shaderBindingTable :=
                  { Buffer := VK_NULL_HANDLE, Memory := VK_NULL_HANDLE,
                    Size := app._shaderBindingTable.Size } }
          { w with calls := w.calls ++ T11.releases app } := by
  simp [T11.TutorialApplication.destructor, bind_apply, pure_apply, destroyIfSet_apply,
    issue_apply, forEach_apply _ _ _ RenderObject_release_apply, BufferResource_Cleanup_apply,
    T11.releases, List.append_assoc]

theorem T07_teardown_calls (drv : Driver) (app : T07.TutorialApplication) (base : Application)
    (w : World) :
    ∃ rest, newCalls w (T07.teardown drv app base w) = T07.releases app ++ rest ∧
      releasesBeforeDevice rest = true := by
  obtain ⟨l, h1, h2, -⟩ := Application_destroy_tearsDown drv base
    { w with calls := w.calls ++ T07.releases app }
  refine ⟨l, newCalls_eq _ _ _ ?_, h2⟩
  simp only [T07.teardown, bind_apply, T07_destructor_apply, BufferResource_destructor_null,
    pure_apply]
  cases hb : Application.destroy drv base { w with calls := w.calls ++ T07.releases app } <;>
    rw [hb] at h1 <;> simpa [Res.world] using h1

theorem T10_teardown_calls (drv : Driver) (app : T10.TutorialApplication) (base : Application)
    (w : World) :
    ∃ rest, newCalls w (T10.teardown drv app base w) = T10.releases app ++ rest ∧
      releasesBeforeDevice rest = true := by
  obtain ⟨l, h1, h2, -⟩ := Application_destroy_tearsDown drv base
    { w with calls := w.calls ++ T10.releases app }
  refine ⟨l, newCalls_eq _ _ _ ?_, h2⟩
  simp only [T10.teardown, bind_apply, T10_destructor_apply, BufferResource_destructor_null,
    pure_apply]
  rw [forEach_quiet]
  · cases hb : Application.destroy drv base { w with calls := w.calls ++ T10.releases app } <;>
      rw [hb] at h1 <;> simp only [hb] <;> simpa [Res.world] using h1
  · intro buffer hm w1
    obtain ⟨b, _, rfl⟩ := List.mem_map.mp (List.mem_reverse.mp hm)
    exact BufferResource_destructor_null b.Size w1

theorem T11_teardown_calls (drv : Driver) (app : T11.TutorialApplication) (base : Application)
    (w : World) :
    ∃ rest, newCalls w (T11.teardown drv app base w) = T11.releases app ++ rest ∧
      releasesBeforeDevice rest = true := by
  obtain ⟨l, h1, h2, -⟩ := Application_destroy_tearsDown drv base
    { w with calls := w.calls ++ T11.releases app }
  refine ⟨l, newCalls_eq _ _ _ ?_, h2⟩
  simp only [T11.teardown, bind_apply, T11_destructor_apply, BufferResource_destructor_null,
    pure_apply]
  rw [forEach_quiet]
  · cases hb : Application.destroy drv base { w with calls := w.calls ++ T11.releases app } <;>
      rw [hb] at h1 <;> simp only [hb] <;> simpa [Res.world] using h1
  · intro object ho w1
    obtain ⟨o, _, rfl⟩ := List.mem_map.mp (List.mem_reverse.mp ho)
    exact RenderObject_destructor_released o w1

theorem isDeviceRelease_T07_releases (app : T07.TutorialApplication) :
    ∀ c ∈ T07.releases app, isDeviceRelease c = true := by
  intro c hc
  simp only [T07.releases, List.mem_append, mem_releaseIfSet, List.mem_map] at hc
  rcases hc with (((((((hc | hc) | ⟨_, _, hc⟩) | ⟨_, _, hc⟩) | hc) | hc) | hc) | hc) | hc
  all_goals first
    | exact isDeviceRelease_cleanupCalls _ c hc
    | (rw [hc.2]; rfl)
    | (rw [← hc]; rfl)

theorem isDeviceRelease_T10_releases (app : T10.TutorialApplication) :
    ∀ c ∈ T10.releases app, isDeviceRelease c = true := by
  intro c hc
  simp only [T10.releases, List.mem_append, mem_releaseIfSet, List.mem_flatten,
    List.mem_map] at hc
  rcases hc with ((((((((hc | hc) | hc) | hc) | hc) | hc) | hc) | hc) | hc) | ⟨_, ⟨b, _, rfl⟩, hc⟩
  all_goals first
    | exact isDeviceRelease_cleanupCalls _ c hc
    | (rw [hc.2]; rfl)

theorem isDeviceRelease_RenderObject_releases (object : T11.RenderObject) :
    ∀ c ∈ object.releases, isDeviceRelease c = true := by
  intro c hc
  simp only [T11.RenderObject.releases, List.mem_append, mem_releaseIfSet, List.mem_flatten,
    List.mem_map] at hc
  rcases hc with (((((hc | hc) | ⟨_, ⟨b, _, rfl⟩, hc⟩) | hc) | hc) | hc) | hc
  all_goals first
    | exact isDeviceRelease_cleanupCalls _ c hc
    | exact isDeviceRelease_image_cleanupCalls _ c hc
    | (rw [hc.2]; rfl)

theorem isDeviceRelease_T11_releases (app : T11.TutorialApplication) :
    ∀ c ∈ T11.releases app, isDeviceRelease c = true := by
  intro c hc
  simp only [T11.releases, List.mem_append, mem_releaseIfSet, List.mem_flatten,
    List.mem_map] at hc
  rcases hc with ((((((((hc | hc) | ⟨_, _, hc⟩) | ⟨_, _, hc⟩) | ⟨_, ⟨o, _, rfl⟩, hc⟩) | hc) | hc) |
    hc) | hc) | ⟨_, _, hc⟩
  all_goals first
    | exact isDeviceRelease_cleanupCalls _ c hc
    | exact isDeviceRelease_RenderObject_releases _ c hc
    | (rw [hc.2]; rfl)
    | (rw [← hc]; rfl)

theorem releasesBeforeDevice_releases (releases rest : List Call)
    (h : ∀ c ∈ releases, isDeviceRelease c = true) (hr : releasesBeforeDevice rest = true) :
    releasesBeforeDevice (releases ++ rest) = true := by
  rw [releasesBeforeDevice_append _ _ (fun c hc => isDestroyDevice_of_release c (h c hc))]
  exact hr

theorem comesBefore_releaseIfSet (first second : Nat) (destroyFirst destroySecond : Nat → Call)
    (h1 : first ≠ VK_NULL_HANDLE) (h2 : second ≠ VK_NULL_HANDLE) :
    comesBefore (releaseIfSet first destroyFirst ++ releaseIfSet second destroySecond)
      (destroyFirst first) (destroySecond second) :=
  comesBefore_of_mem _ _ _ _ ((mem_releaseIfSet _ _ _).mpr ⟨h1, rfl⟩)
    ((mem_releaseIfSet _ _ _).mpr ⟨h2, rfl⟩)

/-- C22: in the teardown of tutorials 07, 10 and 11 (the destructor of the
tutorial, the destructors of its members, then the destructor of the base
class), from whatever state and with whatever driver: the calls of the
tutorial's destructor come first, in the order of the source, and each of them
releases an object of the device (the acceleration structures, their memory,
the shader binding table, the descriptor pool, the pipeline, its layout and the
descriptor-set layouts among them); the top-level structure and every
bottom-level structure is destroyed before its memory is freed; and from the
first `vkDestroyDevice` on no object of the device is released. -/
theorem teardown_releases_in_order (drv : Driver) (app07 : T07.TutorialApplication)
    (app10 : T10.TutorialApplication) (app11 : T11.TutorialApplication) (base : Application)
    (w : World) :
    T07.teardownInOrder drv app07 base w ∧ T10.teardownInOrder drv app10 base w ∧
      T11.teardownInOrder drv app11 base w := by
  refine ⟨?_, ?_, ?_⟩
  · obtain ⟨rest, h, hr⟩ := T07_teardown_calls drv app07 base w
    refine ⟨⟨rest, h⟩, isDeviceRelease_T07_releases app07, ?_, ?_, ?_⟩
    · rw [h]
      exact releasesBeforeDevice_releases _ _ (isDeviceRelease_T07_releases app07) hr
    · intro h1 h2
      rw [h]
      unfold T07.releases
      iterate 8 apply comesBefore_append_left
      exact comesBefore_releaseIfSet _ _ _ _ h1 h2
    · intro i a m ha hm h1 h2
      rw [h]
      unfold T07.releases
      iterate 6 apply comesBefore_append_left
      refine comesBefore_of_mem _ _ _ _ (List.mem_append_right _ ?_) ?_
      · exact List.mem_map.mpr ⟨a, List.mem_filter.mpr ⟨List.mem_iff_getElem?.mpr ⟨i, ha⟩, by simpa using h1⟩,
          rfl⟩
      · exact List.mem_map.mpr ⟨m, List.mem_filter.mpr ⟨List.mem_iff_getElem?.mpr ⟨i, hm⟩, by simpa using h2⟩,
          rfl⟩
  · obtain ⟨rest, h, hr⟩ := T10_teardown_calls drv app10 base w
    refine ⟨⟨rest, h⟩, isDeviceRelease_T10_releases app10, ?_, ?_, ?_⟩
    · rw [h]
      exact releasesBeforeDevice_releases _ _ (isDeviceRelease_T10_releases app10) hr
    · intro h1 h2
      rw [h]
      unfold T10.releases
      iterate 9 apply comesBefore_append_left
      exact comesBefore_releaseIfSet _ _ _ _ h1 h2
    · intro h1 h2
      rw [h]
      unfold T10.releases
      iterate 7 apply comesBefore_append_left
      rw [List.append_assoc]
      apply comesBefore_append_right
      exact comesBefore_releaseIfSet _ _ _ _ h1 h2
  · obtain ⟨rest, h, hr⟩ := T11_teardown_calls drv app11 base w
    refine ⟨⟨rest, h⟩, isDeviceRelease_T11_releases app11, ?_, ?_, ?_⟩
    · rw [h]
      exact releasesBeforeDevice_releases _ _ (isDeviceRelease_T11_releases app11) hr
    · intro h1 h2
      rw [h]
      unfold T11.releases
      iterate 9 apply comesBefore_append_left
      exact comesBefore_releaseIfSet _ _ _ _ h1 h2
    · intro object ho h1 h2
      rw [h]
      unfold T11.releases
      iterate 6 apply comesBefore_append_left
      apply comesBefore_append_right
      refine comesBefore_flatten _ _ _ _ (List.mem_map.mpr ⟨object, ho, rfl⟩) ?_
      unfold T11.RenderObject.releases
      iterate 5 apply comesBefore_append_left
      exact comesBefore_releaseIfSet _ _ _ _ h1 h2

/-! ### The writes to the table of tutorial 10 -/

theorem T10_tableWrittenBackToBack_of_small (drv : Driver)
    (hs : ∀ n, drv.result n = VK_SUCCESS) (app : T10.TutorialApplication) (w : World)
    (hh : 2 * drv.shaderGroupHandleSize < 2 ^ 32) : T10.tableWrittenBackToBack drv app w := by
  have hc : T10.raygenAndMissSize drv = 2 * drv.shaderGroupHandleSize := by
    simp only [T10.raygenAndMissSize, u32]
    omega
  have hsize := T10_shaderBindingTableSize_of_small drv hh
  unfold T10.tableWrittenBackToBack Runs
  simp only [T10.CreateShaderBindingTable, bind_apply, pure_apply,
    BufferResource_Create_ok drv hs, BufferResource_Map_ok drv hs, BufferResource_Unmap_apply,
    NVVK_CHECK_ERROR_apply, vkGetRayTracingShaderGroupHandlesNV_apply drv hs, forLoop,
    T10.hitRecord, advance, storeFloat_apply, T10._instanceNum,
    List.length_append, List.length_cons, List.length_nil, if_true, Option.map_some',
    List.append_assoc, List.cons_append, List.nil_append]
  refine ⟨_, _, _, rfl, rfl, ?_⟩
  simp only [hc, hsize, writtenRanges, List.filterMap_cons, List.filterMap_nil, writtenRange,
    List.map_cons, List.map_nil, backToBack, T10.inlineDataSize]
  refine ⟨trivial, trivial, ?_, ?_, ?_⟩
  · simp only [one_mul]
  · repeat' apply And.intro
    all_goals first | trivial | omega
  · simp only [List.forall_mem_cons]
    repeat' apply And.intro
    all_goals first | omega | (intro r hr; cases hr)

/-- C23, amended: tutorial 10, when every driver call succeeds and the handle
size `h` satisfies `2h < 2^32`: `CreateShaderBindingTable` returns, and its
writes to the table are, in order, the two handles of the raygen and miss
groups (`2h` bytes from byte 0), then three times a handle (`h` bytes) and four
floats (4 bytes each, 16 in all); each write starts where the one before
ended, every write ends inside the table, and the last one ends at
`shaderBindingTableSize = 2h + 3 * (h + 16)`. -/
theorem table_written_back_to_back (drv : Driver) (hs : ∀ n, drv.result n = VK_SUCCESS)
    (app : T10.TutorialApplication) (w : World)
    (hh : 2 * drv.shaderGroupHandleSize < 2 ^ 32) : T10.tableWrittenBackToBack drv app w :=
  T10_tableWrittenBackToBack_of_small drv hs app w hh

/-- Witness of C23, amended: the sample driver with 16-byte handles. -/
theorem table_written_back_to_back_witness :
    T10.tableWrittenBackToBack (sampleDriver 16) {} World.init :=
  table_written_back_to_back (sampleDriver 16) (fun _ => rfl) {} World.init (by decide)

/-- Counterexample to C23 as stated (every handle size). Handle size `2^31`:
the 32-bit product `2 * shaderGroupHandleSize` wraps to `0`, so the table has
`3 * (h + 16)` bytes, not `2h + 3 * (h + 16)`; the first call takes the two
handles (`2^32` bytes) at byte 0, more than the table holds, and the cursor
is advanced by `0`: the handle of the first hit record is written from byte 0
as well, not from byte `2h`. -/
theorem table_not_back_to_back_when_product_wraps :
    ¬ T10.tableWrittenBackToBack (sampleDriver (2 ^ 31)) {} World.init ∧
    T10.shaderBindingTableSize (sampleDriver (2 ^ 31)) = 3 * (2 ^ 31 + 16) ∧
    ∃ app1 w1, T10.CreateShaderBindingTable (sampleDriver (2 ^ 31)) {} World.init = .ok app1 w1 ∧
      (writtenRanges (sampleDriver (2 ^ 31)) w1.calls).take 2
        = [(app1._shaderBindingTable.Memory, 0, 2 ^ 32),
           (app1._shaderBindingTable.Memory, 0, 2 ^ 31)] := by
  refine ⟨?_, by decide, ?_⟩
  · rintro ⟨app1, w1, l, _, _, _, hsize, _⟩
    exact absurd hsize (by decide)
  · simp only [T10.CreateShaderBindingTable, bind_apply, pure_apply,
      BufferResource_Create_ok (sampleDriver (2 ^ 31)) (fun _ => rfl),
      BufferResource_Map_ok (sampleDriver (2 ^ 31)) (fun _ => rfl), BufferResource_Unmap_apply,
      NVVK_CHECK_ERROR_apply,
      vkGetRayTracingShaderGroupHandlesNV_apply (sampleDriver (2 ^ 31)) (fun _ => rfl), forLoop,
      T10.hitRecord, advance, storeFloat_apply, T10._instanceNum,
      List.length_append, List.length_cons, List.length_nil, if_true, Option.map_some',
      List.append_assoc, List.cons_append, List.nil_append]
    refine ⟨_, _, rfl, ?_⟩
    simp only [World.init, List.nil_append, writtenRanges, List.filterMap_cons,
      List.filterMap_nil, writtenRange, List.take_succ_cons, List.take_zero]
    decide

/-! ### Runs -/

theorem runs_pure {α : Type} (a : α) (w : World) {Q : α → World → List Call → Prop}
    (h : Q a w []) : Runs (pure a : M α) w Q :=
  ⟨a, w, [], rfl, by simp, h⟩

theorem runs_bind {α β : Type} {m : M α} {f : α → M β} {w : World}
    {Q1 : α → World → List Call → Prop} {Q : β → World → List Call → Prop}
    (hm : Runs m w Q1)
    (hf : ∀ a w1 l1, w1.calls = w.calls ++ l1 → Q1 a w1 l1 →
      Runs (f a) w1 (fun b w2 l2 => Q b w2 (l1 ++ l2))) :
    Runs (m >>= f) w Q := by
  obtain ⟨a, w1, l1, hrun, hcalls, hq⟩ := hm
  obtain ⟨b, w2, l2, hrun2, hcalls2, hq2⟩ := hf a w1 l1 hcalls hq
  refine ⟨b, w2, l1 ++ l2, ?_, ?_, hq2⟩
  · simp only [bind_apply, hrun, hrun2]
  · rw [hcalls2, hcalls, List.append_assoc]

theorem runs_mono {α : Type} {m : M α} {w : World} {Q1 Q2 : α → World → List Call → Prop}
    (h : Runs m w Q1) (himp : ∀ a w1 l, w1.calls = w.calls ++ l → Q1 a w1 l → Q2 a w1 l) :
    Runs m w Q2 := by
  obtain ⟨a, w1, l, hrun, hcalls, hq⟩ := h
  exact ⟨a, w1, l, hrun, hcalls, himp a w1 l hcalls hq⟩

theorem creationInfos_append (drv : Driver) (position : Nat) (l1 l2 : List Call) :
    creationInfos drv position (l1 ++ l2)
      = creationInfos drv position l1 ++ creationInfos drv (position + l1.length) l2 := by
  induction l1 generalizing position with
  | nil => rfl
  | cons c rest ih =>
    have e : position + (rest.length + 1) = position + 1 + rest.length := by omega
    rw [List.cons_append, List.length_cons, e]
    show (creationInfo drv position c).toList ++ creationInfos drv (position + 1) (rest ++ l2)
      = (creationInfo drv position c).toList ++ creationInfos drv (position + 1) rest ++
          creationInfos drv (position + 1 + rest.length) l2
    rw [ih, List.append_assoc]

theorem buildInfos_append (l1 l2 : List Call) :
    buildInfos (l1 ++ l2) = buildInfos l1 ++ buildInfos l2 := by
  simp [buildInfos]

theorem uniformUploads_append (l1 l2 : List Call) :
    uniformUploads (l1 ++ l2) = uniformUploads l1 ++ uniformUploads l2 := by
  simp [uniformUploads]

theorem declaredBounds_append (l1 l2 : List Call) :
    declaredBounds (l1 ++ l2) = declaredBounds l1 ++ declaredBounds l2 := by
  simp [declaredBounds]

/-! ### Build infos and creation infos -/

theorem creationInfos_nil (drv : Driver) (position : Nat) :
    creationInfos drv position [] = [] := rfl

theorem creationInfos_cons (drv : Driver) (position : Nat) (c : Call) (rest : List Call) :
    creationInfos drv position (c :: rest)
      = (creationInfo drv position c).toList ++ creationInfos drv (position + 1) rest := rfl

theorem creationInfos_cleanupCalls (drv : Driver) (position : Nat) (self : BufferResource) :
    creationInfos drv position (cleanupCalls self) = [] := by
  unfold cleanupCalls
  split <;> split <;> rfl

theorem buildInfos_cleanupCalls (self : BufferResource) :
    List.filterMap buildInfo (cleanupCalls self) = [] := by
  unfold cleanupCalls
  split <;> split <;> rfl

set_option maxHeartbeats 2000000 in
theorem T07_buildsMatchCreations (drv : Driver) (hs : ∀ n, drv.result n = VK_SUCCESS)
    (app : T07.TutorialApplication) (hb : app._bottomAS.length = 3)
    (hm : app._bottomASMemory.length = 3) (w : World) :
    buildsMatchCreations drv 4 (T07.CreateAccelerationStructures drv app) w := by
  obtain ⟨x0, x1, x2, hx⟩ := list_length_three app._bottomAS hb
  obtain ⟨y0, y1, y2, hy⟩ := list_length_three app._bottomASMemory hm
  unfold buildsMatchCreations Runs
  generalize hrun : T07.CreateAccelerationStructures drv app w = r
  simp [hx, hy, T07.CreateAccelerationStructures, bind_apply, pure_apply, call_apply,
    NVVK_CHECK_ERROR_apply, hs, BufferResource_Create_ok drv hs, BufferResource_Copy_ok drv hs,
    CreateAccelerationStructure, GetScratchBufferSize, issue, T07.buildCommands,
    BufferResource_Cleanup_apply, forLoop, T07.createBottom, T07.queryHandle, range_three,
    T07.bottomBuild] at hrun
  subst hrun
  refine ⟨_, _, _, rfl, rfl, ?_⟩
  simp [creationInfos_nil, creationInfos_cons, creationInfos_append, creationInfos_cleanupCalls,
    creationInfo, buildInfos, buildInfo, buildInfos_cleanupCalls, infoFields, Nat.add_assoc,
    T07.bottomBuildInfo, T07.topBuildInfo]

set_option maxHeartbeats 1000000 in
theorem T10_buildsMatchCreations (drv : Driver) (hs : ∀ n, drv.result n = VK_SUCCESS)
    (app : T10.TutorialApplication) (w : World) :
    buildsMatchCreations drv 2 (T10.CreateAccelerationStructures drv app) w := by
  unfold buildsMatchCreations Runs
  generalize hrun : T10.CreateAccelerationStructures drv app w = r
  simp [T10.CreateAccelerationStructures, bind_apply, pure_apply, call_apply,
    NVVK_CHECK_ERROR_apply, hs, BufferResource_Create_ok drv hs, BufferResource_Copy_ok drv hs,
    CreateAccelerationStructure, GetScratchBufferSize, issue, T10.buildCommands,
    BufferResource_Cleanup_apply] at hrun
  subst hrun
  refine ⟨_, _, _, rfl, rfl, ?_⟩
  simp [creationInfos_nil, creationInfos_cons, creationInfos_append, creationInfos_cleanupCalls,
    creationInfo, buildInfos, buildInfo, buildInfos_cleanupCalls, infoFields, Nat.add_assoc,
    T10.bottomBuildInfo, T10.topBuildInfo]

/-! ### What the steps of tutorial 11 add to the trace -/

theorem uniformUploads_cleanupCalls (self : BufferResource) :
    List.filterMap uniformUpload (cleanupCalls self) = [] := by
  unfold cleanupCalls
  split <;> split <;> rfl

theorem declaredBounds_cleanupCalls (self : BufferResource) :
    List.filterMap declaredBound (cleanupCalls self) = [] := by
  unfold cleanupCalls
  split <;> split <;> rfl

theorem CreateBufferAndUploadData_apply (drv : Driver) (hs : ∀ n, drv.result n = VK_SUCCESS)
    (buffer : BufferResource) (usage : Nat) (content : HostData) (size : Nat) (w : World) :
    T11.CreateBufferAndUploadData drv buffer usage content size w
      = .ok { Buffer := drv.handleOut w.calls.length,
              Memory := drv.handleOut (w.calls.length + 2), Size := size }
          { calls := w.calls ++
              [ .vkCreateBuffer size usage,
                .vkGetBufferMemoryRequirements (drv.handleOut w.calls.length),
                .vkAllocateMemory (drv.memoryRequirements (w.calls.length + 1)).size
                  (GetMemoryType drv (drv.memoryRequirements (w.calls.length + 1))
                    (VK_MEMORY_PROPERTY_HOST_VISIBLE_BIT ||| VK_MEMORY_PROPERTY_HOST_COHERENT_BIT)),
                .vkBindBufferMemory (drv.handleOut w.calls.length)
                  (drv.handleOut (w.calls.length + 2)) 0,
                .vkMapMemory (drv.handleOut (w.calls.length + 2)) 0 size,
                .memcpy (drv.handleOut (w.calls.length + 2)) content size,
                .vkUnmapMemory (drv.handleOut (w.calls.length + 2)) ],
            mem := w.mem } := by
  simp [T11.CreateBufferAndUploadData, bind_apply, pure_apply, NVVK_CHECK_ERROR_apply,
    BufferResource_Create_ok drv hs, BufferResource_Copy_ok drv hs]

/-- The facts about one `Create...` call of `InitObjects` that the later
steps use. -/
theorem CreateBox_tracks (drv : Driver) (hs : ∀ n, drv.result n = VK_SUCCESS)
    (hl : ∀ n, drv.loaded n = true) (object : T11.RenderObject) (path : String)
    (app : T11.TutorialApplication) (w : World) :
    Runs (T11.CreateBox drv object path app) w (fun r _ l =>
      creationInfos drv w.calls.length l = [(r.1.bottomAS, T11.bottomBuildInfo r.1)] ∧
      buildInfos l = [] ∧ declaredBounds l = [] ∧
      uniformUploads l = [[u32 app._vertexBufferViews.length, u32 app._indexBufferViews.length,
        u32 app._imageViews.length]] ∧
      r.2._vertexBufferViews.length = app._vertexBufferViews.length + 2 ∧
      r.2._indexBufferViews.length = app._indexBufferViews.length + 1 ∧
      r.2._imageViews.length = app._imageViews.length + 1 ∧
      r.2._samplers.length = app._samplers.length + 1 ∧
      r.2._renderObjects = app._renderObjects) := by
  unfold Runs
  generalize hrun : T11.CreateBox drv object path app w = r
  simp [T11.CreateBox, T11.CreateBoxGeometry, T11.CreateBoxBufferViews, T11.LoadObjectTexture,
    T11.CreateObjectBottomLevelAS, CreateAccelerationStructure, bind_apply, pure_apply,
    call_apply, NVVK_CHECK_ERROR_apply, hs, hl, BufferResource_Create_ok drv hs,
    BufferResource_Copy_ok drv hs, CreateBufferAndUploadData_apply drv hs] at hrun
  subst hrun
  refine ⟨_, _, _, rfl, rfl, ?_⟩
  simp [creationInfos_nil, creationInfos_cons, creationInfo, buildInfos, buildInfo,
    declaredBounds, declaredBound, uniformUploads, uniformUpload, T11.uniformContent,
    T11.bottomBuildInfo, Nat.add_assoc]

theorem CreateIcosahedron_tracks (drv : Driver) (hs : ∀ n, drv.result n = VK_SUCCESS)
    (object : T11.RenderObject) (app : T11.TutorialApplication) (w : World) :
    Runs (T11.CreateIcosahedron drv object app) w (fun r _ l =>
      creationInfos drv w.calls.length l = [(r.1.bottomAS, T11.bottomBuildInfo r.1)] ∧
      buildInfos l = [] ∧ declaredBounds l = [] ∧
      uniformUploads l = [[u32 app._vertexBufferViews.length, u32 app._indexBufferViews.length,
        u32 app._imageViews.length]] ∧
      r.2._vertexBufferViews.length = app._vertexBufferViews.length + 1 ∧
      r.2._indexBufferViews.length = app._indexBufferViews.length + 1 ∧
      r.2._imageViews.length = app._imageViews.length ∧
      r.2._samplers.length = app._samplers.length ∧
      r.2._renderObjects = app._renderObjects) := by
  unfold Runs
  generalize hrun : T11.CreateIcosahedron drv object app w = r
  simp [T11.CreateIcosahedron, T11.CreateIcosahedronGeometry, T11.CreateIcosahedronBufferViews,
    T11.CreateObjectBottomLevelAS, CreateAccelerationStructure, bind_apply, pure_apply,
    call_apply, NVVK_CHECK_ERROR_apply, hs, BufferResource_Create_ok drv hs,
    BufferResource_Copy_ok drv hs, CreateBufferAndUploadData_apply drv hs] at hrun
  subst hrun
  refine ⟨_, _, _, rfl, rfl, ?_⟩
  simp [creationInfos_nil, creationInfos_cons, creationInfo, buildInfos, buildInfo,
    declaredBounds, declaredBound, uniformUploads, uniformUpload, T11.uniformContent,
    T11.bottomBuildInfo, Nat.add_assoc]

theorem InitObjects_tracks (drv : Driver) (hs : ∀ n, drv.result n = VK_SUCCESS)
    (hl : ∀ n, drv.loaded n = true) (app : T11.TutorialApplication)
    (hlen : app._renderObjects.length = 5) (w : World) :
    Runs (T11.InitObjects drv app) w (fun app1 _ l =>
      ∃ o0 o1 o2 o3 o4, app1._renderObjects = [o0, o1, o2, o3, o4] ∧
      creationInfos drv w.calls.length l
        = [(o0.bottomAS, T11.bottomBuildInfo o0), (o1.bottomAS, T11.bottomBuildInfo o1),
           (o2.bottomAS, T11.bottomBuildInfo o2), (o3.bottomAS, T11.bottomBuildInfo o3),
           (o4.bottomAS, T11.bottomBuildInfo o4)] ∧
      buildInfos l = [] ∧ declaredBounds l = [] ∧
      uniformUploads l
        = [[u32 app._vertexBufferViews.length, u32 app._indexBufferViews.length,
            u32 app._imageViews.length],
           [u32 (app._vertexBufferViews.length + 2), u32 (app._indexBufferViews.length + 1),
            u32 (app._imageViews.length + 1)],
           [u32 (app._vertexBufferViews.length + 3), u32 (app._indexBufferViews.length + 2),
            u32 (app._imageViews.length + 1)],
           [u32 (app._vertexBufferViews.length + 5), u32 (app._indexBufferViews.length + 3),
            u32 (app._imageViews.length + 2)],
           [u32 (app._vertexBufferViews.length + 7), u32 (app._indexBufferViews.length + 4),
            u32 (app._imageViews.length + 3)]] ∧
      app1._vertexBufferViews.length = app._vertexBufferViews.length + 8 ∧
      app1._indexBufferViews.length = app._indexBufferViews.length + 5 ∧
      app1._imageViews.length = app._imageViews.length + 3 ∧
      app1._samplers.length = app._samplers.length + 3) := by
  obtain ⟨x0, x1, x2, x3, x4, hobj⟩ := list_length_five app._renderObjects hlen
  unfold T11.InitObjects
  refine runs_bind (CreateBox_tracks drv hs hl _ _ app w) ?_
  rintro r0 w1 l1 hc1 ⟨c0, b0, d0, u0, v0, i0, t0, s0, ro0⟩
  refine runs_bind (CreateIcosahedron_tracks drv hs _ (T11.storeObject 0 r0) w1) ?_
  rintro r1 w2 l2 hc2 ⟨c1, b1, d1, u1, v1, i1, t1, s1, ro1⟩
  refine runs_bind (CreateBox_tracks drv hs hl _ _ (T11.storeObject 1 r1) w2) ?_
  rintro r2 w3 l3 hc3 ⟨c2, b2, d2, u2, v2, i2, t2, s2, ro2⟩
  refine runs_bind (CreateBox_tracks drv hs hl _ _ (T11.storeObject 2 r2) w3) ?_
  rintro r3 w4 l4 hc4 ⟨c3, b3, d3, u3, v3, i3, t3, s3, ro3⟩
  refine runs_bind (CreateIcosahedron_tracks drv hs _ (T11.storeObject 3 r3) w4) ?_
  rintro r4 w5 l5 hc5 ⟨c4, b4, d4, u4, v4, i4, t4, s4, ro4⟩
  have e1 : w1.calls.length = w.calls.length + l1.length := by rw [hc1, List.length_append]
  have e2 : w2.calls.length = w.calls.length + l1.length + l2.length := by
    rw [hc2, List.length_append, e1]
  have e3 : w3.calls.length = w.calls.length + l1.length + l2.length + l3.length := by
    rw [hc3, List.length_append, e2]
  have e4 : w4.calls.length
      = w.calls.length + l1.length + l2.length + l3.length + l4.length := by
    rw [hc4, List.length_append, e3]
  rw [e1] at c1
  rw [e2] at c2
  rw [e3] at c3
  rw [e4] at c4
  simp only [T11.storeObject] at ro1 ro2 ro3 ro4 u1 u2 u3 u4 v1 v2 v3 v4
  simp only [T11.storeObject] at i1 i2 i3 i4 t1 t2 t3 t4 s1 s2 s3 s4
  refine runs_pure _ _ ⟨r0.1, r1.1, r2.1, r3.1, r4.1, ?_, ?_, ?_, ?_, ?_, ?_, ?_, ?_, ?_⟩
  · simp only [T11.storeObject]
    rw [ro4, ro3, ro2, ro1, ro0, hobj]
    simp
  · simp only [creationInfos_append, creationInfos_nil, List.append_nil, c0, c1, c2, c3, c4,
      List.cons_append, List.nil_append]
  · simp only [buildInfos_append, b0, b1, b2, b3, b4, List.append_nil]
  · simp only [declaredBounds_append, d0, d1, d2, d3, d4, List.append_nil]
  · simp only [uniformUploads_append, u0, u1, u2, u3, u4, v0, v1, v2, v3, i0, i1, i2, i3,
      t0, t1, t2, t3, List.cons_append, List.nil_append, Nat.add_assoc]
    rfl
  · simp only [T11.storeObject, v4, v3, v2, v1, v0]
  · simp only [T11.storeObject, i4, i3, i2, i1, i0]
  · simp only [T11.storeObject, t4, t3, t2, t1, t0]
  · simp only [T11.storeObject, s4, s3, s2, s1, s0]

set_option maxHeartbeats 4000000 in
theorem T11_CreateAccelerationStructures_tracks (drv : Driver)
    (hs : ∀ n, drv.result n = VK_SUCCESS) (translation : Nat → ℚ × ℚ × ℚ)
    (app : T11.TutorialApplication) (w : World) (o0 o1 o2 o3 o4 : T11.RenderObject)
    (hobj : app._renderObjects = [o0, o1, o2, o3, o4]) :
    Runs (T11.CreateAccelerationStructures drv translation app) w (fun app1 _ l =>
      creationInfos drv w.calls.length l = [(app1._topAS, T11.topBuildInfo)] ∧
      buildInfos l
        = [(o0.bottomAS, T11.bottomBuildInfo o0), (o1.bottomAS, T11.bottomBuildInfo o1),
           (o2.bottomAS, T11.bottomBuildInfo o2), (o3.bottomAS, T11.bottomBuildInfo o3),
           (o4.bottomAS, T11.bottomBuildInfo o4), (app1._topAS, T11.topBuildInfo)] ∧
      declaredBounds l = [] ∧ uniformUploads l = [] ∧
      app1._vertexBufferViews = app._vertexBufferViews ∧
      app1._indexBufferViews = app._indexBufferViews ∧
      app1._imageViews = app._imageViews ∧ app1._samplers = app._samplers) := by
  unfold Runs
  generalize hrun : T11.CreateAccelerationStructures drv translation app w = r
  simp [hobj, T11.CreateAccelerationStructures, bind_apply, pure_apply,
    call_apply, NVVK_CHECK_ERROR_apply, hs, BufferResource_Create_ok drv hs,
    BufferResource_Copy_ok drv hs, CreateAccelerationStructure, GetScratchBufferSize, issue,
    T11.buildCommands, BufferResource_Cleanup_apply, forLoop, T11.instanceStep, T11.scratchStep,
    T11._objectNum, T11.bottomBuild] at hrun
  subst hrun
  refine ⟨_, _, _, rfl, rfl, ?_⟩
  simp [creationInfos_nil, creationInfos_cons, creationInfos_append, creationInfos_cleanupCalls,
    creationInfo, buildInfos, buildInfo, buildInfos_cleanupCalls, declaredBounds, declaredBound,
    declaredBounds_cleanupCalls, uniformUploads, uniformUpload, uniformUploads_cleanupCalls,
    T11.topBuildInfo, T11._objectNum, Nat.add_assoc]

theorem CreateDescriptorSetLayouts_tracks (drv : Driver) (hs : ∀ n, drv.result n = VK_SUCCESS)
    (app : T11.TutorialApplication) (w : World) :
    Runs (T11.CreateDescriptorSetLayouts drv app) w (fun app1 _ l =>
      declaredBounds l = [10, 5, 5] ∧ uniformUploads l = [] ∧
      app1._vertexBufferViews = app._vertexBufferViews ∧
      app1._indexBufferViews = app._indexBufferViews ∧
      app1._imageViews = app._imageViews ∧ app1._samplers = app._samplers) := by
  unfold Runs
  generalize hrun : T11.CreateDescriptorSetLayouts drv app w = r
  simp [T11.CreateDescriptorSetLayouts, bind_apply, pure_apply, call_apply,
    NVVK_CHECK_ERROR_apply, hs] at hrun
  subst hrun
  refine ⟨_, _, _, rfl, rfl, ?_⟩
  simp [declaredBounds, declaredBound, uniformUploads, uniformUpload, T11._objectNum, u32]

theorem T11_buildsMatchCreations (drv : Driver) (hs : ∀ n, drv.result n = VK_SUCCESS)
    (hl : ∀ n, drv.loaded n = true) (translation : Nat → ℚ × ℚ × ℚ)
    (app : T11.TutorialApplication) (hlen : app._renderObjects.length = 5) (w : World) :
    buildsMatchCreations drv 6 (T11.InitAccelerationStructures drv translation app) w := by
  unfold buildsMatchCreations T11.InitAccelerationStructures
  refine runs_bind (InitObjects_tracks drv hs hl app hlen w) ?_
  rintro app1 w1 l1 hc1 ⟨o0, o1, o2, o3, o4, hobj, c1, b1, -⟩
  refine runs_mono
    (T11_CreateAccelerationStructures_tracks drv hs translation app1 w1 o0 o1 o2 o3 o4 hobj) ?_
  rintro app2 w2 l2 - ⟨c2, b2, -⟩
  rw [hc1, List.length_append] at c2
  simp only [creationInfos_append, buildInfos_append, c1, b1, c2, b2, List.nil_append,
    List.cons_append, List.length_cons, List.length_nil, List.map_cons, List.map_nil, true_and]

/-- C25: when every driver call succeeds (and, in tutorial 11, every texture
loads), the run that creates and builds the acceleration structures returns in
tutorials 07, 10 and 11; it creates 4, 2 and 6 structures, and the build
commands it records are one for each of them, in the order of creation, each
with the destination the driver returned at the creation and with the same
type, flags, instanceCount, geometryCount and geometry list as the creation
info. -/
theorem build_infos_match_creation_infos (drv : Driver) (hs : ∀ n, drv.result n = VK_SUCCESS)
    (hl : ∀ n, drv.loaded n = true) (app07 : T07.TutorialApplication)
    (hb : app07._bottomAS.length = 3) (hm : app07._bottomASMemory.length = 3)
    (app10 : T10.TutorialApplication) (translation : Nat → ℚ × ℚ × ℚ)
    (app11 : T11.TutorialApplication) (hlen : app11._renderObjects.length = 5) (w : World) :
    buildsMatchCreations drv 4 (T07.CreateAccelerationStructures drv app07) w ∧
    buildsMatchCreations drv 2 (T10.CreateAccelerationStructures drv app10) w ∧
    buildsMatchCreations drv 6 (T11.InitAccelerationStructures drv translation app11) w :=
  ⟨T07_buildsMatchCreations drv hs app07 hb hm w, T10_buildsMatchCreations drv hs app10 w,
    T11_buildsMatchCreations drv hs hl translation app11 hlen w⟩

/-- Witness of C25: the sample driver and the applications as constructed. -/
theorem build_infos_match_creation_infos_witness :
    buildsMatchCreations (sampleDriver 16) 4
      (T07.CreateAccelerationStructures (sampleDriver 16) {}) World.init ∧
    buildsMatchCreations (sampleDriver 16) 2
      (T10.CreateAccelerationStructures (sampleDriver 16) {}) World.init ∧
    buildsMatchCreations (sampleDriver 16) 6
      (T11.InitAccelerationStructures (sampleDriver 16) (fun _ => (0, 0, 0)) {}) World.init :=
  build_infos_match_creation_infos (sampleDriver 16) (fun _ => rfl) (fun _ => rfl) {} rfl rfl {}
    (fun _ => (0, 0, 0)) {} rfl World.init

/-! ### Uniform offsets of tutorial 11 -/

theorem T11_offsetsCountEarlierViews (drv : Driver) (hs : ∀ n, drv.result n = VK_SUCCESS)
    (hl : ∀ n, drv.loaded n = true) (translation : Nat → ℚ × ℚ × ℚ)
    (app : T11.TutorialApplication) (hlen : app._renderObjects.length = 5)
    (hv : app._vertexBufferViews = []) (hi : app._indexBufferViews = [])
    (ht : app._imageViews = []) (hsm : app._samplers = []) (w : World) :
    T11.offsetsCountEarlierViews drv translation app w := by
  unfold T11.offsetsCountEarlierViews T11.InitLayouts
  refine runs_bind (InitObjects_tracks drv hs hl app hlen w) ?_
  rintro app1 w1 l1 - ⟨o0, o1, o2, o3, o4, hobj, -, -, d1, u1, v1, i1, t1, s1⟩
  refine runs_bind
    (T11_CreateAccelerationStructures_tracks drv hs translation app1 w1 o0 o1 o2 o3 o4 hobj) ?_
  rintro app2 w2 l2 - ⟨-, -, d2, u2, v2, i2, t2, s2⟩
  refine runs_mono (CreateDescriptorSetLayouts_tracks drv hs app2 w2) ?_
  rintro app3 w3 l3 - ⟨d3, u3, v3, i3, t3, s3⟩
  simp only [hv, hi, ht, hsm, List.length_nil, Nat.zero_add] at u1 v1 i1 t1 s1
  rw [v3, v2, i3, i2, t3, t2, s3, s2, v1, i1, t1, s1]
  simp only [uniformUploads_append, declaredBounds_append, u1, u2, u3, d1, d2, d3,
    List.append_nil, List.nil_append]
  simp [u32]

/-- C30: tutorial 11, when every driver call succeeds and every texture loads.
`CreateBox` and `CreateIcosahedron`, from any state, return, upload as the
three offsets of `UniformBufferContent` the numbers of vertex buffer views,
index buffer views and image views held when they are called (the views the
objects created before pushed), and push 2, 1, 1 and 1, 1, 0 views, with one
sampler for each image view.  From an application without views, the first
steps of `Init` (the five objects in the order box, icosahedron, box, box,
icosahedron, the acceleration structures, the descriptor-set layouts) return
with the uploaded offsets (0, 0, 0), (2, 1, 1), (3, 2, 1), (5, 3, 2),
(7, 4, 3), with as many samplers as image views, and with the view counts 8, 5
and 3, which do not exceed the declared upper bounds 10, 5 and 5. -/
theorem uniform_offsets_count_earlier_views (drv : Driver)
    (hs : ∀ n, drv.result n = VK_SUCCESS) (hl : ∀ n, drv.loaded n = true)
    (translation : Nat → ℚ × ℚ × ℚ) (app : T11.TutorialApplication)
    (hlen : app._renderObjects.length = 5) (hv : app._vertexBufferViews = [])
    (hi : app._indexBufferViews = []) (ht : app._imageViews = []) (hsm : app._samplers = [])
    (w : World) :
    (∀ object path a w1,
      T11.uploadsViewCounts (T11.CreateBox drv object path a) a w1 (2, 1, 1)) ∧
    (∀ object a w1,
      T11.uploadsViewCounts (T11.CreateIcosahedron drv object a) a w1 (1, 1, 0)) ∧
    T11.offsetsCountEarlierViews drv translation app w := by
  refine ⟨fun object path a w1 => ?_, fun object a w1 => ?_,
    T11_offsetsCountEarlierViews drv hs hl translation app hlen hv hi ht hsm w⟩
  · refine runs_mono (CreateBox_tracks drv hs hl object path a w1) ?_
    rintro r w2 l - ⟨-, -, -, u, v, i, t, s, -⟩
    exact ⟨u, v, i, t, s⟩
  · refine runs_mono (CreateIcosahedron_tracks drv hs object a w1) ?_
    rintro r w2 l - ⟨-, -, -, u, v, i, t, s, -⟩
    exact ⟨u, v, i, t, s⟩

/-- Witness of C30: the sample driver and the application as constructed. -/
theorem uniform_offsets_count_earlier_views_witness :
    (∀ object path a w1,
      T11.uploadsViewCounts (T11.CreateBox (sampleDriver 16) object path a) a w1 (2, 1, 1)) ∧
    (∀ object a w1,
      T11.uploadsViewCounts (T11.CreateIcosahedron (sampleDriver 16) object a) a w1 (1, 1, 0)) ∧
    T11.offsetsCountEarlierViews (sampleDriver 16) (fun _ => (0, 0, 0)) {} World.init :=
  uniform_offsets_count_earlier_views (sampleDriver 16) (fun _ => rfl) (fun _ => rfl)
    (fun _ => (0, 0, 0)) {} rfl rfl rfl rfl rfl World.init

/-! ### Scratch buffer, builds and barriers of a run -/

theorem scratchRequirements_nil (drv : Driver) (position : Nat) :
    scratchRequirements drv position [] = [] := rfl

theorem scratchRequirements_cons (drv : Driver) (position : Nat) (c : Call) (rest : List Call) :
    scratchRequirements drv position (c :: rest)
      = (scratchRequirement drv position c).toList ++
          scratchRequirements drv (position + 1) rest := rfl

theorem scratchRequirements_append (drv : Driver) (position : Nat) (l1 l2 : List Call) :
    scratchRequirements drv position (l1 ++ l2)
      = scratchRequirements drv position l1 ++
          scratchRequirements drv (position + l1.length) l2 := by
  induction l1 generalizing position with
  | nil => rfl
  | cons c rest ih =>
    have e : position + (rest.length + 1) = position + 1 + rest.length := by omega
    rw [List.cons_append, List.length_cons, e]
    show (scratchRequirement drv position c).toList ++
        scratchRequirements drv (position + 1) (rest ++ l2)
      = (scratchRequirement drv position c).toList ++ scratchRequirements drv (position + 1) rest ++
          scratchRequirements drv (position + 1 + rest.length) l2
    rw [ih, List.append_assoc]

theorem scratchRequirements_cleanupCalls (drv : Driver) (position : Nat)
    (self : BufferResource) : scratchRequirements drv position (cleanupCalls self) = [] := by
  unfold cleanupCalls
  split <;> split <;> rfl

theorem bufferCreations_nil (drv : Driver) (position : Nat) :
    bufferCreations drv position [] = [] := rfl

theorem bufferCreations_cons (drv : Driver) (position : Nat) (c : Call) (rest : List Call) :
    bufferCreations drv position (c :: rest)
      = (bufferCreation drv position c).toList ++ bufferCreations drv (position + 1) rest := rfl

theorem bufferCreations_append (drv : Driver) (position : Nat) (l1 l2 : List Call) :
    bufferCreations drv position (l1 ++ l2)
      = bufferCreations drv position l1 ++ bufferCreations drv (position + l1.length) l2 := by
  induction l1 generalizing position with
  | nil => rfl
  | cons c rest ih =>
    have e : position + (rest.length + 1) = position + 1 + rest.length := by omega
    rw [List.cons_append, List.length_cons, e]
    show (bufferCreation drv position c).toList ++ bufferCreations drv (position + 1) (rest ++ l2)
      = (bufferCreation drv position c).toList ++ bufferCreations drv (position + 1) rest ++
          bufferCreations drv (position + 1 + rest.length) l2
    rw [ih, List.append_assoc]

theorem bufferCreations_cleanupCalls (drv : Driver) (position : Nat) (self : BufferResource) :
    bufferCreations drv position (cleanupCalls self) = [] := by
  unfold cleanupCalls
  split <;> split <;> rfl

theorem buildScratch_cleanupCalls (self : BufferResource) :
    List.filterMap buildScratch (cleanupCalls self) = [] := by
  unfold cleanupCalls
  split <;> split <;> rfl

theorem barrierAfter_cons_skip (c : Call) (rest : List Call)
    (hc : isBottomLevelBuild c = false) (h : barrierAfterEachBottomBuild rest) :
    barrierAfterEachBottomBuild (c :: rest) := by
  intro k d hk hd
  match k with
  | 0 =>
    simp only [List.getElem?_cons_zero, Option.some.injEq] at hk
    subst hk
    rw [hc] at hd
    exact absurd hd (by decide)
  | k + 1 =>
    simp only [List.getElem?_cons_succ] at hk
    obtain ⟨e, he, he2⟩ := h k d hk hd
    exact ⟨e, by simpa only [List.getElem?_cons_succ] using he, he2⟩

theorem barrierAfter_quiet (l : List Call) (h : ∀ c ∈ l, isBottomLevelBuild c = false) :
    barrierAfterEachBottomBuild l := by
  intro k d hk hd
  rw [h d (List.mem_iff_getElem?.mpr ⟨k, hk⟩)] at hd
  exact absurd hd (by decide)

theorem isBottomLevelBuild_cleanupCalls (self : BufferResource) :
    ∀ c ∈ cleanupCalls self, isBottomLevelBuild c = false := by
  intro c hc
  simp only [cleanupCalls, List.mem_append] at hc
  rcases hc with hc | hc <;> split at hc <;> simp at hc <;> subst hc <;> rfl

set_option maxHeartbeats 2000000 in
theorem T07_run_builds (drv : Driver) (hs : ∀ n, drv.result n = VK_SUCCESS)
    (app : T07.TutorialApplication) (hb : app._bottomAS.length = 3)
    (hm : app._bottomASMemory.length = 3) (w : World) :
    Runs (T07.CreateAccelerationStructures drv app) w (fun app1 _ l =>
      app1._bottomAS.length = 3 ∧
      (scratchRequirements drv w.calls.length l).map Prod.fst = app1._bottomAS ++ [app1._topAS] ∧
      (buildInfos l).map (fun b => (b.1, b.2.type))
        = app1._bottomAS.map (fun s => (s, VkAccelerationStructureTypeNV.BOTTOM_LEVEL_NV)) ++
            [(app1._topAS, VkAccelerationStructureTypeNV.TOP_LEVEL_NV)] ∧
      barrierAfterEachBottomBuild l ∧
      ∃ buffer size, (buffer, size) ∈ bufferCreations drv w.calls.length l ∧
        l.filterMap buildScratch = List.replicate 4 (buffer, 0) ∧
        (∀ r ∈ scratchRequirements drv w.calls.length l, r.2 ≤ size) ∧
        ∃ r ∈ scratchRequirements drv w.calls.length l, r.2 = size) := by
  obtain ⟨x0, x1, x2, hx⟩ := list_length_three app._bottomAS hb
  obtain ⟨y0, y1, y2, hy⟩ := list_length_three app._bottomASMemory hm
  unfold Runs
  generalize hrun : T07.CreateAccelerationStructures drv app w = r
  simp [hx, hy, T07.CreateAccelerationStructures, bind_apply, pure_apply, call_apply,
    NVVK_CHECK_ERROR_apply, hs, BufferResource_Create_ok drv hs, BufferResource_Copy_ok drv hs,
    CreateAccelerationStructure, GetScratchBufferSize, issue, T07.buildCommands,
    BufferResource_Cleanup_apply, forLoop, T07.createBottom, T07.queryHandle, range_three,
    T07.bottomBuild] at hrun
  subst hrun
  refine ⟨_, _, _, rfl, rfl, ?_⟩
  simp only [scratchRequirements_nil, scratchRequirements_cons, scratchRequirement,
    scratchRequirements_append, scratchRequirements_cleanupCalls, bufferCreations_nil,
    bufferCreations_cons, bufferCreation, bufferCreations_append, bufferCreations_cleanupCalls,
    buildInfos, buildInfo, List.filterMap_cons,
    List.filterMap_nil, List.filterMap_append, buildInfos_cleanupCalls, buildScratch,
    buildScratch_cleanupCalls, Option.toList, List.nil_append, List.cons_append,
    List.append_nil, List.map_cons, List.map_nil, T07.bottomBuildInfo, T07.topBuildInfo,
    List.length_cons, List.length_nil, Nat.add_assoc, Nat.reduceAdd, List.replicate, true_and]
  refine ⟨?_, ?_⟩
  · repeat first
      | refine barrierAfter_cons_skip _ _ rfl ?_
      | refine barrierAfter_cons_pair _ _ _ rfl rfl ?_
    refine barrierAfter_quiet _ (fun c hc => ?_)
    simp only [List.mem_append] at hc
    rcases hc with hc | hc | hc | hc <;> exact isBottomLevelBuild_cleanupCalls _ c hc
  · refine ⟨_, ?size, ?mem, rfl, ?le, ?eq⟩
    case mem =>
      repeat first
        | exact List.mem_cons_self _ _
        | apply List.mem_cons_of_mem
    case le =>
      simp only [List.forall_mem_cons, T07.scratchBufferSize]
      refine ⟨?_, ?_, ?_, ?_, ?_⟩ <;> first | omega | (intro r hr; cases hr)
    case eq =>
      simp only [List.mem_cons, List.mem_singleton, exists_eq_or_imp, exists_eq_left,
        T07.scratchBufferSize, List.not_mem_nil, false_and, exists_false, or_false]
      omega

set_option maxHeartbeats 1000000 in
theorem T10_run_builds (drv : Driver) (hs : ∀ n, drv.result n = VK_SUCCESS)
    (app : T10.TutorialApplication) (w : World) :
    Runs (T10.CreateAccelerationStructures drv app) w (fun app1 _ l =>
      (scratchRequirements drv w.calls.length l).map Prod.fst = [app1._bottomAS, app1._topAS] ∧
      (buildInfos l).map (fun b => (b.1, b.2.type))
        = [(app1._bottomAS, VkAccelerationStructureTypeNV.BOTTOM_LEVEL_NV),
           (app1._topAS, VkAccelerationStructureTypeNV.TOP_LEVEL_NV)] ∧
      barrierAfterEachBottomBuild l ∧
      ∃ buffer size, (buffer, size) ∈ bufferCreations drv w.calls.length l ∧
        l.filterMap buildScratch = List.replicate 2 (buffer, 0) ∧
        (∀ r ∈ scratchRequirements drv w.calls.length l, r.2 ≤ size) ∧
        ∃ r ∈ scratchRequirements drv w.calls.length l, r.2 = size) := by
  unfold Runs
  generalize hrun : T10.CreateAccelerationStructures drv app w = r
  simp [T10.CreateAccelerationStructures, bind_apply, pure_apply, call_apply,
    NVVK_CHECK_ERROR_apply, hs, BufferResource_Create_ok drv hs, BufferResource_Copy_ok drv hs,
    CreateAccelerationStructure, GetScratchBufferSize, issue, T10.buildCommands,
    BufferResource_Cleanup_apply] at hrun
  subst hrun
  refine ⟨_, _, _, rfl, rfl, ?_⟩
  simp only [scratchRequirements_nil, scratchRequirements_cons, scratchRequirement,
    scratchRequirements_append, scratchRequirements_cleanupCalls, bufferCreations_nil,
    bufferCreations_cons, bufferCreation, bufferCreations_append, bufferCreations_cleanupCalls,
    buildInfos, buildInfo, List.filterMap_cons,
    List.filterMap_nil, List.filterMap_append, buildInfos_cleanupCalls, buildScratch,
    buildScratch_cleanupCalls, Option.toList, List.nil_append, List.cons_append,
    List.append_nil, List.map_cons, List.map_nil, T10.bottomBuildInfo, T10.topBuildInfo,
    List.length_cons, List.length_nil, Nat.add_assoc, Nat.reduceAdd, List.replicate, true_and]
  refine ⟨?_, ?_⟩
  · repeat first
      | refine barrierAfter_cons_skip _ _ rfl ?_
      | refine barrierAfter_cons_pair _ _ _ rfl rfl ?_
    refine barrierAfter_quiet _ (fun c hc => ?_)
    simp only [List.mem_append] at hc
    rcases hc with hc | hc | hc | hc <;> exact isBottomLevelBuild_cleanupCalls _ c hc
  · refine ⟨_, ?size, ?mem, rfl, ?le, ?eq⟩
    case mem =>
      repeat first
        | exact List.mem_cons_self _ _
        | apply List.mem_cons_of_mem
    case le =>
      simp only [List.forall_mem_cons, T10.scratchBufferSize]
      refine ⟨?_, ?_, ?_⟩ <;> first | omega | (intro r hr; cases hr)
    case eq =>
      simp only [List.mem_cons, List.mem_singleton, exists_eq_or_imp, exists_eq_left,
        T10.scratchBufferSize, List.not_mem_nil, false_and, exists_false, or_false]
      omega

set_option maxHeartbeats 4000000 in
theorem T11_run_builds (drv : Driver) (hs : ∀ n, drv.result n = VK_SUCCESS)
    (translation : Nat → ℚ × ℚ × ℚ) (app : T11.TutorialApplication)
    (hlen : app._renderObjects.length = 5) (w : World) :
    Runs (T11.CreateAccelerationStructures drv translation app) w (fun app1 _ l =>
      app1._renderObjects.length = 5 ∧
      (scratchRequirements drv w.calls.length l).map Prod.fst
        = app1._renderObjects.map (fun o => o.bottomAS) ++ [app1._topAS] ∧
      (buildInfos l).map (fun b => (b.1, b.2.type))
        = app1._renderObjects.map
            (fun o => (o.bottomAS, VkAccelerationStructureTypeNV.BOTTOM_LEVEL_NV)) ++
            [(app1._topAS, VkAccelerationStructureTypeNV.TOP_LEVEL_NV)] ∧
      barrierAfterEachBottomBuild l ∧
      ∃ buffer size, (buffer, size) ∈ bufferCreations drv w.calls.length l ∧
        l.filterMap buildScratch = List.replicate 6 (buffer, 0) ∧
        (∀ r ∈ scratchRequirements drv w.calls.length l, r.2 ≤ size) ∧
        ∃ r ∈ scratchRequirements drv w.calls.length l, r.2 = size) := by
  obtain ⟨o0, o1, o2, o3, o4, hobj⟩ := list_length_five app._renderObjects hlen
  unfold Runs
  generalize hrun : T11.CreateAccelerationStructures drv translation app w = r
  simp [hobj, T11.CreateAccelerationStructures, bind_apply, pure_apply,
    call_apply, NVVK_CHECK_ERROR_apply, hs, BufferResource_Create_ok drv hs,
    BufferResource_Copy_ok drv hs, CreateAccelerationStructure, GetScratchBufferSize, issue,
    T11.buildCommands, BufferResource_Cleanup_apply, forLoop, T11.instanceStep, T11.scratchStep,
    T11._objectNum, T11.bottomBuild] at hrun
  subst hrun
  refine ⟨_, _, _, rfl, rfl, ?_⟩
  simp only [hobj, scratchRequirements_nil, scratchRequirements_cons, scratchRequirement,
    scratchRequirements_append, scratchRequirements_cleanupCalls, bufferCreations_nil,
    bufferCreations_cons, bufferCreation, bufferCreations_append, bufferCreations_cleanupCalls,
    buildInfos, buildInfo, List.filterMap_cons,
    List.filterMap_nil, List.filterMap_append, buildInfos_cleanupCalls, buildScratch,
    buildScratch_cleanupCalls, Option.toList, List.nil_append, List.cons_append,
    List.append_nil, List.map_cons, List.map_nil, T11.bottomBuildInfo, T11.topBuildInfo,
    List.length_cons, List.length_nil, Nat.add_assoc, Nat.reduceAdd, List.replicate, true_and]
  refine ⟨?_, ?_⟩
  · repeat first
      | refine barrierAfter_cons_skip _ _ rfl ?_
      | refine barrierAfter_cons_pair _ _ _ rfl rfl ?_
    refine barrierAfter_quiet _ (fun c hc => ?_)
    simp only [List.mem_append] at hc
    rcases hc with hc | hc <;> exact isBottomLevelBuild_cleanupCalls _ c hc
  · refine ⟨_, ?size, ?mem, rfl, ?le, ?eq⟩
    case mem =>
      repeat first
        | exact List.mem_cons_self _ _
        | apply List.mem_cons_of_mem
    case le =>
      simp only [List.forall_mem_cons, T11.scratchBufferSize, List.foldl_cons, List.foldl_nil]
      refine ⟨?_, ?_, ?_, ?_, ?_, ?_, ?_⟩ <;> first | omega | (intro r hr; cases hr)
    case eq =>
      simp only [List.mem_cons, List.mem_singleton, exists_eq_or_imp, exists_eq_left,
        T11.scratchBufferSize, List.not_mem_nil, false_and, exists_false, or_false,
        List.foldl_cons, List.foldl_nil]
      omega

/-- C9: when every driver call succeeds, `CreateAccelerationStructures` of
tutorials 07, 10 and 11 returns and records one build for each of the 3, 1
and 5 bottom-level structures and then one for the top-level structure; every
bottom-level build is directly followed by a barrier whose source and
destination access masks are both acceleration-structure read|write; and all
4, 2 and 6 builds name one buffer, created in the run, as scratch at
offset 0.  On every path, whatever the variables of the recording block hold,
the commands it records have every bottom-level build directly followed by
such a barrier and every build naming `scratchBuffer.Buffer` at offset 0. -/
theorem builds_are_recorded_barriered_and_share_scratch (drv : Driver)
    (hs : ∀ n, drv.result n = VK_SUCCESS) (app07 : T07.TutorialApplication)
    (hb : app07._bottomAS.length = 3) (hm : app07._bottomASMemory.length = 3)
    (app10 : T10.TutorialApplication) (translation : Nat → ℚ × ℚ × ℚ)
    (app11 : T11.TutorialApplication) (hlen : app11._renderObjects.length = 5) (w : World) :
    buildsBarrieredSharingScratch drv 3 (fun app : T07.TutorialApplication => app._bottomAS)
      (fun app => app._topAS) (T07.CreateAccelerationStructures drv app07) w ∧
    buildsBarrieredSharingScratch drv 1 (fun app : T10.TutorialApplication => [app._bottomAS])
      (fun app => app._topAS) (T10.CreateAccelerationStructures drv app10) w ∧
    buildsBarrieredSharingScratch drv 5
      (fun app : T11.TutorialApplication => app._renderObjects.map (fun o => o.bottomAS))
      (fun app => app._topAS) (T11.CreateAccelerationStructures drv translation app11) w ∧
    ∀ (commandBuffer topAS instanceNum : Nat) (geometries : List VkGeometryNV)
      (bottomAS : List Nat) (bottom : Nat) (objects : List T11.RenderObject)
      (instanceBuffer scratchBuffer : BufferResource),
      (barrierAfterEachBottomBuild
          (T07.buildCommands commandBuffer geometries bottomAS topAS instanceNum instanceBuffer
            scratchBuffer) ∧
        everyCall (usesScratchAtZero scratchBuffer.Buffer)
          (T07.buildCommands commandBuffer geometries bottomAS topAS instanceNum instanceBuffer
            scratchBuffer)) ∧
      (barrierAfterEachBottomBuild
          (T10.buildCommands commandBuffer geometries bottom topAS instanceBuffer
            scratchBuffer) ∧
        everyCall (usesScratchAtZero scratchBuffer.Buffer)
          (T10.buildCommands commandBuffer geometries bottom topAS instanceBuffer
            scratchBuffer)) ∧
      (barrierAfterEachBottomBuild
          (T11.buildCommands commandBuffer objects topAS instanceBuffer scratchBuffer) ∧
        everyCall (usesScratchAtZero scratchBuffer.Buffer)
          (T11.buildCommands commandBuffer objects topAS instanceBuffer scratchBuffer)) := by
  refine ⟨?_, ?_, ?_, buildCommands_barriered_sharing_scratch⟩
  · refine runs_mono (T07_run_builds drv hs app07 hb hm w) ?_
    rintro app1 w1 l - ⟨h3, -, hbuilds, hbar, buffer, size, hmem, hrep, -⟩
    exact ⟨h3, hbuilds, hbar, buffer, size, hmem, hrep⟩
  · refine runs_mono (T10_run_builds drv hs app10 w) ?_
    rintro app1 w1 l - ⟨-, hbuilds, hbar, buffer, size, hmem, hrep, -⟩
    exact ⟨rfl, hbuilds, hbar, buffer, size, hmem, hrep⟩
  · refine runs_mono (T11_run_builds drv hs translation app11 hlen w) ?_
    rintro app1 w1 l - ⟨h5, -, hbuilds, hbar, buffer, size, hmem, hrep, -⟩
    exact ⟨by simp [h5], by simpa [List.map_map] using hbuilds, hbar, buffer, size, hmem, hrep⟩

/-- Witness of C9: the sample driver and the applications as constructed. -/
theorem builds_are_recorded_barriered_and_share_scratch_witness :
    buildsBarrieredSharingScratch (sampleDriver 16) 3
      (fun app : T07.TutorialApplication => app._bottomAS) (fun app => app._topAS)
      (T07.CreateAccelerationStructures (sampleDriver 16) {}) World.init ∧
    buildsBarrieredSharingScratch (sampleDriver 16) 1
      (fun app : T10.TutorialApplication => [app._bottomAS]) (fun app => app._topAS)
      (T10.CreateAccelerationStructures (sampleDriver 16) {}) World.init ∧
    buildsBarrieredSharingScratch (sampleDriver 16) 5
      (fun app : T11.TutorialApplication => app._renderObjects.map (fun o => o.bottomAS))
      (fun app => app._topAS)
      (T11.CreateAccelerationStructures (sampleDriver 16) (fun _ => (0, 0, 0)) {}) World.init :=
  ⟨(builds_are_recorded_barriered_and_share_scratch (sampleDriver 16) (fun _ => rfl) {} rfl rfl
      {} (fun _ => (0, 0, 0)) {} rfl World.init).1,
    (builds_are_recorded_barriered_and_share_scratch (sampleDriver 16) (fun _ => rfl) {} rfl rfl
      {} (fun _ => (0, 0, 0)) {} rfl World.init).2.1,
    (builds_are_recorded_barriered_and_share_scratch (sampleDriver 16) (fun _ => rfl) {} rfl rfl
      {} (fun _ => (0, 0, 0)) {} rfl World.init).2.2.1⟩

/-- Counterexample to C12 as stated (every run). With the sample driver, when
the `vkAllocateMemory` of the first bottom-level structure fails (call 16 of
tutorials 07 and 10, call 50 of tutorial 11), the checked call ends the
program: the structure has been created and is never bound, built or made
ShaderVisible. -/
theorem lifecycle_is_cut_short_when_a_call_fails :
    ((T07.CreateAccelerationStructures
          (sampleDriverFailing 16 VK_ERROR_OUT_OF_DEVICE_MEMORY) {} World.init).value.isSome
        = false ∧
      runLog (sampleDriverFailing 16 VK_ERROR_OUT_OF_DEVICE_MEMORY) World.init
          (T07.CreateAccelerationStructures
            (sampleDriverFailing 16 VK_ERROR_OUT_OF_DEVICE_MEMORY) {} World.init)
        = some ⟨[(15, .Unbuilt)], []⟩ ∧
      ¬ lifecyclesAllComplete (sampleDriverFailing 16 VK_ERROR_OUT_OF_DEVICE_MEMORY) World.init
          (T07.CreateAccelerationStructures
            (sampleDriverFailing 16 VK_ERROR_OUT_OF_DEVICE_MEMORY) {} World.init)) ∧
    ((T10.CreateAccelerationStructures
          (sampleDriverFailing 16 VK_ERROR_OUT_OF_DEVICE_MEMORY) {} World.init).value.isSome
        = false ∧
      runLog (sampleDriverFailing 16 VK_ERROR_OUT_OF_DEVICE_MEMORY) World.init
          (T10.CreateAccelerationStructures
            (sampleDriverFailing 16 VK_ERROR_OUT_OF_DEVICE_MEMORY) {} World.init)
        = some ⟨[(15, .Unbuilt)], []⟩ ∧
      ¬ lifecyclesAllComplete (sampleDriverFailing 16 VK_ERROR_OUT_OF_DEVICE_MEMORY) World.init
          (T10.CreateAccelerationStructures
            (sampleDriverFailing 16 VK_ERROR_OUT_OF_DEVICE_MEMORY) {} World.init)) ∧
    ((T11.InitAccelerationStructures (sampleDriverFailing 50 VK_ERROR_OUT_OF_DEVICE_MEMORY)
          (fun _ => (0, 0, 0)) {} World.init).value.isSome = false ∧
      runLog (sampleDriverFailing 50 VK_ERROR_OUT_OF_DEVICE_MEMORY) World.init
          (T11.InitAccelerationStructures (sampleDriverFailing 50 VK_ERROR_OUT_OF_DEVICE_MEMORY)
            (fun _ => (0, 0, 0)) {} World.init)
        = some ⟨[(49, .Unbuilt)], []⟩ ∧
      ¬ lifecyclesAllComplete (sampleDriverFailing 50 VK_ERROR_OUT_OF_DEVICE_MEMORY) World.init
          (T11.InitAccelerationStructures (sampleDriverFailing 50 VK_ERROR_OUT_OF_DEVICE_MEMORY)
            (fun _ => (0, 0, 0)) {} World.init)) := by
  refine ⟨⟨by decide!, by decide!, by decide!⟩, ⟨by decide!, by decide!, by decide!⟩,
    ⟨by decide!, by decide!, by decide!⟩⟩

end VulkanRTX
